import Mathlib

/-!
# STM32F0 alarm clock: framebuffer, BCD time words and the UI state machine

A shallow embedding of `src/util_c.c` and of the loop of `src/main.c`.

* `unsigned int` values are natural numbers reduced modulo `2 ^ 32`; the bytes
  of the framebuffer and the `color` arguments are `Fin 256`; `int` values are
  integers (the coordinates and edit fields stay far away from the 32-bit
  limits);
* the globals of `global.h` are the fields of `Globals`; the `unsigned char`
  globals `cur_state`, `cursor_position` and `alarm_remember_off` are natural
  numbers, because the code only assigns them constants or steps them inside a
  guard, so that no wrap at 256 can occur;
* `GPIOA->IDR` is sampled once per pass of the loop: every test of a handler and
  the update of `last_button_state` see the same value;
* writes to the latch pin and calls into the assembly drivers that return
  nothing are recorded, in order, in a list of `HwCall`; values read from the
  hardware (`GPIOA->IDR`, `ds3231_get_time`, `ds3231_get_alarm_1`) are the
  fields of `Inputs`;
* a store outside `oled_fb` is undefined in C: the embedding drops the store
  and raises the sticky `fault` flag of the framebuffer.
-/

namespace AlarmClock

/-! ## Constants of `global.h` -/

/-- The macro `OLED_FB_SIZE`, `(128*64)/8`. -/
@[reducible] def OLED_FB_SIZE : Nat := (128 * 64) / 8

def VVC_STATE_SHOW_TIME : Nat := 0x00
def VVC_STATE_IN_ALARM : Nat := 0x01
def VVC_STATE_MENU_PAGE_1 : Nat := 0x02
def VVC_STATE_MENU_PAGE_2 : Nat := 0x03
def VVC_STATE_SET_TIME : Nat := 0x04
def VVC_STATE_SET_ALARM : Nat := 0x05
def VVC_STATE_SET_ALARM_DAYS : Nat := 0x06
def VVC_STATE_SET_ALARM_TONE : Nat := 0x07
def VVC_STATE_SET_ALARM_STATE : Nat := 0x08

/-- Modelled from the spec: the vendor header that declares `GPIO_Pin_5` is not
part of the sources; section 4.4 of the spec makes every button one bit of the
raw mask, and the vendor value is the one-hot mask of pin 5. -/
def GPIO_Pin_5 : Nat := 0x0020

/-- Modelled from the spec: the vendor header that declares `GPIO_Pin_6` is not
part of the sources; one bit of the raw mask, the one-hot mask of pin 6. -/
def GPIO_Pin_6 : Nat := 0x0040

/-- Modelled from the spec: the vendor header that declares `GPIO_Pin_7` is not
part of the sources; one bit of the raw mask, the one-hot mask of pin 7. -/
def GPIO_Pin_7 : Nat := 0x0080

def IOA_BUTTON_UP : Nat := GPIO_Pin_5
def IOA_BUTTON_SELECT : Nat := GPIO_Pin_6
def IOA_BUTTON_DOWN : Nat := GPIO_Pin_7

/-! ## Machine arithmetic -/

/-- Conversion of an `int` to `unsigned int`. -/
def toU32 (v : Int) : Nat := (v % 4294967296).toNat

/-- Conversion of an `unsigned int` to `int` (two's complement). -/
def toI32 (v : Nat) : Int :=
  if v % 4294967296 < 2147483648 then ((v % 4294967296 : Nat) : Int)
  else ((v % 4294967296 : Nat) : Int) - 4294967296

/-- Bitwise complement `~v` of a 32-bit pattern. -/
def bnot32 (v : Nat) : Nat := 4294967295 - v % 4294967296

/-- Left shift `v << k` of an `unsigned int`. -/
def shl32 (v k : Nat) : Nat := (v <<< k) % 4294967296

/-- Conversion to `unsigned char` on a store into a byte. -/
def toByte (v : Nat) : Fin 256 := ⟨v % 256, Nat.mod_lt v (by decide)⟩

/-! ## The framebuffer (`oled_fb`) -/

/-- The array `oled_fb` together with the flag that records a store outside it. -/
structure Framebuffer where
  bytes : Fin OLED_FB_SIZE → Fin 256
  fault : Bool

/-- The framebuffer with every byte equal to `v` and no fault recorded. -/
def Framebuffer.const (v : Fin 256) : Framebuffer :=
  { bytes := fun _ => v, fault := false }

/-- Value of `oled_fb[i]`, and `0` for an index outside the array. -/
def Framebuffer.byteAt (fb : Framebuffer) (i : Nat) : Nat :=
  if h : i < OLED_FB_SIZE then (fb.bytes ⟨i, h⟩).val else 0

/-- Whether pixel `(x, y)` is on: bit `y mod 8` of byte `x + (y/8)*128`. -/
def Framebuffer.pixel (fb : Framebuffer) (x y : Nat) : Bool :=
  (fb.byteAt (x + (y / 8) * 128)).testBit (y % 8)

/-- The read-modify-write `oled_fb[idx] = f(oled_fb[idx])`. -/
def Framebuffer.modify (fb : Framebuffer) (idx : Int) (f : Nat → Nat) : Framebuffer :=
  if h : 0 ≤ idx ∧ idx.toNat < OLED_FB_SIZE then
    { fb with bytes := Function.update fb.bytes ⟨idx.toNat, h.2⟩
                         (toByte (f (fb.bytes ⟨idx.toNat, h.2⟩).val)) }
  else
    { fb with fault := true }

/-- The loop `for (i = lo; i < hi; ++i) body(i)`. -/
def forUp {σ : Type} (lo hi : Int) (body : Int → σ → σ) (s : σ) : σ :=
  (List.range (hi - lo).toNat).foldl (fun acc k => body (lo + (k : Int)) acc) s

/-- The loop `for (i = hi; i > lo; --i) body(i)`. -/
def forDown {σ : Type} (hi lo : Int) (body : Int → σ → σ) (s : σ) : σ :=
  (List.range (hi - lo).toNat).foldl (fun acc k => body (hi - (k : Int)) acc) s

/-- The function `oled_clear_screen`. -/
def oled_clear_screen (color : Fin 256) (fb : Framebuffer) : Framebuffer :=
  forUp 0 (OLED_FB_SIZE : Nat) (fun i acc => acc.modify i (fun _ => color.val)) fb

/-- The function `oled_write_pixel`. -/
def oled_write_pixel (x y : Int) (color : Fin 256) (fb : Framebuffer) : Framebuffer :=
  let y_page := Int.tdiv y 8
  let byte_to_mod := x + (y_page * 128)
  let bit_to_set := 0x01 <<< (Int.land y 0x07).toNat
  if color ≠ 0 then
    fb.modify byte_to_mod (fun b => b ||| bit_to_set)
  else
    let bit_to_set := bnot32 bit_to_set
    fb.modify byte_to_mod (fun b => b &&& bit_to_set)

/-- The function `oled_draw_h_line`. -/
def oled_draw_h_line (x y w : Int) (color : Fin 256) (fb : Framebuffer) : Framebuffer :=
  let y_page_offset := Int.tdiv y 8
  let y_page_offset := y_page_offset * 128
  let bit_to_set := 0x01 <<< (Int.land y 0x07).toNat
  let bit_to_set := if ¬ (color ≠ 0) then bnot32 bit_to_set else bit_to_set
  forUp x (x + w) (fun x_pos acc =>
    if color ≠ 0 then
      acc.modify (x_pos + y_page_offset) (fun b => b ||| bit_to_set)
    else
      acc.modify (x_pos + y_page_offset) (fun b => b &&& bit_to_set)) fb

/-- The function `oled_draw_v_line`. -/
def oled_draw_v_line (x y h : Int) (color : Fin 256) (fb : Framebuffer) : Framebuffer :=
  forUp y (y + h) (fun y_pos acc =>
    let y_page_offset := Int.tdiv y_pos 8
    let y_page_offset := y_page_offset * 128
    let bit_to_set := 0x01 <<< (Int.land y_pos 0x07).toNat
    if color ≠ 0 then
      acc.modify (x + y_page_offset) (fun b => b ||| bit_to_set)
    else
      let bit_to_set := bnot32 bit_to_set
      acc.modify (x + y_page_offset) (fun b => b &&& bit_to_set)) fb

/-- The function `oled_draw_rect`. -/
def oled_draw_rect (x y w h outline : Int) (color : Fin 256) (fb : Framebuffer) :
    Framebuffer :=
  if outline > 0 then
    let fb := forUp y (y + outline) (fun o_pos acc => oled_draw_h_line x o_pos w color acc) fb
    let fb := forDown (y + h - 1) (y + h - 1 - outline)
      (fun o_pos acc => oled_draw_h_line x o_pos w color acc) fb
    let fb := forUp x (x + outline) (fun o_pos acc => oled_draw_v_line o_pos y h color acc) fb
    forDown (x + w - 1) (x + w - 1 - outline)
      (fun o_pos acc => oled_draw_v_line o_pos y h color acc) fb
  else
    if w > h then
      forUp y (y + h) (fun y_pos acc => oled_draw_h_line x y_pos w 1 acc) fb
    else
      forUp x (x + w) (fun x_pos acc => oled_draw_v_line x_pos y h 1 acc) fb

/-! ## Text (`char` buffers are lists of characters, the terminator included) -/

/-- The terminator of a C string. -/
def NUL : Char := Char.ofNat 0

set_option linter.unusedVariables false in
/-- The function `oled_draw_small_letter`. -/
def oled_draw_small_letter (x y : Int) (c : Char) (color : Fin 256) (fb : Framebuffer) :
    Framebuffer :=
  if c = 'A' then
    let fb := oled_draw_v_line x (y + 3) 5 1 fb
    let fb := oled_draw_v_line (x + 4) (y + 3) 5 1 fb
    let fb := oled_draw_v_line (x + 1) (y + 1) 2 1 fb
    let fb := oled_draw_v_line (x + 3) (y + 1) 2 1 fb
    let fb := oled_write_pixel (x + 2) y 1 fb
    let fb := oled_draw_h_line (x + 1) (y + 4) 3 1 fb
    fb
  else if c = 'D' then
    let fb := oled_draw_v_line x y 8 1 fb
    let fb := oled_draw_v_line (x + 4) (y + 1) 6 1 fb
    let fb := oled_draw_h_line (x + 1) y 3 1 fb
    let fb := oled_draw_h_line (x + 1) (y + 7) 3 1 fb
    fb
  else if c = 'E' then
    let fb := oled_draw_v_line x y 8 1 fb
    let fb := oled_draw_h_line (x + 1) y 4 1 fb
    let fb := oled_draw_h_line (x + 1) (y + 7) 4 1 fb
    let fb := oled_draw_h_line (x + 1) (y + 4) 3 1 fb
    fb
  else if c = 'M' then
    let fb := oled_draw_v_line x y 8 1 fb
    let fb := oled_draw_v_line (x + 4) y 8 1 fb
    let fb := oled_draw_v_line (x + 2) (y + 2) 2 1 fb
    let fb := oled_write_pixel (x + 1) (y + 1) 1 fb
    let fb := oled_write_pixel (x + 3) (y + 1) 1 fb
    fb
  else if c = 'O' then
    let fb := oled_draw_v_line x (y + 1) 6 1 fb
    let fb := oled_draw_v_line (x + 4) (y + 1) 6 1 fb
    let fb := oled_draw_h_line (x + 1) y 3 1 fb
    let fb := oled_draw_h_line (x + 1) (y + 7) 3 1 fb
    fb
  else if c = 'S' then
    let fb := oled_draw_v_line x (y + 1) 2 1 fb
    let fb := oled_draw_v_line x (y + 5) 2 1 fb
    let fb := oled_draw_v_line (x + 4) (y + 1) 2 1 fb
    let fb := oled_draw_v_line (x + 4) (y + 5) 2 1 fb
    let fb := oled_draw_h_line (x + 1) y 3 1 fb
    let fb := oled_draw_h_line (x + 1) (y + 7) 3 1 fb
    let fb := oled_draw_h_line (x + 1) (y + 3) 2 1 fb
    let fb := oled_draw_h_line (x + 2) (y + 4) 2 1 fb
    fb
  else if c = 'T' then
    let fb := oled_draw_h_line x y 5 1 fb
    let fb := oled_draw_v_line (x + 2) y 8 1 fb
    fb
  else if c = 'a' then
    let fb := oled_draw_h_line (x + 1) (y + 2) 3 1 fb
    let fb := oled_draw_h_line (x + 1) (y + 4) 3 1 fb
    let fb := oled_draw_h_line (x + 1) (y + 7) 3 1 fb
    let fb := oled_draw_v_line x (y + 5) 2 1 fb
    let fb := oled_draw_v_line (x + 4) (y + 3) 4 1 fb
    fb
  else if c = 'e' then
    let fb := oled_draw_h_line (x + 1) (y + 1) 3 1 fb
    let fb := oled_draw_h_line (x + 1) (y + 4) 3 1 fb
    let fb := oled_draw_h_line (x + 1) (y + 7) 3 1 fb
    let fb := oled_write_pixel (x + 4) (y + 6) 1 fb
    let fb := oled_draw_v_line x (y + 2) 5 1 fb
    let fb := oled_draw_v_line (x + 4) (y + 2) 3 1 fb
    fb
  else if c = 'f' then
    let fb := oled_draw_h_line (x + 2) y 2 1 fb
    let fb := oled_draw_h_line x (y + 4) 4 1 fb
    let fb := oled_draw_v_line (x + 1) (y + 1) 7 1 fb
    let fb := oled_draw_v_line (x + 4) (y + 1) 2 1 fb
    fb
  else if c = 'i' then
    let fb := oled_write_pixel (x + 2) (y + 1) 1 fb
    let fb := oled_draw_v_line (x + 2) (y + 3) 5 1 fb
    fb
  else if c = 'l' then
    let fb := oled_draw_v_line (x + 2) y 8 1 fb
    fb
  else if c = 'm' then
    let fb := oled_draw_h_line (x + 1) (y + 3) 3 1 fb
    let fb := oled_draw_v_line x (y + 2) 6 1 fb
    let fb := oled_draw_v_line (x + 2) (y + 3) 5 1 fb
    let fb := oled_draw_v_line (x + 4) (y + 3) 5 1 fb
    fb
  else if c = 'n' then
    let fb := oled_draw_h_line (x + 1) (y + 3) 2 1 fb
    let fb := oled_draw_v_line x (y + 2) 6 1 fb
    let fb := oled_draw_v_line (x + 3) (y + 4) 4 1 fb
    fb
  else if c = 'o' then
    let fb := oled_draw_h_line (x + 1) (y + 3) 3 1 fb
    let fb := oled_draw_h_line (x + 1) (y + 7) 3 1 fb
    let fb := oled_draw_v_line x (y + 4) 3 1 fb
    let fb := oled_draw_v_line (x + 4) (y + 4) 3 1 fb
    fb
  else if c = 'r' then
    let fb := oled_draw_h_line (x + 2) (y + 3) 2 1 fb
    let fb := oled_write_pixel (x + 4) (y + 4) 1 fb
    let fb := oled_draw_v_line (x + 1) (y + 2) 6 1 fb
    fb
  else if c = 's' then
    let fb := oled_draw_h_line (x + 2) (y + 1) 2 1 fb
    let fb := oled_draw_h_line (x + 2) (y + 4) 2 1 fb
    let fb := oled_draw_h_line (x + 2) (y + 7) 2 1 fb
    let fb := oled_write_pixel (x + 1) (y + 6) 1 fb
    let fb := oled_write_pixel (x + 4) (y + 2) 1 fb
    let fb := oled_draw_v_line (x + 1) (y + 2) 2 1 fb
    let fb := oled_draw_v_line (x + 4) (y + 5) 2 1 fb
    fb
  else if c = 't' then
    let fb := oled_draw_h_line x (y + 2) 4 1 fb
    let fb := oled_draw_h_line (x + 2) (y + 7) 2 1 fb
    let fb := oled_write_pixel (x + 4) (y + 6) 1 fb
    let fb := oled_draw_v_line (x + 1) y 7 1 fb
    fb
  else if c = 'u' then
    let fb := oled_draw_h_line (x + 1) (y + 6) 4 1 fb
    let fb := oled_write_pixel (x + 4) (y + 7) 1 fb
    let fb := oled_draw_v_line x (y + 2) 4 1 fb
    let fb := oled_draw_v_line (x + 3) (y + 2) 4 1 fb
    fb
  else if c = 'x' then
    let fb := oled_write_pixel x (y + 3) 1 fb
    let fb := oled_write_pixel x (y + 7) 1 fb
    let fb := oled_write_pixel (x + 1) (y + 4) 1 fb
    let fb := oled_write_pixel (x + 1) (y + 6) 1 fb
    let fb := oled_write_pixel (x + 2) (y + 5) 1 fb
    let fb := oled_write_pixel (x + 3) (y + 4) 1 fb
    let fb := oled_write_pixel (x + 3) (y + 6) 1 fb
    let fb := oled_write_pixel (x + 4) (y + 3) 1 fb
    let fb := oled_write_pixel (x + 4) (y + 7) 1 fb
    fb
  else if c = 'y' then
    let fb := oled_draw_h_line (x + 1) (y + 4) 2 1 fb
    let fb := oled_draw_h_line (x + 1) (y + 7) 2 1 fb
    let fb := oled_write_pixel x (y + 6) 1 fb
    let fb := oled_draw_v_line x (y + 2) 2 1 fb
    let fb := oled_draw_v_line (x + 3) (y + 2) 5 1 fb
    fb
  else if c = ':' then
    let fb := oled_write_pixel (x + 2) (y + 2) 1 fb
    let fb := oled_write_pixel (x + 2) (y + 5) 1 fb
    fb
  else if c = '/' then
    let fb := oled_draw_v_line (x + 1) (y + 5) 2 1 fb
    let fb := oled_draw_v_line (x + 2) (y + 3) 2 1 fb
    let fb := oled_draw_v_line (x + 3) (y + 1) 2 1 fb
    fb
  else if c = '>' then
    let fb := oled_write_pixel (x + 1) (y + 1) 1 fb
    let fb := oled_write_pixel (x + 2) (y + 2) 1 fb
    let fb := oled_write_pixel (x + 3) (y + 3) 1 fb
    let fb := oled_write_pixel (x + 2) (y + 4) 1 fb
    let fb := oled_write_pixel (x + 1) (y + 5) 1 fb
    fb
  else if c = ' ' then
    fb
  else fb

/-- The loop of `oled_draw_small_text`, entered with the current `offset`; the
list holds `cc[i]`, `cc[i+1]`, ... -/
def oled_draw_small_text_loop (x y : Int) (color : Fin 256) :
    Int → List Char → Framebuffer → Framebuffer
  | _, [], fb => fb
  | offset, c :: cs, fb =>
    if c = NUL then fb
    else oled_draw_small_text_loop x y color (offset + 6) cs
      (oled_draw_small_letter (x + offset) y c color fb)

/-- The function `oled_draw_small_text`. -/
def oled_draw_small_text (x y : Int) (cc : List Char) (color : Fin 256)
    (fb : Framebuffer) : Framebuffer :=
  oled_draw_small_text_loop x y color 0 cc fb

/-- The function `oled_draw_big_letter`. -/
def oled_draw_big_letter (x y : Int) (c : Char) (color : Fin 256) (fb : Framebuffer) :
    Framebuffer :=
  if c = 'A' then
    let fb := oled_draw_rect x (y + 11) 2 2 0 color fb
    let fb := oled_draw_rect (x + 7) (y + 11) 2 2 0 color fb
    let fb := oled_draw_rect (x + 1) (y + 8) 2 3 0 color fb
    let fb := oled_draw_rect (x + 1) (y + 8) 7 2 0 color fb
    let fb := oled_draw_rect (x + 6) (y + 8) 2 3 0 color fb
    let fb := oled_draw_rect (x + 2) (y + 4) 2 4 0 color fb
    let fb := oled_draw_rect (x + 5) (y + 4) 2 4 0 color fb
    let fb := oled_draw_rect (x + 3) y 3 4 0 color fb
    fb
  else if c = 'D' then
    let fb := oled_draw_rect x y 2 13 0 color fb
    let fb := oled_draw_rect (x + 2) y 4 2 0 color fb
    let fb := oled_draw_rect (x + 2) (y + 11) 4 2 0 color fb
    let fb := oled_draw_rect (x + 5) (y + 1) 2 2 0 color fb
    let fb := oled_draw_rect (x + 6) (y + 2) 2 2 0 color fb
    let fb := oled_draw_rect (x + 7) (y + 3) 2 7 0 color fb
    let fb := oled_draw_rect (x + 5) (y + 10) 2 2 0 color fb
    let fb := oled_draw_rect (x + 6) (y + 9) 2 2 0 color fb
    fb
  else if c = 'E' then
    let fb := oled_draw_rect x y 2 13 0 color fb
    let fb := oled_draw_rect (x + 2) y 7 2 0 color fb
    let fb := oled_draw_rect (x + 2) (y + 5) 7 2 0 color fb
    let fb := oled_draw_rect (x + 2) (y + 11) 7 2 0 color fb
    fb
  else if c = 'I' then
    let fb := oled_draw_rect x y 8 2 0 color fb
    let fb := oled_draw_rect (x + 3) (y + 2) 2 9 0 color fb
    let fb := oled_draw_rect x (y + 11) 8 2 0 color fb
    fb
  else if c = 'L' then
    let fb := oled_draw_rect x y 2 13 0 color fb
    let fb := oled_draw_rect (x + 2) (y + 11) 7 2 0 color fb
    fb
  else if c = 'M' then
    let fb := oled_draw_rect x y 2 13 0 color fb
    let fb := oled_draw_rect (x + 2) y 1 4 0 color fb
    let fb := oled_draw_rect (x + 6) y 1 4 0 color fb
    let fb := oled_draw_rect (x + 3) (y + 3) 1 4 0 color fb
    let fb := oled_draw_rect (x + 5) (y + 3) 1 4 0 color fb
    let fb := oled_draw_rect (x + 4) (y + 5) 1 3 0 color fb
    let fb := oled_draw_rect (x + 7) y 2 13 0 color fb
    fb
  else if c = 'N' then
    let fb := oled_draw_rect x y 2 13 0 color fb
    let fb := oled_draw_rect (x + 7) y 2 13 0 color fb
    let fb := oled_draw_v_line (x + 2) y 3 color fb
    let fb := oled_draw_v_line (x + 3) (y + 2) 4 color fb
    let fb := oled_draw_v_line (x + 4) (y + 5) 3 color fb
    let fb := oled_draw_v_line (x + 5) (y + 7) 4 color fb
    let fb := oled_draw_v_line (x + 6) (y + 10) 3 color fb
    fb
  else if c = 'O' then
    let fb := oled_draw_rect x (y + 3) 2 7 0 color fb
    let fb := oled_draw_rect (x + 7) (y + 3) 2 7 0 color fb
    let fb := oled_draw_rect (x + 2) y 5 2 0 color fb
    let fb := oled_draw_rect (x + 2) (y + 11) 5 2 0 color fb
    let fb := oled_draw_rect (x + 1) (y + 1) 2 2 0 color fb
    let fb := oled_draw_rect (x + 1) (y + 10) 2 2 0 color fb
    let fb := oled_draw_rect (x + 6) (y + 1) 2 2 0 color fb
    let fb := oled_draw_rect (x + 6) (y + 10) 2 2 0 color fb
    fb
  else if c = 'R' then
    let fb := oled_draw_rect x y 2 13 0 color fb
    let fb := oled_draw_rect (x + 2) y 5 2 0 color fb
    let fb := oled_draw_rect (x + 6) (y + 1) 2 2 0 color fb
    let fb := oled_draw_rect (x + 6) (y + 5) 2 2 0 color fb
    let fb := oled_draw_rect (x + 6) (y + 8) 2 2 0 color fb
    let fb := oled_draw_rect (x + 2) (y + 6) 5 2 0 color fb
    let fb := oled_draw_rect (x + 7) (y + 2) 2 4 0 color fb
    let fb := oled_draw_rect (x + 7) (y + 9) 2 4 0 color fb
    fb
  else if c = 'S' then
    let fb := oled_draw_rect (x + 2) y 6 2 0 color fb
    let fb := oled_draw_rect (x + 1) (y + 1) 2 2 0 color fb
    let fb := oled_draw_rect (x + 1) (y + 4) 2 2 0 color fb
    let fb := oled_draw_rect x (y + 2) 2 3 0 color fb
    let fb := oled_draw_rect (x + 2) (y + 5) 5 2 0 color fb
    let fb := oled_draw_rect (x + 6) (y + 6) 2 2 0 color fb
    let fb := oled_draw_rect (x + 6) (y + 10) 2 2 0 color fb
    let fb := oled_draw_rect (x + 7) (y + 7) 2 4 0 color fb
    let fb := oled_draw_rect x (y + 11) 7 2 0 color fb
    fb
  else if c = 'T' then
    let fb := oled_draw_rect x y 9 2 0 color fb
    let fb := oled_draw_rect (x + 4) (y + 2) 2 11 0 color fb
    fb
  else if c = 'U' then
    let fb := oled_draw_rect x y 2 11 0 color fb
    let fb := oled_draw_rect (x + 7) y 2 11 0 color fb
    let fb := oled_draw_rect (x + 1) (y + 10) 2 2 0 color fb
    let fb := oled_draw_rect (x + 6) (y + 10) 2 2 0 color fb
    let fb := oled_draw_rect (x + 2) (y + 11) 5 2 0 color fb
    fb
  else if c = 'Y' then
    let fb := oled_draw_rect x y 2 3 0 color fb
    let fb := oled_draw_rect (x + 6) y 2 3 0 color fb
    let fb := oled_draw_rect (x + 1) (y + 2) 2 2 0 color fb
    let fb := oled_draw_rect (x + 5) (y + 2) 2 2 0 color fb
    let fb := oled_draw_rect (x + 2) (y + 4) 4 2 0 color fb
    let fb := oled_draw_rect (x + 3) (y + 6) 2 7 0 color fb
    fb
  else if c = ':' then
    let fb := oled_draw_rect x (y + 2) 3 3 0 color fb
    let fb := oled_draw_rect x (y + 8) 3 3 0 color fb
    fb
  else if c = '?' then
    let fb := oled_draw_rect (x + 1) y 6 2 0 color fb
    let fb := oled_draw_rect (x + 6) (y + 1) 2 4 0 color fb
    let fb := oled_draw_rect (x + 5) (y + 4) 2 2 0 color fb
    let fb := oled_draw_rect (x + 4) (y + 5) 2 2 0 color fb
    let fb := oled_draw_rect (x + 3) (y + 6) 2 4 0 color fb
    let fb := oled_draw_rect (x + 3) (y + 11) 2 2 0 color fb
    fb
  else if c = '!' then
    let fb := oled_draw_rect (x + 4) y 2 9 0 color fb
    let fb := oled_draw_rect (x + 4) (y + 11) 2 2 0 color fb
    fb
  else fb

/-- The loop of `oled_draw_big_text`, entered with the current `offset`; the list
holds `cc[i]`, `cc[i+1]`, ... -/
def oled_draw_big_text_loop (x y : Int) (color : Fin 256) :
    Int → List Char → Framebuffer → Framebuffer
  | _, [], fb => fb
  | offset, c :: cs, fb =>
    if c = NUL then fb
    else oled_draw_big_text_loop x y color (offset + 11) cs
      (oled_draw_big_letter (x + offset) y c color fb)

/-- The function `oled_draw_big_text`. -/
def oled_draw_big_text (x y : Int) (cc : List Char) (color : Fin 256)
    (fb : Framebuffer) : Framebuffer :=
  oled_draw_big_text_loop x y color 0 cc fb

/-! ## Globals, hardware inputs and outputs -/

/-- Writes to the output port and calls of the assembly drivers, as they appear
in the handlers. The port, pin and bus arguments are the same constants at
every call site and are left out. -/
inductive HwCall where
  /-- The statement `GPIOA->ODR &= ~IOA_595_LATCH_PIN`. -/
  | latch_low
  /-- The statement `GPIOA->ODR |= IOA_595_LATCH_PIN`. -/
  | latch_high
  | shift_7_segment_out (num : Int)
  | shift_byte_out (dat : Fin 256)
  | pulse_out_pin (pulse_halfw num_pulses : Nat)
  | ds3231_set_time (hrs_btc mins_btc : Int)
  | ds3231_set_alarm_1_time (hrs_btc mins_btc : Int)
  | i2c_display_framebuffer
  deriving DecidableEq, Repr

/-- What the hardware returns during one pass of the loop: the value of
`GPIOA->IDR` (sampled once per pass), the result of `ds3231_get_time` and the
result of `ds3231_get_alarm_1`. -/
structure Inputs where
  idr : Nat
  rtc_time : Nat
  rtc_alarm : Nat

/-- The global variables of `global.h`, and the record `hw` of the writes and
driver calls made so far. -/
structure Globals where
  oled_fb : Framebuffer
  time_word : Nat
  alarm_word : Nat
  time_to_set : Nat
  cur_hours : Int
  cur_minutes : Int
  cur_state : Nat
  cursor_position : Nat
  alarm_remember_off : Nat
  last_button_state : Nat
  hw : List HwCall

/-- The RTC writes among a list of outputs. -/
def rtc_writes (l : List HwCall) : List HwCall :=
  l.filter (fun c =>
    match c with
    | HwCall.ds3231_set_time _ _ => true
    | HwCall.ds3231_set_alarm_1_time _ _ => true
    | _ => false)

/-- The test `((~GPIOA->IDR) & mask) && !(last_button_state & mask)` of the
handlers. -/
def button_pressed (idr last_button_state mask : Nat) : Bool :=
  ((bnot32 idr) &&& mask != 0) && !(last_button_state &&& mask != 0)

/-! ## BCD words -/

/-- The encoder of the commit code (`util_c.c` lines 796-798, again 799-801,
892-894 and 895-897): `enc = v / 10; enc = enc << 4; enc |= (v % 10);` with
`enc` an `unsigned int`. -/
def bcd_enc (v : Int) : Nat :=
  let enc := toU32 (Int.tdiv v 10)
  let enc := shl32 enc 4
  enc ||| toU32 (Int.tmod v 10)

/-- Load of the edit fields from `time_word` (`util_c.c` lines 593-599). -/
def load_time (g : Globals) : Globals :=
  let g := { g with time_to_set := g.time_word }
  let hours_tens : Int := (((g.time_to_set &&& 0x00300000) >>> 20 : Nat) : Int)
  let hours_ones : Int := (((g.time_to_set &&& 0x000F0000) >>> 16 : Nat) : Int)
  let g := { g with cur_hours := (hours_tens * 10) + hours_ones }
  let minutes_tens : Int := (((g.time_to_set &&& 0x0000F000) >>> 12 : Nat) : Int)
  let minutes_ones : Int := (((g.time_to_set &&& 0x00000F00) >>> 8 : Nat) : Int)
  { g with cur_minutes := (minutes_tens * 10) + minutes_ones }

/-- Load of the edit fields from the alarm register (`util_c.c` lines 605-611,
again 617-623, 684-690 and 696-702). -/
def load_alarm (inp : Inputs) (g : Globals) : Globals :=
  let g := { g with time_to_set := inp.rtc_alarm % 4294967296 }
  let hours_tens : Int := (((g.time_to_set &&& 0x00003000) >>> 12 : Nat) : Int)
  let hours_ones : Int := (((g.time_to_set &&& 0x00000F00) >>> 8 : Nat) : Int)
  let g := { g with cur_hours := (hours_tens * 10) + hours_ones }
  let minutes_tens : Int := (((g.time_to_set &&& 0x000000F0) >>> 4 : Nat) : Int)
  let minutes_ones : Int := ((g.time_to_set &&& 0x0000000F : Nat) : Int)
  { g with cur_minutes := (minutes_tens * 10) + minutes_ones }

/-! ## Seven-segment output

The blocks below write no global; each is given as the list of its outputs, in
the order of the statements. -/

/-- The four digits of `time_word` and the latch write that follows them
(`util_c.c` lines 458-476, again 513-531). -/
def show_time_digits (g : Globals) : List HwCall :=
  [ HwCall.shift_7_segment_out (((g.time_word &&& 0x00000F00) >>> 8 : Nat) : Int),
    HwCall.shift_7_segment_out (((g.time_word &&& 0x0000F000) >>> 12 : Nat) : Int),
    HwCall.shift_7_segment_out (((g.time_word &&& 0x000F0000) >>> 16 : Nat) : Int),
    HwCall.shift_7_segment_out (((g.time_word &&& 0x00300000) >>> 20 : Nat) : Int),
    HwCall.latch_high ]

/-- The segment and buzzer output of `process_in_alarm_state` (`util_c.c` lines
496-533); `cur_digit` is `0xFF` in the first branch. -/
def in_alarm_digits (g : Globals) : List HwCall :=
  HwCall.latch_low ::
    (if (g.time_word &&& 0x00000001) ≠ 0 then
      [ HwCall.shift_byte_out (toByte 0xFF),
        HwCall.shift_byte_out (toByte 0xFF),
        HwCall.shift_byte_out (toByte 0xFF),
        HwCall.shift_byte_out (toByte 0xFF),
        HwCall.latch_high ]
    else
      show_time_digits g ++ [HwCall.pulse_out_pin 200 500])

/-- The minutes pair of the edit display (`util_c.c` lines 726-742, again
822-838); `cur_digit` is `0xFF` in the first branch. -/
def show_edit_minutes (g : Globals) : List HwCall :=
  if g.cursor_position = 1 ∧ (g.time_word &&& 0x00000001) ≠ 0 then
    [ HwCall.shift_byte_out (toByte 0xFF),
      HwCall.shift_byte_out (toByte 0xFF) ]
  else
    [ HwCall.shift_7_segment_out (Int.tmod g.cur_minutes 10),
      HwCall.shift_7_segment_out (Int.tdiv g.cur_minutes 10) ]

/-- The hours pair of the edit display (`util_c.c` lines 743-758, again
839-854). -/
def show_edit_hours (g : Globals) : List HwCall :=
  if g.cursor_position = 0 ∧ (g.time_word &&& 0x00000001) ≠ 0 then
    [ HwCall.shift_byte_out (toByte 0xFF),
      HwCall.shift_byte_out (toByte 0xFF) ]
  else
    [ HwCall.shift_7_segment_out (Int.tmod g.cur_hours 10),
      HwCall.shift_7_segment_out (Int.tdiv g.cur_hours 10) ]

/-- The edit fields shifted out between the latch writes, with the pair under
edit blanked on odd seconds (`util_c.c` lines 723-760, again 819-856). -/
def show_edit_digits (g : Globals) : List HwCall :=
  HwCall.latch_low :: (show_edit_minutes g ++ show_edit_hours g ++ [HwCall.latch_high])

/-- The Up/Down part of the two edit handlers (`util_c.c` lines 762-785, again
858-881). -/
def edit_up_down (inp : Inputs) (g : Globals) : Globals :=
  if button_pressed inp.idr g.last_button_state IOA_BUTTON_UP then
    if g.cursor_position = 0 then
      let g := { g with cur_hours := g.cur_hours + 1 }
      if g.cur_hours ≥ 24 then { g with cur_hours := 0 } else g
    else if g.cursor_position = 1 then
      let g := { g with cur_minutes := g.cur_minutes + 1 }
      if g.cur_minutes ≥ 60 then { g with cur_minutes := 0 } else g
    else g
  else if button_pressed inp.idr g.last_button_state IOA_BUTTON_DOWN then
    if g.cursor_position = 0 then
      if g.cur_hours = 0 then { g with cur_hours := 23 }
      else { g with cur_hours := g.cur_hours - 1 }
    else if g.cursor_position = 1 then
      if g.cur_minutes = 0 then { g with cur_minutes := 59 }
      else { g with cur_minutes := g.cur_minutes - 1 }
    else g
  else g

/-! ## The state handlers -/

/-- The drawing of `process_show_time_state` (`util_c.c` lines 452-454). -/
def show_time_draw (fb : Framebuffer) : Framebuffer :=
  let time_buffer := ['T', 'I', 'M', 'E', ':', NUL]
  oled_draw_big_text 37 26 time_buffer 1 fb

/-- The function `process_show_time_state`. -/
def process_show_time_state (inp : Inputs) (g : Globals) : Globals :=
  let g := { g with oled_fb := show_time_draw g.oled_fb }
  let g := { g with hw := g.hw ++ HwCall.latch_low :: show_time_digits g }
  if button_pressed inp.idr g.last_button_state IOA_BUTTON_SELECT then
    { g with cur_state := VVC_STATE_MENU_PAGE_1 }
  else g

/-- The drawing of `process_in_alarm_state` (`util_c.c` lines 491-494). -/
def in_alarm_draw (fb : Framebuffer) : Framebuffer :=
  let alarm_buffer := ['A', 'L', 'A', 'R', 'M', '!', '!', '!', '!', NUL]
  oled_draw_big_text 18 26 alarm_buffer 1 fb

/-- The function `process_in_alarm_state`. -/
def process_in_alarm_state (inp : Inputs) (g : Globals) : Globals :=
  let g := { g with oled_fb := in_alarm_draw g.oled_fb }
  let g := { g with hw := g.hw ++ in_alarm_digits g }
  if button_pressed inp.idr g.last_button_state IOA_BUTTON_SELECT then
    { g with cur_state := VVC_STATE_SHOW_TIME, alarm_remember_off := 1 }
  else g

/-- The Up/Down part of `process_menu_page_1_state` (`util_c.c` lines 572-586). -/
def menu_page_1_up_down (inp : Inputs) (g : Globals) : Globals :=
  if button_pressed inp.idr g.last_button_state IOA_BUTTON_UP then
    if g.cursor_position > 0 then { g with cursor_position := g.cursor_position - 1 }
    else g
  else if button_pressed inp.idr g.last_button_state IOA_BUTTON_DOWN then
    if g.cursor_position < 2 then { g with cursor_position := g.cursor_position + 1 }
    else { g with cur_state := VVC_STATE_MENU_PAGE_2, cursor_position := 0 }
  else g

/-- The branch on `cursor_position` under Select in `process_menu_page_1_state`
(`util_c.c` lines 590-627). -/
def menu_page_1_choose (inp : Inputs) (g : Globals) : Globals :=
  if g.cursor_position = 0 then
    let g := { g with cur_state := VVC_STATE_SET_TIME }
    load_time g
  else if g.cursor_position = 1 then
    let g := { g with cur_state := VVC_STATE_SET_ALARM, cursor_position := 0 }
    load_alarm inp g
  else if g.cursor_position = 2 then
    let g := { g with cur_state := VVC_STATE_SET_ALARM_DAYS, cursor_position := 0 }
    load_alarm inp g
  else
    { g with cur_state := VVC_STATE_SHOW_TIME }

/-- The Select part of `process_menu_page_1_state` (`util_c.c` lines 587-630). -/
def menu_page_1_select (inp : Inputs) (g : Globals) : Globals :=
  if button_pressed inp.idr g.last_button_state IOA_BUTTON_SELECT then
    let g := menu_page_1_choose inp g
    { g with cursor_position := 0 }
  else g

/-- The drawing of `process_menu_page_1_state` (`util_c.c` lines 549-570). -/
def menu_page_1_draw (cursor_position : Nat) (fb : Framebuffer) : Framebuffer :=
  let menu_buffer := ['M', 'E', 'N', 'U', NUL]
  let fb := oled_draw_big_text 42 4 menu_buffer 1 fb
  let fb := oled_draw_h_line 0 18 127 1 fb
  let set_time_buffer := ['S', 'e', 't', ' ', 'T', 'i', 'm', 'e', NUL]
  let fb := oled_draw_small_text 72 20 set_time_buffer 1 fb
  let fb := oled_draw_h_line 0 30 127 1 fb
  let set_alarm_buffer := ['S', 'e', 't', ' ', 'A', 'l', 'a', 'r', 'm', NUL]
  let fb := oled_draw_small_text 68 32 set_alarm_buffer 1 fb
  let fb := oled_draw_h_line 0 42 127 1 fb
  let set_alarm_days_buffer :=
    ['S', 'e', 't', ' ', 'A', 'l', 'a', 'r', 'm', ' ', 'D', 'a', 'y', 's', NUL]
  let fb := oled_draw_small_text 40 44 set_alarm_days_buffer 1 fb
  let fb := oled_draw_h_line 0 54 127 1 fb
  let fb := oled_draw_small_letter 12 (21 + ((cursor_position : Int) * 12)) '>' 1 fb
  fb

/-- The function `process_menu_page_1_state`. -/
def process_menu_page_1_state (inp : Inputs) (g : Globals) : Globals :=
  let g := { g with oled_fb := menu_page_1_draw g.cursor_position g.oled_fb }
  let g := menu_page_1_up_down inp g
  menu_page_1_select inp g

/-- The Up/Down part of `process_menu_page_2_state` (`util_c.c` lines 663-677). -/
def menu_page_2_up_down (inp : Inputs) (g : Globals) : Globals :=
  if button_pressed inp.idr g.last_button_state IOA_BUTTON_UP then
    if g.cursor_position > 0 then { g with cursor_position := g.cursor_position - 1 }
    else { g with cur_state := VVC_STATE_MENU_PAGE_1, cursor_position := 0 }
  else if button_pressed inp.idr g.last_button_state IOA_BUTTON_DOWN then
    if g.cursor_position < 2 then { g with cursor_position := g.cursor_position + 1 }
    else g
  else g

/-- The branch on `cursor_position` under Select in `process_menu_page_2_state`
(`util_c.c` lines 681-708). -/
def menu_page_2_choose (inp : Inputs) (g : Globals) : Globals :=
  if g.cursor_position = 0 then
    let g := { g with cur_state := VVC_STATE_SET_ALARM_STATE }
    load_alarm inp g
  else if g.cursor_position = 1 then
    let g := { g with cur_state := VVC_STATE_SET_ALARM_TONE, cursor_position := 0 }
    load_alarm inp g
  else
    { g with cur_state := VVC_STATE_SHOW_TIME, cursor_position := 0 }

/-- The Select part of `process_menu_page_2_state` (`util_c.c` lines 678-711). -/
def menu_page_2_select (inp : Inputs) (g : Globals) : Globals :=
  if button_pressed inp.idr g.last_button_state IOA_BUTTON_SELECT then
    let g := menu_page_2_choose inp g
    { g with cursor_position := 0 }
  else g

/-- The drawing of `process_menu_page_2_state` (`util_c.c` lines 637-661). -/
def menu_page_2_draw (cursor_position : Nat) (fb : Framebuffer) : Framebuffer :=
  let menu_buffer := ['M', 'E', 'N', 'U', NUL]
  let fb := oled_draw_big_text 42 4 menu_buffer 1 fb
  let fb := oled_draw_h_line 0 18 127 1 fb
  let set_alarm_state_buffer :=
    ['S', 'e', 't', ' ', 'A', 'l', 'a', 'r', 'm', ' ', 'O', 'n', '/', 'O', 'f', 'f', NUL]
  let fb := oled_draw_small_text 28 20 set_alarm_state_buffer 1 fb
  let fb := oled_draw_h_line 0 30 127 1 fb
  let set_alarm_tone_buffer :=
    ['S', 'e', 't', ' ', 'A', 'l', 'a', 'r', 'm', ' ', 'T', 'o', 'n', 'e', NUL]
  let fb := oled_draw_small_text 38 32 set_alarm_tone_buffer 1 fb
  let fb := oled_draw_h_line 0 42 127 1 fb
  let exit_menu_buffer := ['E', 'x', 'i', 't', ' ', 'M', 'e', 'n', 'u', NUL]
  let fb := oled_draw_small_text 66 44 exit_menu_buffer 1 fb
  let fb := oled_draw_h_line 0 54 127 1 fb
  let fb := oled_draw_small_letter 12 (21 + ((cursor_position : Int) * 12)) '>' 1 fb
  fb

/-- The function `process_menu_page_2_state`. -/
def process_menu_page_2_state (inp : Inputs) (g : Globals) : Globals :=
  let g := { g with oled_fb := menu_page_2_draw g.cursor_position g.oled_fb }
  let g := menu_page_2_up_down inp g
  menu_page_2_select inp g

/-- The Select part of `process_set_time_state` (`util_c.c` lines 786-806). -/
def set_time_select (inp : Inputs) (g : Globals) : Globals :=
  if button_pressed inp.idr g.last_button_state IOA_BUTTON_SELECT then
    if g.cursor_position = 0 then
      { g with cursor_position := 1 }
    else
      let hours_enc := bcd_enc g.cur_hours
      let mins_enc := bcd_enc g.cur_minutes
      { g with hw := g.hw ++ [HwCall.ds3231_set_time (toI32 hours_enc) (toI32 mins_enc)],
               cur_state := VVC_STATE_SHOW_TIME,
               cursor_position := 0 }
  else g

/-- The drawing of `process_set_time_state` (`util_c.c` lines 718-721). -/
def set_time_draw (fb : Framebuffer) : Framebuffer :=
  let set_time_buffer := ['S', 'E', 'T', ' ', 'T', 'I', 'M', 'E', ':', NUL]
  oled_draw_big_text 18 26 set_time_buffer 1 fb

/-- The function `process_set_time_state`. -/
def process_set_time_state (inp : Inputs) (g : Globals) : Globals :=
  let g := { g with oled_fb := set_time_draw g.oled_fb }
  let g := { g with hw := g.hw ++ show_edit_digits g }
  let g := edit_up_down inp g
  set_time_select inp g

/-- The Select part of `process_set_alarm_state` (`util_c.c` lines 882-904). -/
def set_alarm_select (inp : Inputs) (g : Globals) : Globals :=
  if button_pressed inp.idr g.last_button_state IOA_BUTTON_SELECT then
    if g.cursor_position = 0 then
      { g with cursor_position := 1 }
    else
      let hours_enc := bcd_enc g.cur_hours
      let mins_enc := bcd_enc g.cur_minutes
      let g :=
        { g with hw := g.hw ++ [HwCall.ds3231_set_alarm_1_time (toI32 hours_enc) (toI32 mins_enc)],
                 cur_state := VVC_STATE_SHOW_TIME,
                 cursor_position := 0,
                 alarm_word := inp.rtc_alarm % 4294967296 }
      { g with alarm_word := shl32 g.alarm_word 8 }
  else g

/-- The drawing of `process_set_alarm_state` (`util_c.c` lines 813-816). -/
def set_alarm_draw (fb : Framebuffer) : Framebuffer :=
  let set_alarm_buffer := ['S', 'E', 'T', ' ', 'A', 'L', 'A', 'R', 'M', ':', NUL]
  oled_draw_big_text 11 26 set_alarm_buffer 1 fb

/-- The function `process_set_alarm_state`. -/
def process_set_alarm_state (inp : Inputs) (g : Globals) : Globals :=
  let g := { g with oled_fb := set_alarm_draw g.oled_fb }
  let g := { g with hw := g.hw ++ show_edit_digits g }
  let g := edit_up_down inp g
  set_alarm_select inp g

/-- The drawing of `process_set_alarm_days_state` (`util_c.c` lines 911-914). -/
def set_alarm_days_draw (fb : Framebuffer) : Framebuffer :=
  let set_alarm_days_buffer := ['A', 'L', 'A', 'R', 'M', ' ', 'D', 'A', 'Y', 'S', ':', NUL]
  oled_draw_big_text 5 26 set_alarm_days_buffer 1 fb

/-- The function `process_set_alarm_days_state`. -/
def process_set_alarm_days_state (inp : Inputs) (g : Globals) : Globals :=
  let g := { g with oled_fb := set_alarm_days_draw g.oled_fb }
  if button_pressed inp.idr g.last_button_state IOA_BUTTON_SELECT then
    { g with cur_state := VVC_STATE_SHOW_TIME }
  else g

/-- The drawing of `process_set_alarm_tone_state` (`util_c.c` lines 929-932). -/
def set_alarm_tone_draw (fb : Framebuffer) : Framebuffer :=
  let set_alarm_days_buffer := ['A', 'L', 'A', 'R', 'M', ' ', 'T', 'O', 'N', 'E', ':', NUL]
  oled_draw_big_text 5 16 set_alarm_days_buffer 1 fb

/-- The function `process_set_alarm_tone_state`. -/
def process_set_alarm_tone_state (inp : Inputs) (g : Globals) : Globals :=
  let g := { g with oled_fb := set_alarm_tone_draw g.oled_fb }
  if button_pressed inp.idr g.last_button_state IOA_BUTTON_SELECT then
    { g with cur_state := VVC_STATE_SHOW_TIME }
  else g

/-- The drawing of `process_set_alarm_state_state` (`util_c.c` lines 947-950). -/
def set_alarm_state_draw (fb : Framebuffer) : Framebuffer :=
  let set_alarm_days_buffer := ['A', 'L', 'A', 'R', 'M', ' ', 'O', 'N', '?', NUL]
  oled_draw_big_text 18 16 set_alarm_days_buffer 1 fb

/-- The function `process_set_alarm_state_state`. -/
def process_set_alarm_state_state (inp : Inputs) (g : Globals) : Globals :=
  let g := { g with oled_fb := set_alarm_state_draw g.oled_fb }
  if button_pressed inp.idr g.last_button_state IOA_BUTTON_SELECT then
    { g with cur_state := VVC_STATE_SHOW_TIME }
  else g

/-! ## The loop of `main` -/

/-- The globals when `main` enters its loop (`main.c` lines 49-59); the variables
that `main` does not assign are zero-initialised statics. -/
def main_init (rtc_alarm : Nat) : Globals :=
  { oled_fb := Framebuffer.const 0
    time_word := 0
    alarm_word := shl32 (rtc_alarm % 4294967296) 8
    time_to_set := 0
    cur_hours := 0
    cur_minutes := 0
    cur_state := VVC_STATE_SHOW_TIME
    cursor_position := 0
    alarm_remember_off := 0
    last_button_state := 0
    hw := [] }

/-- The condition `(time_word & 0x00FFFF00) == alarm_word` of the alarm check
(`main.c` line 71). -/
def alarm_match (time_word alarm_word : Nat) : Bool :=
  decide ((time_word &&& 0x00FFFF00) = alarm_word)

/-- The alarm check of the loop (`main.c` lines 71-79). -/
def main_alarm_check (g : Globals) : Globals :=
  if alarm_match g.time_word g.alarm_word then
    if ¬ (g.alarm_remember_off ≠ 0) then
      { g with cur_state := VVC_STATE_IN_ALARM, cursor_position := 0 }
    else g
  else
    { g with alarm_remember_off := 0 }

/-- The dispatch on `cur_state` (`main.c` lines 81-108). -/
def main_dispatch (inp : Inputs) (g : Globals) : Globals :=
  if g.cur_state = VVC_STATE_SHOW_TIME then process_show_time_state inp g
  else if g.cur_state = VVC_STATE_IN_ALARM then process_in_alarm_state inp g
  else if g.cur_state = VVC_STATE_MENU_PAGE_1 then process_menu_page_1_state inp g
  else if g.cur_state = VVC_STATE_MENU_PAGE_2 then process_menu_page_2_state inp g
  else if g.cur_state = VVC_STATE_SET_TIME then process_set_time_state inp g
  else if g.cur_state = VVC_STATE_SET_ALARM then process_set_alarm_state inp g
  else if g.cur_state = VVC_STATE_SET_ALARM_DAYS then process_set_alarm_days_state inp g
  else if g.cur_state = VVC_STATE_SET_ALARM_TONE then process_set_alarm_tone_state inp g
  else if g.cur_state = VVC_STATE_SET_ALARM_STATE then process_set_alarm_state_state inp g
  else g

/-- Start of a pass: clear the framebuffer, draw the outline, read the time
(`main.c` lines 64-70). -/
def main_refresh (inp : Inputs) (g : Globals) : Globals :=
  let fb := oled_clear_screen 0x00 g.oled_fb
  let fb := oled_draw_rect 0 0 127 63 2 1 fb
  { g with oled_fb := fb, time_word := inp.rtc_time % 4294967296 }

/-- One pass of the `while (1)` loop of `main` (`main.c` lines 64-121). -/
def main_loop_body (inp : Inputs) (g : Globals) : Globals :=
  let g := main_refresh inp g
  let g := main_alarm_check g
  let g := main_dispatch inp g
  { g with
      last_button_state :=
        (bnot32 inp.idr) &&& (IOA_BUTTON_DOWN ||| IOA_BUTTON_SELECT ||| IOA_BUTTON_UP),
      hw := g.hw ++ [HwCall.i2c_display_framebuffer] }

/-- The loop run over the inputs of successive passes. -/
def main_loop : List Inputs → Globals → Globals
  | [], g => g
  | inp :: rest, g => main_loop rest (main_loop_body inp g)

/-! ## Inputs of the scenarios of the spec -/

/-- A pass in which only the buttons of `raw` are held down (`raw` is the mask
`~GPIOA->IDR`), with the given RTC time word; the alarm register reads 0. -/
def Inputs.ofRaw (raw rtc_time : Nat) : Inputs :=
  { idr := bnot32 raw, rtc_time := rtc_time, rtc_alarm := 0 }

/-- The raw sequence Up, Up, none, Up of the edge-detection test of the spec. -/
def held_up_inputs : List Inputs :=
  [Inputs.ofRaw IOA_BUTTON_UP 0, Inputs.ofRaw IOA_BUTTON_UP 0, Inputs.ofRaw 0 0,
   Inputs.ofRaw IOA_BUTTON_UP 0]

/-- The globals that decide what the state machine does next, with the RTC
writes made so far. -/
structure Snapshot where
  cur_state : Nat
  cursor_position : Nat
  cur_hours : Int
  cur_minutes : Int
  last_button_state : Nat
  alarm_word : Nat
  rtc : List HwCall

/-- The snapshot of the globals. -/
def Globals.snapshot (g : Globals) : Snapshot :=
  { cur_state := g.cur_state
    cursor_position := g.cursor_position
    cur_hours := g.cur_hours
    cur_minutes := g.cur_minutes
    last_button_state := g.last_button_state
    alarm_word := g.alarm_word
    rtc := rtc_writes g.hw }

/-- The raw button samples of the set-time scenario of the spec: Select, none,
Select, none, Up, none, Up, none, Select, none, Select, each pass with its own
RTC time word. -/
def set_time_scenario_inputs (t : Fin 11 → Nat) : List Inputs :=
  [ Inputs.ofRaw IOA_BUTTON_SELECT (t 0), Inputs.ofRaw 0 (t 1),
    Inputs.ofRaw IOA_BUTTON_SELECT (t 2), Inputs.ofRaw 0 (t 3),
    Inputs.ofRaw IOA_BUTTON_UP (t 4), Inputs.ofRaw 0 (t 5),
    Inputs.ofRaw IOA_BUTTON_UP (t 6), Inputs.ofRaw 0 (t 7),
    Inputs.ofRaw IOA_BUTTON_SELECT (t 8), Inputs.ofRaw 0 (t 9),
    Inputs.ofRaw IOA_BUTTON_SELECT (t 10) ]

/-! ## Invariants of the loop -/

/-- The legal pairs of state and cursor: the state is one of the nine codes, the
cursor is in 0..2 in the two menu pages, in 0..1 in the two edit states and 0
in every other state. -/
def cursor_ok (st c : Nat) : Prop :=
  st ≤ VVC_STATE_SET_ALARM_STATE ∧
  ((st = VVC_STATE_MENU_PAGE_1 ∨ st = VVC_STATE_MENU_PAGE_2) → c ≤ 2) ∧
  ((st = VVC_STATE_SET_TIME ∨ st = VVC_STATE_SET_ALARM) → c ≤ 1) ∧
  (¬ (st = VVC_STATE_MENU_PAGE_1 ∨ st = VVC_STATE_MENU_PAGE_2 ∨
      st = VVC_STATE_SET_TIME ∨ st = VVC_STATE_SET_ALARM) → c = 0)

/-- A time word with valid BCD digits at the offsets of the time word: the hours
digits encode 0..23 and the minutes digits encode 0..59. -/
def valid_time_word (w : Nat) : Prop :=
  ((w &&& 0x000F0000) >>> 16) ≤ 9 ∧
  10 * ((w &&& 0x00300000) >>> 20) + ((w &&& 0x000F0000) >>> 16) ≤ 23 ∧
  ((w &&& 0x0000F000) >>> 12) ≤ 5 ∧
  ((w &&& 0x00000F00) >>> 8) ≤ 9

/-- A raw alarm word with valid BCD digits at the offsets of the alarm register:
the hours digits encode 0..23 and the minutes digits encode 0..59. -/
def valid_alarm_reg (a : Nat) : Prop :=
  ((a &&& 0x00000F00) >>> 8) ≤ 9 ∧
  10 * ((a &&& 0x00003000) >>> 12) + ((a &&& 0x00000F00) >>> 8) ≤ 23 ∧
  ((a &&& 0x000000F0) >>> 4) ≤ 5 ∧
  (a &&& 0x0000000F) ≤ 9

instance (w : Nat) : Decidable (valid_time_word w) := by
  unfold valid_time_word; infer_instance

instance (a : Nat) : Decidable (valid_alarm_reg a) := by
  unfold valid_alarm_reg; infer_instance

/-- The edit fields are a time of day: hours in 0..23, minutes in 0..59. -/
def edit_in_range (g : Globals) : Prop :=
  0 ≤ g.cur_hours ∧ g.cur_hours ≤ 23 ∧ 0 ≤ g.cur_minutes ∧ g.cur_minutes ≤ 59

/-! ## The two scans of the filled rectangle -/

/-- The filling by rows of `oled_draw_rect`, the branch `w > h`
(`util_c.c` lines 117-120). -/
def fill_by_rows (x y w h : Int) (fb : Framebuffer) : Framebuffer :=
  forUp y (y + h) (fun y_pos acc => oled_draw_h_line x y_pos w 1 acc) fb

/-- The filling by columns of `oled_draw_rect`, the branch `w <= h`
(`util_c.c` lines 124-127). -/
def fill_by_columns (x y w h : Int) (fb : Framebuffer) : Framebuffer :=
  forUp x (x + w) (fun x_pos acc => oled_draw_v_line x_pos y h 1 acc) fb

/-! ## Lines as runs of single pixels -/

/-- The calls `oled_write_pixel (x + i, y, color)` for `i = 0 .. w - 1`, in
order. -/
def h_line_by_pixels (x y w : Int) (color : Fin 256) (fb : Framebuffer) : Framebuffer :=
  (List.range w.toNat).foldl (fun acc (i : Nat) => oled_write_pixel (x + (i : Int)) y color acc) fb

/-- The calls `oled_write_pixel (x, y + j, color)` for `j = 0 .. h - 1`, in
order. -/
def v_line_by_pixels (x y h : Int) (color : Fin 256) (fb : Framebuffer) : Framebuffer :=
  (List.range h.toNat).foldl (fun acc (j : Nat) => oled_write_pixel x (y + (j : Int)) color acc) fb

/-! ## Text as a row of letters -/

/-- The calls `oled_draw_small_letter (x + 6 * i, y, s[i], color)` for
`i = 0 .. len (s) - 1`, in order. -/
def small_text_by_letters (x y : Int) (s : List Char) (color : Fin 256) (fb : Framebuffer) :
    Framebuffer :=
  (List.range s.length).foldl
    (fun acc (i : Nat) => oled_draw_small_letter (x + 6 * (i : Int)) y (s.getD i NUL) color acc) fb

/-- The calls `oled_draw_big_letter (x + 11 * i, y, s[i], color)` for
`i = 0 .. len (s) - 1`, in order. -/
def big_text_by_letters (x y : Int) (s : List Char) (color : Fin 256) (fb : Framebuffer) :
    Framebuffer :=
  (List.range s.length).foldl
    (fun acc (i : Nat) => oled_draw_big_letter (x + 11 * (i : Int)) y (s.getD i NUL) color acc) fb

/-! ## Drawing as lists of calls and of single-pixel writes -/

/-- The values of `i` in the loop `for (i = lo; i < hi; ++i)`, in order. -/
def upTo (lo hi : Int) : List Int :=
  (List.range (hi - lo).toNat).map (fun (k : Nat) => lo + (k : Int))

/-- The values of `i` in the loop `for (i = hi; i > lo; --i)`, in order. -/
def downTo (hi lo : Int) : List Int :=
  (List.range (hi - lo).toNat).map (fun (k : Nat) => hi - (k : Int))

/-- One store of the drawing code, named by the pixel it addresses: the
coordinates `(x, y)` that give byte `x + (y / 8) * 128` and bit `y & 7`, and the
colour. -/
structure PixelWrite where
  x : Int
  y : Int
  color : Fin 256

/-- The stores of `oled_draw_h_line (x, y, w, color)`, one for each `x_pos` of
its loop. -/
def h_line_writes (x y w : Int) (color : Fin 256) : List PixelWrite :=
  (upTo x (x + w)).map (fun x_pos => ⟨x_pos, y, color⟩)

/-- The stores of `oled_draw_v_line (x, y, h, color)`, one for each `y_pos` of
its loop. -/
def v_line_writes (x y h : Int) (color : Fin 256) : List PixelWrite :=
  (upTo y (y + h)).map (fun y_pos => ⟨x, y_pos, color⟩)

/-- The stores of `oled_draw_rect (x, y, w, h, outline, color)`, loop by loop. -/
def rect_writes (x y w h outline : Int) (color : Fin 256) : List PixelWrite :=
  if outline > 0 then
    (upTo y (y + outline)).flatMap (fun o_pos => h_line_writes x o_pos w color) ++
    (downTo (y + h - 1) (y + h - 1 - outline)).flatMap
      (fun o_pos => h_line_writes x o_pos w color) ++
    (upTo x (x + outline)).flatMap (fun o_pos => v_line_writes o_pos y h color) ++
    (downTo (x + w - 1) (x + w - 1 - outline)).flatMap
      (fun o_pos => v_line_writes o_pos y h color)
  else
    if w > h then
      (upTo y (y + h)).flatMap (fun y_pos => h_line_writes x y_pos w 1)
    else
      (upTo x (x + w)).flatMap (fun x_pos => v_line_writes x_pos y h 1)

/-- A call of one of the four drawing primitives, with its arguments. -/
inductive DrawCall where
  | write_pixel (x y : Int) (color : Fin 256)
  | h_line (x y w : Int) (color : Fin 256)
  | v_line (x y h : Int) (color : Fin 256)
  | rect (x y w h outline : Int) (color : Fin 256)

/-- The primitive that a call names, applied to the framebuffer. -/
def DrawCall.run : DrawCall → Framebuffer → Framebuffer
  | DrawCall.write_pixel x y color, fb => oled_write_pixel x y color fb
  | DrawCall.h_line x y w color, fb => oled_draw_h_line x y w color fb
  | DrawCall.v_line x y h color, fb => oled_draw_v_line x y h color fb
  | DrawCall.rect x y w h outline color, fb => oled_draw_rect x y w h outline color fb

/-- The stores that a call makes, in order. -/
def DrawCall.writes : DrawCall → List PixelWrite
  | DrawCall.write_pixel x y color => [⟨x, y, color⟩]
  | DrawCall.h_line x y w color => h_line_writes x y w color
  | DrawCall.v_line x y h color => v_line_writes x y h color
  | DrawCall.rect x y w h outline color => rect_writes x y w h outline color

/-- Whether a call keeps inside the box `[x0, x1) x [y0, y1)`: its run or its
rectangle lies in the box, and an outline is no thicker than the rectangle. -/
def DrawCall.fits (x0 x1 y0 y1 : Int) : DrawCall → Bool
  | DrawCall.write_pixel x y _ => decide (x0 ≤ x ∧ x < x1 ∧ y0 ≤ y ∧ y < y1)
  | DrawCall.h_line x y w _ => decide (x0 ≤ x ∧ x + w ≤ x1 ∧ y0 ≤ y ∧ y < y1)
  | DrawCall.v_line x y h _ => decide (x0 ≤ x ∧ x < x1 ∧ y0 ≤ y ∧ y + h ≤ y1)
  | DrawCall.rect x y w h outline _ =>
    decide (x0 ≤ x ∧ x + w ≤ x1 ∧ y0 ≤ y ∧ y + h ≤ y1 ∧ outline ≤ w ∧ outline ≤ h)

/-- The calls of a list applied in order. -/
def run_calls (l : List DrawCall) (fb : Framebuffer) : Framebuffer :=
  l.foldl (fun acc d => d.run acc) fb

/-- The stores of a list made in order, each as `oled_write_pixel`. -/
def run_writes (l : List PixelWrite) (fb : Framebuffer) : Framebuffer :=
  l.foldl (fun acc p => oled_write_pixel p.x p.y p.color acc) fb

/-- A call of a glyph function with its arguments taken relative to the origin
of the glyph; a rectangle is always called with `outline = 0`. -/
inductive Stroke where
  | pixel (dx dy : Int)
  | h_line (dx dy w : Int)
  | v_line (dx dy h : Int)
  | rect (dx dy w h : Int)

/-- The call that a stroke stands for at origin `(x, y)` with colour `color`. -/
def Stroke.call (x y : Int) (color : Fin 256) : Stroke → DrawCall
  | Stroke.pixel dx dy => DrawCall.write_pixel (x + dx) (y + dy) color
  | Stroke.h_line dx dy w => DrawCall.h_line (x + dx) (y + dy) w color
  | Stroke.v_line dx dy h => DrawCall.v_line (x + dx) (y + dy) h color
  | Stroke.rect dx dy w h => DrawCall.rect (x + dx) (y + dy) w h 0 color

/-- Whether a stroke keeps inside the box `[0, bw) x [0, bh)` of its glyph. -/
def Stroke.fits (bw bh : Int) : Stroke → Bool
  | Stroke.pixel dx dy => decide (0 ≤ dx ∧ dx < bw ∧ 0 ≤ dy ∧ dy < bh)
  | Stroke.h_line dx dy w => decide (0 ≤ dx ∧ dx + w ≤ bw ∧ 0 ≤ dy ∧ dy < bh)
  | Stroke.v_line dx dy h => decide (0 ≤ dx ∧ dx < bw ∧ 0 ≤ dy ∧ dy + h ≤ bh)
  | Stroke.rect dx dy w h =>
    decide (0 ≤ dx ∧ dx + w ≤ bw ∧ 0 ≤ dy ∧ dy + h ≤ bh ∧ 0 ≤ w ∧ 0 ≤ h)

/-- The calls of `oled_draw_small_letter` for each character, relative to the
origin of the letter and in the order of the source (`util_c.c` lines 139-294);
every one of them passes the literal colour 1. -/
def small_glyph (c : Char) : List Stroke :=
  if c = 'A' then
    [Stroke.v_line 0 3 5, Stroke.v_line 4 3 5, Stroke.v_line 1 1 2, Stroke.v_line 3 1 2,
     Stroke.pixel 2 0, Stroke.h_line 1 4 3]
  else if c = 'D' then
    [Stroke.v_line 0 0 8, Stroke.v_line 4 1 6, Stroke.h_line 1 0 3, Stroke.h_line 1 7 3]
  else if c = 'E' then
    [Stroke.v_line 0 0 8, Stroke.h_line 1 0 4, Stroke.h_line 1 7 4, Stroke.h_line 1 4 3]
  else if c = 'M' then
    [Stroke.v_line 0 0 8, Stroke.v_line 4 0 8, Stroke.v_line 2 2 2, Stroke.pixel 1 1,
     Stroke.pixel 3 1]
  else if c = 'O' then
    [Stroke.v_line 0 1 6, Stroke.v_line 4 1 6, Stroke.h_line 1 0 3, Stroke.h_line 1 7 3]
  else if c = 'S' then
    [Stroke.v_line 0 1 2, Stroke.v_line 0 5 2, Stroke.v_line 4 1 2, Stroke.v_line 4 5 2,
     Stroke.h_line 1 0 3, Stroke.h_line 1 7 3, Stroke.h_line 1 3 2, Stroke.h_line 2 4 2]
  else if c = 'T' then
    [Stroke.h_line 0 0 5, Stroke.v_line 2 0 8]
  else if c = 'a' then
    [Stroke.h_line 1 2 3, Stroke.h_line 1 4 3, Stroke.h_line 1 7 3, Stroke.v_line 0 5 2,
     Stroke.v_line 4 3 4]
  else if c = 'e' then
    [Stroke.h_line 1 1 3, Stroke.h_line 1 4 3, Stroke.h_line 1 7 3, Stroke.pixel 4 6,
     Stroke.v_line 0 2 5, Stroke.v_line 4 2 3]
  else if c = 'f' then
    [Stroke.h_line 2 0 2, Stroke.h_line 0 4 4, Stroke.v_line 1 1 7, Stroke.v_line 4 1 2]
  else if c = 'i' then
    [Stroke.pixel 2 1, Stroke.v_line 2 3 5]
  else if c = 'l' then
    [Stroke.v_line 2 0 8]
  else if c = 'm' then
    [Stroke.h_line 1 3 3, Stroke.v_line 0 2 6, Stroke.v_line 2 3 5, Stroke.v_line 4 3 5]
  else if c = 'n' then
    [Stroke.h_line 1 3 2, Stroke.v_line 0 2 6, Stroke.v_line 3 4 4]
  else if c = 'o' then
    [Stroke.h_line 1 3 3, Stroke.h_line 1 7 3, Stroke.v_line 0 4 3, Stroke.v_line 4 4 3]
  else if c = 'r' then
    [Stroke.h_line 2 3 2, Stroke.pixel 4 4, Stroke.v_line 1 2 6]
  else if c = 's' then
    [Stroke.h_line 2 1 2, Stroke.h_line 2 4 2, Stroke.h_line 2 7 2, Stroke.pixel 1 6,
     Stroke.pixel 4 2, Stroke.v_line 1 2 2, Stroke.v_line 4 5 2]
  else if c = 't' then
    [Stroke.h_line 0 2 4, Stroke.h_line 2 7 2, Stroke.pixel 4 6, Stroke.v_line 1 0 7]
  else if c = 'u' then
    [Stroke.h_line 1 6 4, Stroke.pixel 4 7, Stroke.v_line 0 2 4, Stroke.v_line 3 2 4]
  else if c = 'x' then
    [Stroke.pixel 0 3, Stroke.pixel 0 7, Stroke.pixel 1 4, Stroke.pixel 1 6, Stroke.pixel 2 5,
     Stroke.pixel 3 4, Stroke.pixel 3 6, Stroke.pixel 4 3, Stroke.pixel 4 7]
  else if c = 'y' then
    [Stroke.h_line 1 4 2, Stroke.h_line 1 7 2, Stroke.pixel 0 6, Stroke.v_line 0 2 2,
     Stroke.v_line 3 2 5]
  else if c = ':' then
    [Stroke.pixel 2 2, Stroke.pixel 2 5]
  else if c = '/' then
    [Stroke.v_line 1 5 2, Stroke.v_line 2 3 2, Stroke.v_line 3 1 2]
  else if c = '>' then
    [Stroke.pixel 1 1, Stroke.pixel 2 2, Stroke.pixel 3 3, Stroke.pixel 2 4, Stroke.pixel 1 5]
  else if c = ' ' then
    []
  else []

/-- The calls of `oled_draw_big_letter` for each character, relative to the origin
of the letter and in the order of the source (`util_c.c` lines 313-433); every
one of them passes `color` on. -/
def big_glyph (c : Char) : List Stroke :=
  if c = 'A' then
    [Stroke.rect 0 11 2 2, Stroke.rect 7 11 2 2, Stroke.rect 1 8 2 3, Stroke.rect 1 8 7 2,
     Stroke.rect 6 8 2 3, Stroke.rect 2 4 2 4, Stroke.rect 5 4 2 4, Stroke.rect 3 0 3 4]
  else if c = 'D' then
    [Stroke.rect 0 0 2 13, Stroke.rect 2 0 4 2, Stroke.rect 2 11 4 2, Stroke.rect 5 1 2 2,
     Stroke.rect 6 2 2 2, Stroke.rect 7 3 2 7, Stroke.rect 5 10 2 2, Stroke.rect 6 9 2 2]
  else if c = 'E' then
    [Stroke.rect 0 0 2 13, Stroke.rect 2 0 7 2, Stroke.rect 2 5 7 2, Stroke.rect 2 11 7 2]
  else if c = 'I' then
    [Stroke.rect 0 0 8 2, Stroke.rect 3 2 2 9, Stroke.rect 0 11 8 2]
  else if c = 'L' then
    [Stroke.rect 0 0 2 13, Stroke.rect 2 11 7 2]
  else if c = 'M' then
    [Stroke.rect 0 0 2 13, Stroke.rect 2 0 1 4, Stroke.rect 6 0 1 4, Stroke.rect 3 3 1 4,
     Stroke.rect 5 3 1 4, Stroke.rect 4 5 1 3, Stroke.rect 7 0 2 13]
  else if c = 'N' then
    [Stroke.rect 0 0 2 13, Stroke.rect 7 0 2 13, Stroke.v_line 2 0 3, Stroke.v_line 3 2 4,
     Stroke.v_line 4 5 3, Stroke.v_line 5 7 4, Stroke.v_line 6 10 3]
  else if c = 'O' then
    [Stroke.rect 0 3 2 7, Stroke.rect 7 3 2 7, Stroke.rect 2 0 5 2, Stroke.rect 2 11 5 2,
     Stroke.rect 1 1 2 2, Stroke.rect 1 10 2 2, Stroke.rect 6 1 2 2, Stroke.rect 6 10 2 2]
  else if c = 'R' then
    [Stroke.rect 0 0 2 13, Stroke.rect 2 0 5 2, Stroke.rect 6 1 2 2, Stroke.rect 6 5 2 2,
     Stroke.rect 6 8 2 2, Stroke.rect 2 6 5 2, Stroke.rect 7 2 2 4, Stroke.rect 7 9 2 4]
  else if c = 'S' then
    [Stroke.rect 2 0 6 2, Stroke.rect 1 1 2 2, Stroke.rect 1 4 2 2, Stroke.rect 0 2 2 3,
     Stroke.rect 2 5 5 2, Stroke.rect 6 6 2 2, Stroke.rect 6 10 2 2, Stroke.rect 7 7 2 4,
     Stroke.rect 0 11 7 2]
  else if c = 'T' then
    [Stroke.rect 0 0 9 2, Stroke.rect 4 2 2 11]
  else if c = 'U' then
    [Stroke.rect 0 0 2 11, Stroke.rect 7 0 2 11, Stroke.rect 1 10 2 2, Stroke.rect 6 10 2 2,
     Stroke.rect 2 11 5 2]
  else if c = 'Y' then
    [Stroke.rect 0 0 2 3, Stroke.rect 6 0 2 3, Stroke.rect 1 2 2 2, Stroke.rect 5 2 2 2,
     Stroke.rect 2 4 4 2, Stroke.rect 3 6 2 7]
  else if c = ':' then
    [Stroke.rect 0 2 3 3, Stroke.rect 0 8 3 3]
  else if c = '?' then
    [Stroke.rect 1 0 6 2, Stroke.rect 6 1 2 4, Stroke.rect 5 4 2 2, Stroke.rect 4 5 2 2,
     Stroke.rect 3 6 2 4, Stroke.rect 3 11 2 2]
  else if c = '!' then
    [Stroke.rect 4 0 2 9, Stroke.rect 4 11 2 2]
  else []

/-- The calls of `oled_draw_small_letter (x, y, c, color)`. -/
def small_letter_calls (x y : Int) (c : Char) : List DrawCall :=
  (small_glyph c).map (Stroke.call x y 1)

/-- The calls of `oled_draw_big_letter (x, y, c, color)`. -/
def big_letter_calls (x y : Int) (c : Char) (color : Fin 256) : List DrawCall :=
  (big_glyph c).map (Stroke.call x y color)

/-- The calls of the loop of `oled_draw_small_text`, entered with the current
`offset`. -/
def small_text_calls (x y : Int) : Int → List Char → List DrawCall
  | _, [] => []
  | offset, c :: cs =>
    if c = NUL then []
    else small_letter_calls (x + offset) y c ++ small_text_calls x y (offset + 6) cs

/-- The calls of the loop of `oled_draw_big_text`, entered with the current
`offset`. -/
def big_text_calls (x y : Int) (color : Fin 256) : Int → List Char → List DrawCall
  | _, [] => []
  | offset, c :: cs =>
    if c = NUL then []
    else big_letter_calls (x + offset) y c color ++ big_text_calls x y color (offset + 11) cs

/-- The calls of `menu_page_1_draw`. -/
def menu_page_1_calls (cursor_position : Nat) : List DrawCall :=
  big_text_calls 42 4 1 0 ['M', 'E', 'N', 'U', NUL] ++
  [DrawCall.h_line 0 18 127 1] ++
  small_text_calls 72 20 0 ['S', 'e', 't', ' ', 'T', 'i', 'm', 'e', NUL] ++
  [DrawCall.h_line 0 30 127 1] ++
  small_text_calls 68 32 0 ['S', 'e', 't', ' ', 'A', 'l', 'a', 'r', 'm', NUL] ++
  [DrawCall.h_line 0 42 127 1] ++
  small_text_calls 40 44 0
    ['S', 'e', 't', ' ', 'A', 'l', 'a', 'r', 'm', ' ', 'D', 'a', 'y', 's', NUL] ++
  [DrawCall.h_line 0 54 127 1] ++
  small_letter_calls 12 (21 + ((cursor_position : Int) * 12)) '>'

/-- The calls of `menu_page_2_draw`. -/
def menu_page_2_calls (cursor_position : Nat) : List DrawCall :=
  big_text_calls 42 4 1 0 ['M', 'E', 'N', 'U', NUL] ++
  [DrawCall.h_line 0 18 127 1] ++
  small_text_calls 28 20 0
    ['S', 'e', 't', ' ', 'A', 'l', 'a', 'r', 'm', ' ', 'O', 'n', '/', 'O', 'f', 'f', NUL] ++
  [DrawCall.h_line 0 30 127 1] ++
  small_text_calls 38 32 0
    ['S', 'e', 't', ' ', 'A', 'l', 'a', 'r', 'm', ' ', 'T', 'o', 'n', 'e', NUL] ++
  [DrawCall.h_line 0 42 127 1] ++
  small_text_calls 66 44 0 ['E', 'x', 'i', 't', ' ', 'M', 'e', 'n', 'u', NUL] ++
  [DrawCall.h_line 0 54 127 1] ++
  small_letter_calls 12 (21 + ((cursor_position : Int) * 12)) '>'

/-- The calls of the drawing of the handler of `cur_state`, for the text buffers
and origins of the nine handlers. -/
def handler_calls (cur_state cursor_position : Nat) : List DrawCall :=
  if cur_state = VVC_STATE_SHOW_TIME then
    big_text_calls 37 26 1 0 ['T', 'I', 'M', 'E', ':', NUL]
  else if cur_state = VVC_STATE_IN_ALARM then
    big_text_calls 18 26 1 0 ['A', 'L', 'A', 'R', 'M', '!', '!', '!', '!', NUL]
  else if cur_state = VVC_STATE_MENU_PAGE_1 then menu_page_1_calls cursor_position
  else if cur_state = VVC_STATE_MENU_PAGE_2 then menu_page_2_calls cursor_position
  else if cur_state = VVC_STATE_SET_TIME then
    big_text_calls 18 26 1 0 ['S', 'E', 'T', ' ', 'T', 'I', 'M', 'E', ':', NUL]
  else if cur_state = VVC_STATE_SET_ALARM then
    big_text_calls 11 26 1 0 ['S', 'E', 'T', ' ', 'A', 'L', 'A', 'R', 'M', ':', NUL]
  else if cur_state = VVC_STATE_SET_ALARM_DAYS then
    big_text_calls 5 26 1 0 ['A', 'L', 'A', 'R', 'M', ' ', 'D', 'A', 'Y', 'S', ':', NUL]
  else if cur_state = VVC_STATE_SET_ALARM_TONE then
    big_text_calls 5 16 1 0 ['A', 'L', 'A', 'R', 'M', ' ', 'T', 'O', 'N', 'E', ':', NUL]
  else if cur_state = VVC_STATE_SET_ALARM_STATE then
    big_text_calls 18 16 1 0 ['A', 'L', 'A', 'R', 'M', ' ', 'O', 'N', '?', NUL]
  else []

/-- The drawing calls of one pass of the loop of `main` after the clear: the
frame (`main.c` line 68) and then the calls of the handler that the dispatch
selects. -/
def cycle_calls (cur_state cursor_position : Nat) : List DrawCall :=
  DrawCall.rect 0 0 127 63 2 1 :: handler_calls cur_state cursor_position

/-! ## Single pixels -/

theorem int_tdiv_natCast (y : Nat) : Int.tdiv (y : Int) 8 = ((y / 8 : Nat) : Int) := by
  exact (Int.ofNat_tdiv y 8).symm

theorem int_land_natCast (y : Nat) : Int.land (y : Int) 0x07 = ((y % 8 : Nat) : Int) := by
  have h : Int.land (y : Int) 0x07 = ((y &&& 7 : Nat) : Int) := rfl
  rw [h]
  have := Nat.and_pow_two_sub_one_eq_mod y 3
  simp at this
  rw [this]

theorem modify_in_range (fb : Framebuffer) (i : Nat) (h : i < OLED_FB_SIZE) (f : Nat → Nat) :
    fb.modify (i : Int) f =
      { fb with bytes := Function.update fb.bytes ⟨i, h⟩ (toByte (f (fb.bytes ⟨i, h⟩).val)) } := by
  unfold Framebuffer.modify
  have h2 : 0 ≤ (i : Int) ∧ (i : Int).toNat < OLED_FB_SIZE := ⟨Int.ofNat_nonneg i, by simpa using h⟩
  rw [dif_pos h2]
  simp

theorem pixel_index_lt (x y : Nat) (hx : x < 128) (hy : y < 64) :
    x + (y / 8) * 128 < OLED_FB_SIZE := by
  have : y / 8 ≤ 7 := by omega
  show x + (y / 8) * 128 < 1024
  omega

theorem oled_write_pixel_eq (fb : Framebuffer) (x y : Nat) (hx : x < 128) (hy : y < 64)
    (color : Fin 256) :
    oled_write_pixel x y color fb =
      { bytes := Function.update fb.bytes ⟨x + (y / 8) * 128, pixel_index_lt x y hx hy⟩
          (toByte (if color ≠ 0
            then (fb.bytes ⟨x + (y / 8) * 128, pixel_index_lt x y hx hy⟩).val ||| 1 <<< (y % 8)
            else (fb.bytes ⟨x + (y / 8) * 128, pixel_index_lt x y hx hy⟩).val
                    &&& bnot32 (1 <<< (y % 8)))),
        fault := fb.fault } := by
  have hidx : (x : Int) + ((y / 8 : Nat) : Int) * 128 = ((x + (y / 8) * 128 : Nat) : Int) := by
    push_cast; ring
  by_cases hc : color ≠ 0
  · simp only [oled_write_pixel, int_tdiv_natCast, int_land_natCast, Int.toNat_ofNat, hidx,
      if_pos hc, modify_in_range _ _ (pixel_index_lt x y hx hy)]
  · simp only [oled_write_pixel, int_tdiv_natCast, int_land_natCast, Int.toNat_ofNat, hidx,
      if_neg hc, modify_in_range _ _ (pixel_index_lt x y hx hy)]


theorem toByte_testBit (v j : Nat) :
    (toByte v).val.testBit j = (decide (j < 8) && v.testBit j) := by
  show (v % 2 ^ 8).testBit j = _
  exact Nat.testBit_mod_two_pow v 8 j

theorem byte_testBit_high (b : Fin 256) (j : Nat) (hj : 8 ≤ j) : b.val.testBit j = false := by
  apply Nat.testBit_lt_two_pow
  calc b.val < 2 ^ 8 := b.isLt
    _ ≤ 2 ^ j := Nat.pow_le_pow_right (by decide) hj

theorem bnot32_testBit (v i : Nat) (hv : v < 4294967296) :
    (bnot32 v).testBit i = (decide (i < 32) && !v.testBit i) := by
  unfold bnot32
  rw [Nat.mod_eq_of_lt hv]
  have h := @Nat.testBit_two_pow_sub_succ v 32 (by norm_num; exact hv) i
  have e : 4294967295 - v = 2 ^ 32 - (v + 1) := by norm_num; omega
  rw [e]; exact h

theorem set_bit_testBit (b : Fin 256) (k j : Nat) (hk : k < 8) :
    (toByte (b.val ||| 1 <<< k)).val.testBit j = (b.val.testBit j || decide (j = k)) := by
  rw [toByte_testBit, Nat.testBit_or, Nat.one_shiftLeft, Nat.testBit_two_pow]
  by_cases hj : j < 8
  · by_cases e : k = j <;> simp [hj, e, eq_comm]
  · have hb := byte_testBit_high b j (by omega)
    have : ¬ k = j := by omega
    have : ¬ j = k := by omega
    simp [hj, hb, *]

theorem clear_bit_testBit (b : Fin 256) (k j : Nat) (hk : k < 8) :
    (toByte (b.val &&& bnot32 (1 <<< k))).val.testBit j = (b.val.testBit j && !decide (j = k)) := by
  have hlt : (1 <<< k) < 4294967296 := by
    rw [Nat.one_shiftLeft]
    calc 2 ^ k < 2 ^ 32 := Nat.pow_lt_pow_right (by decide) (by omega)
      _ = 4294967296 := by norm_num
  rw [toByte_testBit, Nat.testBit_and, bnot32_testBit _ _ hlt, Nat.one_shiftLeft,
    Nat.testBit_two_pow]
  by_cases hj : j < 8
  · have : j < 32 := by omega
    by_cases e : k = j <;> simp [hj, e, eq_comm, this]
  · have hb := byte_testBit_high b j (by omega)
    simp [hj, hb]

theorem byteAt_mk_update (bytes : Fin OLED_FB_SIZE → Fin 256) (fl : Bool) (i : Nat)
    (h : i < OLED_FB_SIZE) (v : Fin 256) (j : Nat) :
    Framebuffer.byteAt { bytes := Function.update bytes ⟨i, h⟩ v, fault := fl } j =
      if j = i then v.val else Framebuffer.byteAt { bytes := bytes, fault := fl } j := by
  unfold Framebuffer.byteAt
  by_cases hj : j < OLED_FB_SIZE
  · simp only [dif_pos hj]
    by_cases e : j = i
    · subst e; simp
    · have : (⟨j, hj⟩ : Fin OLED_FB_SIZE) ≠ ⟨i, h⟩ := by
        intro hh; exact e (Fin.mk.inj_iff.mp hh)
      simp [Function.update_noteq this, e]
  · have : j ≠ i := by omega
    simp [dif_neg hj, this]

theorem oled_write_pixel_spec (fb : Framebuffer) (x y : Nat) (hx : x < 128) (hy : y < 64)
    (color : Fin 256) :
    (oled_write_pixel x y color fb).fault = fb.fault ∧
    ((oled_write_pixel x y color fb).byteAt (x + (y / 8) * 128)).testBit (y % 8)
        = decide (color ≠ 0) ∧
    (∀ k, k ≠ y % 8 →
      ((oled_write_pixel x y color fb).byteAt (x + (y / 8) * 128)).testBit k
        = (fb.byteAt (x + (y / 8) * 128)).testBit k) ∧
    (∀ i : Fin OLED_FB_SIZE, i.val ≠ x + (y / 8) * 128 →
      (oled_write_pixel x y color fb).bytes i = fb.bytes i) := by
  have hi := pixel_index_lt x y hx hy
  have hk : y % 8 < 8 := Nat.mod_lt _ (by decide)
  have hb : fb.byteAt (x + (y / 8) * 128) = (fb.bytes ⟨x + (y / 8) * 128, hi⟩).val := by
    unfold Framebuffer.byteAt; rw [dif_pos hi]
  rw [oled_write_pixel_eq fb x y hx hy color]
  refine ⟨rfl, ?_, ?_, ?_⟩
  · rw [byteAt_mk_update, if_pos rfl]
    by_cases hc : color ≠ 0
    · rw [if_pos hc, set_bit_testBit _ _ _ hk]; simp [hc]
    · rw [if_neg hc, clear_bit_testBit _ _ _ hk]; simp [hc]
  · intro k hne
    rw [byteAt_mk_update, if_pos rfl, hb]
    by_cases hc : color ≠ 0
    · rw [if_pos hc, set_bit_testBit _ _ _ hk]; simp [hne]
    · rw [if_neg hc, clear_bit_testBit _ _ _ hk]; simp [hne]
  · intro i hne
    have : i ≠ ⟨x + (y / 8) * 128, hi⟩ := by
      intro hh; exact hne (congrArg Fin.val hh)
    simp [Function.update_noteq this]

/-- C7: inside the screen, `oled_write_pixel (x, y, color)` makes bit `y mod 8` of
the byte at index `x + (y/8)*128` equal to `color != 0`, and changes no other bit
of that byte, no other byte of the framebuffer, and raises no fault. -/
theorem oled_write_pixel_one_bit (fb : Framebuffer) (x y : Nat) (hx : x < 128) (hy : y < 64)
    (color : Fin 256) :
    (oled_write_pixel x y color fb).fault = fb.fault ∧
    ((oled_write_pixel x y color fb).byteAt (x + (y / 8) * 128)).testBit (y % 8)
        = decide (color ≠ 0) ∧
    (∀ k, k ≠ y % 8 →
      ((oled_write_pixel x y color fb).byteAt (x + (y / 8) * 128)).testBit k
        = (fb.byteAt (x + (y / 8) * 128)).testBit k) ∧
    (∀ i : Fin OLED_FB_SIZE, i.val ≠ x + (y / 8) * 128 →
      (oled_write_pixel x y color fb).bytes i = fb.bytes i) :=
  oled_write_pixel_spec fb x y hx hy color

theorem framebuffer_ext (a b : Framebuffer) (hb : ∀ i, a.bytes i = b.bytes i)
    (hf : a.fault = b.fault) : a = b := by
  cases a; cases b
  simp only [Framebuffer.mk.injEq]
  exact ⟨funext hb, hf⟩

theorem byteAt_of_lt (fb : Framebuffer) (i : Nat) (h : i < OLED_FB_SIZE) :
    fb.byteAt i = (fb.bytes ⟨i, h⟩).val := by
  unfold Framebuffer.byteAt; rw [dif_pos h]

theorem pixel_on_off_bit (fb : Framebuffer) (x y : Nat) (hx : x < 128) (hy : y < 64) :
    ((oled_write_pixel x y 0 (oled_write_pixel x y 1 fb)).byteAt (x + (y / 8) * 128)).testBit
      (y % 8) = false := by
  have h := (oled_write_pixel_spec (oled_write_pixel x y 1 fb) x y hx hy 0).2.1
  simpa using h

/-- C8 (as amended): inside the screen, `oled_write_pixel (x, y, 1)` followed by
`oled_write_pixel (x, y, 0)` gives back the framebuffer it started from exactly
when pixel `(x, y)` was off before the two writes. -/
theorem oled_write_pixel_on_off (fb : Framebuffer) (x y : Nat) (hx : x < 128) (hy : y < 64) :
    oled_write_pixel x y 0 (oled_write_pixel x y 1 fb) = fb ↔ fb.pixel x y = false := by
  have hi := pixel_index_lt x y hx hy
  constructor
  · intro h
    have hb := pixel_on_off_bit fb x y hx hy
    rw [h] at hb
    exact hb
  · intro hoff
    have s1 := oled_write_pixel_spec fb x y hx hy 1
    have s0 := oled_write_pixel_spec (oled_write_pixel x y 1 fb) x y hx hy 0
    apply framebuffer_ext
    · intro i
      by_cases hidx : i.val = x + (y / 8) * 128
      · have hi' : i = ⟨x + (y / 8) * 128, hi⟩ := Fin.ext hidx
        subst hi'
        apply Fin.ext
        apply Nat.eq_of_testBit_eq
        intro j
        have e0 := byteAt_of_lt (oled_write_pixel x y 0 (oled_write_pixel x y 1 fb)) _ hi
        have e1 := byteAt_of_lt (oled_write_pixel x y 1 fb) _ hi
        have e2 := byteAt_of_lt fb _ hi
        rw [← e0, ← e2]
        by_cases hj : j = y % 8
        · subst hj
          rw [pixel_on_off_bit fb x y hx hy]
          exact hoff.symm
        · rw [s0.2.2.1 j hj, s1.2.2.1 j hj]
      · rw [s0.2.2.2 i hidx, s1.2.2.2 i hidx]
    · rw [s0.1, s1.1]


/-- Witness of C7: the theorem at pixel `(5, 10)` of the blank framebuffer. -/
theorem oled_write_pixel_one_bit_witness :
    (5 : Nat) < 128 ∧ (10 : Nat) < 64 ∧
    ((oled_write_pixel (5 : Nat) (10 : Nat) 1 (Framebuffer.const 0)).byteAt
        (5 + (10 / 8) * 128)).testBit (10 % 8) = decide ((1 : Fin 256) ≠ 0) :=
  ⟨by decide, by decide,
    (oled_write_pixel_one_bit (Framebuffer.const 0) 5 10 (by decide) (by decide) 1).2.1⟩

/-- Counterexample to C8 as stated: with every pixel on, writing pixel `(0, 0)`
on and then off leaves byte 0 at `0xFE` instead of `0xFF`, so the framebuffer
is not the one the two writes started from. -/
theorem oled_write_pixel_on_off_counterexample :
    (Framebuffer.const 255).pixel 0 0 = true ∧
    (oled_write_pixel (0 : Nat) (0 : Nat) 0
      (oled_write_pixel (0 : Nat) (0 : Nat) 1 (Framebuffer.const 255))).byteAt 0 = 254 ∧
    oled_write_pixel (0 : Nat) (0 : Nat) 0
      (oled_write_pixel (0 : Nat) (0 : Nat) 1 (Framebuffer.const 255)) ≠ Framebuffer.const 255 := by
  refine ⟨by decide, by decide, ?_⟩
  intro h
  have h2 := congrArg (fun f => Framebuffer.byteAt f 0) h
  revert h2
  decide

/-- Witness of C8 (as amended): pixel `(5, 10)` of the blank framebuffer is off,
and the two writes give the blank framebuffer back. -/
theorem oled_write_pixel_on_off_witness :
    (5 : Nat) < 128 ∧ (10 : Nat) < 64 ∧
    oled_write_pixel (5 : Nat) (10 : Nat) 0
      (oled_write_pixel (5 : Nat) (10 : Nat) 1 (Framebuffer.const 0)) = Framebuffer.const 0 :=
  ⟨by decide, by decide,
    (oled_write_pixel_on_off (Framebuffer.const 0) 5 10 (by decide) (by decide)).mpr
      (by decide)⟩


/-! ## BCD words -/

theorem load_time_cur_hours (g : Globals) :
    (load_time g).cur_hours =
      (((g.time_word &&& 0x00300000) >>> 20 : Nat) : Int) * 10
        + (((g.time_word &&& 0x000F0000) >>> 16 : Nat) : Int) := rfl

theorem load_time_cur_minutes (g : Globals) :
    (load_time g).cur_minutes =
      (((g.time_word &&& 0x0000F000) >>> 12 : Nat) : Int) * 10
        + (((g.time_word &&& 0x00000F00) >>> 8 : Nat) : Int) := rfl

theorem load_alarm_cur_hours (inp : Inputs) (g : Globals) :
    (load_alarm inp g).cur_hours =
      ((((inp.rtc_alarm % 4294967296) &&& 0x00003000) >>> 12 : Nat) : Int) * 10
        + ((((inp.rtc_alarm % 4294967296) &&& 0x00000F00) >>> 8 : Nat) : Int) := rfl

theorem load_alarm_cur_minutes (inp : Inputs) (g : Globals) :
    (load_alarm inp g).cur_minutes =
      ((((inp.rtc_alarm % 4294967296) &&& 0x000000F0) >>> 4 : Nat) : Int) * 10
        + (((inp.rtc_alarm % 4294967296) &&& 0x0000000F : Nat) : Int) := rfl

set_option maxRecDepth 100000 in
theorem bcd_enc_table : ∀ v < 60, bcd_enc ((v : Nat) : Int) = ((v / 10) <<< 4) ||| (v % 10) := by
  decide

set_option maxRecDepth 100000 in
theorem time_word_table : ∀ h < 24, ∀ m < 60,
    (((((bcd_enc (h : Nat) <<< 16) ||| (bcd_enc (m : Nat) <<< 8)) &&& 0x00300000) >>> 20 : Nat) : Int) * 10
      + (((((bcd_enc (h : Nat) <<< 16) ||| (bcd_enc (m : Nat) <<< 8)) &&& 0x000F0000) >>> 16 : Nat) : Int) = ((h : Nat) : Int)
    ∧ (((((bcd_enc (h : Nat) <<< 16) ||| (bcd_enc (m : Nat) <<< 8)) &&& 0x0000F000) >>> 12 : Nat) : Int) * 10
      + (((((bcd_enc (h : Nat) <<< 16) ||| (bcd_enc (m : Nat) <<< 8)) &&& 0x00000F00) >>> 8 : Nat) : Int) = ((m : Nat) : Int) := by
  decide

set_option maxRecDepth 100000 in
theorem alarm_reg_table : ∀ h < 24, ∀ m < 60,
    ((((((bcd_enc (h : Nat) <<< 8) ||| bcd_enc (m : Nat)) % 4294967296) &&& 0x00003000) >>> 12 : Nat) : Int) * 10
      + ((((((bcd_enc (h : Nat) <<< 8) ||| bcd_enc (m : Nat)) % 4294967296) &&& 0x00000F00) >>> 8 : Nat) : Int) = ((h : Nat) : Int)
    ∧ ((((((bcd_enc (h : Nat) <<< 8) ||| bcd_enc (m : Nat)) % 4294967296) &&& 0x000000F0) >>> 4 : Nat) : Int) * 10
      + (((((bcd_enc (h : Nat) <<< 8) ||| bcd_enc (m : Nat)) % 4294967296) &&& 0x0000000F : Nat) : Int) = ((m : Nat) : Int) := by
  decide


/-- C1: for hours in 0..23 and minutes in 0..59 the bytes of the commit code are
`((v/10) << 4) | (v%10)`, and both decoders give the pair back: the time-register
masks on `(hb << 16) | (mb << 8)` and the alarm-register masks on `(hb << 8) | mb`. -/
theorem bcd_round_trip (h m : Nat) (hh : h ≤ 23) (hm : m ≤ 59) (g : Globals) (inp : Inputs) :
    bcd_enc (h : Int) = ((h / 10) <<< 4) ||| (h % 10) ∧
    bcd_enc (m : Int) = ((m / 10) <<< 4) ||| (m % 10) ∧
    (load_time { g with time_word := (bcd_enc h <<< 16) ||| (bcd_enc m <<< 8) }).cur_hours
      = (h : Int) ∧
    (load_time { g with time_word := (bcd_enc h <<< 16) ||| (bcd_enc m <<< 8) }).cur_minutes
      = (m : Int) ∧
    (load_alarm { inp with rtc_alarm := (bcd_enc h <<< 8) ||| bcd_enc m } g).cur_hours
      = (h : Int) ∧
    (load_alarm { inp with rtc_alarm := (bcd_enc h <<< 8) ||| bcd_enc m } g).cur_minutes
      = (m : Int) := by
  have ht := time_word_table h (by omega) m (by omega)
  have ha := alarm_reg_table h (by omega) m (by omega)
  refine ⟨bcd_enc_table h (by omega), bcd_enc_table m (by omega), ?_, ?_, ?_, ?_⟩
  · rw [load_time_cur_hours]; exact ht.1
  · rw [load_time_cur_minutes]; exact ht.2
  · rw [load_alarm_cur_hours]; exact ha.1
  · rw [load_alarm_cur_minutes]; exact ha.2

/-- Witness of C1: the round trip at 07:30. -/
theorem bcd_round_trip_witness :
    (7 : Nat) ≤ 23 ∧ (30 : Nat) ≤ 59 ∧
    (load_time { main_init 0 with
      time_word := (bcd_enc (7 : Nat) <<< 16) ||| (bcd_enc (30 : Nat) <<< 8) }).cur_hours
        = ((7 : Nat) : Int) :=
  ⟨by decide, by decide,
    (bcd_round_trip 7 30 (by decide) (by decide) (main_init 0) ⟨0, 0, 0⟩).2.2.1⟩

/-! ## The alarm comparison -/

set_option maxRecDepth 100000 in
theorem alarm_word_table : ∀ h < 24, ∀ m < 60,
    shl32 (((bcd_enc (h : Nat) <<< 8) ||| bcd_enc (m : Nat)) % 4294967296) 8
        = (bcd_enc (h : Nat) <<< 16) ||| (bcd_enc (m : Nat) <<< 8)
    ∧ ((bcd_enc (h : Nat) <<< 16) ||| (bcd_enc (m : Nat) <<< 8)) &&& 0x00FFFF00
        = (bcd_enc (h : Nat) <<< 16) ||| (bcd_enc (m : Nat) <<< 8) := by
  decide

set_option maxRecDepth 100000 in
theorem low_byte_masked : ∀ s < 256, s &&& 0x00FFFF00 = 0 := by
  decide

theorem time_word_inj (h h' m m' : Nat) (hh : h < 24) (hh' : h' < 24) (hm : m < 60)
    (hm' : m' < 60)
    (e : (bcd_enc (h : Nat) <<< 16) ||| (bcd_enc (m : Nat) <<< 8)
          = (bcd_enc (h' : Nat) <<< 16) ||| (bcd_enc (m' : Nat) <<< 8)) :
    h = h' ∧ m = m' := by
  have t := time_word_table h hh m hm
  have t' := time_word_table h' hh' m' hm'
  rw [e] at t
  constructor
  · have := t.1.symm.trans t'.1
    exact_mod_cast this
  · have := t.2.symm.trans t'.2
    exact_mod_cast this

/-- C2: on well-formed words the test of the main loop, `(time_word & 0x00FFFF00)
== alarm_word` with `alarm_word` the raw alarm register shifted left by 8 as
`main` does, holds exactly when hours and minutes agree, whatever the low byte
of the time word is. -/
theorem alarm_match_iff (h h' m m' s : Nat) (hh : h ≤ 23) (hh' : h' ≤ 23) (hm : m ≤ 59)
    (hm' : m' ≤ 59) (hs : s < 256) :
    alarm_match ((bcd_enc (h : Nat) <<< 16) ||| (bcd_enc (m : Nat) <<< 8) ||| s)
        (main_init ((bcd_enc (h' : Nat) <<< 8) ||| bcd_enc (m' : Nat))).alarm_word = true
      ↔ h = h' ∧ m = m' := by
  have a := alarm_word_table h (by omega) m (by omega)
  have a' := alarm_word_table h' (by omega) m' (by omega)
  have hw : (main_init ((bcd_enc (h' : Nat) <<< 8) ||| bcd_enc (m' : Nat))).alarm_word
      = (bcd_enc (h' : Nat) <<< 16) ||| (bcd_enc (m' : Nat) <<< 8) := a'.1
  have hl : ((bcd_enc (h : Nat) <<< 16) ||| (bcd_enc (m : Nat) <<< 8) ||| s) &&& 0x00FFFF00
      = (bcd_enc (h : Nat) <<< 16) ||| (bcd_enc (m : Nat) <<< 8) := by
    rw [Nat.and_distrib_right, a.2, low_byte_masked s hs, Nat.or_zero]
  unfold alarm_match
  rw [hw, hl, decide_eq_true_iff]
  constructor
  · intro e
    exact time_word_inj h h' m m' (by omega) (by omega) (by omega) (by omega) e
  · rintro ⟨rfl, rfl⟩
    rfl

/-- Witness of C2: 07:30 matches 07:30, and neither 08:30 nor 07:31 matches it. -/
theorem alarm_match_iff_witness :
    alarm_match ((bcd_enc (7 : Nat) <<< 16) ||| (bcd_enc (30 : Nat) <<< 8) ||| 0x59)
        (main_init ((bcd_enc (7 : Nat) <<< 8) ||| bcd_enc (30 : Nat))).alarm_word = true
    ∧ alarm_match ((bcd_enc (8 : Nat) <<< 16) ||| (bcd_enc (30 : Nat) <<< 8) ||| 0x59)
        (main_init ((bcd_enc (7 : Nat) <<< 8) ||| bcd_enc (30 : Nat))).alarm_word ≠ true
    ∧ alarm_match ((bcd_enc (7 : Nat) <<< 16) ||| (bcd_enc (31 : Nat) <<< 8) ||| 0x59)
        (main_init ((bcd_enc (7 : Nat) <<< 8) ||| bcd_enc (30 : Nat))).alarm_word ≠ true :=
  ⟨(alarm_match_iff 7 7 30 30 0x59 (by decide) (by decide) (by decide) (by decide)
      (by decide)).mpr ⟨rfl, rfl⟩,
   fun e => absurd ((alarm_match_iff 8 7 30 30 0x59 (by decide) (by decide) (by decide)
      (by decide) (by decide)).mp e).1 (by decide),
   fun e => absurd ((alarm_match_iff 7 7 31 30 0x59 (by decide) (by decide) (by decide)
      (by decide) (by decide)).mp e).2 (by decide)⟩


/-! ## Frame lemmas: which globals a block of a handler can change -/

theorem edit_up_down_frame (inp : Inputs) (g : Globals) :
    edit_up_down inp g = { g with cur_hours := (edit_up_down inp g).cur_hours,
                                  cur_minutes := (edit_up_down inp g).cur_minutes } := by
  simp only [edit_up_down]; split_ifs <;> rfl

theorem menu_page_1_up_down_frame (inp : Inputs) (g : Globals) :
    menu_page_1_up_down inp g =
      { g with cur_state := (menu_page_1_up_down inp g).cur_state,
               cursor_position := (menu_page_1_up_down inp g).cursor_position } := by
  simp only [menu_page_1_up_down]; split_ifs <;> rfl

theorem menu_page_2_up_down_frame (inp : Inputs) (g : Globals) :
    menu_page_2_up_down inp g =
      { g with cur_state := (menu_page_2_up_down inp g).cur_state,
               cursor_position := (menu_page_2_up_down inp g).cursor_position } := by
  simp only [menu_page_2_up_down]; split_ifs <;> rfl

theorem menu_page_1_select_frame (inp : Inputs) (g : Globals) :
    menu_page_1_select inp g =
      { g with cur_state := (menu_page_1_select inp g).cur_state,
               cursor_position := (menu_page_1_select inp g).cursor_position,
               time_to_set := (menu_page_1_select inp g).time_to_set,
               cur_hours := (menu_page_1_select inp g).cur_hours,
               cur_minutes := (menu_page_1_select inp g).cur_minutes } := by
  simp only [menu_page_1_select, menu_page_1_choose, load_time, load_alarm]; split_ifs <;> rfl

theorem menu_page_2_select_frame (inp : Inputs) (g : Globals) :
    menu_page_2_select inp g =
      { g with cur_state := (menu_page_2_select inp g).cur_state,
               cursor_position := (menu_page_2_select inp g).cursor_position,
               time_to_set := (menu_page_2_select inp g).time_to_set,
               cur_hours := (menu_page_2_select inp g).cur_hours,
               cur_minutes := (menu_page_2_select inp g).cur_minutes } := by
  simp only [menu_page_2_select, menu_page_2_choose, load_alarm]; split_ifs <;> rfl

theorem set_time_select_frame (inp : Inputs) (g : Globals) :
    set_time_select inp g =
      { g with cur_state := (set_time_select inp g).cur_state,
               cursor_position := (set_time_select inp g).cursor_position,
               hw := (set_time_select inp g).hw } := by
  simp only [set_time_select]; split_ifs <;> rfl

theorem set_alarm_select_frame (inp : Inputs) (g : Globals) :
    set_alarm_select inp g =
      { g with cur_state := (set_alarm_select inp g).cur_state,
               cursor_position := (set_alarm_select inp g).cursor_position,
               alarm_word := (set_alarm_select inp g).alarm_word,
               hw := (set_alarm_select inp g).hw } := by
  simp only [set_alarm_select]; split_ifs <;> rfl

/-- No handler writes `last_button_state` or `time_word`. -/
theorem dispatch_inputs_frame (inp : Inputs) (g : Globals) :
    (main_dispatch inp g).last_button_state = g.last_button_state ∧
    (main_dispatch inp g).time_word = g.time_word := by
  unfold main_dispatch
  split_ifs
  · simp only [process_show_time_state]; split_ifs <;> exact ⟨rfl, rfl⟩
  · simp only [process_in_alarm_state]; split_ifs <;> exact ⟨rfl, rfl⟩
  · simp only [process_menu_page_1_state]
    rw [menu_page_1_select_frame, menu_page_1_up_down_frame]; exact ⟨rfl, rfl⟩
  · simp only [process_menu_page_2_state]
    rw [menu_page_2_select_frame, menu_page_2_up_down_frame]; exact ⟨rfl, rfl⟩
  · simp only [process_set_time_state]
    rw [set_time_select_frame, edit_up_down_frame]; exact ⟨rfl, rfl⟩
  · simp only [process_set_alarm_state]
    rw [set_alarm_select_frame, edit_up_down_frame]; exact ⟨rfl, rfl⟩
  · simp only [process_set_alarm_days_state]; split_ifs <;> exact ⟨rfl, rfl⟩
  · simp only [process_set_alarm_tone_state]; split_ifs <;> exact ⟨rfl, rfl⟩
  · simp only [process_set_alarm_state_state]; split_ifs <;> exact ⟨rfl, rfl⟩
  · exact ⟨rfl, rfl⟩


/-! ## The alarm check and the cycle loop -/

/-- C3: the alarm check runs on the refreshed globals before the dispatch; on a
match with `alarm_remember_off` zero it forces `InAlarm` with the cursor at 0, on
a match with the flag set it changes nothing, and without a match it clears the
flag and leaves state and cursor alone. -/
theorem main_alarm_check_spec (inp : Inputs) (g : Globals) :
    (main_loop_body inp g).cur_state
        = (main_dispatch inp (main_alarm_check (main_refresh inp g))).cur_state ∧
    (alarm_match g.time_word g.alarm_word = true → g.alarm_remember_off = 0 →
      (main_alarm_check g).cur_state = VVC_STATE_IN_ALARM ∧
      (main_alarm_check g).cursor_position = 0) ∧
    (alarm_match g.time_word g.alarm_word = true → g.alarm_remember_off ≠ 0 →
      (main_alarm_check g).cur_state = g.cur_state ∧
      (main_alarm_check g).cursor_position = g.cursor_position ∧
      (main_alarm_check g).alarm_remember_off = g.alarm_remember_off) ∧
    (alarm_match g.time_word g.alarm_word = false →
      (main_alarm_check g).alarm_remember_off = 0 ∧
      (main_alarm_check g).cur_state = g.cur_state ∧
      (main_alarm_check g).cursor_position = g.cursor_position) := by
  refine ⟨rfl, ?_, ?_, ?_⟩
  · intro hm hf
    simp [main_alarm_check, hm, hf]
  · intro hm hf
    simp [main_alarm_check, hm, hf]
  · intro hm
    simp [main_alarm_check, hm]

/-- Witness of C3: a match with the flag clear, a match with the flag set, and a
mismatch, each at the alarm word of 07:30. -/
theorem main_alarm_check_spec_witness :
    ((main_alarm_check { main_init 0x0730 with
        time_word := 0x00073012, cur_state := VVC_STATE_MENU_PAGE_1,
        cursor_position := 2 }).cur_state = VVC_STATE_IN_ALARM ∧
     (main_alarm_check { main_init 0x0730 with
        time_word := 0x00073012, cur_state := VVC_STATE_MENU_PAGE_1,
        cursor_position := 2 }).cursor_position = 0) ∧
    ((main_alarm_check { main_init 0x0730 with
        time_word := 0x00073012, cur_state := VVC_STATE_MENU_PAGE_1,
        cursor_position := 2, alarm_remember_off := 1 }).cur_state = VVC_STATE_MENU_PAGE_1 ∧
     (main_alarm_check { main_init 0x0730 with
        time_word := 0x00073012, cur_state := VVC_STATE_MENU_PAGE_1,
        cursor_position := 2, alarm_remember_off := 1 }).cursor_position = 2 ∧
     (main_alarm_check { main_init 0x0730 with
        time_word := 0x00073012, cur_state := VVC_STATE_MENU_PAGE_1,
        cursor_position := 2, alarm_remember_off := 1 }).alarm_remember_off = 1) ∧
    ((main_alarm_check { main_init 0x0730 with
        time_word := 0x00073100, cur_state := VVC_STATE_MENU_PAGE_1,
        cursor_position := 2, alarm_remember_off := 1 }).alarm_remember_off = 0 ∧
     (main_alarm_check { main_init 0x0730 with
        time_word := 0x00073100, cur_state := VVC_STATE_MENU_PAGE_1,
        cursor_position := 2, alarm_remember_off := 1 }).cur_state = VVC_STATE_MENU_PAGE_1 ∧
     (main_alarm_check { main_init 0x0730 with
        time_word := 0x00073100, cur_state := VVC_STATE_MENU_PAGE_1,
        cursor_position := 2, alarm_remember_off := 1 }).cursor_position = 2) :=
  ⟨(main_alarm_check_spec ⟨0, 0, 0⟩ _).2.1 (by decide) (by decide),
   (main_alarm_check_spec ⟨0, 0, 0⟩ _).2.2.1 (by decide) (by decide),
   (main_alarm_check_spec ⟨0, 0, 0⟩ _).2.2.2 (by decide)⟩

theorem main_loop_append (l1 l2 : List Inputs) (g : Globals) :
    main_loop (l1 ++ l2) g = main_loop l2 (main_loop l1 g) := by
  induction l1 generalizing g with
  | nil => rfl
  | cons inp rest ih => exact ih (main_loop_body inp g)

theorem main_loop_take_succ (l : List Inputs) (k : Nat) (hk : k < l.length) (g : Globals) :
    main_loop (l.take (k + 1)) g = main_loop_body (l.get ⟨k, hk⟩) (main_loop (l.take k) g) := by
  have h : l.take (k + 1) = l.take k ++ [l.get ⟨k, hk⟩] := by
    rw [List.take_succ]
    simp [List.getElem?_eq_getElem hk]
  rw [h, main_loop_append]
  rfl

theorem main_loop_body_last_button_state (inp : Inputs) (g : Globals) :
    (main_loop_body inp g).last_button_state = (bnot32 inp.idr) &&& 0xE0 := rfl

theorem button_mask_absorb (r B : Nat)
    (hB : B = IOA_BUTTON_UP ∨ B = IOA_BUTTON_SELECT ∨ B = IOA_BUTTON_DOWN) :
    (r &&& 0xE0) &&& B = r &&& B := by
  rw [Nat.and_assoc]
  rcases hB with rfl | rfl | rfl <;> rfl

theorem main_alarm_check_last_button_state (inp : Inputs) (g : Globals) :
    (main_alarm_check (main_refresh inp g)).last_button_state = g.last_button_state := by
  simp only [main_alarm_check]
  split_ifs <;> rfl

/-- C5: over the cycle loop started by `main`, the just-pressed test that the
handler of cycle `i` makes for a button holds exactly when the button is down in
the raw sample of cycle `i` and either `i = 0` or the button was up in the raw
sample of cycle `i - 1`. -/
theorem edge_detection (rtc_alarm : Nat) (inputs : List Inputs) (i : Nat)
    (hi : i < inputs.length) (B : Nat)
    (hB : B = IOA_BUTTON_UP ∨ B = IOA_BUTTON_SELECT ∨ B = IOA_BUTTON_DOWN) :
    button_pressed (inputs.get ⟨i, hi⟩).idr
        (main_alarm_check (main_refresh (inputs.get ⟨i, hi⟩)
          (main_loop (inputs.take i) (main_init rtc_alarm)))).last_button_state B = true
      ↔ (bnot32 (inputs.get ⟨i, hi⟩).idr &&& B ≠ 0 ∧
          (i = 0 ∨ bnot32 (inputs.get ⟨i - 1, by omega⟩).idr &&& B = 0)) := by
  rw [main_alarm_check_last_button_state]
  cases i with
  | zero =>
    have h0 : (main_loop (inputs.take 0) (main_init rtc_alarm)).last_button_state = 0 := rfl
    rw [h0]
    simp [button_pressed]
  | succ k =>
    have hk : k < inputs.length := by omega
    rw [main_loop_take_succ inputs k hk, main_loop_body_last_button_state]
    simp only [button_pressed, button_mask_absorb _ B hB]
    simp

/-- Witness of C5: for the raw sequence Up, Up, none, Up the Up event is true at
indices 0 and 3 and false at indices 1 and 2. -/
theorem edge_detection_witness :
    button_pressed (held_up_inputs.get ⟨0, by decide⟩).idr
      (main_alarm_check (main_refresh (held_up_inputs.get ⟨0, by decide⟩)
        (main_loop (held_up_inputs.take 0) (main_init 0)))).last_button_state
      IOA_BUTTON_UP = true
    ∧ ¬ button_pressed (held_up_inputs.get ⟨1, by decide⟩).idr
      (main_alarm_check (main_refresh (held_up_inputs.get ⟨1, by decide⟩)
        (main_loop (held_up_inputs.take 1) (main_init 0)))).last_button_state
      IOA_BUTTON_UP = true
    ∧ ¬ button_pressed (held_up_inputs.get ⟨2, by decide⟩).idr
      (main_alarm_check (main_refresh (held_up_inputs.get ⟨2, by decide⟩)
        (main_loop (held_up_inputs.take 2) (main_init 0)))).last_button_state
      IOA_BUTTON_UP = true
    ∧ button_pressed (held_up_inputs.get ⟨3, by decide⟩).idr
      (main_alarm_check (main_refresh (held_up_inputs.get ⟨3, by decide⟩)
        (main_loop (held_up_inputs.take 3) (main_init 0)))).last_button_state
      IOA_BUTTON_UP = true :=
  ⟨(edge_detection 0 held_up_inputs 0 (by decide) _ (Or.inl rfl)).mpr
      ⟨by decide, Or.inl rfl⟩,
   fun e => absurd ((edge_detection 0 held_up_inputs 1 (by decide) _ (Or.inl rfl)).mp e)
      (by decide),
   fun e => absurd ((edge_detection 0 held_up_inputs 2 (by decide) _ (Or.inl rfl)).mp e)
      (by decide),
   (edge_detection 0 held_up_inputs 3 (by decide) _ (Or.inl rfl)).mpr
      ⟨by decide, Or.inr (by decide)⟩⟩

theorem menu_page_1_up_down_not_alarm (inp : Inputs) (g : Globals)
    (h : g.cur_state ≠ VVC_STATE_IN_ALARM) :
    (menu_page_1_up_down inp g).cur_state ≠ VVC_STATE_IN_ALARM := by
  simp only [menu_page_1_up_down]; split_ifs <;> first | exact h | (dsimp only; decide)

theorem menu_page_2_up_down_not_alarm (inp : Inputs) (g : Globals)
    (h : g.cur_state ≠ VVC_STATE_IN_ALARM) :
    (menu_page_2_up_down inp g).cur_state ≠ VVC_STATE_IN_ALARM := by
  simp only [menu_page_2_up_down]; split_ifs <;> first | exact h | (dsimp only; decide)

theorem menu_page_1_select_not_alarm (inp : Inputs) (g : Globals)
    (h : g.cur_state ≠ VVC_STATE_IN_ALARM) :
    (menu_page_1_select inp g).cur_state ≠ VVC_STATE_IN_ALARM := by
  simp only [menu_page_1_select, menu_page_1_choose, load_time, load_alarm]
  split_ifs <;> first | exact h | (dsimp only; decide)

theorem menu_page_2_select_not_alarm (inp : Inputs) (g : Globals)
    (h : g.cur_state ≠ VVC_STATE_IN_ALARM) :
    (menu_page_2_select inp g).cur_state ≠ VVC_STATE_IN_ALARM := by
  simp only [menu_page_2_select, menu_page_2_choose, load_alarm]
  split_ifs <;> first | exact h | (dsimp only; decide)

theorem set_time_select_not_alarm (inp : Inputs) (g : Globals)
    (h : g.cur_state ≠ VVC_STATE_IN_ALARM) :
    (set_time_select inp g).cur_state ≠ VVC_STATE_IN_ALARM := by
  simp only [set_time_select]; split_ifs <;> first | exact h | (dsimp only; decide)

theorem set_alarm_select_not_alarm (inp : Inputs) (g : Globals)
    (h : g.cur_state ≠ VVC_STATE_IN_ALARM) :
    (set_alarm_select inp g).cur_state ≠ VVC_STATE_IN_ALARM := by
  simp only [set_alarm_select]; split_ifs <;> first | exact h | (dsimp only; decide)

theorem edit_up_down_cur_state (inp : Inputs) (g : Globals) :
    (edit_up_down inp g).cur_state = g.cur_state := by
  rw [edit_up_down_frame]

theorem stub_handlers_not_alarm (inp : Inputs) (g : Globals)
    (h : g.cur_state ≠ VVC_STATE_IN_ALARM) :
    ((process_show_time_state inp g).cur_state ≠ VVC_STATE_IN_ALARM ∧
      (process_show_time_state inp g).alarm_remember_off = g.alarm_remember_off) ∧
    ((process_set_alarm_days_state inp g).cur_state ≠ VVC_STATE_IN_ALARM ∧
      (process_set_alarm_days_state inp g).alarm_remember_off = g.alarm_remember_off) ∧
    ((process_set_alarm_tone_state inp g).cur_state ≠ VVC_STATE_IN_ALARM ∧
      (process_set_alarm_tone_state inp g).alarm_remember_off = g.alarm_remember_off) ∧
    ((process_set_alarm_state_state inp g).cur_state ≠ VVC_STATE_IN_ALARM ∧
      (process_set_alarm_state_state inp g).alarm_remember_off = g.alarm_remember_off) := by
  refine ⟨?_, ?_, ?_, ?_⟩
  · simp only [process_show_time_state]
    split_ifs
    · exact ⟨by dsimp only; decide, rfl⟩
    · exact ⟨h, rfl⟩
  · simp only [process_set_alarm_days_state]
    split_ifs
    · exact ⟨by dsimp only; decide, rfl⟩
    · exact ⟨h, rfl⟩
  · simp only [process_set_alarm_tone_state]
    split_ifs
    · exact ⟨by dsimp only; decide, rfl⟩
    · exact ⟨h, rfl⟩
  · simp only [process_set_alarm_state_state]
    split_ifs
    · exact ⟨by dsimp only; decide, rfl⟩
    · exact ⟨h, rfl⟩

theorem menu_handlers_not_alarm (inp : Inputs) (g : Globals)
    (h : g.cur_state ≠ VVC_STATE_IN_ALARM) :
    ((process_menu_page_1_state inp g).cur_state ≠ VVC_STATE_IN_ALARM ∧
      (process_menu_page_1_state inp g).alarm_remember_off = g.alarm_remember_off) ∧
    ((process_menu_page_2_state inp g).cur_state ≠ VVC_STATE_IN_ALARM ∧
      (process_menu_page_2_state inp g).alarm_remember_off = g.alarm_remember_off) := by
  refine ⟨⟨?_, ?_⟩, ⟨?_, ?_⟩⟩
  · simp only [process_menu_page_1_state]
    apply menu_page_1_select_not_alarm
    apply menu_page_1_up_down_not_alarm
    exact h
  · simp only [process_menu_page_1_state]
    rw [menu_page_1_select_frame, menu_page_1_up_down_frame]
  · simp only [process_menu_page_2_state]
    apply menu_page_2_select_not_alarm
    apply menu_page_2_up_down_not_alarm
    exact h
  · simp only [process_menu_page_2_state]
    rw [menu_page_2_select_frame, menu_page_2_up_down_frame]

theorem edit_handlers_not_alarm (inp : Inputs) (g : Globals)
    (h : g.cur_state ≠ VVC_STATE_IN_ALARM) :
    ((process_set_time_state inp g).cur_state ≠ VVC_STATE_IN_ALARM ∧
      (process_set_time_state inp g).alarm_remember_off = g.alarm_remember_off) ∧
    ((process_set_alarm_state inp g).cur_state ≠ VVC_STATE_IN_ALARM ∧
      (process_set_alarm_state inp g).alarm_remember_off = g.alarm_remember_off) := by
  refine ⟨⟨?_, ?_⟩, ⟨?_, ?_⟩⟩
  · simp only [process_set_time_state]
    apply set_time_select_not_alarm
    rw [edit_up_down_cur_state]
    exact h
  · simp only [process_set_time_state]
    rw [set_time_select_frame, edit_up_down_frame]
  · simp only [process_set_alarm_state]
    apply set_alarm_select_not_alarm
    rw [edit_up_down_cur_state]
    exact h
  · simp only [process_set_alarm_state]
    rw [set_alarm_select_frame, edit_up_down_frame]

/-- Outside `InAlarm` no handler enters `InAlarm` or writes `alarm_remember_off`. -/
theorem dispatch_not_alarm (inp : Inputs) (g : Globals)
    (h : g.cur_state ≠ VVC_STATE_IN_ALARM) :
    (main_dispatch inp g).cur_state ≠ VVC_STATE_IN_ALARM ∧
    (main_dispatch inp g).alarm_remember_off = g.alarm_remember_off := by
  have s := stub_handlers_not_alarm inp g h
  have m := menu_handlers_not_alarm inp g h
  have e := edit_handlers_not_alarm inp g h
  unfold main_dispatch
  rw [if_neg h]
  split_ifs
  · exact s.1
  · exact m.1
  · exact m.2
  · exact e.1
  · exact e.2
  · exact s.2.1
  · exact s.2.2.1
  · exact s.2.2.2
  · exact ⟨h, rfl⟩

/-- One pass that starts outside `InAlarm` with the flag set, and whose time
word matches the alarm word, ends outside `InAlarm` with the flag unchanged. -/
theorem main_loop_body_flag_set (inp : Inputs) (g : Globals)
    (hs : g.cur_state ≠ VVC_STATE_IN_ALARM) (hf : g.alarm_remember_off = 1)
    (hm : alarm_match (inp.rtc_time % 4294967296) g.alarm_word = true) :
    main_alarm_check (main_refresh inp g) = main_refresh inp g ∧
    (main_loop_body inp g).cur_state ≠ VVC_STATE_IN_ALARM ∧
    (main_loop_body inp g).alarm_remember_off = 1 := by
  have hc : main_alarm_check (main_refresh inp g) = main_refresh inp g := by
    have hm2 : alarm_match (main_refresh inp g).time_word (main_refresh inp g).alarm_word
        = true := hm
    have hf2 : (main_refresh inp g).alarm_remember_off = 1 := hf
    simp [main_alarm_check, hm2, hf2]
  have hd := dispatch_not_alarm inp (main_refresh inp g) hs
  refine ⟨hc, ?_, ?_⟩
  · show (main_dispatch inp (main_alarm_check (main_refresh inp g))).cur_state ≠ _
    rw [hc]; exact hd.1
  · show (main_dispatch inp (main_alarm_check (main_refresh inp g))).alarm_remember_off = 1
    rw [hc, hd.2]; exact hf

/-- C4: after a dismissal (`ShowTime`, `alarm_remember_off = 1`), as long as the
time word read in each following cycle still matches the alarm word, whatever
the buttons do, the alarm check changes nothing, `cur_state` is not `InAlarm`
after any of those cycles, and `alarm_remember_off` stays 1. -/
theorem no_retrigger_after_dismissal (g : Globals) (inputs : List Inputs)
    (hs : g.cur_state = VVC_STATE_SHOW_TIME) (hf : g.alarm_remember_off = 1)
    (hm : ∀ (k : Nat) (hk : k < inputs.length),
      alarm_match ((inputs.get ⟨k, hk⟩).rtc_time % 4294967296)
        (main_loop (inputs.take k) g).alarm_word = true) :
    (∀ k, (main_loop (inputs.take k) g).cur_state ≠ VVC_STATE_IN_ALARM ∧
          (main_loop (inputs.take k) g).alarm_remember_off = 1) ∧
    (∀ (k : Nat) (hk : k < inputs.length),
      (main_alarm_check (main_refresh (inputs.get ⟨k, hk⟩) (main_loop (inputs.take k) g))).cur_state
        ≠ VVC_STATE_IN_ALARM) := by
  have inv : ∀ k, (main_loop (inputs.take k) g).cur_state ≠ VVC_STATE_IN_ALARM ∧
      (main_loop (inputs.take k) g).alarm_remember_off = 1 := by
    intro k
    induction k with
    | zero =>
      refine ⟨?_, hf⟩
      show g.cur_state ≠ _
      rw [hs]; decide
    | succ k ih =>
      by_cases hk : k < inputs.length
      · rw [main_loop_take_succ inputs k hk]
        exact (main_loop_body_flag_set _ _ ih.1 ih.2 (hm k hk)).2
      · have e : inputs.take (k + 1) = inputs.take k := by
          rw [List.take_of_length_le (by omega), List.take_of_length_le (by omega)]
        rw [e]; exact ih
  refine ⟨inv, ?_⟩
  intro k hk
  rw [(main_loop_body_flag_set _ _ (inv k).1 (inv k).2 (hm k hk)).1]
  exact (inv k).1


/-- Witness of C4: after a dismissal at 07:30, a pass with Select pressed and a
pass with no button, both still reading 07:30, end outside `InAlarm` with the
flag still 1. -/
theorem no_retrigger_after_dismissal_witness :
    (main_loop ([Inputs.ofRaw IOA_BUTTON_SELECT 0x00073000, Inputs.ofRaw 0 0x00073001].take 2)
        { main_init 0x0730 with alarm_remember_off := 1 }).cur_state ≠ VVC_STATE_IN_ALARM ∧
    (main_loop ([Inputs.ofRaw IOA_BUTTON_SELECT 0x00073000, Inputs.ofRaw 0 0x00073001].take 2)
        { main_init 0x0730 with alarm_remember_off := 1 }).alarm_remember_off = 1 :=
  (no_retrigger_after_dismissal { main_init 0x0730 with alarm_remember_off := 1 }
    [Inputs.ofRaw IOA_BUTTON_SELECT 0x00073000, Inputs.ofRaw 0 0x00073001] rfl rfl
    (by decide)).1 2


/-! ## The edit handlers -/

theorem set_time_select_idle (inp : Inputs) (g : Globals)
    (h : button_pressed inp.idr g.last_button_state IOA_BUTTON_SELECT = false) :
    set_time_select inp g = g := by
  simp [set_time_select, h]

theorem set_alarm_select_idle (inp : Inputs) (g : Globals)
    (h : button_pressed inp.idr g.last_button_state IOA_BUTTON_SELECT = false) :
    set_alarm_select inp g = g := by
  simp [set_alarm_select, h]

theorem edit_up_down_last_button_state (inp : Inputs) (g : Globals) :
    (edit_up_down inp g).last_button_state = g.last_button_state := by
  rw [edit_up_down_frame]

theorem edit_up_down_cursor_position (inp : Inputs) (g : Globals) :
    (edit_up_down inp g).cursor_position = g.cursor_position := by
  rw [edit_up_down_frame]

theorem edit_up_down_hw (inp : Inputs) (g : Globals) :
    (edit_up_down inp g).hw = g.hw := by
  rw [edit_up_down_frame]

/-- The edit fields after the Up/Down block, for values in range. -/
theorem edit_up_down_fields (inp : Inputs) (g : Globals)
    (hh : 0 ≤ g.cur_hours ∧ g.cur_hours ≤ 23) (hm : 0 ≤ g.cur_minutes ∧ g.cur_minutes ≤ 59) :
    (button_pressed inp.idr g.last_button_state IOA_BUTTON_UP = true →
      (g.cursor_position = 0 →
        (edit_up_down inp g).cur_hours = (g.cur_hours + 1) % 24 ∧
        (edit_up_down inp g).cur_minutes = g.cur_minutes) ∧
      (g.cursor_position = 1 →
        (edit_up_down inp g).cur_minutes = (g.cur_minutes + 1) % 60 ∧
        (edit_up_down inp g).cur_hours = g.cur_hours)) ∧
    (button_pressed inp.idr g.last_button_state IOA_BUTTON_UP = false →
      button_pressed inp.idr g.last_button_state IOA_BUTTON_DOWN = true →
      (g.cursor_position = 0 →
        (edit_up_down inp g).cur_hours = (g.cur_hours + 23) % 24 ∧
        (edit_up_down inp g).cur_minutes = g.cur_minutes) ∧
      (g.cursor_position = 1 →
        (edit_up_down inp g).cur_minutes = (g.cur_minutes + 59) % 60 ∧
        (edit_up_down inp g).cur_hours = g.cur_hours)) ∧
    (button_pressed inp.idr g.last_button_state IOA_BUTTON_UP = false →
      button_pressed inp.idr g.last_button_state IOA_BUTTON_DOWN = false →
      (edit_up_down inp g).cur_hours = g.cur_hours ∧
      (edit_up_down inp g).cur_minutes = g.cur_minutes) := by
  refine ⟨?_, ?_, ?_⟩
  · intro hu
    refine ⟨?_, ?_⟩
    · intro hc
      simp only [edit_up_down, hu, hc, if_true]
      split_ifs
      all_goals (try dsimp only at *)
      all_goals omega
    · intro hc
      simp only [edit_up_down, hu, hc, if_true]
      split_ifs
      all_goals (try dsimp only at *)
      all_goals omega
  · intro hu hd
    refine ⟨?_, ?_⟩
    · intro hc
      simp only [edit_up_down, hu, hd, hc, if_true]
      split_ifs
      all_goals (try dsimp only at *)
      all_goals omega
    · intro hc
      simp only [edit_up_down, hu, hd, hc, if_true]
      split_ifs
      all_goals (try dsimp only at *)
      all_goals omega
  · intro hu hd
    simp [edit_up_down, hu, hd]


theorem process_set_time_state_idle (inp : Inputs) (g : Globals)
    (h : button_pressed inp.idr g.last_button_state IOA_BUTTON_SELECT = false) :
    process_set_time_state inp g =
      edit_up_down inp
        { g with oled_fb := set_time_draw g.oled_fb, hw := g.hw ++ show_edit_digits g } := by
  simp only [process_set_time_state]
  rw [set_time_select_idle]
  · rfl
  · rw [edit_up_down_last_button_state]; exact h

theorem process_set_alarm_state_idle (inp : Inputs) (g : Globals)
    (h : button_pressed inp.idr g.last_button_state IOA_BUTTON_SELECT = false) :
    process_set_alarm_state inp g =
      edit_up_down inp
        { g with oled_fb := set_alarm_draw g.oled_fb, hw := g.hw ++ show_edit_digits g } := by
  simp only [process_set_alarm_state]
  rw [set_alarm_select_idle]
  · rfl
  · rw [edit_up_down_last_button_state]; exact h

theorem edit_up_down_idle (inp : Inputs) (g : Globals)
    (hu : button_pressed inp.idr g.last_button_state IOA_BUTTON_UP = false)
    (hd : button_pressed inp.idr g.last_button_state IOA_BUTTON_DOWN = false) :
    edit_up_down inp g = g := by
  simp [edit_up_down, hu, hd]

theorem process_set_time_state_still (inp : Inputs) (g : Globals)
    (hu : button_pressed inp.idr g.last_button_state IOA_BUTTON_UP = false)
    (hd : button_pressed inp.idr g.last_button_state IOA_BUTTON_DOWN = false) :
    process_set_time_state inp g =
      set_time_select inp
        { g with oled_fb := set_time_draw g.oled_fb, hw := g.hw ++ show_edit_digits g } := by
  show set_time_select inp (edit_up_down inp
      { g with oled_fb := set_time_draw g.oled_fb, hw := g.hw ++ show_edit_digits g }) = _
  rw [edit_up_down_idle inp
      { g with oled_fb := set_time_draw g.oled_fb, hw := g.hw ++ show_edit_digits g } hu hd]

/-- C9: in SetTime and in SetAlarm, with the fields in range and Select not
just-pressed, an Up event adds one to the field under the cursor modulo 24
(hours, cursor 0) or 60 (minutes, cursor 1), a Down event subtracts one modulo 24
or 60, the other field is unchanged, and state and cursor are unchanged. -/
theorem edit_field_wrap (H : Inputs → Globals → Globals)
    (hH : H = process_set_time_state ∨ H = process_set_alarm_state)
    (inp : Inputs) (g : Globals)
    (hh : 0 ≤ g.cur_hours ∧ g.cur_hours ≤ 23) (hm : 0 ≤ g.cur_minutes ∧ g.cur_minutes ≤ 59)
    (hs : button_pressed inp.idr g.last_button_state IOA_BUTTON_SELECT = false) :
    (H inp g).cur_state = g.cur_state ∧
    (H inp g).cursor_position = g.cursor_position ∧
    (button_pressed inp.idr g.last_button_state IOA_BUTTON_UP = true →
      button_pressed inp.idr g.last_button_state IOA_BUTTON_DOWN = false →
      (g.cursor_position = 0 →
        (H inp g).cur_hours = (g.cur_hours + 1) % 24 ∧ (H inp g).cur_minutes = g.cur_minutes) ∧
      (g.cursor_position = 1 →
        (H inp g).cur_minutes = (g.cur_minutes + 1) % 60 ∧ (H inp g).cur_hours = g.cur_hours)) ∧
    (button_pressed inp.idr g.last_button_state IOA_BUTTON_DOWN = true →
      button_pressed inp.idr g.last_button_state IOA_BUTTON_UP = false →
      (g.cursor_position = 0 →
        (H inp g).cur_hours = (g.cur_hours + 23) % 24 ∧ (H inp g).cur_minutes = g.cur_minutes) ∧
      (g.cursor_position = 1 →
        (H inp g).cur_minutes = (g.cur_minutes + 59) % 60 ∧ (H inp g).cur_hours = g.cur_hours)) := by
  have key : ∃ g1 : Globals, H inp g = edit_up_down inp g1 ∧ g1.cur_state = g.cur_state ∧
      g1.cursor_position = g.cursor_position ∧ g1.cur_hours = g.cur_hours ∧
      g1.cur_minutes = g.cur_minutes ∧ g1.last_button_state = g.last_button_state := by
    rcases hH with rfl | rfl
    · exact ⟨_, process_set_time_state_idle inp g hs, rfl, rfl, rfl, rfl, rfl⟩
    · exact ⟨_, process_set_alarm_state_idle inp g hs, rfl, rfl, rfl, rfl, rfl⟩
  obtain ⟨g1, e, e1, e2, e3, e4, e5⟩ := key
  have f := edit_up_down_fields inp g1 (by rw [e3]; exact hh) (by rw [e4]; exact hm)
  rw [e5, e2, e3, e4, ← e] at f
  refine ⟨?_, ?_, ?_, ?_⟩
  · rw [e, edit_up_down_cur_state, e1]
  · rw [e, edit_up_down_cursor_position, e2]
  · intro hu _
    exact f.1 hu
  · intro hd hu
    exact f.2.1 hu hd

/-- Witness of C9: in SetTime, Up at cursor 0 takes 23 hours to 0, and Down at
cursor 1 takes 0 minutes to 59. -/
theorem edit_field_wrap_witness :
    (process_set_time_state (Inputs.ofRaw IOA_BUTTON_UP 0)
        { main_init 0 with cur_state := VVC_STATE_SET_TIME, cur_hours := 23 }).cur_hours
      = (23 + 1) % 24 ∧
    (process_set_time_state (Inputs.ofRaw IOA_BUTTON_DOWN 0)
        { main_init 0 with cur_state := VVC_STATE_SET_TIME, cursor_position := 1 }).cur_minutes
      = (0 + 59) % 60 :=
  ⟨((edit_field_wrap process_set_time_state (Or.inl rfl) (Inputs.ofRaw IOA_BUTTON_UP 0)
      { main_init 0 with cur_state := VVC_STATE_SET_TIME, cur_hours := 23 }
      (by decide) (by decide) (by decide)).2.2.1 (by decide) (by decide)).1 rfl |>.1,
   ((edit_field_wrap process_set_time_state (Or.inl rfl) (Inputs.ofRaw IOA_BUTTON_DOWN 0)
      { main_init 0 with cur_state := VVC_STATE_SET_TIME, cursor_position := 1 }
      (by decide) (by decide) (by decide)).2.2.2 (by decide) (by decide)).2 rfl |>.1⟩

theorem commit_bytes_table : ∀ v < 60,
    toI32 (bcd_enc ((v : Nat) : Int)) = (((((v / 10) <<< 4) ||| (v % 10)) : Nat) : Int)
    ∧ (((v / 10) <<< 4) ||| (v % 10)) >>> 4 = v / 10
    ∧ (((v / 10) <<< 4) ||| (v % 10)) &&& 0x0F = v % 10
    ∧ v / 10 ≤ 9 ∧ v % 10 ≤ 9 := by
  decide

theorem rtc_writes_append (l1 l2 : List HwCall) :
    rtc_writes (l1 ++ l2) = rtc_writes l1 ++ rtc_writes l2 := by
  simp [rtc_writes]

theorem rtc_writes_show_edit_digits (g : Globals) : rtc_writes (show_edit_digits g) = [] := by
  simp only [show_edit_digits, show_edit_minutes, show_edit_hours]
  split_ifs <;> rfl

/-- C10: in SetTime with only Select just-pressed, cursor 0 moves the cursor to 1
without any RTC write and without touching state or edit fields; cursor 1 makes
exactly one RTC write, `ds3231_set_time` with the encoded hours and minutes, and
goes to ShowTime with the cursor at 0; for hours in 0..23 and minutes in 0..59
the two bytes are `((v/10) << 4) | (v%10)` with both nibbles decimal digits. -/
theorem set_time_select_spec (inp : Inputs) (g : Globals)
    (hu : button_pressed inp.idr g.last_button_state IOA_BUTTON_UP = false)
    (hd : button_pressed inp.idr g.last_button_state IOA_BUTTON_DOWN = false)
    (hs : button_pressed inp.idr g.last_button_state IOA_BUTTON_SELECT = true) :
    (g.cursor_position = 0 →
      (process_set_time_state inp g).cursor_position = 1 ∧
      (process_set_time_state inp g).cur_state = g.cur_state ∧
      rtc_writes (process_set_time_state inp g).hw = rtc_writes g.hw ∧
      (process_set_time_state inp g).cur_hours = g.cur_hours ∧
      (process_set_time_state inp g).cur_minutes = g.cur_minutes) ∧
    (g.cursor_position = 1 →
      rtc_writes (process_set_time_state inp g).hw = rtc_writes g.hw ++
        [HwCall.ds3231_set_time (toI32 (bcd_enc g.cur_hours))
                                (toI32 (bcd_enc g.cur_minutes))] ∧
      (process_set_time_state inp g).cur_state = VVC_STATE_SHOW_TIME ∧
      (process_set_time_state inp g).cursor_position = 0 ∧
      ∀ h m : Nat, g.cur_hours = (h : Int) → h ≤ 23 → g.cur_minutes = (m : Int) → m ≤ 59 →
        toI32 (bcd_enc g.cur_hours) = ((((h / 10) <<< 4) ||| (h % 10) : Nat) : Int) ∧
        toI32 (bcd_enc g.cur_minutes) = ((((m / 10) <<< 4) ||| (m % 10) : Nat) : Int) ∧
        (((h / 10) <<< 4) ||| (h % 10)) >>> 4 = h / 10 ∧
        (((h / 10) <<< 4) ||| (h % 10)) &&& 0x0F = h % 10 ∧
        (((m / 10) <<< 4) ||| (m % 10)) >>> 4 = m / 10 ∧
        (((m / 10) <<< 4) ||| (m % 10)) &&& 0x0F = m % 10 ∧
        h / 10 ≤ 9 ∧ h % 10 ≤ 9 ∧ m / 10 ≤ 9 ∧ m % 10 ≤ 9) := by
  have e1 := process_set_time_state_still inp g hu hd
  refine ⟨?_, ?_⟩
  · intro hc
    rw [e1]
    simp only [set_time_select, hs, hc, if_true]
    refine ⟨trivial, trivial, ?_, trivial, trivial⟩
    rw [rtc_writes_append, rtc_writes_show_edit_digits, List.append_nil]
  · intro hc
    have hc0 : ¬ g.cursor_position = 0 := by omega
    rw [e1]
    simp only [set_time_select, hs, hc0, if_true, if_false]
    refine ⟨?_, trivial, trivial, ?_⟩
    · rw [rtc_writes_append, rtc_writes_append, rtc_writes_show_edit_digits, List.append_nil]
      rfl
    · intro h m hh hh2 hm hm2
      have th := commit_bytes_table h (by omega)
      have tm := commit_bytes_table m (by omega)
      rw [hh, hm]
      exact ⟨th.1, tm.1, th.2.1, th.2.2.1, tm.2.1, tm.2.2.1, th.2.2.2.1, th.2.2.2.2,
        tm.2.2.2.1, tm.2.2.2.2⟩

/-- Witness of C10: committing 09:05 makes the single call `ds3231_set_time`
with the bytes `0x09` and `0x05`. -/
theorem set_time_select_spec_witness :
    rtc_writes (process_set_time_state (Inputs.ofRaw IOA_BUTTON_SELECT 0)
        { main_init 0 with cur_state := VVC_STATE_SET_TIME, cursor_position := 1,
                           cur_hours := 9, cur_minutes := 5 }).hw
      = rtc_writes (main_init 0).hw ++ [HwCall.ds3231_set_time 0x09 0x05] :=
  ((set_time_select_spec (Inputs.ofRaw IOA_BUTTON_SELECT 0)
      { main_init 0 with cur_state := VVC_STATE_SET_TIME, cursor_position := 1,
                         cur_hours := 9, cur_minutes := 5 }
      (by decide) (by decide) (by decide)).2 rfl).1

/-! ## The set-time scenario -/

theorem rtc_writes_display (l : List HwCall) :
    rtc_writes (l ++ [HwCall.i2c_display_framebuffer]) = rtc_writes l := by
  rw [rtc_writes_append]; simp [rtc_writes]

theorem rtc_writes_show_time_digits (l : List HwCall) (g : Globals) :
    rtc_writes (l ++ HwCall.latch_low :: show_time_digits g) = rtc_writes l := by
  rw [rtc_writes_append]; simp [rtc_writes, show_time_digits]

theorem main_alarm_check_no_match (g : Globals)
    (h : alarm_match g.time_word g.alarm_word = false) :
    main_alarm_check g = { g with alarm_remember_off := 0 } := by
  simp [main_alarm_check, h]

/-- Without an alarm match, a pass is the dispatch on globals with the same
snapshot and the fresh time word, followed by the update of `last_button_state`. -/
theorem main_loop_body_no_match (inp : Inputs) (g : Globals) (raw : Nat)
    (hr : (bnot32 inp.idr) &&& 0xE0 = raw)
    (h : alarm_match (inp.rtc_time % 4294967296) g.alarm_word = false) :
    ∃ g2 : Globals, g2.snapshot = g.snapshot ∧ g2.time_word = inp.rtc_time % 4294967296 ∧
      (main_loop_body inp g).snapshot =
        { (main_dispatch inp g2).snapshot with last_button_state := raw } := by
  subst hr
  refine ⟨{ main_refresh inp g with alarm_remember_off := 0 }, rfl, rfl, ?_⟩
  have hc : main_alarm_check (main_refresh inp g)
      = { main_refresh inp g with alarm_remember_off := 0 } :=
    main_alarm_check_no_match _ h
  show Globals.snapshot
      { main_dispatch inp (main_alarm_check (main_refresh inp g)) with
        last_button_state := (bnot32 inp.idr) &&& 0xE0,
        hw := (main_dispatch inp (main_alarm_check (main_refresh inp g))).hw
                ++ [HwCall.i2c_display_framebuffer] } = _
  rw [hc]
  simp only [Globals.snapshot, rtc_writes_display]

theorem button_pressed_none (last B : Nat) : button_pressed (bnot32 0) last B = false := by
  simp [button_pressed, bnot32]

theorem dispatch_show_time (inp : Inputs) (g : Globals) (h : g.cur_state = VVC_STATE_SHOW_TIME) :
    main_dispatch inp g = process_show_time_state inp g := by
  simp [main_dispatch, h]

theorem dispatch_menu_page_1 (inp : Inputs) (g : Globals)
    (h : g.cur_state = VVC_STATE_MENU_PAGE_1) :
    main_dispatch inp g = process_menu_page_1_state inp g := by
  simp [main_dispatch, h, VVC_STATE_MENU_PAGE_1, VVC_STATE_SHOW_TIME, VVC_STATE_IN_ALARM]

theorem dispatch_set_time (inp : Inputs) (g : Globals) (h : g.cur_state = VVC_STATE_SET_TIME) :
    main_dispatch inp g = process_set_time_state inp g := by
  simp [main_dispatch, h, VVC_STATE_MENU_PAGE_1, VVC_STATE_SHOW_TIME, VVC_STATE_IN_ALARM,
    VVC_STATE_MENU_PAGE_2, VVC_STATE_SET_TIME]

/-- ShowTime, Select just-pressed: on to MenuPage1. -/
theorem show_time_select_snapshot (inp : Inputs) (g : Globals)
    (hb : button_pressed inp.idr g.last_button_state IOA_BUTTON_SELECT = true) :
    (process_show_time_state inp g).snapshot =
      { g.snapshot with cur_state := VVC_STATE_MENU_PAGE_1 } := by
  simp only [process_show_time_state, hb, if_true, Globals.snapshot,
    rtc_writes_show_time_digits]

theorem menu_page_1_up_down_idle (inp : Inputs) (g : Globals)
    (hu : button_pressed inp.idr g.last_button_state IOA_BUTTON_UP = false)
    (hd : button_pressed inp.idr g.last_button_state IOA_BUTTON_DOWN = false) :
    menu_page_1_up_down inp g = g := by
  simp [menu_page_1_up_down, hu, hd]

theorem menu_page_1_select_idle (inp : Inputs) (g : Globals)
    (hs : button_pressed inp.idr g.last_button_state IOA_BUTTON_SELECT = false) :
    menu_page_1_select inp g = g := by
  simp [menu_page_1_select, hs]

theorem process_menu_page_1_state_still (inp : Inputs) (g : Globals)
    (hu : button_pressed inp.idr g.last_button_state IOA_BUTTON_UP = false)
    (hd : button_pressed inp.idr g.last_button_state IOA_BUTTON_DOWN = false) :
    process_menu_page_1_state inp g =
      menu_page_1_select inp
        { g with oled_fb := menu_page_1_draw g.cursor_position g.oled_fb } := by
  show menu_page_1_select inp (menu_page_1_up_down inp
      { g with oled_fb := menu_page_1_draw g.cursor_position g.oled_fb }) = _
  rw [menu_page_1_up_down_idle inp
      { g with oled_fb := menu_page_1_draw g.cursor_position g.oled_fb } hu hd]

/-- MenuPage1, no button just-pressed: nothing changes. -/
theorem menu_page_1_idle_snapshot (inp : Inputs) (g : Globals)
    (hu : button_pressed inp.idr g.last_button_state IOA_BUTTON_UP = false)
    (hd : button_pressed inp.idr g.last_button_state IOA_BUTTON_DOWN = false)
    (hs : button_pressed inp.idr g.last_button_state IOA_BUTTON_SELECT = false) :
    (process_menu_page_1_state inp g).snapshot = g.snapshot := by
  rw [process_menu_page_1_state_still inp g hu hd,
    menu_page_1_select_idle inp
      { g with oled_fb := menu_page_1_draw g.cursor_position g.oled_fb } hs]
  rfl

/-- MenuPage1, only Select just-pressed at cursor 0: on to SetTime with the edit
fields loaded from `time_word`. -/
theorem menu_page_1_select_snapshot (inp : Inputs) (g : Globals)
    (hu : button_pressed inp.idr g.last_button_state IOA_BUTTON_UP = false)
    (hd : button_pressed inp.idr g.last_button_state IOA_BUTTON_DOWN = false)
    (hs : button_pressed inp.idr g.last_button_state IOA_BUTTON_SELECT = true)
    (hc : g.cursor_position = 0) :
    (process_menu_page_1_state inp g).snapshot =
      { g.snapshot with cur_state := VVC_STATE_SET_TIME,
                        cursor_position := 0,
                        cur_hours := (load_time g).cur_hours,
                        cur_minutes := (load_time g).cur_minutes } := by
  rw [process_menu_page_1_state_still inp g hu hd]
  simp only [menu_page_1_select, menu_page_1_choose, hs, hc, if_true, Globals.snapshot,
    load_time]

/-- SetTime, no button just-pressed: nothing changes. -/
theorem set_time_idle_snapshot (inp : Inputs) (g : Globals)
    (hu : button_pressed inp.idr g.last_button_state IOA_BUTTON_UP = false)
    (hd : button_pressed inp.idr g.last_button_state IOA_BUTTON_DOWN = false)
    (hs : button_pressed inp.idr g.last_button_state IOA_BUTTON_SELECT = false) :
    (process_set_time_state inp g).snapshot = g.snapshot := by
  rw [process_set_time_state_still inp g hu hd,
    set_time_select_idle inp
      { g with oled_fb := set_time_draw g.oled_fb, hw := g.hw ++ show_edit_digits g } hs]
  simp only [Globals.snapshot, rtc_writes_append, rtc_writes_show_edit_digits,
    List.append_nil]

/-- SetTime, only Up just-pressed at cursor 0 with the hours in range: the hours
go up by one modulo 24. -/
theorem set_time_up_snapshot (inp : Inputs) (g : Globals)
    (hu : button_pressed inp.idr g.last_button_state IOA_BUTTON_UP = true)
    (hs : button_pressed inp.idr g.last_button_state IOA_BUTTON_SELECT = false)
    (hc : g.cursor_position = 0) (hh : 0 ≤ g.cur_hours ∧ g.cur_hours ≤ 23) :
    (process_set_time_state inp g).snapshot =
      { g.snapshot with cur_hours := (g.cur_hours + 1) % 24 } := by
  rw [process_set_time_state_idle inp g hs]
  simp only [edit_up_down, hu, hc, if_true, Globals.snapshot]
  split_ifs with h1
  · dsimp only at h1 ⊢
    simp only [rtc_writes_append, rtc_writes_show_edit_digits, List.append_nil,
      Snapshot.mk.injEq, true_and, and_true]
    omega
  · dsimp only at h1 ⊢
    simp only [rtc_writes_append, rtc_writes_show_edit_digits, List.append_nil,
      Snapshot.mk.injEq, true_and, and_true]
    omega

/-- SetTime, only Select just-pressed at cursor 0: the cursor moves to 1. -/
theorem set_time_select_0_snapshot (inp : Inputs) (g : Globals)
    (hu : button_pressed inp.idr g.last_button_state IOA_BUTTON_UP = false)
    (hd : button_pressed inp.idr g.last_button_state IOA_BUTTON_DOWN = false)
    (hs : button_pressed inp.idr g.last_button_state IOA_BUTTON_SELECT = true)
    (hc : g.cursor_position = 0) :
    (process_set_time_state inp g).snapshot = { g.snapshot with cursor_position := 1 } := by
  rw [process_set_time_state_still inp g hu hd]
  simp only [set_time_select, hs, hc, if_true, Globals.snapshot, rtc_writes_append,
    rtc_writes_show_edit_digits, List.append_nil]

/-- SetTime, only Select just-pressed at cursor 1: one `ds3231_set_time` call,
then ShowTime with the cursor at 0. -/
theorem set_time_select_1_snapshot (inp : Inputs) (g : Globals)
    (hu : button_pressed inp.idr g.last_button_state IOA_BUTTON_UP = false)
    (hd : button_pressed inp.idr g.last_button_state IOA_BUTTON_DOWN = false)
    (hs : button_pressed inp.idr g.last_button_state IOA_BUTTON_SELECT = true)
    (hc : g.cursor_position = 1) :
    (process_set_time_state inp g).snapshot =
      { g.snapshot with
        cur_state := VVC_STATE_SHOW_TIME,
        cursor_position := 0,
        rtc := g.snapshot.rtc ++
          [HwCall.ds3231_set_time (toI32 (bcd_enc g.cur_hours)) (toI32 (bcd_enc g.cur_minutes))] } := by
  have hc0 : ¬ g.cursor_position = 0 := by omega
  rw [process_set_time_state_still inp g hu hd]
  simp only [set_time_select, hs, hc0, if_true, if_false, Globals.snapshot, rtc_writes_append,
    rtc_writes_show_edit_digits, List.append_nil]
  rfl


theorem raw_round_trip :
    bnot32 (bnot32 IOA_BUTTON_SELECT) &&& 0xE0 = IOA_BUTTON_SELECT ∧
    bnot32 (bnot32 IOA_BUTTON_UP) &&& 0xE0 = IOA_BUTTON_UP ∧
    bnot32 (bnot32 0) &&& 0xE0 = 0 := by
  decide

theorem scenario_buttons :
    button_pressed (bnot32 IOA_BUTTON_SELECT) 0 IOA_BUTTON_SELECT = true ∧
    button_pressed (bnot32 IOA_BUTTON_SELECT) 0 IOA_BUTTON_UP = false ∧
    button_pressed (bnot32 IOA_BUTTON_SELECT) 0 IOA_BUTTON_DOWN = false ∧
    button_pressed (bnot32 IOA_BUTTON_UP) 0 IOA_BUTTON_UP = true ∧
    button_pressed (bnot32 IOA_BUTTON_UP) 0 IOA_BUTTON_SELECT = false := by
  decide

/-- A pass of the scenario in ShowTime with Select newly down. -/
theorem cycle_show_time_select (t : Nat) (g : Globals) (S : Snapshot) (hS : g.snapshot = S)
    (hm : alarm_match (t % 4294967296) S.alarm_word = false)
    (hs : S.cur_state = VVC_STATE_SHOW_TIME) (hl : S.last_button_state = 0) :
    (main_loop_body (Inputs.ofRaw IOA_BUTTON_SELECT t) g).snapshot =
      { S with cur_state := VVC_STATE_MENU_PAGE_1, last_button_state := IOA_BUTTON_SELECT } := by
  subst hS
  obtain ⟨g2, e2, _, ec⟩ := main_loop_body_no_match (Inputs.ofRaw IOA_BUTTON_SELECT t) g _ raw_round_trip.1 hm
  have hs2 : g2.cur_state = VVC_STATE_SHOW_TIME := (congrArg Snapshot.cur_state e2).trans hs
  have hl2 : g2.last_button_state = 0 := (congrArg Snapshot.last_button_state e2).trans hl
  have hb : button_pressed (Inputs.ofRaw IOA_BUTTON_SELECT t).idr g2.last_button_state
      IOA_BUTTON_SELECT = true := by rw [hl2]; exact scenario_buttons.1
  rw [ec, dispatch_show_time _ _ hs2, show_time_select_snapshot _ _ hb, e2]

/-- A pass of the scenario in MenuPage1 with no button down. -/
theorem cycle_menu_page_1_none (t : Nat) (g : Globals) (S : Snapshot) (hS : g.snapshot = S)
    (hm : alarm_match (t % 4294967296) S.alarm_word = false)
    (hs : S.cur_state = VVC_STATE_MENU_PAGE_1) :
    (main_loop_body (Inputs.ofRaw 0 t) g).snapshot = { S with last_button_state := 0 } := by
  subst hS
  obtain ⟨g2, e2, _, ec⟩ := main_loop_body_no_match (Inputs.ofRaw 0 t) g _ raw_round_trip.2.2 hm
  have hs2 : g2.cur_state = VVC_STATE_MENU_PAGE_1 := (congrArg Snapshot.cur_state e2).trans hs
  rw [ec, dispatch_menu_page_1 _ _ hs2,
    menu_page_1_idle_snapshot _ _ (button_pressed_none _ _) (button_pressed_none _ _)
      (button_pressed_none _ _), e2]

/-- A pass of the scenario in SetTime with no button down. -/
theorem cycle_set_time_none (t : Nat) (g : Globals) (S : Snapshot) (hS : g.snapshot = S)
    (hm : alarm_match (t % 4294967296) S.alarm_word = false)
    (hs : S.cur_state = VVC_STATE_SET_TIME) :
    (main_loop_body (Inputs.ofRaw 0 t) g).snapshot = { S with last_button_state := 0 } := by
  subst hS
  obtain ⟨g2, e2, _, ec⟩ := main_loop_body_no_match (Inputs.ofRaw 0 t) g _ raw_round_trip.2.2 hm
  have hs2 : g2.cur_state = VVC_STATE_SET_TIME := (congrArg Snapshot.cur_state e2).trans hs
  rw [ec, dispatch_set_time _ _ hs2,
    set_time_idle_snapshot _ _ (button_pressed_none _ _) (button_pressed_none _ _)
      (button_pressed_none _ _), e2]

/-- A pass of the scenario in MenuPage1 at cursor 0 with Select newly down. -/
theorem cycle_menu_page_1_select (t : Nat) (g : Globals) (S : Snapshot) (hS : g.snapshot = S)
    (hm : alarm_match (t % 4294967296) S.alarm_word = false)
    (hs : S.cur_state = VVC_STATE_MENU_PAGE_1) (hc : S.cursor_position = 0)
    (hl : S.last_button_state = 0) :
    (main_loop_body (Inputs.ofRaw IOA_BUTTON_SELECT t) g).snapshot =
      { S with cur_state := VVC_STATE_SET_TIME,
               cursor_position := 0,
               cur_hours := (load_time { g with time_word := t % 4294967296 }).cur_hours,
               cur_minutes := (load_time { g with time_word := t % 4294967296 }).cur_minutes,
               last_button_state := IOA_BUTTON_SELECT } := by
  subst hS
  obtain ⟨g2, e2, et, ec⟩ := main_loop_body_no_match (Inputs.ofRaw IOA_BUTTON_SELECT t) g _ raw_round_trip.1 hm
  have hs2 : g2.cur_state = VVC_STATE_MENU_PAGE_1 := (congrArg Snapshot.cur_state e2).trans hs
  have hc2 : g2.cursor_position = 0 := (congrArg Snapshot.cursor_position e2).trans hc
  have hl2 : g2.last_button_state = 0 := (congrArg Snapshot.last_button_state e2).trans hl
  have hb : button_pressed (Inputs.ofRaw IOA_BUTTON_SELECT t).idr g2.last_button_state
      IOA_BUTTON_SELECT = true := by rw [hl2]; exact scenario_buttons.1
  have hu : button_pressed (Inputs.ofRaw IOA_BUTTON_SELECT t).idr g2.last_button_state
      IOA_BUTTON_UP = false := by rw [hl2]; exact scenario_buttons.2.1
  have hd : button_pressed (Inputs.ofRaw IOA_BUTTON_SELECT t).idr g2.last_button_state
      IOA_BUTTON_DOWN = false := by rw [hl2]; exact scenario_buttons.2.2.1
  have eh : (load_time g2).cur_hours
      = (load_time { g with time_word := t % 4294967296 }).cur_hours := by
    rw [load_time_cur_hours, load_time_cur_hours, et]; rfl
  have em : (load_time g2).cur_minutes
      = (load_time { g with time_word := t % 4294967296 }).cur_minutes := by
    rw [load_time_cur_minutes, load_time_cur_minutes, et]; rfl
  rw [ec, dispatch_menu_page_1 _ _ hs2, menu_page_1_select_snapshot _ _ hu hd hb hc2, e2,
    eh, em]

/-- A pass of the scenario in SetTime at cursor 0 with Up newly down. -/
theorem cycle_set_time_up (t : Nat) (g : Globals) (S : Snapshot) (hS : g.snapshot = S)
    (hm : alarm_match (t % 4294967296) S.alarm_word = false)
    (hs : S.cur_state = VVC_STATE_SET_TIME) (hc : S.cursor_position = 0)
    (hl : S.last_button_state = 0) (hh : 0 ≤ S.cur_hours ∧ S.cur_hours ≤ 23) :
    (main_loop_body (Inputs.ofRaw IOA_BUTTON_UP t) g).snapshot =
      { S with cur_hours := (S.cur_hours + 1) % 24, last_button_state := IOA_BUTTON_UP } := by
  subst hS
  obtain ⟨g2, e2, _, ec⟩ := main_loop_body_no_match (Inputs.ofRaw IOA_BUTTON_UP t) g _ raw_round_trip.2.1 hm
  have hs2 : g2.cur_state = VVC_STATE_SET_TIME := (congrArg Snapshot.cur_state e2).trans hs
  have hc2 : g2.cursor_position = 0 := (congrArg Snapshot.cursor_position e2).trans hc
  have hl2 : g2.last_button_state = 0 := (congrArg Snapshot.last_button_state e2).trans hl
  have hh2 : g2.cur_hours = g.cur_hours := congrArg Snapshot.cur_hours e2
  have hb : button_pressed (Inputs.ofRaw IOA_BUTTON_UP t).idr g2.last_button_state
      IOA_BUTTON_SELECT = false := by rw [hl2]; exact scenario_buttons.2.2.2.2
  have hu : button_pressed (Inputs.ofRaw IOA_BUTTON_UP t).idr g2.last_button_state
      IOA_BUTTON_UP = true := by rw [hl2]; exact scenario_buttons.2.2.2.1
  rw [ec, dispatch_set_time _ _ hs2,
    set_time_up_snapshot _ _ hu hb hc2 (by rw [hh2]; exact hh), e2, hh2]
  rfl

/-- A pass of the scenario in SetTime at cursor 0 with Select newly down. -/
theorem cycle_set_time_select_0 (t : Nat) (g : Globals) (S : Snapshot) (hS : g.snapshot = S)
    (hm : alarm_match (t % 4294967296) S.alarm_word = false)
    (hs : S.cur_state = VVC_STATE_SET_TIME) (hc : S.cursor_position = 0)
    (hl : S.last_button_state = 0) :
    (main_loop_body (Inputs.ofRaw IOA_BUTTON_SELECT t) g).snapshot =
      { S with cursor_position := 1, last_button_state := IOA_BUTTON_SELECT } := by
  subst hS
  obtain ⟨g2, e2, _, ec⟩ := main_loop_body_no_match (Inputs.ofRaw IOA_BUTTON_SELECT t) g _ raw_round_trip.1 hm
  have hs2 : g2.cur_state = VVC_STATE_SET_TIME := (congrArg Snapshot.cur_state e2).trans hs
  have hc2 : g2.cursor_position = 0 := (congrArg Snapshot.cursor_position e2).trans hc
  have hl2 : g2.last_button_state = 0 := (congrArg Snapshot.last_button_state e2).trans hl
  have hb : button_pressed (Inputs.ofRaw IOA_BUTTON_SELECT t).idr g2.last_button_state
      IOA_BUTTON_SELECT = true := by rw [hl2]; exact scenario_buttons.1
  have hu : button_pressed (Inputs.ofRaw IOA_BUTTON_SELECT t).idr g2.last_button_state
      IOA_BUTTON_UP = false := by rw [hl2]; exact scenario_buttons.2.1
  have hd : button_pressed (Inputs.ofRaw IOA_BUTTON_SELECT t).idr g2.last_button_state
      IOA_BUTTON_DOWN = false := by rw [hl2]; exact scenario_buttons.2.2.1
  rw [ec, dispatch_set_time _ _ hs2, set_time_select_0_snapshot _ _ hu hd hb hc2, e2]

/-- A pass of the scenario in SetTime at cursor 1 with Select newly down. -/
theorem cycle_set_time_select_1 (t : Nat) (g : Globals) (S : Snapshot) (hS : g.snapshot = S)
    (hm : alarm_match (t % 4294967296) S.alarm_word = false)
    (hs : S.cur_state = VVC_STATE_SET_TIME) (hc : S.cursor_position = 1)
    (hl : S.last_button_state = 0) :
    (main_loop_body (Inputs.ofRaw IOA_BUTTON_SELECT t) g).snapshot =
      { S with
        cur_state := VVC_STATE_SHOW_TIME,
        cursor_position := 0,
        rtc := S.rtc ++
          [HwCall.ds3231_set_time (toI32 (bcd_enc S.cur_hours)) (toI32 (bcd_enc S.cur_minutes))],
        last_button_state := IOA_BUTTON_SELECT } := by
  subst hS
  obtain ⟨g2, e2, _, ec⟩ := main_loop_body_no_match (Inputs.ofRaw IOA_BUTTON_SELECT t) g _ raw_round_trip.1 hm
  have hs2 : g2.cur_state = VVC_STATE_SET_TIME := (congrArg Snapshot.cur_state e2).trans hs
  have hc2 : g2.cursor_position = 1 := (congrArg Snapshot.cursor_position e2).trans hc
  have hl2 : g2.last_button_state = 0 := (congrArg Snapshot.last_button_state e2).trans hl
  have hh2 : g2.cur_hours = g.cur_hours := congrArg Snapshot.cur_hours e2
  have hm2 : g2.cur_minutes = g.cur_minutes := congrArg Snapshot.cur_minutes e2
  have hb : button_pressed (Inputs.ofRaw IOA_BUTTON_SELECT t).idr g2.last_button_state
      IOA_BUTTON_SELECT = true := by rw [hl2]; exact scenario_buttons.1
  have hu : button_pressed (Inputs.ofRaw IOA_BUTTON_SELECT t).idr g2.last_button_state
      IOA_BUTTON_UP = false := by rw [hl2]; exact scenario_buttons.2.1
  have hd : button_pressed (Inputs.ofRaw IOA_BUTTON_SELECT t).idr g2.last_button_state
      IOA_BUTTON_DOWN = false := by rw [hl2]; exact scenario_buttons.2.2.1
  rw [ec, dispatch_set_time _ _ hs2, set_time_select_1_snapshot _ _ hu hd hb hc2, e2, hh2, hm2]
  rfl


/-! ### The passes of the scenario on flat snapshots -/

theorem flat_show_time_select (t : Nat) (g : Globals) (c : Nat) (h m : Int) (aw : Nat)
    (w : List HwCall)
    (hS : g.snapshot = ⟨VVC_STATE_SHOW_TIME, c, h, m, 0, aw, w⟩)
    (hm : alarm_match (t % 4294967296) aw = false) :
    (main_loop_body (Inputs.ofRaw IOA_BUTTON_SELECT t) g).snapshot
      = ⟨VVC_STATE_MENU_PAGE_1, c, h, m, IOA_BUTTON_SELECT, aw, w⟩ := by
  rw [cycle_show_time_select t g _ hS hm rfl rfl]

theorem flat_menu_page_1_none (t : Nat) (g : Globals) (c : Nat) (h m : Int) (l aw : Nat)
    (w : List HwCall)
    (hS : g.snapshot = ⟨VVC_STATE_MENU_PAGE_1, c, h, m, l, aw, w⟩)
    (hm : alarm_match (t % 4294967296) aw = false) :
    (main_loop_body (Inputs.ofRaw 0 t) g).snapshot
      = ⟨VVC_STATE_MENU_PAGE_1, c, h, m, 0, aw, w⟩ := by
  rw [cycle_menu_page_1_none t g _ hS hm rfl]

theorem flat_set_time_none (t : Nat) (g : Globals) (c : Nat) (h m : Int) (l aw : Nat)
    (w : List HwCall)
    (hS : g.snapshot = ⟨VVC_STATE_SET_TIME, c, h, m, l, aw, w⟩)
    (hm : alarm_match (t % 4294967296) aw = false) :
    (main_loop_body (Inputs.ofRaw 0 t) g).snapshot
      = ⟨VVC_STATE_SET_TIME, c, h, m, 0, aw, w⟩ := by
  rw [cycle_set_time_none t g _ hS hm rfl]

theorem flat_menu_page_1_select (t : Nat) (g : Globals) (h m : Int) (aw : Nat)
    (w : List HwCall)
    (hS : g.snapshot = ⟨VVC_STATE_MENU_PAGE_1, 0, h, m, 0, aw, w⟩)
    (hm : alarm_match (t % 4294967296) aw = false) :
    (main_loop_body (Inputs.ofRaw IOA_BUTTON_SELECT t) g).snapshot
      = ⟨VVC_STATE_SET_TIME, 0,
          (((((t % 4294967296) &&& 0x00300000) >>> 20 : Nat) : Int) * 10
            + ((((t % 4294967296) &&& 0x000F0000) >>> 16 : Nat) : Int)),
          (((((t % 4294967296) &&& 0x0000F000) >>> 12 : Nat) : Int) * 10
            + ((((t % 4294967296) &&& 0x00000F00) >>> 8 : Nat) : Int)),
          IOA_BUTTON_SELECT, aw, w⟩ := by
  rw [cycle_menu_page_1_select t g _ hS hm rfl rfl rfl]
  rfl

theorem flat_set_time_up (t : Nat) (g : Globals) (h m : Int) (aw : Nat) (w : List HwCall)
    (hS : g.snapshot = ⟨VVC_STATE_SET_TIME, 0, h, m, 0, aw, w⟩)
    (hm : alarm_match (t % 4294967296) aw = false) (hh : 0 ≤ h ∧ h ≤ 23) :
    (main_loop_body (Inputs.ofRaw IOA_BUTTON_UP t) g).snapshot
      = ⟨VVC_STATE_SET_TIME, 0, (h + 1) % 24, m, IOA_BUTTON_UP, aw, w⟩ := by
  rw [cycle_set_time_up t g _ hS hm rfl rfl rfl hh]

theorem flat_set_time_select_0 (t : Nat) (g : Globals) (h m : Int) (aw : Nat)
    (w : List HwCall)
    (hS : g.snapshot = ⟨VVC_STATE_SET_TIME, 0, h, m, 0, aw, w⟩)
    (hm : alarm_match (t % 4294967296) aw = false) :
    (main_loop_body (Inputs.ofRaw IOA_BUTTON_SELECT t) g).snapshot
      = ⟨VVC_STATE_SET_TIME, 1, h, m, IOA_BUTTON_SELECT, aw, w⟩ := by
  rw [cycle_set_time_select_0 t g _ hS hm rfl rfl rfl]

theorem flat_set_time_select_1 (t : Nat) (g : Globals) (h m : Int) (aw : Nat)
    (w : List HwCall)
    (hS : g.snapshot = ⟨VVC_STATE_SET_TIME, 1, h, m, 0, aw, w⟩)
    (hm : alarm_match (t % 4294967296) aw = false) :
    (main_loop_body (Inputs.ofRaw IOA_BUTTON_SELECT t) g).snapshot
      = ⟨VVC_STATE_SHOW_TIME, 0, h, m, IOA_BUTTON_SELECT, aw,
          w ++ [HwCall.ds3231_set_time (toI32 (bcd_enc h)) (toI32 (bcd_enc m))]⟩ := by
  rw [cycle_set_time_select_1 t g _ hS hm rfl rfl rfl]

theorem snapshot_fields (g : Globals) :
    g.cur_state = g.snapshot.cur_state ∧
    g.cursor_position = g.snapshot.cursor_position ∧
    g.cur_hours = g.snapshot.cur_hours ∧
    g.cur_minutes = g.snapshot.cur_minutes ∧
    rtc_writes g.hw = g.snapshot.rtc :=
  ⟨rfl, rfl, rfl, rfl, rfl⟩

/-- C6: the set-time scenario. From ShowTime with cursor 0 and no button held,
with no alarm match in any pass, the raw sequence Select, none, Select, none, Up,
none, Up, none, Select, none, Select goes to MenuPage1 (cursor 0) after pass 1,
to SetTime with the edit fields decoded from the time word of pass 3, to hours
`(h + 2) mod 24` after the two Up passes, to cursor 1 after pass 9, and in the
last pass makes the only RTC write of the scenario, `ds3231_set_time` with the
encoded `(h + 2) mod 24` and `m`, ending in ShowTime with cursor 0. -/
theorem set_time_scenario (g : Globals) (t : Fin 11 → Nat) (h m : Int)
    (hs : g.cur_state = VVC_STATE_SHOW_TIME) (hc : g.cursor_position = 0)
    (hl : g.last_button_state = 0)
    (hno : ∀ i, alarm_match (t i % 4294967296) g.alarm_word = false)
    (hh : (load_time { g with time_word := t 2 % 4294967296 }).cur_hours = h)
    (hm : (load_time { g with time_word := t 2 % 4294967296 }).cur_minutes = m)
    (h23 : h ≤ 23) :
    ((main_loop ((set_time_scenario_inputs t).take 1) g).cur_state = VVC_STATE_MENU_PAGE_1 ∧
     (main_loop ((set_time_scenario_inputs t).take 1) g).cursor_position = 0) ∧
    ((main_loop ((set_time_scenario_inputs t).take 3) g).cur_state = VVC_STATE_SET_TIME ∧
     (main_loop ((set_time_scenario_inputs t).take 3) g).cur_hours = h ∧
     (main_loop ((set_time_scenario_inputs t).take 3) g).cur_minutes = m) ∧
    ((main_loop ((set_time_scenario_inputs t).take 7) g).cur_hours = (h + 2) % 24 ∧
     (main_loop ((set_time_scenario_inputs t).take 7) g).cur_minutes = m) ∧
    (main_loop ((set_time_scenario_inputs t).take 9) g).cursor_position = 1 ∧
    (rtc_writes (main_loop ((set_time_scenario_inputs t).take 10) g).hw = rtc_writes g.hw ∧
     rtc_writes (main_loop (set_time_scenario_inputs t) g).hw = rtc_writes g.hw ++
       [HwCall.ds3231_set_time (toI32 (bcd_enc ((h + 2) % 24))) (toI32 (bcd_enc m))] ∧
     (main_loop (set_time_scenario_inputs t) g).cur_state = VVC_STATE_SHOW_TIME ∧
     (main_loop (set_time_scenario_inputs t) g).cursor_position = 0) := by
  have h0 : 0 ≤ h := by
    rw [← hh, load_time_cur_hours]; omega
  have S0 : (main_loop ((set_time_scenario_inputs t).take 0) g).snapshot
      = ⟨VVC_STATE_SHOW_TIME, 0, g.cur_hours, g.cur_minutes, 0, g.alarm_word,
          rtc_writes g.hw⟩ := by
    show g.snapshot = _
    simp only [Globals.snapshot, hs, hc, hl]
  have S1 := flat_show_time_select (t 0) _ _ _ _ _ _ S0 (hno 0)
  have E1 : main_loop ((set_time_scenario_inputs t).take (0 + 1)) g
      = main_loop_body (Inputs.ofRaw IOA_BUTTON_SELECT (t 0))
          (main_loop ((set_time_scenario_inputs t).take 0) g) :=
    main_loop_take_succ (set_time_scenario_inputs t) 0 (by show 0 < 11; decide) g
  rw [← E1] at S1
  have S2 := flat_menu_page_1_none (t 1) _ _ _ _ _ _ _ S1 (hno 1)
  have E2 : main_loop ((set_time_scenario_inputs t).take (1 + 1)) g
      = main_loop_body (Inputs.ofRaw 0 (t 1))
          (main_loop ((set_time_scenario_inputs t).take 1) g) :=
    main_loop_take_succ (set_time_scenario_inputs t) 1 (by show 1 < 11; decide) g
  rw [← E2] at S2
  have S3 := flat_menu_page_1_select (t 2) _ _ _ _ _ S2 (hno 2)
  have E3 : main_loop ((set_time_scenario_inputs t).take (2 + 1)) g
      = main_loop_body (Inputs.ofRaw IOA_BUTTON_SELECT (t 2))
          (main_loop ((set_time_scenario_inputs t).take 2) g) :=
    main_loop_take_succ (set_time_scenario_inputs t) 2 (by show 2 < 11; decide) g
  rw [← E3] at S3
  rw [load_time_cur_hours] at hh
  rw [load_time_cur_minutes] at hm
  have hh' : (((((t 2 % 4294967296) &&& 0x00300000) >>> 20 : Nat) : Int) * 10
            + ((((t 2 % 4294967296) &&& 0x000F0000) >>> 16 : Nat) : Int)) = h := hh
  have hm' : (((((t 2 % 4294967296) &&& 0x0000F000) >>> 12 : Nat) : Int) * 10
            + ((((t 2 % 4294967296) &&& 0x00000F00) >>> 8 : Nat) : Int)) = m := hm
  rw [hh', hm'] at S3
  have S4 := flat_set_time_none (t 3) _ _ _ _ _ _ _ S3 (hno 3)
  have E4 : main_loop ((set_time_scenario_inputs t).take (3 + 1)) g
      = main_loop_body (Inputs.ofRaw 0 (t 3))
          (main_loop ((set_time_scenario_inputs t).take 3) g) :=
    main_loop_take_succ (set_time_scenario_inputs t) 3 (by show 3 < 11; decide) g
  rw [← E4] at S4
  have S5 := flat_set_time_up (t 4) _ _ _ _ _ S4 (hno 4) ⟨h0, h23⟩
  have E5 : main_loop ((set_time_scenario_inputs t).take (4 + 1)) g
      = main_loop_body (Inputs.ofRaw IOA_BUTTON_UP (t 4))
          (main_loop ((set_time_scenario_inputs t).take 4) g) :=
    main_loop_take_succ (set_time_scenario_inputs t) 4 (by show 4 < 11; decide) g
  rw [← E5] at S5
  have S6 := flat_set_time_none (t 5) _ _ _ _ _ _ _ S5 (hno 5)
  have E6 : main_loop ((set_time_scenario_inputs t).take (5 + 1)) g
      = main_loop_body (Inputs.ofRaw 0 (t 5))
          (main_loop ((set_time_scenario_inputs t).take 5) g) :=
    main_loop_take_succ (set_time_scenario_inputs t) 5 (by show 5 < 11; decide) g
  rw [← E6] at S6
  have S7 := flat_set_time_up (t 6) _ _ _ _ _ S6 (hno 6) (by omega)
  have E7 : main_loop ((set_time_scenario_inputs t).take (6 + 1)) g
      = main_loop_body (Inputs.ofRaw IOA_BUTTON_UP (t 6))
          (main_loop ((set_time_scenario_inputs t).take 6) g) :=
    main_loop_take_succ (set_time_scenario_inputs t) 6 (by show 6 < 11; decide) g
  rw [← E7] at S7
  have e2 : ((h + 1) % 24 + 1) % 24 = (h + 2) % 24 := by omega
  rw [e2] at S7
  have S8 := flat_set_time_none (t 7) _ _ _ _ _ _ _ S7 (hno 7)
  have E8 : main_loop ((set_time_scenario_inputs t).take (7 + 1)) g
      = main_loop_body (Inputs.ofRaw 0 (t 7))
          (main_loop ((set_time_scenario_inputs t).take 7) g) :=
    main_loop_take_succ (set_time_scenario_inputs t) 7 (by show 7 < 11; decide) g
  rw [← E8] at S8
  have S9 := flat_set_time_select_0 (t 8) _ _ _ _ _ S8 (hno 8)
  have E9 : main_loop ((set_time_scenario_inputs t).take (8 + 1)) g
      = main_loop_body (Inputs.ofRaw IOA_BUTTON_SELECT (t 8))
          (main_loop ((set_time_scenario_inputs t).take 8) g) :=
    main_loop_take_succ (set_time_scenario_inputs t) 8 (by show 8 < 11; decide) g
  rw [← E9] at S9
  have S10 := flat_set_time_none (t 9) _ _ _ _ _ _ _ S9 (hno 9)
  have E10 : main_loop ((set_time_scenario_inputs t).take (9 + 1)) g
      = main_loop_body (Inputs.ofRaw 0 (t 9))
          (main_loop ((set_time_scenario_inputs t).take 9) g) :=
    main_loop_take_succ (set_time_scenario_inputs t) 9 (by show 9 < 11; decide) g
  rw [← E10] at S10
  have S11 := flat_set_time_select_1 (t 10) _ _ _ _ _ S10 (hno 10)
  have E11 : main_loop ((set_time_scenario_inputs t).take (10 + 1)) g
      = main_loop_body (Inputs.ofRaw IOA_BUTTON_SELECT (t 10))
          (main_loop ((set_time_scenario_inputs t).take 10) g) :=
    main_loop_take_succ (set_time_scenario_inputs t) 10 (by show 10 < 11; decide) g
  rw [← E11] at S11
  have e11 : (set_time_scenario_inputs t).take (10 + 1) = set_time_scenario_inputs t := rfl
  rw [e11] at S11
  refine ⟨⟨?_, ?_⟩, ⟨?_, ?_, ?_⟩, ⟨?_, ?_⟩, ?_, ?_, ?_, ?_, ?_⟩
  · exact (snapshot_fields _).1.trans (congrArg Snapshot.cur_state S1)
  · exact (snapshot_fields _).2.1.trans (congrArg Snapshot.cursor_position S1)
  · exact (snapshot_fields _).1.trans (congrArg Snapshot.cur_state S3)
  · exact (snapshot_fields _).2.2.1.trans (congrArg Snapshot.cur_hours S3)
  · exact (snapshot_fields _).2.2.2.1.trans (congrArg Snapshot.cur_minutes S3)
  · exact (snapshot_fields _).2.2.1.trans (congrArg Snapshot.cur_hours S7)
  · exact (snapshot_fields _).2.2.2.1.trans (congrArg Snapshot.cur_minutes S7)
  · exact (snapshot_fields _).2.1.trans (congrArg Snapshot.cursor_position S9)
  · exact (snapshot_fields _).2.2.2.2.trans (congrArg Snapshot.rtc S10)
  · exact (snapshot_fields _).2.2.2.2.trans (congrArg Snapshot.rtc S11)
  · exact (snapshot_fields _).1.trans (congrArg Snapshot.cur_state S11)
  · exact (snapshot_fields _).2.1.trans (congrArg Snapshot.cursor_position S11)


/-- Witness of C6: the scenario run from the initial globals with the alarm at
07:30 while the clock reads 12:34 ends with the single RTC write of 14:34. -/
theorem set_time_scenario_witness :
    rtc_writes (main_loop (set_time_scenario_inputs (fun _ => 0x00123400))
        (main_init 0x0730)).hw = rtc_writes (main_init 0x0730).hw ++
      [HwCall.ds3231_set_time (toI32 (bcd_enc ((12 + 2) % 24))) (toI32 (bcd_enc 34))] :=
  (set_time_scenario (main_init 0x0730) (fun _ => 0x00123400) 12 34 rfl rfl rfl
    (fun _ => by
      show alarm_match (0x00123400 % 4294967296) (main_init 0x0730).alarm_word = false
      decide)
    (by decide) (by decide) (by decide)).2.2.2.2.2.1

/-! ## The SetAlarm commit and the menu handlers -/

theorem process_set_alarm_state_still (inp : Inputs) (g : Globals)
    (hu : button_pressed inp.idr g.last_button_state IOA_BUTTON_UP = false)
    (hd : button_pressed inp.idr g.last_button_state IOA_BUTTON_DOWN = false) :
    process_set_alarm_state inp g =
      set_alarm_select inp
        { g with oled_fb := set_alarm_draw g.oled_fb, hw := g.hw ++ show_edit_digits g } := by
  show set_alarm_select inp (edit_up_down inp
      { g with oled_fb := set_alarm_draw g.oled_fb, hw := g.hw ++ show_edit_digits g }) = _
  rw [edit_up_down_idle inp
      { g with oled_fb := set_alarm_draw g.oled_fb, hw := g.hw ++ show_edit_digits g } hu hd]

theorem alarm_match_committed (h m : Nat) (hh : h ≤ 23) (hm : m ≤ 59) (tw : Nat) :
    alarm_match tw (shl32 (((bcd_enc (h : Nat) <<< 8) ||| bcd_enc (m : Nat)) % 4294967296) 8)
        = true
      ↔ tw &&& 0x00FFFF00 = (bcd_enc (h : Nat) <<< 16) ||| (bcd_enc (m : Nat) <<< 8) := by
  rw [(alarm_word_table h (by omega) m (by omega)).1]
  unfold alarm_match
  rw [decide_eq_true_iff]

/-- C11: in SetAlarm with only Select just-pressed, cursor 0 only moves the cursor
to 1 (no RTC write, `alarm_word` unchanged); cursor 1 makes exactly one RTC write,
`ds3231_set_alarm_1_time` with the encoded hours and minutes, sets `alarm_word`
to the alarm register read back shifted left by 8 (modulo `2 ^ 32`), and goes to
ShowTime with the cursor at 0. If the register reads back `(bcd(h) << 8) | bcd(m)`
for the committed `h`, `m`, the alarm comparison then holds exactly for the time
words whose bits 8-23 are `(bcd(h) << 16) | (bcd(m) << 8)`. -/
theorem set_alarm_select_spec (inp : Inputs) (g : Globals)
    (hu : button_pressed inp.idr g.last_button_state IOA_BUTTON_UP = false)
    (hd : button_pressed inp.idr g.last_button_state IOA_BUTTON_DOWN = false)
    (hs : button_pressed inp.idr g.last_button_state IOA_BUTTON_SELECT = true) :
    (g.cursor_position = 0 →
      (process_set_alarm_state inp g).cursor_position = 1 ∧
      (process_set_alarm_state inp g).cur_state = g.cur_state ∧
      (process_set_alarm_state inp g).alarm_word = g.alarm_word ∧
      rtc_writes (process_set_alarm_state inp g).hw = rtc_writes g.hw) ∧
    (g.cursor_position = 1 →
      rtc_writes (process_set_alarm_state inp g).hw = rtc_writes g.hw ++
        [HwCall.ds3231_set_alarm_1_time (toI32 (bcd_enc g.cur_hours))
                                        (toI32 (bcd_enc g.cur_minutes))] ∧
      (process_set_alarm_state inp g).alarm_word = shl32 (inp.rtc_alarm % 4294967296) 8 ∧
      (process_set_alarm_state inp g).cur_state = VVC_STATE_SHOW_TIME ∧
      (process_set_alarm_state inp g).cursor_position = 0 ∧
      ∀ h m : Nat, g.cur_hours = (h : Int) → h ≤ 23 → g.cur_minutes = (m : Int) → m ≤ 59 →
        toI32 (bcd_enc g.cur_hours) = ((((h / 10) <<< 4) ||| (h % 10) : Nat) : Int) ∧
        toI32 (bcd_enc g.cur_minutes) = ((((m / 10) <<< 4) ||| (m % 10) : Nat) : Int) ∧
        (inp.rtc_alarm = (bcd_enc (h : Nat) <<< 8) ||| bcd_enc (m : Nat) →
          ∀ tw : Nat, alarm_match tw (process_set_alarm_state inp g).alarm_word = true
            ↔ tw &&& 0x00FFFF00 = (bcd_enc (h : Nat) <<< 16) ||| (bcd_enc (m : Nat) <<< 8))) := by
  have e1 := process_set_alarm_state_still inp g hu hd
  refine ⟨?_, ?_⟩
  · intro hc
    rw [e1]
    simp only [set_alarm_select, hs, hc, if_true]
    refine ⟨trivial, trivial, trivial, ?_⟩
    rw [rtc_writes_append, rtc_writes_show_edit_digits, List.append_nil]
  · intro hc
    have hc0 : ¬ g.cursor_position = 0 := by omega
    rw [e1]
    simp only [set_alarm_select, hs, hc0, if_true, if_false]
    refine ⟨?_, trivial, trivial, trivial, ?_⟩
    · rw [rtc_writes_append, rtc_writes_append, rtc_writes_show_edit_digits, List.append_nil]
      rfl
    · intro h m hh hh2 hm hm2
      have th := commit_bytes_table h (by omega)
      have tm := commit_bytes_table m (by omega)
      rw [hh, hm]
      refine ⟨th.1, tm.1, ?_⟩
      intro ha tw
      rw [ha]
      exact alarm_match_committed h m hh2 hm2 tw

/-- Witness of C11: committing the alarm 07:30, with the register reading back
`0x0730`, makes the call `ds3231_set_alarm_1_time (0x07, 0x30)` and leaves
`alarm_word = 0x00073000`. -/
theorem set_alarm_select_spec_witness :
    rtc_writes (process_set_alarm_state ⟨bnot32 IOA_BUTTON_SELECT, 0, 0x0730⟩
        { main_init 0 with cur_state := VVC_STATE_SET_ALARM, cursor_position := 1,
                           cur_hours := 7, cur_minutes := 30 }).hw
      = rtc_writes (main_init 0).hw ++ [HwCall.ds3231_set_alarm_1_time 0x07 0x30] ∧
    (process_set_alarm_state ⟨bnot32 IOA_BUTTON_SELECT, 0, 0x0730⟩
        { main_init 0 with cur_state := VVC_STATE_SET_ALARM, cursor_position := 1,
                           cur_hours := 7, cur_minutes := 30 }).alarm_word
      = shl32 (0x0730 % 4294967296) 8 :=
  ⟨((set_alarm_select_spec ⟨bnot32 IOA_BUTTON_SELECT, 0, 0x0730⟩
      { main_init 0 with cur_state := VVC_STATE_SET_ALARM, cursor_position := 1,
                         cur_hours := 7, cur_minutes := 30 }
      (by decide) (by decide) (by decide)).2 rfl).1,
   ((set_alarm_select_spec ⟨bnot32 IOA_BUTTON_SELECT, 0, 0x0730⟩
      { main_init 0 with cur_state := VVC_STATE_SET_ALARM, cursor_position := 1,
                         cur_hours := 7, cur_minutes := 30 }
      (by decide) (by decide) (by decide)).2 rfl).2.1⟩

theorem menu_page_1_up_down_last_button_state (inp : Inputs) (g : Globals) :
    (menu_page_1_up_down inp g).last_button_state = g.last_button_state := by
  rw [menu_page_1_up_down_frame]

theorem menu_page_2_up_down_last_button_state (inp : Inputs) (g : Globals) :
    (menu_page_2_up_down inp g).last_button_state = g.last_button_state := by
  rw [menu_page_2_up_down_frame]

theorem menu_page_2_select_idle (inp : Inputs) (g : Globals)
    (hs : button_pressed inp.idr g.last_button_state IOA_BUTTON_SELECT = false) :
    menu_page_2_select inp g = g := by
  simp [menu_page_2_select, hs]

theorem menu_page_2_up_down_idle (inp : Inputs) (g : Globals)
    (hu : button_pressed inp.idr g.last_button_state IOA_BUTTON_UP = false)
    (hd : button_pressed inp.idr g.last_button_state IOA_BUTTON_DOWN = false) :
    menu_page_2_up_down inp g = g := by
  simp [menu_page_2_up_down, hu, hd]

theorem process_menu_page_1_state_no_select (inp : Inputs) (g : Globals)
    (hs : button_pressed inp.idr g.last_button_state IOA_BUTTON_SELECT = false) :
    process_menu_page_1_state inp g =
      menu_page_1_up_down inp
        { g with oled_fb := menu_page_1_draw g.cursor_position g.oled_fb } := by
  show menu_page_1_select inp (menu_page_1_up_down inp
      { g with oled_fb := menu_page_1_draw g.cursor_position g.oled_fb }) = _
  rw [menu_page_1_select_idle]
  rw [menu_page_1_up_down_last_button_state]
  exact hs

theorem process_menu_page_2_state_no_select (inp : Inputs) (g : Globals)
    (hs : button_pressed inp.idr g.last_button_state IOA_BUTTON_SELECT = false) :
    process_menu_page_2_state inp g =
      menu_page_2_up_down inp
        { g with oled_fb := menu_page_2_draw g.cursor_position g.oled_fb } := by
  show menu_page_2_select inp (menu_page_2_up_down inp
      { g with oled_fb := menu_page_2_draw g.cursor_position g.oled_fb }) = _
  rw [menu_page_2_select_idle]
  rw [menu_page_2_up_down_last_button_state]
  exact hs

theorem process_menu_page_2_state_still (inp : Inputs) (g : Globals)
    (hu : button_pressed inp.idr g.last_button_state IOA_BUTTON_UP = false)
    (hd : button_pressed inp.idr g.last_button_state IOA_BUTTON_DOWN = false) :
    process_menu_page_2_state inp g =
      menu_page_2_select inp
        { g with oled_fb := menu_page_2_draw g.cursor_position g.oled_fb } := by
  show menu_page_2_select inp (menu_page_2_up_down inp
      { g with oled_fb := menu_page_2_draw g.cursor_position g.oled_fb }) = _
  rw [menu_page_2_up_down_idle inp
      { g with oled_fb := menu_page_2_draw g.cursor_position g.oled_fb } hu hd]

theorem menu_page_1_up_down_up (inp : Inputs) (g : Globals)
    (hu : button_pressed inp.idr g.last_button_state IOA_BUTTON_UP = true) :
    (menu_page_1_up_down inp g).cursor_position = g.cursor_position - 1 ∧
    (menu_page_1_up_down inp g).cur_state = g.cur_state := by
  unfold menu_page_1_up_down
  rw [if_pos hu]
  split_ifs with h1
  · exact ⟨rfl, rfl⟩
  · refine ⟨?_, rfl⟩
    show g.cursor_position = g.cursor_position - 1
    omega

theorem menu_page_1_up_down_down (inp : Inputs) (g : Globals)
    (hu : button_pressed inp.idr g.last_button_state IOA_BUTTON_UP = false)
    (hd : button_pressed inp.idr g.last_button_state IOA_BUTTON_DOWN = true) :
    (g.cursor_position < 2 →
      (menu_page_1_up_down inp g).cursor_position = g.cursor_position + 1 ∧
      (menu_page_1_up_down inp g).cur_state = g.cur_state) ∧
    (¬ g.cursor_position < 2 →
      (menu_page_1_up_down inp g).cursor_position = 0 ∧
      (menu_page_1_up_down inp g).cur_state = VVC_STATE_MENU_PAGE_2) := by
  have hu' : ¬ (button_pressed inp.idr g.last_button_state IOA_BUTTON_UP = true) := by
    rw [hu]; decide
  unfold menu_page_1_up_down
  rw [if_neg hu', if_pos hd]
  refine ⟨fun h => ?_, fun h => ?_⟩
  · rw [if_pos h]; exact ⟨rfl, rfl⟩
  · rw [if_neg h]; exact ⟨rfl, rfl⟩

theorem menu_page_2_up_down_up (inp : Inputs) (g : Globals)
    (hu : button_pressed inp.idr g.last_button_state IOA_BUTTON_UP = true) :
    (g.cursor_position > 0 →
      (menu_page_2_up_down inp g).cursor_position = g.cursor_position - 1 ∧
      (menu_page_2_up_down inp g).cur_state = g.cur_state) ∧
    (¬ g.cursor_position > 0 →
      (menu_page_2_up_down inp g).cursor_position = 0 ∧
      (menu_page_2_up_down inp g).cur_state = VVC_STATE_MENU_PAGE_1) := by
  unfold menu_page_2_up_down
  rw [if_pos hu]
  refine ⟨fun h => ?_, fun h => ?_⟩
  · rw [if_pos h]; exact ⟨rfl, rfl⟩
  · rw [if_neg h]; exact ⟨rfl, rfl⟩

theorem menu_page_2_up_down_down (inp : Inputs) (g : Globals)
    (hu : button_pressed inp.idr g.last_button_state IOA_BUTTON_UP = false)
    (hd : button_pressed inp.idr g.last_button_state IOA_BUTTON_DOWN = true) :
    (menu_page_2_up_down inp g).cursor_position
        = (if g.cursor_position < 2 then g.cursor_position + 1 else g.cursor_position) ∧
    (menu_page_2_up_down inp g).cur_state = g.cur_state := by
  have hu' : ¬ (button_pressed inp.idr g.last_button_state IOA_BUTTON_UP = true) := by
    rw [hu]; decide
  unfold menu_page_2_up_down
  rw [if_neg hu', if_pos hd]
  split_ifs with h
  · exact ⟨rfl, rfl⟩
  · exact ⟨rfl, rfl⟩

/-- C12: in MenuPage1 with Select not just-pressed, an Up event takes the cursor
to `max (cursor - 1) 0` and keeps the state; a Down event (without Up) adds one
to a cursor of 0 or 1 and keeps the state, and at cursor 2 goes to MenuPage2
with the cursor at 0, so that the cursor never becomes 3. -/
theorem menu_page_1_cursor (inp : Inputs) (g : Globals)
    (hs : button_pressed inp.idr g.last_button_state IOA_BUTTON_SELECT = false) :
    (button_pressed inp.idr g.last_button_state IOA_BUTTON_UP = true →
      button_pressed inp.idr g.last_button_state IOA_BUTTON_DOWN = false →
      ((process_menu_page_1_state inp g).cursor_position : Int)
          = max ((g.cursor_position : Int) - 1) 0 ∧
      (process_menu_page_1_state inp g).cur_state = g.cur_state) ∧
    (button_pressed inp.idr g.last_button_state IOA_BUTTON_DOWN = true →
      button_pressed inp.idr g.last_button_state IOA_BUTTON_UP = false →
      ((g.cursor_position = 0 ∨ g.cursor_position = 1) →
        (process_menu_page_1_state inp g).cursor_position = g.cursor_position + 1 ∧
        (process_menu_page_1_state inp g).cur_state = g.cur_state) ∧
      (g.cursor_position = 2 →
        (process_menu_page_1_state inp g).cur_state = VVC_STATE_MENU_PAGE_2 ∧
        (process_menu_page_1_state inp g).cursor_position = 0) ∧
      (process_menu_page_1_state inp g).cursor_position ≠ 3) := by
  rw [process_menu_page_1_state_no_select inp g hs]
  refine ⟨?_, ?_⟩
  · intro hu _
    have h := menu_page_1_up_down_up inp
      { g with oled_fb := menu_page_1_draw g.cursor_position g.oled_fb } hu
    refine ⟨?_, h.2⟩
    rw [h.1]
    show ((g.cursor_position - 1 : Nat) : Int) = _
    omega
  · intro hd hu
    have h := menu_page_1_up_down_down inp
      { g with oled_fb := menu_page_1_draw g.cursor_position g.oled_fb } hu hd
    refine ⟨fun h2 => ?_, fun h2 => ?_, ?_⟩
    · exact h.1 (show g.cursor_position < 2 by omega)
    · have := h.2 (show ¬ g.cursor_position < 2 by omega)
      exact ⟨this.2, this.1⟩
    · by_cases h3 : g.cursor_position < 2
      · rw [(h.1 h3).1]
        show g.cursor_position + 1 ≠ 3
        omega
      · rw [(h.2 h3).1]
        decide

/-- Witness of C12: Down at cursor 2 goes to MenuPage2 with the cursor at 0. -/
theorem menu_page_1_cursor_witness :
    (process_menu_page_1_state (Inputs.ofRaw IOA_BUTTON_DOWN 0)
        { main_init 0 with cur_state := VVC_STATE_MENU_PAGE_1,
                           cursor_position := 2 }).cur_state = VVC_STATE_MENU_PAGE_2 ∧
    (process_menu_page_1_state (Inputs.ofRaw IOA_BUTTON_DOWN 0)
        { main_init 0 with cur_state := VVC_STATE_MENU_PAGE_1,
                           cursor_position := 2 }).cursor_position = 0 :=
  ((menu_page_1_cursor (Inputs.ofRaw IOA_BUTTON_DOWN 0)
      { main_init 0 with cur_state := VVC_STATE_MENU_PAGE_1, cursor_position := 2 }
      (by decide)).2 (by decide) (by decide)).2.1 rfl

/-- C14: in MenuPage2 with Select not just-pressed, an Up event subtracts one
from a cursor of 1 or 2 and keeps the state, and at cursor 0 goes to MenuPage1
with the cursor at 0; a Down event (without Up) keeps the state and adds one to a
cursor below 2, so that a cursor in 0..2 becomes `min (cursor + 1) 2`. -/
theorem menu_page_2_cursor (inp : Inputs) (g : Globals)
    (hs : button_pressed inp.idr g.last_button_state IOA_BUTTON_SELECT = false) :
    (button_pressed inp.idr g.last_button_state IOA_BUTTON_UP = true →
      button_pressed inp.idr g.last_button_state IOA_BUTTON_DOWN = false →
      ((g.cursor_position = 1 ∨ g.cursor_position = 2) →
        (process_menu_page_2_state inp g).cursor_position + 1 = g.cursor_position ∧
        (process_menu_page_2_state inp g).cur_state = g.cur_state) ∧
      (g.cursor_position = 0 →
        (process_menu_page_2_state inp g).cur_state = VVC_STATE_MENU_PAGE_1 ∧
        (process_menu_page_2_state inp g).cursor_position = 0)) ∧
    (button_pressed inp.idr g.last_button_state IOA_BUTTON_DOWN = true →
      button_pressed inp.idr g.last_button_state IOA_BUTTON_UP = false →
      (process_menu_page_2_state inp g).cur_state = g.cur_state ∧
      (process_menu_page_2_state inp g).cursor_position
          = (if g.cursor_position < 2 then g.cursor_position + 1 else g.cursor_position) ∧
      (g.cursor_position ≤ 2 →
        (process_menu_page_2_state inp g).cursor_position = min (g.cursor_position + 1) 2)) := by
  rw [process_menu_page_2_state_no_select inp g hs]
  refine ⟨?_, ?_⟩
  · intro hu _
    have h := menu_page_2_up_down_up inp
      { g with oled_fb := menu_page_2_draw g.cursor_position g.oled_fb } hu
    refine ⟨fun h2 => ?_, fun h2 => ?_⟩
    · have := h.1 (show g.cursor_position > 0 by omega)
      refine ⟨?_, this.2⟩
      rw [this.1]
      show g.cursor_position - 1 + 1 = g.cursor_position
      omega
    · have := h.2 (show ¬ g.cursor_position > 0 by omega)
      exact ⟨this.2, this.1⟩
  · intro hd hu
    have h := menu_page_2_up_down_down inp
      { g with oled_fb := menu_page_2_draw g.cursor_position g.oled_fb } hu hd
    refine ⟨h.2, h.1, fun h2 => ?_⟩
    rw [h.1]
    show (if g.cursor_position < 2 then g.cursor_position + 1 else g.cursor_position) = _
    split_ifs <;> omega

/-- Witness of C14: Up at cursor 0 goes to MenuPage1 with the cursor at 0. -/
theorem menu_page_2_cursor_witness :
    (process_menu_page_2_state (Inputs.ofRaw IOA_BUTTON_UP 0)
        { main_init 0 with cur_state := VVC_STATE_MENU_PAGE_2 }).cur_state
      = VVC_STATE_MENU_PAGE_1 ∧
    (process_menu_page_2_state (Inputs.ofRaw IOA_BUTTON_UP 0)
        { main_init 0 with cur_state := VVC_STATE_MENU_PAGE_2 }).cursor_position = 0 :=
  ((menu_page_2_cursor (Inputs.ofRaw IOA_BUTTON_UP 0)
      { main_init 0 with cur_state := VVC_STATE_MENU_PAGE_2 }
      (by decide)).1 (by decide) (by decide)).2 rfl

theorem menu_page_1_select_pressed (inp : Inputs) (g : Globals)
    (hs : button_pressed inp.idr g.last_button_state IOA_BUTTON_SELECT = true) :
    menu_page_1_select inp g = { menu_page_1_choose inp g with cursor_position := 0 } := by
  unfold menu_page_1_select
  rw [if_pos hs]

theorem menu_page_2_select_pressed (inp : Inputs) (g : Globals)
    (hs : button_pressed inp.idr g.last_button_state IOA_BUTTON_SELECT = true) :
    menu_page_2_select inp g = { menu_page_2_choose inp g with cursor_position := 0 } := by
  unfold menu_page_2_select
  rw [if_pos hs]

theorem menu_page_1_choose_0 (inp : Inputs) (g : Globals) (h : g.cursor_position = 0) :
    menu_page_1_choose inp g = load_time { g with cur_state := VVC_STATE_SET_TIME } := by
  unfold menu_page_1_choose
  rw [if_pos h]

theorem menu_page_1_choose_1 (inp : Inputs) (g : Globals) (h : g.cursor_position = 1) :
    menu_page_1_choose inp g
      = load_alarm inp { g with cur_state := VVC_STATE_SET_ALARM, cursor_position := 0 } := by
  unfold menu_page_1_choose
  rw [if_neg (by omega), if_pos h]

theorem menu_page_1_choose_2 (inp : Inputs) (g : Globals) (h : g.cursor_position = 2) :
    menu_page_1_choose inp g
      = load_alarm inp { g with cur_state := VVC_STATE_SET_ALARM_DAYS, cursor_position := 0 } := by
  unfold menu_page_1_choose
  rw [if_neg (by omega), if_neg (by omega), if_pos h]

theorem menu_page_2_choose_0 (inp : Inputs) (g : Globals) (h : g.cursor_position = 0) :
    menu_page_2_choose inp g
      = load_alarm inp { g with cur_state := VVC_STATE_SET_ALARM_STATE } := by
  unfold menu_page_2_choose
  rw [if_pos h]

theorem menu_page_2_choose_1 (inp : Inputs) (g : Globals) (h : g.cursor_position = 1) :
    menu_page_2_choose inp g
      = load_alarm inp { g with cur_state := VVC_STATE_SET_ALARM_TONE, cursor_position := 0 } := by
  unfold menu_page_2_choose
  rw [if_neg (by omega), if_pos h]

theorem menu_page_2_choose_2 (inp : Inputs) (g : Globals) (h : g.cursor_position = 2) :
    menu_page_2_choose inp g = { g with cur_state := VVC_STATE_SHOW_TIME, cursor_position := 0 } := by
  unfold menu_page_2_choose
  rw [if_neg (by omega), if_neg (by omega)]

theorem load_time_cur_state (g : Globals) : (load_time g).cur_state = g.cur_state := rfl

theorem load_alarm_cur_state (inp : Inputs) (g : Globals) :
    (load_alarm inp g).cur_state = g.cur_state := rfl

/-- C13: in MenuPage1 with only Select just-pressed, cursor 0 goes to SetTime
with the edit fields decoded from `time_word` at the time offsets, cursor 1 goes
to SetAlarm and cursor 2 to SetAlarmDays with the edit fields decoded from the
alarm register read at the alarm offsets, and the cursor is 0 afterwards. -/
theorem menu_page_1_select_spec (inp : Inputs) (g : Globals)
    (hu : button_pressed inp.idr g.last_button_state IOA_BUTTON_UP = false)
    (hd : button_pressed inp.idr g.last_button_state IOA_BUTTON_DOWN = false)
    (hs : button_pressed inp.idr g.last_button_state IOA_BUTTON_SELECT = true) :
    (g.cursor_position = 0 →
      (process_menu_page_1_state inp g).cur_state = VVC_STATE_SET_TIME ∧
      (process_menu_page_1_state inp g).cur_hours
        = 10 * (((g.time_word &&& 0x00300000) >>> 20 : Nat) : Int)
          + (((g.time_word &&& 0x000F0000) >>> 16 : Nat) : Int) ∧
      (process_menu_page_1_state inp g).cur_minutes
        = 10 * (((g.time_word &&& 0x0000F000) >>> 12 : Nat) : Int)
          + (((g.time_word &&& 0x00000F00) >>> 8 : Nat) : Int)) ∧
    (g.cursor_position = 1 ∨ g.cursor_position = 2 →
      (process_menu_page_1_state inp g).cur_state
        = (if g.cursor_position = 1 then VVC_STATE_SET_ALARM else VVC_STATE_SET_ALARM_DAYS) ∧
      (process_menu_page_1_state inp g).cur_hours
        = 10 * ((((inp.rtc_alarm % 4294967296) &&& 0x3000) >>> 12 : Nat) : Int)
          + ((((inp.rtc_alarm % 4294967296) &&& 0x0F00) >>> 8 : Nat) : Int) ∧
      (process_menu_page_1_state inp g).cur_minutes
        = 10 * ((((inp.rtc_alarm % 4294967296) &&& 0xF0) >>> 4 : Nat) : Int)
          + (((inp.rtc_alarm % 4294967296) &&& 0x0F : Nat) : Int)) ∧
    (process_menu_page_1_state inp g).cursor_position = 0 := by
  rw [process_menu_page_1_state_still inp g hu hd,
    menu_page_1_select_pressed inp
      { g with oled_fb := menu_page_1_draw g.cursor_position g.oled_fb } hs]
  refine ⟨fun h => ?_, fun h => ?_, rfl⟩
  · rw [menu_page_1_choose_0 inp
      { g with oled_fb := menu_page_1_draw g.cursor_position g.oled_fb } h]
    refine ⟨rfl, ?_, ?_⟩
    · show (((g.time_word &&& 0x00300000) >>> 20 : Nat) : Int) * 10
          + (((g.time_word &&& 0x000F0000) >>> 16 : Nat) : Int) = _
      omega
    · show (((g.time_word &&& 0x0000F000) >>> 12 : Nat) : Int) * 10
          + (((g.time_word &&& 0x00000F00) >>> 8 : Nat) : Int) = _
      omega
  · rcases h with h | h
    · rw [menu_page_1_choose_1 inp
        { g with oled_fb := menu_page_1_draw g.cursor_position g.oled_fb } h, if_pos h]
      refine ⟨rfl, ?_, ?_⟩
      · show ((((inp.rtc_alarm % 4294967296) &&& 0x3000) >>> 12 : Nat) : Int) * 10
            + ((((inp.rtc_alarm % 4294967296) &&& 0x0F00) >>> 8 : Nat) : Int) = _
        omega
      · show ((((inp.rtc_alarm % 4294967296) &&& 0xF0) >>> 4 : Nat) : Int) * 10
            + (((inp.rtc_alarm % 4294967296) &&& 0x0F : Nat) : Int) = _
        omega
    · rw [menu_page_1_choose_2 inp
        { g with oled_fb := menu_page_1_draw g.cursor_position g.oled_fb } h,
        if_neg (show ¬ g.cursor_position = 1 by omega)]
      refine ⟨rfl, ?_, ?_⟩
      · show ((((inp.rtc_alarm % 4294967296) &&& 0x3000) >>> 12 : Nat) : Int) * 10
            + ((((inp.rtc_alarm % 4294967296) &&& 0x0F00) >>> 8 : Nat) : Int) = _
        omega
      · show ((((inp.rtc_alarm % 4294967296) &&& 0xF0) >>> 4 : Nat) : Int) * 10
            + (((inp.rtc_alarm % 4294967296) &&& 0x0F : Nat) : Int) = _
        omega

/-- Witness of C13: Select at cursor 1 with the alarm register at 07:30 goes to
SetAlarm with the edit fields at 7 and 30. -/
theorem menu_page_1_select_spec_witness :
    (process_menu_page_1_state ⟨bnot32 IOA_BUTTON_SELECT, 0, 0x0730⟩
        { main_init 0 with cur_state := VVC_STATE_MENU_PAGE_1,
                           cursor_position := 1 }).cur_state = VVC_STATE_SET_ALARM ∧
    (process_menu_page_1_state ⟨bnot32 IOA_BUTTON_SELECT, 0, 0x0730⟩
        { main_init 0 with cur_state := VVC_STATE_MENU_PAGE_1,
                           cursor_position := 1 }).cur_hours = 7 ∧
    (process_menu_page_1_state ⟨bnot32 IOA_BUTTON_SELECT, 0, 0x0730⟩
        { main_init 0 with cur_state := VVC_STATE_MENU_PAGE_1,
                           cursor_position := 1 }).cur_minutes = 30 :=
  (menu_page_1_select_spec ⟨bnot32 IOA_BUTTON_SELECT, 0, 0x0730⟩
      { main_init 0 with cur_state := VVC_STATE_MENU_PAGE_1, cursor_position := 1 }
      (by decide) (by decide) (by decide)).2.1 (Or.inl rfl)

/-- C15: in MenuPage2 with only Select just-pressed, cursor 0 goes to
SetAlarmState, cursor 1 to SetAlarmTone and cursor 2 to ShowTime, and the cursor
is 0 afterwards in every case. -/
theorem menu_page_2_select_spec (inp : Inputs) (g : Globals)
    (hu : button_pressed inp.idr g.last_button_state IOA_BUTTON_UP = false)
    (hd : button_pressed inp.idr g.last_button_state IOA_BUTTON_DOWN = false)
    (hs : button_pressed inp.idr g.last_button_state IOA_BUTTON_SELECT = true) :
    (g.cursor_position = 0 →
      (process_menu_page_2_state inp g).cur_state = VVC_STATE_SET_ALARM_STATE) ∧
    (g.cursor_position = 1 →
      (process_menu_page_2_state inp g).cur_state = VVC_STATE_SET_ALARM_TONE) ∧
    (g.cursor_position = 2 →
      (process_menu_page_2_state inp g).cur_state = VVC_STATE_SHOW_TIME) ∧
    (process_menu_page_2_state inp g).cursor_position = 0 := by
  rw [process_menu_page_2_state_still inp g hu hd,
    menu_page_2_select_pressed inp
      { g with oled_fb := menu_page_2_draw g.cursor_position g.oled_fb } hs]
  refine ⟨fun h => ?_, fun h => ?_, fun h => ?_, rfl⟩
  · rw [menu_page_2_choose_0 inp
      { g with oled_fb := menu_page_2_draw g.cursor_position g.oled_fb } h]
    rfl
  · rw [menu_page_2_choose_1 inp
      { g with oled_fb := menu_page_2_draw g.cursor_position g.oled_fb } h]
    rfl
  · rw [menu_page_2_choose_2 inp
      { g with oled_fb := menu_page_2_draw g.cursor_position g.oled_fb } h]

/-- Witness of C15: Select at cursor 2 goes back to ShowTime. -/
theorem menu_page_2_select_spec_witness :
    (process_menu_page_2_state (Inputs.ofRaw IOA_BUTTON_SELECT 0)
        { main_init 0 with cur_state := VVC_STATE_MENU_PAGE_2,
                           cursor_position := 2 }).cur_state = VVC_STATE_SHOW_TIME :=
  (menu_page_2_select_spec (Inputs.ofRaw IOA_BUTTON_SELECT 0)
      { main_init 0 with cur_state := VVC_STATE_MENU_PAGE_2, cursor_position := 2 }
      (by decide) (by decide) (by decide)).2.2.1 rfl

theorem main_alarm_check_in_alarm (g : Globals) (h : g.cur_state = VVC_STATE_IN_ALARM) :
    (main_alarm_check g).cur_state = VVC_STATE_IN_ALARM := by
  unfold main_alarm_check
  split_ifs
  · exact h
  · rfl
  · exact h

theorem process_in_alarm_state_pressed (inp : Inputs) (g : Globals)
    (hs : button_pressed inp.idr g.last_button_state IOA_BUTTON_SELECT = true) :
    process_in_alarm_state inp g =
      { g with oled_fb := in_alarm_draw g.oled_fb, hw := g.hw ++ in_alarm_digits g,
               cur_state := VVC_STATE_SHOW_TIME, alarm_remember_off := 1 } := by
  unfold process_in_alarm_state
  exact if_pos hs

theorem process_in_alarm_state_idle (inp : Inputs) (g : Globals)
    (hs : button_pressed inp.idr g.last_button_state IOA_BUTTON_SELECT = false) :
    process_in_alarm_state inp g =
      { g with oled_fb := in_alarm_draw g.oled_fb, hw := g.hw ++ in_alarm_digits g } := by
  have hs' : ¬ (button_pressed inp.idr g.last_button_state IOA_BUTTON_SELECT = true) := by
    rw [hs]; decide
  unfold process_in_alarm_state
  exact if_neg hs'

theorem main_dispatch_in_alarm (inp : Inputs) (g : Globals)
    (h : g.cur_state = VVC_STATE_IN_ALARM) :
    main_dispatch inp g = process_in_alarm_state inp g := by
  unfold main_dispatch
  rw [if_neg (by rw [h]; decide), if_pos h]

/-- C16: the InAlarm handler with Select just-pressed sets the state to ShowTime
and the dismissal flag to 1; with Select not just-pressed it leaves the state,
the flag, the cursor and the edit fields as they were, whatever Up and Down and
the time word are, and a whole cycle begun in InAlarm then ends in InAlarm. -/
theorem process_in_alarm_state_spec (inp : Inputs) (g : Globals) :
    (button_pressed inp.idr g.last_button_state IOA_BUTTON_SELECT = true →
      (process_in_alarm_state inp g).cur_state = VVC_STATE_SHOW_TIME ∧
      (process_in_alarm_state inp g).alarm_remember_off = 1) ∧
    (button_pressed inp.idr g.last_button_state IOA_BUTTON_SELECT = false →
      (process_in_alarm_state inp g).cur_state = g.cur_state ∧
      (process_in_alarm_state inp g).alarm_remember_off = g.alarm_remember_off ∧
      (process_in_alarm_state inp g).cursor_position = g.cursor_position ∧
      (process_in_alarm_state inp g).cur_hours = g.cur_hours ∧
      (process_in_alarm_state inp g).cur_minutes = g.cur_minutes ∧
      (g.cur_state = VVC_STATE_IN_ALARM →
        (main_loop_body inp g).cur_state = VVC_STATE_IN_ALARM)) := by
  refine ⟨fun hs => ?_, fun hs => ?_⟩
  · rw [process_in_alarm_state_pressed inp g hs]
    exact ⟨rfl, rfl⟩
  · rw [process_in_alarm_state_idle inp g hs]
    refine ⟨rfl, rfl, rfl, rfl, rfl, fun h => ?_⟩
    have h1 : (main_alarm_check (main_refresh inp g)).cur_state = VVC_STATE_IN_ALARM :=
      main_alarm_check_in_alarm (main_refresh inp g) h
    have h2 : button_pressed inp.idr (main_alarm_check (main_refresh inp g)).last_button_state
        IOA_BUTTON_SELECT = false := by
      rw [main_alarm_check_last_button_state inp g]; exact hs
    show (main_dispatch inp (main_alarm_check (main_refresh inp g))).cur_state = _
    rw [main_dispatch_in_alarm inp _ h1, process_in_alarm_state_idle inp _ h2]
    exact h1

/-- Witness of C16: Select in InAlarm dismisses the alarm. -/
theorem process_in_alarm_state_spec_witness :
    (process_in_alarm_state (Inputs.ofRaw IOA_BUTTON_SELECT 0)
        { main_init 0 with cur_state := VVC_STATE_IN_ALARM }).cur_state = VVC_STATE_SHOW_TIME ∧
    (process_in_alarm_state (Inputs.ofRaw IOA_BUTTON_SELECT 0)
        { main_init 0 with cur_state := VVC_STATE_IN_ALARM }).alarm_remember_off = 1 :=
  (process_in_alarm_state_spec (Inputs.ofRaw IOA_BUTTON_SELECT 0)
      { main_init 0 with cur_state := VVC_STATE_IN_ALARM }).1 (by decide)

/-! ## The cursor range -/

theorem process_show_time_state_cursor_ok (inp : Inputs) (g : Globals)
    (hst : g.cur_state = VVC_STATE_SHOW_TIME) (h : cursor_ok g.cur_state g.cursor_position) :
    cursor_ok (process_show_time_state inp g).cur_state
      (process_show_time_state inp g).cursor_position := by
  simp only [process_show_time_state]
  split_ifs <;>
    simp only [cursor_ok, VVC_STATE_SHOW_TIME, VVC_STATE_IN_ALARM, VVC_STATE_MENU_PAGE_1,
      VVC_STATE_MENU_PAGE_2, VVC_STATE_SET_TIME, VVC_STATE_SET_ALARM, VVC_STATE_SET_ALARM_DAYS,
      VVC_STATE_SET_ALARM_TONE, VVC_STATE_SET_ALARM_STATE] at * <;>
    omega

theorem process_in_alarm_state_cursor_ok (inp : Inputs) (g : Globals)
    (hst : g.cur_state = VVC_STATE_IN_ALARM) (h : cursor_ok g.cur_state g.cursor_position) :
    cursor_ok (process_in_alarm_state inp g).cur_state
      (process_in_alarm_state inp g).cursor_position := by
  simp only [process_in_alarm_state]
  split_ifs <;>
    simp only [cursor_ok, VVC_STATE_SHOW_TIME, VVC_STATE_IN_ALARM, VVC_STATE_MENU_PAGE_1,
      VVC_STATE_MENU_PAGE_2, VVC_STATE_SET_TIME, VVC_STATE_SET_ALARM, VVC_STATE_SET_ALARM_DAYS,
      VVC_STATE_SET_ALARM_TONE, VVC_STATE_SET_ALARM_STATE] at * <;>
    omega

theorem stub_handlers_cursor_ok (inp : Inputs) (g : Globals)
    (hst : g.cur_state = VVC_STATE_SET_ALARM_DAYS ∨ g.cur_state = VVC_STATE_SET_ALARM_TONE ∨
      g.cur_state = VVC_STATE_SET_ALARM_STATE)
    (h : cursor_ok g.cur_state g.cursor_position) :
    cursor_ok (process_set_alarm_days_state inp g).cur_state
      (process_set_alarm_days_state inp g).cursor_position ∧
    cursor_ok (process_set_alarm_tone_state inp g).cur_state
      (process_set_alarm_tone_state inp g).cursor_position ∧
    cursor_ok (process_set_alarm_state_state inp g).cur_state
      (process_set_alarm_state_state inp g).cursor_position := by
  simp only [process_set_alarm_days_state, process_set_alarm_tone_state,
    process_set_alarm_state_state]
  split_ifs <;>
    simp only [cursor_ok, VVC_STATE_SHOW_TIME, VVC_STATE_IN_ALARM, VVC_STATE_MENU_PAGE_1,
      VVC_STATE_MENU_PAGE_2, VVC_STATE_SET_TIME, VVC_STATE_SET_ALARM, VVC_STATE_SET_ALARM_DAYS,
      VVC_STATE_SET_ALARM_TONE, VVC_STATE_SET_ALARM_STATE] at * <;>
    omega

theorem menu_page_1_up_down_cursor_ok (inp : Inputs) (g : Globals)
    (hst : g.cur_state = VVC_STATE_MENU_PAGE_1) (h : cursor_ok g.cur_state g.cursor_position) :
    cursor_ok (menu_page_1_up_down inp g).cur_state
      (menu_page_1_up_down inp g).cursor_position := by
  simp only [menu_page_1_up_down]
  split_ifs <;>
    simp only [cursor_ok, VVC_STATE_SHOW_TIME, VVC_STATE_IN_ALARM, VVC_STATE_MENU_PAGE_1,
      VVC_STATE_MENU_PAGE_2, VVC_STATE_SET_TIME, VVC_STATE_SET_ALARM, VVC_STATE_SET_ALARM_DAYS,
      VVC_STATE_SET_ALARM_TONE, VVC_STATE_SET_ALARM_STATE] at * <;>
    first | omega | decide

theorem menu_page_2_up_down_cursor_ok (inp : Inputs) (g : Globals)
    (hst : g.cur_state = VVC_STATE_MENU_PAGE_2) (h : cursor_ok g.cur_state g.cursor_position) :
    cursor_ok (menu_page_2_up_down inp g).cur_state
      (menu_page_2_up_down inp g).cursor_position := by
  simp only [menu_page_2_up_down]
  split_ifs <;>
    simp only [cursor_ok, VVC_STATE_SHOW_TIME, VVC_STATE_IN_ALARM, VVC_STATE_MENU_PAGE_1,
      VVC_STATE_MENU_PAGE_2, VVC_STATE_SET_TIME, VVC_STATE_SET_ALARM, VVC_STATE_SET_ALARM_DAYS,
      VVC_STATE_SET_ALARM_TONE, VVC_STATE_SET_ALARM_STATE] at * <;>
    first | omega | decide

theorem menu_page_1_select_cursor_ok (inp : Inputs) (g : Globals)
    (h : cursor_ok g.cur_state g.cursor_position) :
    cursor_ok (menu_page_1_select inp g).cur_state
      (menu_page_1_select inp g).cursor_position := by
  simp only [menu_page_1_select, menu_page_1_choose, load_time, load_alarm]
  split_ifs <;>
    simp only [cursor_ok, VVC_STATE_SHOW_TIME, VVC_STATE_IN_ALARM, VVC_STATE_MENU_PAGE_1,
      VVC_STATE_MENU_PAGE_2, VVC_STATE_SET_TIME, VVC_STATE_SET_ALARM, VVC_STATE_SET_ALARM_DAYS,
      VVC_STATE_SET_ALARM_TONE, VVC_STATE_SET_ALARM_STATE] at * <;>
    first | omega | decide

theorem menu_page_2_select_cursor_ok (inp : Inputs) (g : Globals)
    (h : cursor_ok g.cur_state g.cursor_position) :
    cursor_ok (menu_page_2_select inp g).cur_state
      (menu_page_2_select inp g).cursor_position := by
  simp only [menu_page_2_select, menu_page_2_choose, load_time, load_alarm]
  split_ifs <;>
    simp only [cursor_ok, VVC_STATE_SHOW_TIME, VVC_STATE_IN_ALARM, VVC_STATE_MENU_PAGE_1,
      VVC_STATE_MENU_PAGE_2, VVC_STATE_SET_TIME, VVC_STATE_SET_ALARM, VVC_STATE_SET_ALARM_DAYS,
      VVC_STATE_SET_ALARM_TONE, VVC_STATE_SET_ALARM_STATE] at * <;>
    first | omega | decide

theorem set_time_select_cursor_ok (inp : Inputs) (g : Globals)
    (hst : g.cur_state = VVC_STATE_SET_TIME) (h : cursor_ok g.cur_state g.cursor_position) :
    cursor_ok (set_time_select inp g).cur_state (set_time_select inp g).cursor_position := by
  simp only [set_time_select]
  split_ifs <;>
    simp only [cursor_ok, VVC_STATE_SHOW_TIME, VVC_STATE_IN_ALARM, VVC_STATE_MENU_PAGE_1,
      VVC_STATE_MENU_PAGE_2, VVC_STATE_SET_TIME, VVC_STATE_SET_ALARM, VVC_STATE_SET_ALARM_DAYS,
      VVC_STATE_SET_ALARM_TONE, VVC_STATE_SET_ALARM_STATE] at * <;>
    first | omega | decide

theorem set_alarm_select_cursor_ok (inp : Inputs) (g : Globals)
    (hst : g.cur_state = VVC_STATE_SET_ALARM) (h : cursor_ok g.cur_state g.cursor_position) :
    cursor_ok (set_alarm_select inp g).cur_state (set_alarm_select inp g).cursor_position := by
  simp only [set_alarm_select]
  split_ifs <;>
    simp only [cursor_ok, VVC_STATE_SHOW_TIME, VVC_STATE_IN_ALARM, VVC_STATE_MENU_PAGE_1,
      VVC_STATE_MENU_PAGE_2, VVC_STATE_SET_TIME, VVC_STATE_SET_ALARM, VVC_STATE_SET_ALARM_DAYS,
      VVC_STATE_SET_ALARM_TONE, VVC_STATE_SET_ALARM_STATE] at * <;>
    first | omega | decide

theorem process_menu_page_1_state_cursor_ok (inp : Inputs) (g : Globals)
    (hst : g.cur_state = VVC_STATE_MENU_PAGE_1) (h : cursor_ok g.cur_state g.cursor_position) :
    cursor_ok (process_menu_page_1_state inp g).cur_state
      (process_menu_page_1_state inp g).cursor_position :=
  menu_page_1_select_cursor_ok inp _
    (menu_page_1_up_down_cursor_ok inp
      { g with oled_fb := menu_page_1_draw g.cursor_position g.oled_fb } hst h)

theorem process_menu_page_2_state_cursor_ok (inp : Inputs) (g : Globals)
    (hst : g.cur_state = VVC_STATE_MENU_PAGE_2) (h : cursor_ok g.cur_state g.cursor_position) :
    cursor_ok (process_menu_page_2_state inp g).cur_state
      (process_menu_page_2_state inp g).cursor_position :=
  menu_page_2_select_cursor_ok inp _
    (menu_page_2_up_down_cursor_ok inp
      { g with oled_fb := menu_page_2_draw g.cursor_position g.oled_fb } hst h)

theorem process_set_time_state_cursor_ok (inp : Inputs) (g : Globals)
    (hst : g.cur_state = VVC_STATE_SET_TIME) (h : cursor_ok g.cur_state g.cursor_position) :
    cursor_ok (process_set_time_state inp g).cur_state
      (process_set_time_state inp g).cursor_position := by
  apply set_time_select_cursor_ok inp
  · rw [edit_up_down_cur_state]; exact hst
  · rw [edit_up_down_cur_state, edit_up_down_cursor_position]; exact h

theorem process_set_alarm_state_cursor_ok (inp : Inputs) (g : Globals)
    (hst : g.cur_state = VVC_STATE_SET_ALARM) (h : cursor_ok g.cur_state g.cursor_position) :
    cursor_ok (process_set_alarm_state inp g).cur_state
      (process_set_alarm_state inp g).cursor_position := by
  apply set_alarm_select_cursor_ok inp
  · rw [edit_up_down_cur_state]; exact hst
  · rw [edit_up_down_cur_state, edit_up_down_cursor_position]; exact h

theorem main_dispatch_cursor_ok (inp : Inputs) (g : Globals)
    (h : cursor_ok g.cur_state g.cursor_position) :
    cursor_ok (main_dispatch inp g).cur_state (main_dispatch inp g).cursor_position := by
  unfold main_dispatch
  split_ifs with h0 h1 h2 h3 h4 h5 h6 h7 h8
  · exact process_show_time_state_cursor_ok inp g h0 h
  · exact process_in_alarm_state_cursor_ok inp g h1 h
  · exact process_menu_page_1_state_cursor_ok inp g h2 h
  · exact process_menu_page_2_state_cursor_ok inp g h3 h
  · exact process_set_time_state_cursor_ok inp g h4 h
  · exact process_set_alarm_state_cursor_ok inp g h5 h
  · exact (stub_handlers_cursor_ok inp g (Or.inl h6) h).1
  · exact (stub_handlers_cursor_ok inp g (Or.inr (Or.inl h7)) h).2.1
  · exact (stub_handlers_cursor_ok inp g (Or.inr (Or.inr h8)) h).2.2
  · exact h

theorem main_alarm_check_cursor_ok (g : Globals)
    (h : cursor_ok g.cur_state g.cursor_position) :
    cursor_ok (main_alarm_check g).cur_state (main_alarm_check g).cursor_position := by
  simp only [main_alarm_check]
  split_ifs
  · exact h
  · simp only [cursor_ok, VVC_STATE_SHOW_TIME, VVC_STATE_IN_ALARM, VVC_STATE_MENU_PAGE_1,
      VVC_STATE_MENU_PAGE_2, VVC_STATE_SET_TIME, VVC_STATE_SET_ALARM, VVC_STATE_SET_ALARM_DAYS,
      VVC_STATE_SET_ALARM_TONE, VVC_STATE_SET_ALARM_STATE]
    decide
  · exact h

theorem main_loop_body_cursor_ok (inp : Inputs) (g : Globals)
    (h : cursor_ok g.cur_state g.cursor_position) :
    cursor_ok (main_loop_body inp g).cur_state (main_loop_body inp g).cursor_position :=
  main_dispatch_cursor_ok inp _ (main_alarm_check_cursor_ok (main_refresh inp g) h)

theorem main_loop_cursor_ok (inputs : List Inputs) (g : Globals)
    (h : cursor_ok g.cur_state g.cursor_position) :
    cursor_ok (main_loop inputs g).cur_state (main_loop inputs g).cursor_position := by
  induction inputs generalizing g with
  | nil => exact h
  | cons inp rest ih => exact ih (main_loop_body inp g) (main_loop_body_cursor_ok inp g h)

theorem main_init_cursor_ok (rtc_alarm : Nat) :
    cursor_ok (main_init rtc_alarm).cur_state (main_init rtc_alarm).cursor_position := by
  show cursor_ok 0 0
  simp only [cursor_ok, VVC_STATE_SHOW_TIME, VVC_STATE_IN_ALARM, VVC_STATE_MENU_PAGE_1,
      VVC_STATE_MENU_PAGE_2, VVC_STATE_SET_TIME, VVC_STATE_SET_ALARM, VVC_STATE_SET_ALARM_DAYS,
      VVC_STATE_SET_ALARM_TONE, VVC_STATE_SET_ALARM_STATE]
  decide

/-- C17: after any number of cycles of the loop of `main`, begun from the state
at entry of the loop and fed any sequence of RTC words and button samples, the
cursor is in 0..2 in MenuPage1 and MenuPage2, in 0..1 in SetTime and SetAlarm and
0 in ShowTime, InAlarm, SetAlarmDays, SetAlarmTone and SetAlarmState, and the
state is one of the nine state codes. -/
theorem cursor_range_invariant (rtc_alarm : Nat) (inputs : List Inputs) :
    (main_init rtc_alarm).cur_state = VVC_STATE_SHOW_TIME ∧
    (main_init rtc_alarm).cursor_position = 0 ∧
    (main_init rtc_alarm).alarm_remember_off = 0 ∧
    (main_init rtc_alarm).last_button_state = 0 ∧
    (((main_loop inputs (main_init rtc_alarm)).cur_state = VVC_STATE_MENU_PAGE_1 ∨
      (main_loop inputs (main_init rtc_alarm)).cur_state = VVC_STATE_MENU_PAGE_2) →
        (main_loop inputs (main_init rtc_alarm)).cursor_position ≤ 2) ∧
    (((main_loop inputs (main_init rtc_alarm)).cur_state = VVC_STATE_SET_TIME ∨
      (main_loop inputs (main_init rtc_alarm)).cur_state = VVC_STATE_SET_ALARM) →
        (main_loop inputs (main_init rtc_alarm)).cursor_position ≤ 1) ∧
    (((main_loop inputs (main_init rtc_alarm)).cur_state = VVC_STATE_SHOW_TIME ∨
      (main_loop inputs (main_init rtc_alarm)).cur_state = VVC_STATE_IN_ALARM ∨
      (main_loop inputs (main_init rtc_alarm)).cur_state = VVC_STATE_SET_ALARM_DAYS ∨
      (main_loop inputs (main_init rtc_alarm)).cur_state = VVC_STATE_SET_ALARM_TONE ∨
      (main_loop inputs (main_init rtc_alarm)).cur_state = VVC_STATE_SET_ALARM_STATE) →
        (main_loop inputs (main_init rtc_alarm)).cursor_position = 0) ∧
    ((main_loop inputs (main_init rtc_alarm)).cur_state = VVC_STATE_SHOW_TIME ∨
      (main_loop inputs (main_init rtc_alarm)).cur_state = VVC_STATE_IN_ALARM ∨
      (main_loop inputs (main_init rtc_alarm)).cur_state = VVC_STATE_MENU_PAGE_1 ∨
      (main_loop inputs (main_init rtc_alarm)).cur_state = VVC_STATE_MENU_PAGE_2 ∨
      (main_loop inputs (main_init rtc_alarm)).cur_state = VVC_STATE_SET_TIME ∨
      (main_loop inputs (main_init rtc_alarm)).cur_state = VVC_STATE_SET_ALARM ∨
      (main_loop inputs (main_init rtc_alarm)).cur_state = VVC_STATE_SET_ALARM_DAYS ∨
      (main_loop inputs (main_init rtc_alarm)).cur_state = VVC_STATE_SET_ALARM_TONE ∨
      (main_loop inputs (main_init rtc_alarm)).cur_state = VVC_STATE_SET_ALARM_STATE) := by
  have h := main_loop_cursor_ok inputs (main_init rtc_alarm) (main_init_cursor_ok rtc_alarm)
  refine ⟨rfl, rfl, rfl, rfl, ?_⟩
  generalize (main_loop inputs (main_init rtc_alarm)).cur_state = st at h ⊢
  generalize (main_loop inputs (main_init rtc_alarm)).cursor_position = c at h ⊢
  simp only [cursor_ok, VVC_STATE_SHOW_TIME, VVC_STATE_IN_ALARM, VVC_STATE_MENU_PAGE_1,
      VVC_STATE_MENU_PAGE_2, VVC_STATE_SET_TIME, VVC_STATE_SET_ALARM, VVC_STATE_SET_ALARM_DAYS,
      VVC_STATE_SET_ALARM_TONE, VVC_STATE_SET_ALARM_STATE] at h ⊢
  omega

/-! ## The range of the edit fields -/

/-- The load from a valid time word gives a time of day. -/
theorem load_time_in_range (g : Globals) (hv : valid_time_word g.time_word) :
    edit_in_range (load_time g) := by
  simp only [valid_time_word] at hv
  show 0 ≤ (((g.time_word &&& 0x00300000) >>> 20 : Nat) : Int) * 10
        + (((g.time_word &&& 0x000F0000) >>> 16 : Nat) : Int) ∧
      (((g.time_word &&& 0x00300000) >>> 20 : Nat) : Int) * 10
        + (((g.time_word &&& 0x000F0000) >>> 16 : Nat) : Int) ≤ 23 ∧
      0 ≤ (((g.time_word &&& 0x0000F000) >>> 12 : Nat) : Int) * 10
        + (((g.time_word &&& 0x00000F00) >>> 8 : Nat) : Int) ∧
      (((g.time_word &&& 0x0000F000) >>> 12 : Nat) : Int) * 10
        + (((g.time_word &&& 0x00000F00) >>> 8 : Nat) : Int) ≤ 59
  generalize (g.time_word &&& 0x00300000) >>> 20 = a at hv ⊢
  generalize (g.time_word &&& 0x000F0000) >>> 16 = b at hv ⊢
  generalize (g.time_word &&& 0x0000F000) >>> 12 = c at hv ⊢
  generalize (g.time_word &&& 0x00000F00) >>> 8 = d at hv ⊢
  omega

/-- The load from a valid alarm register gives a time of day. -/
theorem load_alarm_in_range (inp : Inputs) (g : Globals)
    (hv : valid_alarm_reg (inp.rtc_alarm % 4294967296)) :
    edit_in_range (load_alarm inp g) := by
  simp only [valid_alarm_reg] at hv
  show 0 ≤ ((((inp.rtc_alarm % 4294967296) &&& 0x00003000) >>> 12 : Nat) : Int) * 10
        + ((((inp.rtc_alarm % 4294967296) &&& 0x00000F00) >>> 8 : Nat) : Int) ∧
      ((((inp.rtc_alarm % 4294967296) &&& 0x00003000) >>> 12 : Nat) : Int) * 10
        + ((((inp.rtc_alarm % 4294967296) &&& 0x00000F00) >>> 8 : Nat) : Int) ≤ 23 ∧
      0 ≤ ((((inp.rtc_alarm % 4294967296) &&& 0x000000F0) >>> 4 : Nat) : Int) * 10
        + (((inp.rtc_alarm % 4294967296) &&& 0x0000000F : Nat) : Int) ∧
      ((((inp.rtc_alarm % 4294967296) &&& 0x000000F0) >>> 4 : Nat) : Int) * 10
        + (((inp.rtc_alarm % 4294967296) &&& 0x0000000F : Nat) : Int) ≤ 59
  generalize ((inp.rtc_alarm % 4294967296) &&& 0x00003000) >>> 12 = a at hv ⊢
  generalize ((inp.rtc_alarm % 4294967296) &&& 0x00000F00) >>> 8 = b at hv ⊢
  generalize ((inp.rtc_alarm % 4294967296) &&& 0x000000F0) >>> 4 = c at hv ⊢
  generalize (inp.rtc_alarm % 4294967296) &&& 0x0000000F = d at hv ⊢
  omega

/-- The Up/Down block keeps a time of day a time of day. -/
theorem edit_up_down_in_range (inp : Inputs) (g : Globals) (h : edit_in_range g) :
    edit_in_range (edit_up_down inp g) := by
  simp only [edit_up_down]
  split_ifs <;> simp only [edit_in_range] at * <;> omega

theorem set_time_select_in_range (inp : Inputs) (g : Globals) (h : edit_in_range g) :
    edit_in_range (set_time_select inp g) := by
  rw [set_time_select_frame]; exact h

theorem set_alarm_select_in_range (inp : Inputs) (g : Globals) (h : edit_in_range g) :
    edit_in_range (set_alarm_select inp g) := by
  rw [set_alarm_select_frame]; exact h

/-- Every step of `process_set_time_state` keeps the edit fields in range. -/
theorem process_set_time_state_in_range (inp : Inputs) (g : Globals) (h : edit_in_range g) :
    edit_in_range (process_set_time_state inp g) :=
  set_time_select_in_range inp _
    (edit_up_down_in_range inp
      { g with oled_fb := set_time_draw g.oled_fb, hw := g.hw ++ show_edit_digits g } h)

/-- Every step of `process_set_alarm_state` keeps the edit fields in range. -/
theorem process_set_alarm_state_in_range (inp : Inputs) (g : Globals) (h : edit_in_range g) :
    edit_in_range (process_set_alarm_state inp g) :=
  set_alarm_select_in_range inp _
    (edit_up_down_in_range inp
      { g with oled_fb := set_alarm_draw g.oled_fb, hw := g.hw ++ show_edit_digits g } h)

theorem menu_page_1_choose_else (inp : Inputs) (g : Globals)
    (h0 : g.cursor_position ≠ 0) (h1 : g.cursor_position ≠ 1) (h2 : g.cursor_position ≠ 2) :
    menu_page_1_choose inp g = { g with cur_state := VVC_STATE_SHOW_TIME } := by
  unfold menu_page_1_choose
  rw [if_neg h0, if_neg h1, if_neg h2]

/-- The Select block of MenuPage1 enters an edit state only with a loaded time
of day. -/
theorem menu_page_1_select_edit (inp : Inputs) (g : Globals)
    (hst : g.cur_state ≠ VVC_STATE_SET_TIME ∧ g.cur_state ≠ VVC_STATE_SET_ALARM)
    (ht : valid_time_word g.time_word)
    (ha : valid_alarm_reg (inp.rtc_alarm % 4294967296)) :
    ((menu_page_1_select inp g).cur_state = VVC_STATE_SET_TIME ∨
      (menu_page_1_select inp g).cur_state = VVC_STATE_SET_ALARM) →
    edit_in_range (menu_page_1_select inp g) := by
  by_cases hs : button_pressed inp.idr g.last_button_state IOA_BUTTON_SELECT = true
  · rw [menu_page_1_select_pressed inp g hs]
    by_cases h0 : g.cursor_position = 0
    · rw [menu_page_1_choose_0 inp g h0]
      intro _
      exact load_time_in_range { g with cur_state := VVC_STATE_SET_TIME } ht
    · by_cases h1 : g.cursor_position = 1
      · rw [menu_page_1_choose_1 inp g h1]
        intro _
        exact load_alarm_in_range inp _ ha
      · by_cases h2 : g.cursor_position = 2
        · rw [menu_page_1_choose_2 inp g h2]
          intro h
          have h' : VVC_STATE_SET_ALARM_DAYS = VVC_STATE_SET_TIME ∨
              VVC_STATE_SET_ALARM_DAYS = VVC_STATE_SET_ALARM := h
          exact absurd h' (by decide)
        · rw [menu_page_1_choose_else inp g h0 h1 h2]
          intro h
          have h' : VVC_STATE_SHOW_TIME = VVC_STATE_SET_TIME ∨
              VVC_STATE_SHOW_TIME = VVC_STATE_SET_ALARM := h
          exact absurd h' (by decide)
  · rw [menu_page_1_select_idle inp g (by simpa using hs)]
    intro h
    rcases h with h | h
    · exact absurd h hst.1
    · exact absurd h hst.2

theorem menu_page_1_up_down_not_edit (inp : Inputs) (g : Globals)
    (hst : g.cur_state = VVC_STATE_MENU_PAGE_1) :
    (menu_page_1_up_down inp g).cur_state ≠ VVC_STATE_SET_TIME ∧
    (menu_page_1_up_down inp g).cur_state ≠ VVC_STATE_SET_ALARM := by
  simp only [menu_page_1_up_down]
  split_ifs <;>
    simp only [VVC_STATE_SHOW_TIME, VVC_STATE_IN_ALARM, VVC_STATE_MENU_PAGE_1,
      VVC_STATE_MENU_PAGE_2, VVC_STATE_SET_TIME, VVC_STATE_SET_ALARM, VVC_STATE_SET_ALARM_DAYS,
      VVC_STATE_SET_ALARM_TONE, VVC_STATE_SET_ALARM_STATE] at * <;>
    omega

theorem menu_page_1_up_down_time_word (inp : Inputs) (g : Globals) :
    (menu_page_1_up_down inp g).time_word = g.time_word := by
  rw [menu_page_1_up_down_frame]

theorem process_menu_page_1_state_edit (inp : Inputs) (g : Globals)
    (hst : g.cur_state = VVC_STATE_MENU_PAGE_1)
    (ht : valid_time_word g.time_word)
    (ha : valid_alarm_reg (inp.rtc_alarm % 4294967296)) :
    ((process_menu_page_1_state inp g).cur_state = VVC_STATE_SET_TIME ∨
      (process_menu_page_1_state inp g).cur_state = VVC_STATE_SET_ALARM) →
    edit_in_range (process_menu_page_1_state inp g) := by
  apply menu_page_1_select_edit inp _
    (menu_page_1_up_down_not_edit inp
      { g with oled_fb := menu_page_1_draw g.cursor_position g.oled_fb } hst) _ ha
  rw [menu_page_1_up_down_time_word]
  exact ht

theorem process_menu_page_2_state_not_edit (inp : Inputs) (g : Globals)
    (hst : g.cur_state = VVC_STATE_MENU_PAGE_2) :
    (process_menu_page_2_state inp g).cur_state ≠ VVC_STATE_SET_TIME ∧
    (process_menu_page_2_state inp g).cur_state ≠ VVC_STATE_SET_ALARM := by
  simp only [process_menu_page_2_state, menu_page_2_select, menu_page_2_choose,
    menu_page_2_up_down, load_alarm]
  split_ifs <;>
    simp only [VVC_STATE_SHOW_TIME, VVC_STATE_IN_ALARM, VVC_STATE_MENU_PAGE_1,
      VVC_STATE_MENU_PAGE_2, VVC_STATE_SET_TIME, VVC_STATE_SET_ALARM, VVC_STATE_SET_ALARM_DAYS,
      VVC_STATE_SET_ALARM_TONE, VVC_STATE_SET_ALARM_STATE] at * <;>
    omega

theorem other_handlers_not_edit (inp : Inputs) (g : Globals)
    (hst : g.cur_state ≠ VVC_STATE_SET_TIME ∧ g.cur_state ≠ VVC_STATE_SET_ALARM) :
    ((process_show_time_state inp g).cur_state ≠ VVC_STATE_SET_TIME ∧
      (process_show_time_state inp g).cur_state ≠ VVC_STATE_SET_ALARM) ∧
    ((process_in_alarm_state inp g).cur_state ≠ VVC_STATE_SET_TIME ∧
      (process_in_alarm_state inp g).cur_state ≠ VVC_STATE_SET_ALARM) ∧
    ((process_set_alarm_days_state inp g).cur_state ≠ VVC_STATE_SET_TIME ∧
      (process_set_alarm_days_state inp g).cur_state ≠ VVC_STATE_SET_ALARM) ∧
    ((process_set_alarm_tone_state inp g).cur_state ≠ VVC_STATE_SET_TIME ∧
      (process_set_alarm_tone_state inp g).cur_state ≠ VVC_STATE_SET_ALARM) ∧
    ((process_set_alarm_state_state inp g).cur_state ≠ VVC_STATE_SET_TIME ∧
      (process_set_alarm_state_state inp g).cur_state ≠ VVC_STATE_SET_ALARM) := by
  simp only [process_show_time_state, process_in_alarm_state, process_set_alarm_days_state,
    process_set_alarm_tone_state, process_set_alarm_state_state]
  split_ifs <;>
    simp only [VVC_STATE_SHOW_TIME, VVC_STATE_IN_ALARM, VVC_STATE_MENU_PAGE_1,
      VVC_STATE_MENU_PAGE_2, VVC_STATE_SET_TIME, VVC_STATE_SET_ALARM, VVC_STATE_SET_ALARM_DAYS,
      VVC_STATE_SET_ALARM_TONE, VVC_STATE_SET_ALARM_STATE] at * <;>
    omega

theorem main_dispatch_edit (inp : Inputs) (g : Globals)
    (h : (g.cur_state = VVC_STATE_SET_TIME ∨ g.cur_state = VVC_STATE_SET_ALARM) →
      edit_in_range g)
    (ht : valid_time_word g.time_word)
    (ha : valid_alarm_reg (inp.rtc_alarm % 4294967296)) :
    ((main_dispatch inp g).cur_state = VVC_STATE_SET_TIME ∨
      (main_dispatch inp g).cur_state = VVC_STATE_SET_ALARM) →
    edit_in_range (main_dispatch inp g) := by
  have key : ∀ r : Globals,
      (r.cur_state ≠ VVC_STATE_SET_TIME ∧ r.cur_state ≠ VVC_STATE_SET_ALARM) →
      (r.cur_state = VVC_STATE_SET_TIME ∨ r.cur_state = VVC_STATE_SET_ALARM) →
      edit_in_range r := by
    intro r hr h'
    rcases h' with h' | h'
    · exact absurd h' hr.1
    · exact absurd h' hr.2
  have ne : ∀ st : Nat, st ≠ VVC_STATE_SET_TIME → st ≠ VVC_STATE_SET_ALARM →
      g.cur_state = st →
      g.cur_state ≠ VVC_STATE_SET_TIME ∧ g.cur_state ≠ VVC_STATE_SET_ALARM := by
    intro st a b e
    rw [e]; exact ⟨a, b⟩
  unfold main_dispatch
  split_ifs with h0 h1 h2 h3 h4 h5 h6 h7 h8
  · exact key _ (other_handlers_not_edit inp g (ne _ (by decide) (by decide) h0)).1
  · exact key _ (other_handlers_not_edit inp g (ne _ (by decide) (by decide) h1)).2.1
  · exact process_menu_page_1_state_edit inp g h2 ht ha
  · exact key _ (process_menu_page_2_state_not_edit inp g h3)
  · intro _
    exact process_set_time_state_in_range inp g (h (Or.inl h4))
  · intro _
    exact process_set_alarm_state_in_range inp g (h (Or.inr h5))
  · exact key _ (other_handlers_not_edit inp g (ne _ (by decide) (by decide) h6)).2.2.1
  · exact key _ (other_handlers_not_edit inp g (ne _ (by decide) (by decide) h7)).2.2.2.1
  · exact key _ (other_handlers_not_edit inp g (ne _ (by decide) (by decide) h8)).2.2.2.2
  · exact h

theorem main_alarm_check_edit (g : Globals)
    (h : (g.cur_state = VVC_STATE_SET_TIME ∨ g.cur_state = VVC_STATE_SET_ALARM) →
      edit_in_range g) :
    ((main_alarm_check g).cur_state = VVC_STATE_SET_TIME ∨
      (main_alarm_check g).cur_state = VVC_STATE_SET_ALARM) →
    edit_in_range (main_alarm_check g) := by
  simp only [main_alarm_check]
  split_ifs
  · exact h
  · intro h'
    have h'' : VVC_STATE_IN_ALARM = VVC_STATE_SET_TIME ∨
        VVC_STATE_IN_ALARM = VVC_STATE_SET_ALARM := h'
    exact absurd h'' (by decide)
  · exact h

theorem main_alarm_check_time_word (g : Globals) :
    (main_alarm_check g).time_word = g.time_word := by
  simp only [main_alarm_check]
  split_ifs <;> rfl

theorem main_loop_body_edit (inp : Inputs) (g : Globals)
    (h : (g.cur_state = VVC_STATE_SET_TIME ∨ g.cur_state = VVC_STATE_SET_ALARM) →
      edit_in_range g)
    (ht : valid_time_word (inp.rtc_time % 4294967296))
    (ha : valid_alarm_reg (inp.rtc_alarm % 4294967296)) :
    ((main_loop_body inp g).cur_state = VVC_STATE_SET_TIME ∨
      (main_loop_body inp g).cur_state = VVC_STATE_SET_ALARM) →
    edit_in_range (main_loop_body inp g) := by
  apply main_dispatch_edit inp (main_alarm_check (main_refresh inp g))
    (main_alarm_check_edit (main_refresh inp g) h) _ ha
  rw [main_alarm_check_time_word]
  exact ht

theorem main_loop_edit (inputs : List Inputs) (g : Globals)
    (hv : ∀ inp ∈ inputs, valid_time_word (inp.rtc_time % 4294967296) ∧
      valid_alarm_reg (inp.rtc_alarm % 4294967296))
    (h : (g.cur_state = VVC_STATE_SET_TIME ∨ g.cur_state = VVC_STATE_SET_ALARM) →
      edit_in_range g) :
    ((main_loop inputs g).cur_state = VVC_STATE_SET_TIME ∨
      (main_loop inputs g).cur_state = VVC_STATE_SET_ALARM) →
    edit_in_range (main_loop inputs g) := by
  induction inputs generalizing g with
  | nil => exact h
  | cons inp rest ih =>
    have hi := hv inp (List.mem_cons_self inp rest)
    exact ih (main_loop_body inp g) (fun i hi' => hv i (List.mem_cons_of_mem inp hi'))
      (main_loop_body_edit inp g h hi.1 hi.2)

/-- C18: if every time word and every raw alarm word that the RTC returns has
valid BCD digits (hours 0..23, minutes 0..59 at their offsets), then after any
number of cycles from the entry of the loop, whenever the state is SetTime or
SetAlarm, `cur_hours` is in 0..23 and `cur_minutes` is in 0..59; the loads from
valid words give such values, and every step of `process_set_time_state` and of
`process_set_alarm_state` keeps them so. -/
theorem edit_buffer_range (rtc_alarm : Nat) (inputs : List Inputs)
    (hv : ∀ inp ∈ inputs, valid_time_word (inp.rtc_time % 4294967296) ∧
      valid_alarm_reg (inp.rtc_alarm % 4294967296)) :
    (((main_loop inputs (main_init rtc_alarm)).cur_state = VVC_STATE_SET_TIME ∨
      (main_loop inputs (main_init rtc_alarm)).cur_state = VVC_STATE_SET_ALARM) →
        0 ≤ (main_loop inputs (main_init rtc_alarm)).cur_hours ∧
        (main_loop inputs (main_init rtc_alarm)).cur_hours ≤ 23 ∧
        0 ≤ (main_loop inputs (main_init rtc_alarm)).cur_minutes ∧
        (main_loop inputs (main_init rtc_alarm)).cur_minutes ≤ 59) ∧
    (∀ g : Globals, valid_time_word g.time_word → edit_in_range (load_time g)) ∧
    (∀ (inp : Inputs) (g : Globals), valid_alarm_reg (inp.rtc_alarm % 4294967296) →
      edit_in_range (load_alarm inp g)) ∧
    (∀ (inp : Inputs) (g : Globals), edit_in_range g →
      edit_in_range (process_set_time_state inp g) ∧
      edit_in_range (process_set_alarm_state inp g)) := by
  refine ⟨?_, load_time_in_range, load_alarm_in_range, fun inp g h =>
    ⟨process_set_time_state_in_range inp g h, process_set_alarm_state_in_range inp g h⟩⟩
  apply main_loop_edit inputs (main_init rtc_alarm) hv
  intro h
  have h' : VVC_STATE_SHOW_TIME = VVC_STATE_SET_TIME ∨
      VVC_STATE_SHOW_TIME = VVC_STATE_SET_ALARM := h
  exact absurd h' (by decide)

/-- Witness of C18: two Select presses from the entry of the loop, with the RTC
at 12:34, reach SetTime with the edit fields in range. -/
theorem edit_buffer_range_witness :
    (main_loop [Inputs.ofRaw IOA_BUTTON_SELECT 0x00123400, Inputs.ofRaw 0 0x00123400,
        Inputs.ofRaw IOA_BUTTON_SELECT 0x00123400] (main_init 0)).cur_state
      = VVC_STATE_SET_TIME ∧
    0 ≤ (main_loop [Inputs.ofRaw IOA_BUTTON_SELECT 0x00123400, Inputs.ofRaw 0 0x00123400,
        Inputs.ofRaw IOA_BUTTON_SELECT 0x00123400] (main_init 0)).cur_hours ∧
    (main_loop [Inputs.ofRaw IOA_BUTTON_SELECT 0x00123400, Inputs.ofRaw 0 0x00123400,
        Inputs.ofRaw IOA_BUTTON_SELECT 0x00123400] (main_init 0)).cur_hours ≤ 23 ∧
    0 ≤ (main_loop [Inputs.ofRaw IOA_BUTTON_SELECT 0x00123400, Inputs.ofRaw 0 0x00123400,
        Inputs.ofRaw IOA_BUTTON_SELECT 0x00123400] (main_init 0)).cur_minutes ∧
    (main_loop [Inputs.ofRaw IOA_BUTTON_SELECT 0x00123400, Inputs.ofRaw 0 0x00123400,
        Inputs.ofRaw IOA_BUTTON_SELECT 0x00123400] (main_init 0)).cur_minutes ≤ 59 :=
  ⟨by decide,
    (edit_buffer_range 0 [Inputs.ofRaw IOA_BUTTON_SELECT 0x00123400, Inputs.ofRaw 0 0x00123400,
        Inputs.ofRaw IOA_BUTTON_SELECT 0x00123400] (by decide)).1 (Or.inl (by decide))⟩

/-! ## Lines and filled rectangles -/

theorem forUp_add_nat {σ : Type} (a : Int) (n : Nat) (body : Int → σ → σ) (s : σ) :
    forUp a (a + (n : Int)) body s
      = (List.range n).foldl (fun (acc : σ) (k : Nat) => body (a + (k : Int)) acc) s := by
  unfold forUp
  have e : (a + (n : Int) - a).toNat = n := by
    have : a + (n : Int) - a = (n : Int) := by omega
    rw [this]; exact Int.toNat_ofNat n
  rw [e]
  generalize List.range n = l
  induction l generalizing s with
  | nil => rfl
  | cons k rest ih => exact ih (body (a + (k : Int)) s)

theorem forUp_zero {σ : Type} (a : Int) (body : Int → σ → σ) (s : σ) :
    forUp a (a + ((0 : Nat) : Int)) body s = s := by
  rw [forUp_add_nat]; rfl

theorem forUp_succ {σ : Type} (a : Int) (n : Nat) (body : Int → σ → σ) (s : σ) :
    forUp a (a + ((n + 1 : Nat) : Int)) body s
      = body (a + (n : Int)) (forUp a (a + (n : Int)) body s) := by
  rw [forUp_add_nat, forUp_add_nat, List.range_succ, List.foldl_append]
  rfl

/-- The pixels after `oled_write_pixel`, inside the screen. -/
theorem oled_write_pixel_pixel (fb : Framebuffer) (x y : Nat) (hx : x < 128) (hy : y < 64)
    (color : Fin 256) (px py : Nat) (hpx : px < 128) (hpy : py < 64) :
    (oled_write_pixel x y color fb).pixel px py
      = if px = x ∧ py = y then decide (color ≠ 0) else fb.pixel px py := by
  obtain ⟨_, hbit, hother, hbytes⟩ := oled_write_pixel_spec fb x y hx hy color
  unfold Framebuffer.pixel
  by_cases hi : px + (py / 8) * 128 = x + (y / 8) * 128
  · have h1 : px = x := by omega
    have h2 : py / 8 = y / 8 := by omega
    by_cases hk : py % 8 = y % 8
    · have h3 : py = y := by omega
      rw [if_pos ⟨h1, h3⟩, hi, hk]
      exact hbit
    · have h3 : ¬ (px = x ∧ py = y) := by
        intro h; exact hk (by rw [h.2])
      rw [if_neg h3, hi]
      exact hother _ hk
  · have h3 : ¬ (px = x ∧ py = y) := by
      intro h; exact hi (by rw [h.1, h.2])
    rw [if_neg h3]
    have hlt := pixel_index_lt px py hpx hpy
    rw [byteAt_of_lt _ _ hlt, byteAt_of_lt _ _ hlt, hbytes ⟨_, hlt⟩ hi]

theorem oled_write_pixel_fault (fb : Framebuffer) (x y : Nat) (hx : x < 128) (hy : y < 64)
    (color : Fin 256) : (oled_write_pixel x y color fb).fault = fb.fault :=
  (oled_write_pixel_spec fb x y hx hy color).1

/-- A framebuffer is determined by its pixels and its fault flag. -/
theorem framebuffer_ext_pixel (a b : Framebuffer) (hf : a.fault = b.fault)
    (hp : ∀ px py, px < 128 → py < 64 → a.pixel px py = b.pixel px py) : a = b := by
  apply framebuffer_ext a b _ hf
  intro i
  apply Fin.ext
  apply Nat.eq_of_testBit_eq
  intro j
  by_cases hj : j < 8
  · have hi : i.val < 1024 := i.isLt
    have h := hp (i.val % 128) (i.val / 128 * 8 + j) (Nat.mod_lt _ (by decide)) (by omega)
    unfold Framebuffer.pixel at h
    have e1 : i.val % 128 + (i.val / 128 * 8 + j) / 8 * 128 = i.val := by omega
    have e2 : (i.val / 128 * 8 + j) % 8 = j := by omega
    rw [e1, e2, byteAt_of_lt a _ i.isLt, byteAt_of_lt b _ i.isLt] at h
    exact h
  · rw [byte_testBit_high _ j (by omega), byte_testBit_high _ j (by omega)]

theorem oled_draw_v_line_eq (x y h : Int) (fb : Framebuffer) :
    oled_draw_v_line x y h 1 fb
      = forUp y (y + h) (fun y_pos acc => oled_write_pixel x y_pos 1 acc) fb := rfl

theorem oled_draw_h_line_eq (x y w : Int) (fb : Framebuffer) :
    oled_draw_h_line x y w 1 fb
      = forUp x (x + w) (fun x_pos acc => oled_write_pixel x_pos y 1 acc) fb := rfl

/-- The pixels after a vertical line of colour 1 inside the screen. -/
theorem oled_draw_v_line_pixel (fb : Framebuffer) (x y h : Nat) (hx : x < 128)
    (hy : y + h ≤ 64) :
    (oled_draw_v_line x y h 1 fb).fault = fb.fault ∧
    ∀ px py, px < 128 → py < 64 →
      (oled_draw_v_line x y h 1 fb).pixel px py
        = (fb.pixel px py || decide (px = x ∧ y ≤ py ∧ py < y + h)) := by
  rw [oled_draw_v_line_eq]
  induction h with
  | zero =>
    rw [forUp_zero]
    refine ⟨rfl, fun px py _ _ => ?_⟩
    cases fb.pixel px py <;> simp
  | succ n ih =>
    obtain ⟨ihf, ihp⟩ := ih (by omega)
    rw [forUp_succ]
    generalize forUp (y : Int) ((y : Int) + (n : Int))
      (fun y_pos acc => oled_write_pixel (x : Int) y_pos 1 acc) fb = prev at ihf ihp ⊢
    have hc : ((y : Int) + (n : Int)) = ((y + n : Nat) : Int) := by push_cast; rfl
    rw [hc]
    refine ⟨?_, fun px py hpx hpy => ?_⟩
    · rw [oled_write_pixel_fault _ x (y + n) hx (by omega)]; exact ihf
    · rw [oled_write_pixel_pixel _ x (y + n) hx (by omega) 1 px py hpx hpy, ihp px py hpx hpy]
      by_cases hh : px = x ∧ py = y + n
      · rw [if_pos hh]
        have : (px = x ∧ y ≤ py ∧ py < y + (n + 1)) := ⟨hh.1, by omega, by omega⟩
        simp [this]
      · rw [if_neg hh]
        congr 1
        apply decide_eq_decide.mpr
        constructor
        · rintro ⟨a, b, c⟩; exact ⟨a, b, by omega⟩
        · rintro ⟨a, b, c⟩
          refine ⟨a, b, ?_⟩
          by_contra hcon
          exact hh ⟨a, by omega⟩

/-- The pixels after a horizontal line of colour 1 inside the screen. -/
theorem oled_draw_h_line_pixel (fb : Framebuffer) (x y w : Nat) (hx : x + w ≤ 128)
    (hy : y < 64) :
    (oled_draw_h_line x y w 1 fb).fault = fb.fault ∧
    ∀ px py, px < 128 → py < 64 →
      (oled_draw_h_line x y w 1 fb).pixel px py
        = (fb.pixel px py || decide (py = y ∧ x ≤ px ∧ px < x + w)) := by
  rw [oled_draw_h_line_eq]
  induction w with
  | zero =>
    rw [forUp_zero]
    refine ⟨rfl, fun px py _ _ => ?_⟩
    cases fb.pixel px py <;> simp
  | succ n ih =>
    obtain ⟨ihf, ihp⟩ := ih (by omega)
    rw [forUp_succ]
    generalize forUp (x : Int) ((x : Int) + (n : Int))
      (fun x_pos acc => oled_write_pixel x_pos (y : Int) 1 acc) fb = prev at ihf ihp ⊢
    have hc : ((x : Int) + (n : Int)) = ((x + n : Nat) : Int) := by push_cast; rfl
    rw [hc]
    refine ⟨?_, fun px py hpx hpy => ?_⟩
    · rw [oled_write_pixel_fault _ (x + n) y (by omega) hy]; exact ihf
    · rw [oled_write_pixel_pixel _ (x + n) y (by omega) hy 1 px py hpx hpy, ihp px py hpx hpy]
      by_cases hh : px = x + n ∧ py = y
      · rw [if_pos hh]
        have : (py = y ∧ x ≤ px ∧ px < x + (n + 1)) := ⟨hh.2, by omega, by omega⟩
        simp [this]
      · rw [if_neg hh]
        congr 1
        apply decide_eq_decide.mpr
        constructor
        · rintro ⟨a, b, c⟩; exact ⟨a, b, by omega⟩
        · rintro ⟨a, b, c⟩
          refine ⟨a, b, ?_⟩
          by_contra hcon
          exact hh ⟨by omega, a⟩

/-- The pixels after the filling by columns, inside the screen. -/
theorem fill_by_columns_pixel (fb : Framebuffer) (x y w h : Nat) (hx : x + w ≤ 128)
    (hy : y + h ≤ 64) :
    (fill_by_columns x y w h fb).fault = fb.fault ∧
    ∀ px py, px < 128 → py < 64 →
      (fill_by_columns x y w h fb).pixel px py
        = (fb.pixel px py || decide (x ≤ px ∧ px < x + w ∧ y ≤ py ∧ py < y + h)) := by
  unfold fill_by_columns
  induction w with
  | zero =>
    rw [forUp_zero]
    refine ⟨rfl, fun px py _ _ => ?_⟩
    have : ¬ (x ≤ px ∧ px < x + 0 ∧ y ≤ py ∧ py < y + h) := by omega
    rw [decide_eq_false this, Bool.or_false]
  | succ n ih =>
    obtain ⟨ihf, ihp⟩ := ih (by omega)
    rw [forUp_succ]
    generalize forUp (x : Int) ((x : Int) + (n : Int))
      (fun x_pos acc => oled_draw_v_line x_pos (y : Int) (h : Int) 1 acc) fb = prev at ihf ihp ⊢
    have hc : ((x : Int) + (n : Int)) = ((x + n : Nat) : Int) := by push_cast; rfl
    rw [hc]
    obtain ⟨lf, lp⟩ := oled_draw_v_line_pixel prev (x + n) y h (by omega) hy
    refine ⟨lf.trans ihf, fun px py hpx hpy => ?_⟩
    rw [lp px py hpx hpy, ihp px py hpx hpy, Bool.or_assoc]
    congr 1
    rw [← Bool.decide_or]
    apply decide_eq_decide.mpr
    constructor
    · rintro (⟨a, b, c, d⟩ | ⟨a, b, c⟩)
      · exact ⟨a, by omega, c, d⟩
      · exact ⟨by omega, by omega, b, c⟩
    · rintro ⟨a, b, c, d⟩
      by_cases e : px = x + n
      · exact Or.inr ⟨e, c, d⟩
      · exact Or.inl ⟨a, by omega, c, d⟩

/-- The pixels after the filling by rows, inside the screen. -/
theorem fill_by_rows_pixel (fb : Framebuffer) (x y w h : Nat) (hx : x + w ≤ 128)
    (hy : y + h ≤ 64) :
    (fill_by_rows x y w h fb).fault = fb.fault ∧
    ∀ px py, px < 128 → py < 64 →
      (fill_by_rows x y w h fb).pixel px py
        = (fb.pixel px py || decide (x ≤ px ∧ px < x + w ∧ y ≤ py ∧ py < y + h)) := by
  unfold fill_by_rows
  induction h with
  | zero =>
    rw [forUp_zero]
    refine ⟨rfl, fun px py _ _ => ?_⟩
    have : ¬ (x ≤ px ∧ px < x + w ∧ y ≤ py ∧ py < y + 0) := by omega
    rw [decide_eq_false this, Bool.or_false]
  | succ n ih =>
    obtain ⟨ihf, ihp⟩ := ih (by omega)
    rw [forUp_succ]
    generalize forUp (y : Int) ((y : Int) + (n : Int))
      (fun y_pos acc => oled_draw_h_line (x : Int) y_pos (w : Int) 1 acc) fb = prev at ihf ihp ⊢
    have hc : ((y : Int) + (n : Int)) = ((y + n : Nat) : Int) := by push_cast; rfl
    rw [hc]
    obtain ⟨lf, lp⟩ := oled_draw_h_line_pixel prev x (y + n) w hx (by omega)
    refine ⟨lf.trans ihf, fun px py hpx hpy => ?_⟩
    rw [lp px py hpx hpy, ihp px py hpx hpy, Bool.or_assoc]
    congr 1
    rw [← Bool.decide_or]
    apply decide_eq_decide.mpr
    constructor
    · rintro (⟨a, b, c, d⟩ | ⟨a, b, c⟩)
      · exact ⟨a, b, c, by omega⟩
      · exact ⟨b, c, by omega, by omega⟩
    · rintro ⟨a, b, c, d⟩
      by_cases e : py = y + n
      · exact Or.inr ⟨e, a, b⟩
      · exact Or.inl ⟨a, b, c, by omega⟩

/-- The filled branch of `oled_draw_rect` is one of the two scans. -/
theorem oled_draw_rect_fill (x y w h outline : Int) (color : Fin 256) (fb : Framebuffer)
    (ho : ¬ outline > 0) :
    oled_draw_rect x y w h outline color fb
      = if w > h then fill_by_rows x y w h fb else fill_by_columns x y w h fb := by
  unfold oled_draw_rect
  rw [if_neg ho]
  rfl

/-- C20: for a rectangle inside the screen, the filling by rows and the filling
by columns give the same framebuffer; `oled_draw_rect (x, y, w, h, 0, 1)` is the
row scan when `w > h` and the column scan otherwise, records no fault, and
afterwards a pixel of the screen is on exactly when it was on before or lies in
`[x, x+w) x [y, y+h)`. -/
theorem fill_scan_direction (fb : Framebuffer) (x y w h : Nat) (hx : x + w ≤ 128)
    (hy : y + h ≤ 64) :
    fill_by_rows x y w h fb = fill_by_columns x y w h fb ∧
    oled_draw_rect x y w h 0 1 fb
      = (if w > h then fill_by_rows x y w h fb else fill_by_columns x y w h fb) ∧
    (oled_draw_rect x y w h 0 1 fb).fault = fb.fault ∧
    ∀ px py, px < 128 → py < 64 →
      (oled_draw_rect x y w h 0 1 fb).pixel px py
        = (fb.pixel px py || decide (x ≤ px ∧ px < x + w ∧ y ≤ py ∧ py < y + h)) := by
  obtain ⟨rf, rp⟩ := fill_by_rows_pixel fb x y w h hx hy
  obtain ⟨cf, cp⟩ := fill_by_columns_pixel fb x y w h hx hy
  have heq : fill_by_rows x y w h fb = fill_by_columns x y w h fb :=
    framebuffer_ext_pixel _ _ (rf.trans cf.symm)
      (fun px py hpx hpy => (rp px py hpx hpy).trans (cp px py hpx hpy).symm)
  have hrect : oled_draw_rect x y w h 0 1 fb
      = (if w > h then fill_by_rows x y w h fb else fill_by_columns x y w h fb) := by
    rw [oled_draw_rect_fill (x : Int) (y : Int) (w : Int) (h : Int) 0 1 fb (by decide)]
    by_cases hwh : w > h
    · rw [if_pos hwh, if_pos (by exact_mod_cast hwh)]
    · rw [if_neg hwh, if_neg (by exact_mod_cast hwh)]
  have hcol : oled_draw_rect x y w h 0 1 fb = fill_by_columns x y w h fb := by
    rw [hrect]
    split_ifs
    · exact heq
    · rfl
  refine ⟨heq, hrect, ?_, ?_⟩
  · rw [hcol]; exact cf
  · rw [hcol]; exact cp

/-- Witness of C20: the 3 by 2 rectangle at (5, 10) on the blank framebuffer. -/
theorem fill_scan_direction_witness :
    fill_by_rows (5 : Nat) (10 : Nat) (3 : Nat) (2 : Nat) (Framebuffer.const 0)
      = fill_by_columns (5 : Nat) (10 : Nat) (3 : Nat) (2 : Nat) (Framebuffer.const 0) ∧
    (oled_draw_rect (5 : Nat) (10 : Nat) (3 : Nat) (2 : Nat) 0 1 (Framebuffer.const 0)).pixel 7 11
      = true ∧
    (oled_draw_rect (5 : Nat) (10 : Nat) (3 : Nat) (2 : Nat) 0 1 (Framebuffer.const 0)).pixel 8 11
      = false :=
  ⟨(fill_scan_direction (Framebuffer.const 0) 5 10 3 2 (by decide) (by decide)).1,
    by decide, by decide⟩

/-- The filled branch of `oled_draw_rect` does not read its `color` argument. -/
theorem oled_draw_rect_fill_color (x y w h outline : Int) (color : Fin 256)
    (fb : Framebuffer) (ho : ¬ outline > 0) :
    oled_draw_rect x y w h outline color fb = oled_draw_rect x y w h outline 1 fb := by
  rw [oled_draw_rect_fill x y w h outline color fb ho,
    oled_draw_rect_fill x y w h outline 1 fb ho]

/-- C19 fails in the code: `oled_draw_rect (0, 0, 1, 1, 0, 0)`, a filled
rectangle of colour 0, leaves pixel `(0, 0)` on, both on the blank framebuffer
and on the framebuffer with every pixel on, and so does the row scan of
`oled_draw_rect (0, 0, 2, 1, 0, 0)` with pixel `(1, 0)`; the four outline loops
do pass `color` on, and an outline of colour 0 clears pixel `(0, 0)`. -/
theorem oled_draw_rect_color_ignored :
    (oled_draw_rect 0 0 1 1 0 0 (Framebuffer.const 0)).pixel 0 0 = true ∧
    (oled_draw_rect 0 0 1 1 0 0 (Framebuffer.const 255)).pixel 0 0 = true ∧
    (oled_draw_rect 0 0 2 1 0 0 (Framebuffer.const 255)).pixel 1 0 = true ∧
    (oled_draw_rect 0 0 2 2 1 0 (Framebuffer.const 255)).pixel 0 0 = false := by
  refine ⟨by decide, by decide, by decide, by decide⟩

/-! ## Clearing the screen -/

theorem forUp_eq_range {σ : Type} (lo hi : Int) (body : Int → σ → σ) (s : σ) :
    forUp lo hi body s
      = (List.range (hi - lo).toNat).foldl
          (fun (acc : σ) (k : Nat) => body (lo + (k : Int)) acc) s := by
  unfold forUp
  generalize List.range (hi - lo).toNat = l
  induction l generalizing s with
  | nil => rfl
  | cons k rest ih => exact ih (body (lo + (k : Int)) s)

theorem forDown_eq_range {σ : Type} (hi lo : Int) (body : Int → σ → σ) (s : σ) :
    forDown hi lo body s
      = (List.range (hi - lo).toNat).foldl
          (fun (acc : σ) (k : Nat) => body (hi - (k : Int)) acc) s := by
  unfold forDown
  generalize List.range (hi - lo).toNat = l
  induction l generalizing s with
  | nil => rfl
  | cons k rest ih => exact ih (body (hi - (k : Int)) s)

theorem toByte_val (color : Fin 256) : toByte color.val = color := by
  apply Fin.ext
  show color.val % 256 = color.val
  exact Nat.mod_eq_of_lt color.isLt

/-- The first `n` stores of the loop of `oled_clear_screen`. -/
theorem clear_prefix (color : Fin 256) (fb : Framebuffer) (n : Nat) (hn : n ≤ OLED_FB_SIZE) :
    (forUp 0 (0 + (n : Int)) (fun i acc => acc.modify i (fun _ => color.val)) fb).fault
        = fb.fault ∧
    ∀ i : Fin OLED_FB_SIZE,
      (forUp 0 (0 + (n : Int)) (fun i acc => acc.modify i (fun _ => color.val)) fb).bytes i
        = if i.val < n then color else fb.bytes i := by
  induction n with
  | zero =>
    rw [forUp_zero]
    exact ⟨rfl, fun i => by simp⟩
  | succ n ih =>
    obtain ⟨ihf, ihb⟩ := ih (by omega)
    rw [forUp_succ]
    generalize forUp 0 (0 + (n : Int)) (fun i acc => acc.modify i (fun _ => color.val)) fb
      = prev at ihf ihb ⊢
    have hlt : n < OLED_FB_SIZE := by omega
    rw [zero_add, modify_in_range prev n hlt, toByte_val]
    refine ⟨ihf, fun i => ?_⟩
    show Function.update prev.bytes ⟨n, hlt⟩ color i = _
    by_cases e : i = ⟨n, hlt⟩
    · subst e
      rw [Function.update_same, if_pos (Nat.lt_succ_self n)]
    · rw [Function.update_noteq e, ihb i]
      have hne : i.val ≠ n := fun h => e (Fin.ext h)
      by_cases hl : i.val < n
      · rw [if_pos hl, if_pos (by omega)]
      · rw [if_neg hl, if_neg (by omega)]

theorem oled_clear_screen_bytes (color : Fin 256) (fb : Framebuffer) :
    (oled_clear_screen color fb).fault = fb.fault ∧
    ∀ i : Fin OLED_FB_SIZE, (oled_clear_screen color fb).bytes i = color := by
  have h := clear_prefix color fb OLED_FB_SIZE (le_refl _)
  have e : oled_clear_screen color fb
      = forUp 0 (0 + ((OLED_FB_SIZE : Nat) : Int))
          (fun i acc => acc.modify i (fun _ => color.val)) fb := by
    unfold oled_clear_screen
    rw [zero_add]
  rw [e]
  refine ⟨h.1, fun i => ?_⟩
  rw [h.2 i, if_pos i.isLt]

/-- C22: `oled_clear_screen (color)` sets every one of the 1024 bytes of the
framebuffer to `color` and records no fault; afterwards pixel `(x, y)` of the
screen is on exactly when bit `y mod 8` of `color` is set, whatever `x` is, so
the rows repeat with period 8, and with `color = 0x00` every pixel is off. -/
theorem oled_clear_screen_spec (color : Fin 256) (fb : Framebuffer) :
    (∀ i : Fin OLED_FB_SIZE, (oled_clear_screen color fb).bytes i = color) ∧
    OLED_FB_SIZE = 1024 ∧
    (oled_clear_screen color fb).fault = fb.fault ∧
    (∀ x y : Nat, x < 128 → y < 64 →
      (oled_clear_screen color fb).pixel x y = color.val.testBit (y % 8)) ∧
    (∀ x y : Nat, x < 128 → y + 8 < 64 →
      (oled_clear_screen color fb).pixel x (y + 8) = (oled_clear_screen color fb).pixel x y) ∧
    (∀ x y : Nat, x < 128 → y < 64 → (oled_clear_screen 0x00 fb).pixel x y = false) := by
  have key : ∀ (c : Fin 256) (x y : Nat), x < 128 → y < 64 →
      (oled_clear_screen c fb).pixel x y = c.val.testBit (y % 8) := by
    intro c x y hx hy
    unfold Framebuffer.pixel
    rw [byteAt_of_lt _ _ (pixel_index_lt x y hx hy), (oled_clear_screen_bytes c fb).2]
  refine ⟨(oled_clear_screen_bytes color fb).2, rfl, (oled_clear_screen_bytes color fb).1,
    key color, fun x y hx hy => ?_, fun x y hx hy => ?_⟩
  · rw [key color x (y + 8) hx hy, key color x y hx (by omega)]
    congr 1
    omega
  · rw [key 0 x y hx hy]
    exact Nat.zero_testBit _

/-- Witness of C22: after `oled_clear_screen (0x01)` pixel `(5, 8)` is on and
pixel `(5, 9)` is off. -/
theorem oled_clear_screen_spec_witness :
    (oled_clear_screen 0x01 (Framebuffer.const 0)).pixel 5 8 = true ∧
    (oled_clear_screen 0x01 (Framebuffer.const 0)).pixel 5 9 = false := by
  have h := (oled_clear_screen_spec 0x01 (Framebuffer.const 0)).2.2.2.1
  exact ⟨(h 5 8 (by decide) (by decide)).trans (by decide),
    (h 5 9 (by decide) (by decide)).trans (by decide)⟩

/-! ## Lines as runs of single pixels -/

theorem oled_draw_h_line_pixels (x y w : Int) (color : Fin 256) (fb : Framebuffer) :
    oled_draw_h_line x y w color fb = h_line_by_pixels x y w color fb := by
  unfold oled_draw_h_line h_line_by_pixels
  rw [forUp_eq_range]
  have e : (x + w - x).toNat = w.toNat := by
    congr 1; omega
  rw [e]
  by_cases hc : color ≠ 0
  · simp only [oled_write_pixel, if_pos hc, if_neg (not_not.mpr hc)]
  · simp only [oled_write_pixel, if_neg hc, if_pos hc]

theorem oled_draw_v_line_pixels (x y h : Int) (color : Fin 256) (fb : Framebuffer) :
    oled_draw_v_line x y h color fb = v_line_by_pixels x y h color fb := by
  unfold oled_draw_v_line v_line_by_pixels
  rw [forUp_eq_range]
  have e : (y + h - y).toNat = h.toNat := by
    congr 1; omega
  rw [e]
  rfl

/-- C27: `oled_draw_h_line (x, y, w, color)` gives the same framebuffer as the
calls `oled_write_pixel (x + i, y, color)` for `i = 0 .. w - 1` in order, and
`oled_draw_v_line (x, y, h, color)` the same as the calls
`oled_write_pixel (x, y + j, color)` for `j = 0 .. h - 1`; for `w <= 0`, and for
`h <= 0`, the framebuffer is unchanged. -/
theorem lines_by_pixels (x y : Int) (color : Fin 256) (fb : Framebuffer) :
    (∀ w : Int, oled_draw_h_line x y w color fb = h_line_by_pixels x y w color fb) ∧
    (∀ h : Int, oled_draw_v_line x y h color fb = v_line_by_pixels x y h color fb) ∧
    (∀ w : Int, w ≤ 0 → oled_draw_h_line x y w color fb = fb) ∧
    (∀ h : Int, h ≤ 0 → oled_draw_v_line x y h color fb = fb) ∧
    (∀ w : Nat, h_line_by_pixels x y ((w + 1 : Nat) : Int) color fb
      = oled_write_pixel (x + (w : Int)) y color (h_line_by_pixels x y (w : Int) color fb)) ∧
    (∀ h : Nat, v_line_by_pixels x y ((h + 1 : Nat) : Int) color fb
      = oled_write_pixel x (y + (h : Int)) color (v_line_by_pixels x y (h : Int) color fb)) := by
  refine ⟨fun w => oled_draw_h_line_pixels x y w color fb,
    fun h => oled_draw_v_line_pixels x y h color fb, fun w hw => ?_, fun h hh => ?_,
    fun w => ?_, fun h => ?_⟩
  · rw [oled_draw_h_line_pixels]
    unfold h_line_by_pixels
    rw [Int.toNat_eq_zero.mpr hw]
    rfl
  · rw [oled_draw_v_line_pixels]
    unfold v_line_by_pixels
    rw [Int.toNat_eq_zero.mpr hh]
    rfl
  · unfold h_line_by_pixels
    rw [Int.toNat_ofNat, Int.toNat_ofNat, List.range_succ, List.foldl_append]
    rfl
  · unfold v_line_by_pixels
    rw [Int.toNat_ofNat, Int.toNat_ofNat, List.range_succ, List.foldl_append]
    rfl

/-- Witness of C27: a horizontal line of width 0 leaves the blank framebuffer
as it is. -/
theorem lines_by_pixels_witness :
    oled_draw_h_line 3 4 0 1 (Framebuffer.const 0) = Framebuffer.const 0 :=
  (lines_by_pixels 3 4 1 (Framebuffer.const 0)).2.2.1 0 (by decide)

/-! ## The outline of a rectangle -/

/-- Rows `B`, `B - 1`, ..., `B - n + 1` drawn as horizontal lines of colour 1. -/
theorem h_band_down_pixel (fb : Framebuffer) (x w B n : Nat) (hx : x + w ≤ 128)
    (hB : B < 64) (hn : n ≤ B + 1) :
    ((List.range n).foldl
        (fun (acc : Framebuffer) (k : Nat) =>
          oled_draw_h_line x ((B : Int) - (k : Int)) w 1 acc) fb).fault = fb.fault ∧
    ∀ px py, px < 128 → py < 64 →
      ((List.range n).foldl
        (fun (acc : Framebuffer) (k : Nat) =>
          oled_draw_h_line x ((B : Int) - (k : Int)) w 1 acc) fb).pixel px py
        = (fb.pixel px py || decide (x ≤ px ∧ px < x + w ∧ B < py + n ∧ py ≤ B)) := by
  induction n with
  | zero =>
    refine ⟨rfl, fun px py _ _ => ?_⟩
    have : ¬ (x ≤ px ∧ px < x + w ∧ B < py + 0 ∧ py ≤ B) := by omega
    rw [decide_eq_false this, Bool.or_false]
    rfl
  | succ n ih =>
    obtain ⟨ihf, ihp⟩ := ih (by omega)
    rw [List.range_succ, List.foldl_append]
    generalize (List.range n).foldl
      (fun (acc : Framebuffer) (k : Nat) =>
        oled_draw_h_line x ((B : Int) - (k : Int)) w 1 acc) fb = prev at ihf ihp ⊢
    have hc : ((B : Int) - (n : Int)) = ((B - n : Nat) : Int) := by omega
    simp only [List.foldl_cons, List.foldl_nil]
    rw [hc]
    obtain ⟨lf, lp⟩ := oled_draw_h_line_pixel prev x (B - n) w hx (by omega)
    refine ⟨lf.trans ihf, fun px py hpx hpy => ?_⟩
    rw [lp px py hpx hpy, ihp px py hpx hpy, Bool.or_assoc]
    congr 1
    rw [← Bool.decide_or]
    apply decide_eq_decide.mpr
    omega

/-- Columns `R`, `R - 1`, ..., `R - n + 1` drawn as vertical lines of colour 1. -/
theorem v_band_down_pixel (fb : Framebuffer) (y h R n : Nat) (hy : y + h ≤ 64)
    (hR : R < 128) (hn : n ≤ R + 1) :
    ((List.range n).foldl
        (fun (acc : Framebuffer) (k : Nat) =>
          oled_draw_v_line ((R : Int) - (k : Int)) y h 1 acc) fb).fault = fb.fault ∧
    ∀ px py, px < 128 → py < 64 →
      ((List.range n).foldl
        (fun (acc : Framebuffer) (k : Nat) =>
          oled_draw_v_line ((R : Int) - (k : Int)) y h 1 acc) fb).pixel px py
        = (fb.pixel px py || decide (y ≤ py ∧ py < y + h ∧ R < px + n ∧ px ≤ R)) := by
  induction n with
  | zero =>
    refine ⟨rfl, fun px py _ _ => ?_⟩
    have : ¬ (y ≤ py ∧ py < y + h ∧ R < px + 0 ∧ px ≤ R) := by omega
    rw [decide_eq_false this, Bool.or_false]
    rfl
  | succ n ih =>
    obtain ⟨ihf, ihp⟩ := ih (by omega)
    rw [List.range_succ, List.foldl_append]
    generalize (List.range n).foldl
      (fun (acc : Framebuffer) (k : Nat) =>
        oled_draw_v_line ((R : Int) - (k : Int)) y h 1 acc) fb = prev at ihf ihp ⊢
    have hc : ((R : Int) - (n : Int)) = ((R - n : Nat) : Int) := by omega
    simp only [List.foldl_cons, List.foldl_nil]
    rw [hc]
    obtain ⟨lf, lp⟩ := oled_draw_v_line_pixel prev (R - n) y h (by omega) hy
    refine ⟨lf.trans ihf, fun px py hpx hpy => ?_⟩
    rw [lp px py hpx hpy, ihp px py hpx hpy, Bool.or_assoc]
    congr 1
    rw [← Bool.decide_or]
    apply decide_eq_decide.mpr
    omega

/-- The outline branch of `oled_draw_rect` as its four bands. -/
theorem oled_draw_rect_outline (x y w h o : Nat) (ho : 0 < o) (hw : 0 < w) (hh : 0 < h)
    (fb : Framebuffer) :
    oled_draw_rect x y w h o 1 fb =
      (List.range o).foldl
        (fun (acc : Framebuffer) (k : Nat) =>
          oled_draw_v_line (((x + w - 1 : Nat) : Int) - (k : Int)) y h 1 acc)
        (fill_by_columns x y o h
          ((List.range o).foldl
            (fun (acc : Framebuffer) (k : Nat) =>
              oled_draw_h_line x (((y + h - 1 : Nat) : Int) - (k : Int)) w 1 acc)
            (fill_by_rows x y w o fb))) := by
  have ho' : ((o : Nat) : Int) > 0 := by omega
  have e1 : ((y : Int) + (h : Int) - 1) = ((y + h - 1 : Nat) : Int) := by omega
  have e2 : ((x : Int) + (w : Int) - 1) = ((x + w - 1 : Nat) : Int) := by omega
  unfold oled_draw_rect
  rw [if_pos ho']
  simp only [e1, e2, forDown_eq_range]
  have e3 : (((y + h - 1 : Nat) : Int) - (((y + h - 1 : Nat) : Int) - (o : Int))).toNat = o := by
    omega
  have e4 : (((x + w - 1 : Nat) : Int) - (((x + w - 1 : Nat) : Int) - (o : Int))).toNat = o := by
    omega
  rw [e3, e4]
  rfl

/-- C21: for a rectangle inside the screen and `0 < outline <= min (w, h)`,
`oled_draw_rect (x, y, w, h, outline, 1)` records no fault, and afterwards a
pixel of the screen is on exactly when it was on before or lies in the rectangle
within `outline` of one of its four sides; the frame that `main` draws on the
cleared screen, `oled_draw_rect (0, 0, 127, 63, 2, 1)`, leaves column 127 and
row 63 off. -/
theorem oled_draw_rect_outline_spec (fb : Framebuffer) (x y w h o : Nat)
    (hx : x + w ≤ 128) (hy : y + h ≤ 64) (ho : 0 < o) (how : o ≤ w) (hoh : o ≤ h) :
    (oled_draw_rect x y w h o 1 fb).fault = fb.fault ∧
    (∀ px py, px < 128 → py < 64 →
      (oled_draw_rect x y w h o 1 fb).pixel px py
        = (fb.pixel px py ||
            decide ((x ≤ px ∧ px < x + w ∧ y ≤ py ∧ py < y + h) ∧
              (py < y + o ∨ y + h ≤ py + o ∨ px < x + o ∨ x + w ≤ px + o)))) ∧
    (∀ px py, px < 128 → py < 64 →
      (oled_draw_rect 0 0 127 63 2 1 (oled_clear_screen 0x00 fb)).pixel px py
        = decide (px < 127 ∧ py < 63 ∧ (py < 2 ∨ 61 ≤ py ∨ px < 2 ∨ 125 ≤ px))) ∧
    (∀ py, py < 64 →
      (oled_draw_rect 0 0 127 63 2 1 (oled_clear_screen 0x00 fb)).pixel 127 py = false) ∧
    (∀ px, px < 128 →
      (oled_draw_rect 0 0 127 63 2 1 (oled_clear_screen 0x00 fb)).pixel px 63 = false) := by
  have gen : ∀ (fb : Framebuffer) (x y w h o : Nat), x + w ≤ 128 → y + h ≤ 64 → 0 < o →
      o ≤ w → o ≤ h →
      (oled_draw_rect x y w h o 1 fb).fault = fb.fault ∧
      ∀ px py, px < 128 → py < 64 →
        (oled_draw_rect x y w h o 1 fb).pixel px py
          = (fb.pixel px py ||
              decide ((x ≤ px ∧ px < x + w ∧ y ≤ py ∧ py < y + h) ∧
                (py < y + o ∨ y + h ≤ py + o ∨ px < x + o ∨ x + w ≤ px + o))) := by
    intro fb x y w h o hx hy ho how hoh
    rw [oled_draw_rect_outline x y w h o ho (by omega) (by omega) fb]
    obtain ⟨f1, p1⟩ := fill_by_rows_pixel fb x y w o hx (by omega)
    generalize fill_by_rows x y w o fb = s1 at f1 p1 ⊢
    obtain ⟨f2, p2⟩ := h_band_down_pixel s1 x w (y + h - 1) o hx (by omega) (by omega)
    generalize (List.range o).foldl
      (fun (acc : Framebuffer) (k : Nat) =>
        oled_draw_h_line x (((y + h - 1 : Nat) : Int) - (k : Int)) w 1 acc) s1 = s2 at f2 p2 ⊢
    obtain ⟨f3, p3⟩ := fill_by_columns_pixel s2 x y o h (by omega) hy
    generalize fill_by_columns x y o h s2 = s3 at f3 p3 ⊢
    obtain ⟨f4, p4⟩ := v_band_down_pixel s3 y h (x + w - 1) o hy (by omega) (by omega)
    refine ⟨f4.trans (f3.trans (f2.trans f1)), fun px py hpx hpy => ?_⟩
    rw [p4 px py hpx hpy, p3 px py hpx hpy, p2 px py hpx hpy, p1 px py hpx hpy]
    simp only [Bool.or_assoc]
    congr 1
    simp only [← Bool.decide_or]
    apply decide_eq_decide.mpr
    omega
  have frame : ∀ px py, px < 128 → py < 64 →
      (oled_draw_rect 0 0 127 63 2 1 (oled_clear_screen 0x00 fb)).pixel px py
        = decide (px < 127 ∧ py < 63 ∧ (py < 2 ∨ 61 ≤ py ∨ px < 2 ∨ 125 ≤ px)) := by
    intro px py hpx hpy
    have h1 := (gen (oled_clear_screen 0x00 fb) 0 0 127 63 2 (by decide) (by decide)
      (by decide) (by decide) (by decide)).2 px py hpx hpy
    have h2 : (oled_clear_screen 0x00 fb).pixel px py = false := by
      unfold Framebuffer.pixel
      rw [byteAt_of_lt _ _ (pixel_index_lt px py hpx hpy), (oled_clear_screen_bytes 0 fb).2]
      exact Nat.zero_testBit _
    rw [h2, Bool.false_or] at h1
    refine Eq.trans h1 ?_
    apply decide_eq_decide.mpr
    omega
  refine ⟨(gen fb x y w h o hx hy ho how hoh).1, (gen fb x y w h o hx hy ho how hoh).2, frame,
    fun py hpy => ?_, fun px hpx => ?_⟩
  · rw [frame 127 py (by decide) hpy]
    apply decide_eq_false
    omega
  · rw [frame px 63 hpx (by decide)]
    apply decide_eq_false
    omega

/-- Witness of C21: a 6 by 5 rectangle at (10, 20) with an outline of 1 on the
blank framebuffer sets its border pixel (10, 22) and leaves its interior pixel
(12, 22) off. -/
theorem oled_draw_rect_outline_spec_witness :
    (oled_draw_rect (10 : Nat) (20 : Nat) (6 : Nat) (5 : Nat) (1 : Nat) 1
        (Framebuffer.const 0)).pixel 10 22 = true ∧
    (oled_draw_rect (10 : Nat) (20 : Nat) (6 : Nat) (5 : Nat) (1 : Nat) 1
        (Framebuffer.const 0)).pixel 12 22 = false := by
  have h := (oled_draw_rect_outline_spec (Framebuffer.const 0) 10 20 6 5 1 (by decide)
    (by decide) (by decide) (by decide) (by decide)).2.1
  exact ⟨(h 10 22 (by decide) (by decide)).trans (by decide),
    (h 12 22 (by decide) (by decide)).trans (by decide)⟩

/-! ## Text -/

theorem oled_draw_small_text_loop_eq (x y : Int) (color : Fin 256) (s rest : List Char)
    (hs : ∀ c ∈ s, c ≠ NUL) (offset : Int) (fb : Framebuffer) :
    oled_draw_small_text_loop x y color offset (s ++ NUL :: rest) fb
      = (List.range s.length).foldl
          (fun acc (i : Nat) =>
            oled_draw_small_letter (x + (offset + 6 * (i : Int))) y (s.getD i NUL) color acc)
          fb := by
  induction s generalizing offset fb with
  | nil =>
    show (if NUL = NUL then fb else _) = fb
    rw [if_pos rfl]
  | cons c cs ih =>
    have hc : c ≠ NUL := hs c (List.mem_cons_self c cs)
    have hcs : ∀ d ∈ cs, d ≠ NUL := fun d hd => hs d (List.mem_cons_of_mem c hd)
    show (if c = NUL then fb else
        oled_draw_small_text_loop x y color (offset + 6) (cs ++ NUL :: rest)
          (oled_draw_small_letter (x + offset) y c color fb)) = _
    rw [if_neg hc, ih hcs, List.length_cons, List.range_succ_eq_map, List.foldl_cons,
      List.foldl_map]
    have e0 : x + (offset + 6 * ((0 : Nat) : Int)) = x + offset := by omega
    rw [e0]
    have ef : (fun (acc : Framebuffer) (i : Nat) =>
          oled_draw_small_letter (x + (offset + 6 + 6 * (i : Int))) y (cs.getD i NUL) color acc)
        = (fun (acc : Framebuffer) (i : Nat) =>
          oled_draw_small_letter (x + (offset + 6 * ((i.succ : Nat) : Int))) y
            ((c :: cs).getD i.succ NUL) color acc) := by
      funext acc i
      have e1 : x + (offset + 6 + 6 * (i : Int)) = x + (offset + 6 * ((i.succ : Nat) : Int)) := by
        push_cast; omega
      rw [e1]
      rfl
    rw [ef]
    rfl

theorem oled_draw_big_text_loop_eq (x y : Int) (color : Fin 256) (s rest : List Char)
    (hs : ∀ c ∈ s, c ≠ NUL) (offset : Int) (fb : Framebuffer) :
    oled_draw_big_text_loop x y color offset (s ++ NUL :: rest) fb
      = (List.range s.length).foldl
          (fun acc (i : Nat) =>
            oled_draw_big_letter (x + (offset + 11 * (i : Int))) y (s.getD i NUL) color acc)
          fb := by
  induction s generalizing offset fb with
  | nil =>
    show (if NUL = NUL then fb else _) = fb
    rw [if_pos rfl]
  | cons c cs ih =>
    have hc : c ≠ NUL := hs c (List.mem_cons_self c cs)
    have hcs : ∀ d ∈ cs, d ≠ NUL := fun d hd => hs d (List.mem_cons_of_mem c hd)
    show (if c = NUL then fb else
        oled_draw_big_text_loop x y color (offset + 11) (cs ++ NUL :: rest)
          (oled_draw_big_letter (x + offset) y c color fb)) = _
    rw [if_neg hc, ih hcs, List.length_cons, List.range_succ_eq_map, List.foldl_cons,
      List.foldl_map]
    have e0 : x + (offset + 11 * ((0 : Nat) : Int)) = x + offset := by omega
    rw [e0]
    have ef : (fun (acc : Framebuffer) (i : Nat) =>
          oled_draw_big_letter (x + (offset + 11 + 11 * (i : Int))) y (cs.getD i NUL) color acc)
        = (fun (acc : Framebuffer) (i : Nat) =>
          oled_draw_big_letter (x + (offset + 11 * ((i.succ : Nat) : Int))) y
            ((c :: cs).getD i.succ NUL) color acc) := by
      funext acc i
      have e1 : x + (offset + 11 + 11 * (i : Int))
          = x + (offset + 11 * ((i.succ : Nat) : Int)) := by
        push_cast; omega
      rw [e1]
      rfl
    rw [ef]
    rfl

/-- C23: for a string `s` without NUL followed by its terminator,
`oled_draw_small_text (x, y, s, color)` is the calls
`oled_draw_small_letter (x + 6 * i, y, s[i], color)` for `i = 0 .. len (s) - 1` in
order, and `oled_draw_big_text (x, y, s, color)` is the calls
`oled_draw_big_letter (x + 11 * i, y, s[i], color)` in order; every letter gets
the same `y`, and the empty string leaves the framebuffer unchanged. -/
theorem text_layout (x y : Int) (color : Fin 256) (fb : Framebuffer) (s rest : List Char)
    (hs : ∀ c ∈ s, c ≠ NUL) :
    oled_draw_small_text x y (s ++ NUL :: rest) color fb
      = small_text_by_letters x y s color fb ∧
    oled_draw_big_text x y (s ++ NUL :: rest) color fb
      = big_text_by_letters x y s color fb ∧
    oled_draw_small_text x y (NUL :: rest) color fb = fb ∧
    oled_draw_big_text x y (NUL :: rest) color fb = fb ∧
    (∀ c : Char, small_text_by_letters x y (s ++ [c]) color fb
      = oled_draw_small_letter (x + 6 * (s.length : Int)) y c color
          (small_text_by_letters x y s color fb)) ∧
    (∀ c : Char, big_text_by_letters x y (s ++ [c]) color fb
      = oled_draw_big_letter (x + 11 * (s.length : Int)) y c color
          (big_text_by_letters x y s color fb)) := by
  refine ⟨?_, ?_, ?_, ?_, fun c => ?_, fun c => ?_⟩
  · unfold oled_draw_small_text small_text_by_letters
    rw [oled_draw_small_text_loop_eq x y color s rest hs 0 fb]
    simp only [zero_add]
  · unfold oled_draw_big_text big_text_by_letters
    rw [oled_draw_big_text_loop_eq x y color s rest hs 0 fb]
    simp only [zero_add]
  · exact oled_draw_small_text_loop_eq x y color [] rest (fun _ h => absurd h (List.not_mem_nil _))
      0 fb
  · exact oled_draw_big_text_loop_eq x y color [] rest (fun _ h => absurd h (List.not_mem_nil _))
      0 fb
  · unfold small_text_by_letters
    rw [List.length_append, List.length_singleton, List.range_succ, List.foldl_append,
      List.foldl_cons, List.foldl_nil]
    have e : (s ++ [c]).getD s.length NUL = c := by
      simp [List.getD_eq_getElem?_getD]
    rw [e]
    congr 1
    apply List.foldl_ext
    intro acc i hi
    have hi' : i < s.length := List.mem_range.mp hi
    have e2 : (s ++ [c]).getD i NUL = s.getD i NUL := by
      simp [List.getD_eq_getElem?_getD, List.getElem?_append_left hi']
    rw [e2]
  · unfold big_text_by_letters
    rw [List.length_append, List.length_singleton, List.range_succ, List.foldl_append,
      List.foldl_cons, List.foldl_nil]
    have e : (s ++ [c]).getD s.length NUL = c := by
      simp [List.getD_eq_getElem?_getD]
    rw [e]
    congr 1
    apply List.foldl_ext
    intro acc i hi
    have hi' : i < s.length := List.mem_range.mp hi
    have e2 : (s ++ [c]).getD i NUL = s.getD i NUL := by
      simp [List.getD_eq_getElem?_getD, List.getElem?_append_left hi']
    rw [e2]

/-- Witness of C23: the text `Se` followed by its terminator. -/
theorem text_layout_witness :
    oled_draw_small_text 10 20 (['S', 'e'] ++ NUL :: []) 1 (Framebuffer.const 0)
      = small_text_by_letters 10 20 ['S', 'e'] 1 (Framebuffer.const 0) :=
  (text_layout 10 20 1 (Framebuffer.const 0) ['S', 'e'] [] (by decide)).1

/-! ## Characters without a glyph -/

/-- C24: a character outside the 24 glyphs of the small set makes
`oled_draw_small_letter` leave the framebuffer unchanged, and so does the space;
a character outside the 16 glyphs of the big set, among them the space and every
lower-case letter, makes `oled_draw_big_letter` leave the framebuffer
unchanged. -/
theorem unsupported_glyphs (x y : Int) (c : Char) (color : Fin 256) (fb : Framebuffer) :
    (c ∉ ['A', 'D', 'E', 'M', 'O', 'S', 'T', 'a', 'e', 'f', 'i', 'l', 'm', 'n', 'o', 'r', 's',
          't', 'u', 'x', 'y', ':', '/', '>'] →
      oled_draw_small_letter x y c color fb = fb) ∧
    oled_draw_small_letter x y ' ' color fb = fb ∧
    (c ∉ ['A', 'D', 'E', 'I', 'L', 'M', 'N', 'O', 'R', 'S', 'T', 'U', 'Y', ':', '?', '!'] →
      oled_draw_big_letter x y c color fb = fb) ∧
    oled_draw_big_letter x y ' ' color fb = fb ∧
    ('a' ≤ c ∧ c ≤ 'z' → oled_draw_big_letter x y c color fb = fb) := by
  have big : ∀ d : Char,
      d ∉ ['A', 'D', 'E', 'I', 'L', 'M', 'N', 'O', 'R', 'S', 'T', 'U', 'Y', ':', '?', '!'] →
      oled_draw_big_letter x y d color fb = fb := by
    intro d h
    simp only [List.mem_cons, List.mem_singleton, List.not_mem_nil, or_false, not_or] at h
    unfold oled_draw_big_letter
    simp only [h, if_false]
  have small : ∀ d : Char,
      d ∉ ['A', 'D', 'E', 'M', 'O', 'S', 'T', 'a', 'e', 'f', 'i', 'l', 'm', 'n', 'o', 'r', 's',
          't', 'u', 'x', 'y', ':', '/', '>'] →
      oled_draw_small_letter x y d color fb = fb := by
    intro d h
    simp only [List.mem_cons, List.mem_singleton, List.not_mem_nil, or_false, not_or] at h
    unfold oled_draw_small_letter
    simp only [h, if_false, ite_self]
  refine ⟨small c, small ' ' (by decide), big c, big ' ' (by decide), ?_⟩
  intro hc
  apply big
  intro hm
  simp only [List.mem_cons, List.mem_singleton, List.not_mem_nil, or_false] at hm
  rcases hm with h | h | h | h | h | h | h | h | h | h | h | h | h | h | h | h <;>
    (subst h; exact absurd hc (by decide))

/-- Witness of C24: the letter `B` has no small glyph. -/
theorem unsupported_glyphs_witness :
    oled_draw_small_letter 3 4 'B' 1 (Framebuffer.const 0) = Framebuffer.const 0 :=
  (unsupported_glyphs 3 4 'B' 1 (Framebuffer.const 0)).1 (by decide)

/-! ## What the handlers leave alone -/

theorem menu_page_1_alarm_word (inp : Inputs) (g : Globals) :
    (process_menu_page_1_state inp g).alarm_word = g.alarm_word := by
  simp only [process_menu_page_1_state]
  rw [menu_page_1_select_frame, menu_page_1_up_down_frame]

theorem menu_page_2_alarm_word (inp : Inputs) (g : Globals) :
    (process_menu_page_2_state inp g).alarm_word = g.alarm_word := by
  simp only [process_menu_page_2_state]
  rw [menu_page_2_select_frame, menu_page_2_up_down_frame]

theorem process_set_time_state_alarm_word (inp : Inputs) (g : Globals) :
    (process_set_time_state inp g).alarm_word = g.alarm_word := by
  simp only [process_set_time_state]
  rw [set_time_select_frame, edit_up_down_frame]

theorem set_alarm_select_alarm_word (inp : Inputs) (g : Globals) :
    (set_alarm_select inp g).alarm_word
      = if button_pressed inp.idr g.last_button_state IOA_BUTTON_SELECT = true ∧
          g.cursor_position ≠ 0
        then shl32 (inp.rtc_alarm % 4294967296) 8 else g.alarm_word := by
  unfold set_alarm_select
  by_cases hs : button_pressed inp.idr g.last_button_state IOA_BUTTON_SELECT = true
  · rw [if_pos hs]
    by_cases hc : g.cursor_position = 0
    · rw [if_pos hc, if_neg (fun h => h.2 hc)]
    · rw [if_neg hc, if_pos ⟨hs, hc⟩]
  · rw [if_neg hs, if_neg (fun h => hs h.1)]

theorem process_set_alarm_state_alarm_word (inp : Inputs) (g : Globals) :
    (process_set_alarm_state inp g).alarm_word
      = if button_pressed inp.idr g.last_button_state IOA_BUTTON_SELECT = true ∧
          g.cursor_position ≠ 0
        then shl32 (inp.rtc_alarm % 4294967296) 8 else g.alarm_word := by
  show (set_alarm_select inp (edit_up_down inp
      { g with oled_fb := set_alarm_draw g.oled_fb, hw := g.hw ++ show_edit_digits g })).alarm_word
    = _
  rw [set_alarm_select_alarm_word, edit_up_down_last_button_state, edit_up_down_cursor_position]
  rw [edit_up_down_frame]

theorem handlers_time_word (inp : Inputs) (g : Globals) :
    (process_show_time_state inp g).time_word = g.time_word ∧
    (process_in_alarm_state inp g).time_word = g.time_word ∧
    (process_menu_page_1_state inp g).time_word = g.time_word ∧
    (process_menu_page_2_state inp g).time_word = g.time_word ∧
    (process_set_time_state inp g).time_word = g.time_word ∧
    (process_set_alarm_state inp g).time_word = g.time_word ∧
    (process_set_alarm_days_state inp g).time_word = g.time_word ∧
    (process_set_alarm_tone_state inp g).time_word = g.time_word ∧
    (process_set_alarm_state_state inp g).time_word = g.time_word := by
  refine ⟨?_, ?_, ?_, ?_, ?_, ?_, ?_, ?_, ?_⟩
  · simp only [process_show_time_state]; split_ifs <;> rfl
  · simp only [process_in_alarm_state]; split_ifs <;> rfl
  · simp only [process_menu_page_1_state]
    rw [menu_page_1_select_frame, menu_page_1_up_down_frame]
  · simp only [process_menu_page_2_state]
    rw [menu_page_2_select_frame, menu_page_2_up_down_frame]
  · simp only [process_set_time_state]
    rw [set_time_select_frame, edit_up_down_frame]
  · simp only [process_set_alarm_state]
    rw [set_alarm_select_frame, edit_up_down_frame]
  · simp only [process_set_alarm_days_state]; split_ifs <;> rfl
  · simp only [process_set_alarm_tone_state]; split_ifs <;> rfl
  · simp only [process_set_alarm_state_state]; split_ifs <;> rfl

/-- C25: every state handler leaves `alarm_word` as it was, except
`process_set_alarm_state` when Select is just-pressed with `cursor_position != 0`,
which sets it to the alarm register read shifted left by 8 (modulo `2 ^ 32`);
the alarm check of `main` does not write `alarm_word`, and no handler writes
`time_word`. -/
theorem alarm_word_frame (inp : Inputs) (g : Globals) :
    (process_show_time_state inp g).alarm_word = g.alarm_word ∧
    (process_in_alarm_state inp g).alarm_word = g.alarm_word ∧
    (process_menu_page_1_state inp g).alarm_word = g.alarm_word ∧
    (process_menu_page_2_state inp g).alarm_word = g.alarm_word ∧
    (process_set_time_state inp g).alarm_word = g.alarm_word ∧
    (process_set_alarm_days_state inp g).alarm_word = g.alarm_word ∧
    (process_set_alarm_tone_state inp g).alarm_word = g.alarm_word ∧
    (process_set_alarm_state_state inp g).alarm_word = g.alarm_word ∧
    ((button_pressed inp.idr g.last_button_state IOA_BUTTON_SELECT = true ∧
        g.cursor_position ≠ 0) →
      (process_set_alarm_state inp g).alarm_word = shl32 (inp.rtc_alarm % 4294967296) 8) ∧
    (¬ (button_pressed inp.idr g.last_button_state IOA_BUTTON_SELECT = true ∧
        g.cursor_position ≠ 0) →
      (process_set_alarm_state inp g).alarm_word = g.alarm_word) ∧
    (main_alarm_check g).alarm_word = g.alarm_word ∧
    (main_refresh inp g).alarm_word = g.alarm_word ∧
    ((process_show_time_state inp g).time_word = g.time_word ∧
      (process_in_alarm_state inp g).time_word = g.time_word ∧
      (process_menu_page_1_state inp g).time_word = g.time_word ∧
      (process_menu_page_2_state inp g).time_word = g.time_word ∧
      (process_set_time_state inp g).time_word = g.time_word ∧
      (process_set_alarm_state inp g).time_word = g.time_word ∧
      (process_set_alarm_days_state inp g).time_word = g.time_word ∧
      (process_set_alarm_tone_state inp g).time_word = g.time_word ∧
      (process_set_alarm_state_state inp g).time_word = g.time_word) := by
  refine ⟨?_, ?_, menu_page_1_alarm_word inp g, menu_page_2_alarm_word inp g,
    process_set_time_state_alarm_word inp g, ?_, ?_, ?_, fun h => ?_, fun h => ?_, ?_, rfl,
    handlers_time_word inp g⟩
  · simp only [process_show_time_state]; split_ifs <;> rfl
  · simp only [process_in_alarm_state]; split_ifs <;> rfl
  · simp only [process_set_alarm_days_state]; split_ifs <;> rfl
  · simp only [process_set_alarm_tone_state]; split_ifs <;> rfl
  · simp only [process_set_alarm_state_state]; split_ifs <;> rfl
  · rw [process_set_alarm_state_alarm_word, if_pos h]
  · rw [process_set_alarm_state_alarm_word, if_neg h]
  · simp only [main_alarm_check]; split_ifs <;> rfl

/-- C26: each of the handlers of SetAlarmDays, SetAlarmTone and SetAlarmState
sets `cur_state` to ShowTime when Select is just-pressed and leaves it as it was
otherwise; whatever the buttons are, it leaves `cursor_position`, `cur_hours`,
`cur_minutes`, `alarm_word` and `alarm_remember_off` unchanged and produces no
output, so no RTC write. -/
theorem stub_states (inp : Inputs) (g : Globals) :
    ((button_pressed inp.idr g.last_button_state IOA_BUTTON_SELECT = true →
        (process_set_alarm_days_state inp g).cur_state = VVC_STATE_SHOW_TIME) ∧
      (button_pressed inp.idr g.last_button_state IOA_BUTTON_SELECT = false →
        (process_set_alarm_days_state inp g).cur_state = g.cur_state) ∧
      (process_set_alarm_days_state inp g).cursor_position = g.cursor_position ∧
      (process_set_alarm_days_state inp g).cur_hours = g.cur_hours ∧
      (process_set_alarm_days_state inp g).cur_minutes = g.cur_minutes ∧
      (process_set_alarm_days_state inp g).alarm_word = g.alarm_word ∧
      (process_set_alarm_days_state inp g).alarm_remember_off = g.alarm_remember_off ∧
      (process_set_alarm_days_state inp g).hw = g.hw ∧
      rtc_writes (process_set_alarm_days_state inp g).hw = rtc_writes g.hw) ∧
    ((button_pressed inp.idr g.last_button_state IOA_BUTTON_SELECT = true →
        (process_set_alarm_tone_state inp g).cur_state = VVC_STATE_SHOW_TIME) ∧
      (button_pressed inp.idr g.last_button_state IOA_BUTTON_SELECT = false →
        (process_set_alarm_tone_state inp g).cur_state = g.cur_state) ∧
      (process_set_alarm_tone_state inp g).cursor_position = g.cursor_position ∧
      (process_set_alarm_tone_state inp g).cur_hours = g.cur_hours ∧
      (process_set_alarm_tone_state inp g).cur_minutes = g.cur_minutes ∧
      (process_set_alarm_tone_state inp g).alarm_word = g.alarm_word ∧
      (process_set_alarm_tone_state inp g).alarm_remember_off = g.alarm_remember_off ∧
      (process_set_alarm_tone_state inp g).hw = g.hw ∧
      rtc_writes (process_set_alarm_tone_state inp g).hw = rtc_writes g.hw) ∧
    ((button_pressed inp.idr g.last_button_state IOA_BUTTON_SELECT = true →
        (process_set_alarm_state_state inp g).cur_state = VVC_STATE_SHOW_TIME) ∧
      (button_pressed inp.idr g.last_button_state IOA_BUTTON_SELECT = false →
        (process_set_alarm_state_state inp g).cur_state = g.cur_state) ∧
      (process_set_alarm_state_state inp g).cursor_position = g.cursor_position ∧
      (process_set_alarm_state_state inp g).cur_hours = g.cur_hours ∧
      (process_set_alarm_state_state inp g).cur_minutes = g.cur_minutes ∧
      (process_set_alarm_state_state inp g).alarm_word = g.alarm_word ∧
      (process_set_alarm_state_state inp g).alarm_remember_off = g.alarm_remember_off ∧
      (process_set_alarm_state_state inp g).hw = g.hw ∧
      rtc_writes (process_set_alarm_state_state inp g).hw = rtc_writes g.hw) := by
  refine ⟨?_, ?_, ?_⟩
  · simp only [process_set_alarm_days_state]
    by_cases hs : button_pressed inp.idr g.last_button_state IOA_BUTTON_SELECT = true
    · rw [if_pos hs]
      exact ⟨fun _ => rfl, fun h => absurd hs (by rw [h]; decide), rfl, rfl, rfl, rfl, rfl, rfl,
        rfl⟩
    · rw [if_neg hs]
      exact ⟨fun h => absurd h hs, fun _ => rfl, rfl, rfl, rfl, rfl, rfl, rfl, rfl⟩
  · simp only [process_set_alarm_tone_state]
    by_cases hs : button_pressed inp.idr g.last_button_state IOA_BUTTON_SELECT = true
    · rw [if_pos hs]
      exact ⟨fun _ => rfl, fun h => absurd hs (by rw [h]; decide), rfl, rfl, rfl, rfl, rfl, rfl,
        rfl⟩
    · rw [if_neg hs]
      exact ⟨fun h => absurd h hs, fun _ => rfl, rfl, rfl, rfl, rfl, rfl, rfl, rfl⟩
  · simp only [process_set_alarm_state_state]
    by_cases hs : button_pressed inp.idr g.last_button_state IOA_BUTTON_SELECT = true
    · rw [if_pos hs]
      exact ⟨fun _ => rfl, fun h => absurd hs (by rw [h]; decide), rfl, rfl, rfl, rfl, rfl, rfl,
        rfl⟩
    · rw [if_neg hs]
      exact ⟨fun h => absurd h hs, fun _ => rfl, rfl, rfl, rfl, rfl, rfl, rfl, rfl⟩

/-! ## The segment output of SetTime -/

theorem set_time_select_hw (inp : Inputs) (g : Globals) :
    ∃ tail : List HwCall, (set_time_select inp g).hw = g.hw ++ tail ∧
      (tail = [] ∨ ∃ a b, tail = [HwCall.ds3231_set_time a b]) := by
  unfold set_time_select
  split_ifs
  · exact ⟨[], (List.append_nil _).symm, Or.inl rfl⟩
  · exact ⟨_, rfl, Or.inr ⟨_, _, rfl⟩⟩
  · exact ⟨[], (List.append_nil _).symm, Or.inl rfl⟩

theorem low_bit_odd (w : Nat) : (w &&& 0x00000001) ≠ 0 ↔ w % 2 = 1 := by
  rw [Nat.and_one_is_mod]
  omega

/-- C30: every call of `process_set_time_state` appends to the output, in this
order, the latch-low write, the minutes-ones and minutes-tens outputs, the
hours-ones and hours-tens outputs and the latch-high write, followed by at most
one RTC write. The minutes pair is the byte `0xFF` twice exactly when
`cursor_position = 1` and bit 0 of `time_word` is set, and otherwise the digits
`cur_minutes % 10`, `cur_minutes / 10`; the hours pair is `0xFF` twice exactly
when `cursor_position = 0` and bit 0 of `time_word` is set, and otherwise
`cur_hours % 10`, `cur_hours / 10`; the two pairs are never both blank. -/
theorem set_time_segment_output (inp : Inputs) (g : Globals) :
    ∃ (m_ones m_tens h_ones h_tens : HwCall) (tail : List HwCall),
      (process_set_time_state inp g).hw
        = g.hw ++ [HwCall.latch_low, m_ones, m_tens, h_ones, h_tens, HwCall.latch_high]
            ++ tail ∧
      (tail = [] ∨ ∃ a b, tail = [HwCall.ds3231_set_time a b]) ∧
      ((m_ones = HwCall.shift_byte_out 0xFF ∧ m_tens = HwCall.shift_byte_out 0xFF) ↔
        (g.cursor_position = 1 ∧ g.time_word % 2 = 1)) ∧
      (¬ (g.cursor_position = 1 ∧ g.time_word % 2 = 1) →
        m_ones = HwCall.shift_7_segment_out (Int.tmod g.cur_minutes 10) ∧
        m_tens = HwCall.shift_7_segment_out (Int.tdiv g.cur_minutes 10)) ∧
      ((h_ones = HwCall.shift_byte_out 0xFF ∧ h_tens = HwCall.shift_byte_out 0xFF) ↔
        (g.cursor_position = 0 ∧ g.time_word % 2 = 1)) ∧
      (¬ (g.cursor_position = 0 ∧ g.time_word % 2 = 1) →
        h_ones = HwCall.shift_7_segment_out (Int.tmod g.cur_hours 10) ∧
        h_tens = HwCall.shift_7_segment_out (Int.tdiv g.cur_hours 10)) ∧
      ¬ (m_ones = HwCall.shift_byte_out 0xFF ∧ h_ones = HwCall.shift_byte_out 0xFF) ∧
      (0 ≤ g.cur_minutes →
        Int.tmod g.cur_minutes 10 = g.cur_minutes % 10 ∧
        Int.tdiv g.cur_minutes 10 = g.cur_minutes / 10) ∧
      (0 ≤ g.cur_hours →
        Int.tmod g.cur_hours 10 = g.cur_hours % 10 ∧
        Int.tdiv g.cur_hours 10 = g.cur_hours / 10) := by
  obtain ⟨tail, ht, htail⟩ := set_time_select_hw inp (edit_up_down inp
    { g with oled_fb := set_time_draw g.oled_fb, hw := g.hw ++ show_edit_digits g })
  rw [edit_up_down_hw] at ht
  have hhw : (process_set_time_state inp g).hw = g.hw ++ show_edit_digits g ++ tail := ht
  have hmod : ∀ v : Int, 0 ≤ v → Int.tmod v 10 = v % 10 ∧ Int.tdiv v 10 = v / 10 := by
    intro v hv
    exact ⟨Int.tmod_eq_emod hv (by decide), Int.tdiv_eq_ediv hv (by decide)⟩
  by_cases hm : g.cursor_position = 1 ∧ (g.time_word &&& 0x00000001) ≠ 0
  · have hh : ¬ (g.cursor_position = 0 ∧ (g.time_word &&& 0x00000001) ≠ 0) := by
      intro h; omega
    have hm' : g.cursor_position = 1 ∧ g.time_word % 2 = 1 := ⟨hm.1, (low_bit_odd _).mp hm.2⟩
    refine ⟨HwCall.shift_byte_out 0xFF, HwCall.shift_byte_out 0xFF,
      HwCall.shift_7_segment_out (Int.tmod g.cur_hours 10),
      HwCall.shift_7_segment_out (Int.tdiv g.cur_hours 10), tail, ?_, htail, ?_, ?_, ?_, ?_, ?_,
      fun h => hmod _ h, fun h => hmod _ h⟩
    · rw [hhw]
      simp only [show_edit_digits, show_edit_minutes, show_edit_hours, if_pos hm, if_neg hh]
      rfl
    · exact ⟨fun _ => hm', fun _ => ⟨rfl, rfl⟩⟩
    · intro h; exact absurd hm' h
    · constructor
      · intro h; exact absurd h.1 (by simp)
      · intro h; omega
    · intro _; exact ⟨rfl, rfl⟩
    · intro h; exact absurd h.2 (by simp)
  · have hm' : ¬ (g.cursor_position = 1 ∧ g.time_word % 2 = 1) := by
      intro h; exact hm ⟨h.1, (low_bit_odd _).mpr h.2⟩
    by_cases hh : g.cursor_position = 0 ∧ (g.time_word &&& 0x00000001) ≠ 0
    · have hh' : g.cursor_position = 0 ∧ g.time_word % 2 = 1 := ⟨hh.1, (low_bit_odd _).mp hh.2⟩
      refine ⟨HwCall.shift_7_segment_out (Int.tmod g.cur_minutes 10),
        HwCall.shift_7_segment_out (Int.tdiv g.cur_minutes 10),
        HwCall.shift_byte_out 0xFF, HwCall.shift_byte_out 0xFF, tail, ?_, htail, ?_, ?_, ?_, ?_,
        ?_, fun h => hmod _ h, fun h => hmod _ h⟩
      · rw [hhw]
        simp only [show_edit_digits, show_edit_minutes, show_edit_hours, if_neg hm, if_pos hh]
        rfl
      · constructor
        · intro h; exact absurd h.1 (by simp)
        · intro h; exact absurd h hm'
      · intro _; exact ⟨rfl, rfl⟩
      · exact ⟨fun _ => hh', fun _ => ⟨rfl, rfl⟩⟩
      · intro h; exact absurd hh' h
      · intro h; exact absurd h.1 (by simp)
    · have hh' : ¬ (g.cursor_position = 0 ∧ g.time_word % 2 = 1) := by
        intro h; exact hh ⟨h.1, (low_bit_odd _).mpr h.2⟩
      refine ⟨HwCall.shift_7_segment_out (Int.tmod g.cur_minutes 10),
        HwCall.shift_7_segment_out (Int.tdiv g.cur_minutes 10),
        HwCall.shift_7_segment_out (Int.tmod g.cur_hours 10),
        HwCall.shift_7_segment_out (Int.tdiv g.cur_hours 10), tail, ?_, htail, ?_, ?_, ?_, ?_,
        ?_, fun h => hmod _ h, fun h => hmod _ h⟩
      · rw [hhw]
        simp only [show_edit_digits, show_edit_minutes, show_edit_hours, if_neg hm, if_neg hh]
        rfl
      · constructor
        · intro h; exact absurd h.1 (by simp)
        · intro h; exact absurd h hm'
      · intro _; exact ⟨rfl, rfl⟩
      · constructor
        · intro h; exact absurd h.1 (by simp)
        · intro h; exact absurd h hh'
      · intro _; exact ⟨rfl, rfl⟩
      · intro h; exact absurd h.1 (by simp)

/-! ## Calls and stores -/

theorem forUp_eq_upTo {σ : Type} (lo hi : Int) (body : Int → σ → σ) (s : σ) :
    forUp lo hi body s = (upTo lo hi).foldl (fun acc i => body i acc) s := by
  rw [forUp_eq_range, upTo, List.foldl_map]

theorem forDown_eq_downTo {σ : Type} (hi lo : Int) (body : Int → σ → σ) (s : σ) :
    forDown hi lo body s = (downTo hi lo).foldl (fun acc i => body i acc) s := by
  rw [forDown_eq_range, downTo, List.foldl_map]

theorem run_writes_append (l1 l2 : List PixelWrite) (fb : Framebuffer) :
    run_writes (l1 ++ l2) fb = run_writes l2 (run_writes l1 fb) := by
  unfold run_writes
  rw [List.foldl_append]

theorem run_writes_flatMap {α : Type} (l : List α) (f : α → List PixelWrite)
    (fb : Framebuffer) :
    run_writes (l.flatMap f) fb = l.foldl (fun acc a => run_writes (f a) acc) fb := by
  induction l generalizing fb with
  | nil => rfl
  | cons a rest ih =>
    rw [List.flatMap_cons, run_writes_append, ih]
    rfl

theorem run_h_line_writes (x y w : Int) (color : Fin 256) (fb : Framebuffer) :
    run_writes (h_line_writes x y w color) fb = oled_draw_h_line x y w color fb := by
  rw [oled_draw_h_line_pixels]
  unfold run_writes h_line_writes upTo h_line_by_pixels
  rw [List.foldl_map, List.foldl_map]
  have e : (x + w - x).toNat = w.toNat := by
    congr 1; omega
  rw [e]

theorem run_v_line_writes (x y h : Int) (color : Fin 256) (fb : Framebuffer) :
    run_writes (v_line_writes x y h color) fb = oled_draw_v_line x y h color fb := by
  rw [oled_draw_v_line_pixels]
  unfold run_writes v_line_writes upTo v_line_by_pixels
  rw [List.foldl_map, List.foldl_map]
  have e : (y + h - y).toNat = h.toNat := by
    congr 1; omega
  rw [e]

theorem run_rect_writes (x y w h outline : Int) (color : Fin 256) (fb : Framebuffer) :
    run_writes (rect_writes x y w h outline color) fb
      = oled_draw_rect x y w h outline color fb := by
  unfold rect_writes oled_draw_rect
  by_cases ho : outline > 0
  · rw [if_pos ho, if_pos ho]
    simp only [run_writes_append, run_writes_flatMap, run_h_line_writes, run_v_line_writes,
      forUp_eq_upTo, forDown_eq_downTo]
  · rw [if_neg ho, if_neg ho]
    by_cases hwh : w > h
    · rw [if_pos hwh, if_pos hwh]
      simp only [run_writes_flatMap, run_h_line_writes, forUp_eq_upTo]
    · rw [if_neg hwh, if_neg hwh]
      simp only [run_writes_flatMap, run_v_line_writes, forUp_eq_upTo]

/-- A call is the sequence of its stores. -/
theorem run_eq_run_writes (d : DrawCall) (fb : Framebuffer) :
    d.run fb = run_writes d.writes fb := by
  cases d with
  | write_pixel x y color => rfl
  | h_line x y w color => exact (run_h_line_writes x y w color fb).symm
  | v_line x y h color => exact (run_v_line_writes x y h color fb).symm
  | rect x y w h outline color => exact (run_rect_writes x y w h outline color fb).symm

theorem run_calls_append (l1 l2 : List DrawCall) (fb : Framebuffer) :
    run_calls (l1 ++ l2) fb = run_calls l2 (run_calls l1 fb) := by
  unfold run_calls
  rw [List.foldl_append]

theorem run_calls_eq_run_writes (l : List DrawCall) (fb : Framebuffer) :
    run_calls l fb = run_writes (l.flatMap DrawCall.writes) fb := by
  rw [run_writes_flatMap]
  unfold run_calls
  congr 1
  funext acc d
  exact run_eq_run_writes d acc

/-! ## The glyph tables -/

theorem oled_draw_small_letter_calls (x y : Int) (c : Char) (color : Fin 256)
    (fb : Framebuffer) :
    oled_draw_small_letter x y c color fb = run_calls (small_letter_calls x y c) fb := by
  unfold oled_draw_small_letter small_letter_calls small_glyph
  by_cases h0 : c = 'A'
  · rw [if_pos h0, if_pos h0]
    simp only [List.map_cons, List.map_nil, run_calls, List.foldl_cons, List.foldl_nil,
      Stroke.call, DrawCall.run, add_zero]
  rw [if_neg h0, if_neg h0]
  by_cases h1 : c = 'D'
  · rw [if_pos h1, if_pos h1]
    simp only [List.map_cons, List.map_nil, run_calls, List.foldl_cons, List.foldl_nil,
      Stroke.call, DrawCall.run, add_zero]
  rw [if_neg h1, if_neg h1]
  by_cases h2 : c = 'E'
  · rw [if_pos h2, if_pos h2]
    simp only [List.map_cons, List.map_nil, run_calls, List.foldl_cons, List.foldl_nil,
      Stroke.call, DrawCall.run, add_zero]
  rw [if_neg h2, if_neg h2]
  by_cases h3 : c = 'M'
  · rw [if_pos h3, if_pos h3]
    simp only [List.map_cons, List.map_nil, run_calls, List.foldl_cons, List.foldl_nil,
      Stroke.call, DrawCall.run, add_zero]
  rw [if_neg h3, if_neg h3]
  by_cases h4 : c = 'O'
  · rw [if_pos h4, if_pos h4]
    simp only [List.map_cons, List.map_nil, run_calls, List.foldl_cons, List.foldl_nil,
      Stroke.call, DrawCall.run, add_zero]
  rw [if_neg h4, if_neg h4]
  by_cases h5 : c = 'S'
  · rw [if_pos h5, if_pos h5]
    simp only [List.map_cons, List.map_nil, run_calls, List.foldl_cons, List.foldl_nil,
      Stroke.call, DrawCall.run, add_zero]
  rw [if_neg h5, if_neg h5]
  by_cases h6 : c = 'T'
  · rw [if_pos h6, if_pos h6]
    simp only [List.map_cons, List.map_nil, run_calls, List.foldl_cons, List.foldl_nil,
      Stroke.call, DrawCall.run, add_zero]
  rw [if_neg h6, if_neg h6]
  by_cases h7 : c = 'a'
  · rw [if_pos h7, if_pos h7]
    simp only [List.map_cons, List.map_nil, run_calls, List.foldl_cons, List.foldl_nil,
      Stroke.call, DrawCall.run, add_zero]
  rw [if_neg h7, if_neg h7]
  by_cases h8 : c = 'e'
  · rw [if_pos h8, if_pos h8]
    simp only [List.map_cons, List.map_nil, run_calls, List.foldl_cons, List.foldl_nil,
      Stroke.call, DrawCall.run, add_zero]
  rw [if_neg h8, if_neg h8]
  by_cases h9 : c = 'f'
  · rw [if_pos h9, if_pos h9]
    simp only [List.map_cons, List.map_nil, run_calls, List.foldl_cons, List.foldl_nil,
      Stroke.call, DrawCall.run, add_zero]
  rw [if_neg h9, if_neg h9]
  by_cases h10 : c = 'i'
  · rw [if_pos h10, if_pos h10]
    simp only [List.map_cons, List.map_nil, run_calls, List.foldl_cons, List.foldl_nil,
      Stroke.call, DrawCall.run, add_zero]
  rw [if_neg h10, if_neg h10]
  by_cases h11 : c = 'l'
  · rw [if_pos h11, if_pos h11]
    simp only [List.map_cons, List.map_nil, run_calls, List.foldl_cons, List.foldl_nil,
      Stroke.call, DrawCall.run, add_zero]
  rw [if_neg h11, if_neg h11]
  by_cases h12 : c = 'm'
  · rw [if_pos h12, if_pos h12]
    simp only [List.map_cons, List.map_nil, run_calls, List.foldl_cons, List.foldl_nil,
      Stroke.call, DrawCall.run, add_zero]
  rw [if_neg h12, if_neg h12]
  by_cases h13 : c = 'n'
  · rw [if_pos h13, if_pos h13]
    simp only [List.map_cons, List.map_nil, run_calls, List.foldl_cons, List.foldl_nil,
      Stroke.call, DrawCall.run, add_zero]
  rw [if_neg h13, if_neg h13]
  by_cases h14 : c = 'o'
  · rw [if_pos h14, if_pos h14]
    simp only [List.map_cons, List.map_nil, run_calls, List.foldl_cons, List.foldl_nil,
      Stroke.call, DrawCall.run, add_zero]
  rw [if_neg h14, if_neg h14]
  by_cases h15 : c = 'r'
  · rw [if_pos h15, if_pos h15]
    simp only [List.map_cons, List.map_nil, run_calls, List.foldl_cons, List.foldl_nil,
      Stroke.call, DrawCall.run, add_zero]
  rw [if_neg h15, if_neg h15]
  by_cases h16 : c = 's'
  · rw [if_pos h16, if_pos h16]
    simp only [List.map_cons, List.map_nil, run_calls, List.foldl_cons, List.foldl_nil,
      Stroke.call, DrawCall.run, add_zero]
  rw [if_neg h16, if_neg h16]
  by_cases h17 : c = 't'
  · rw [if_pos h17, if_pos h17]
    simp only [List.map_cons, List.map_nil, run_calls, List.foldl_cons, List.foldl_nil,
      Stroke.call, DrawCall.run, add_zero]
  rw [if_neg h17, if_neg h17]
  by_cases h18 : c = 'u'
  · rw [if_pos h18, if_pos h18]
    simp only [List.map_cons, List.map_nil, run_calls, List.foldl_cons, List.foldl_nil,
      Stroke.call, DrawCall.run, add_zero]
  rw [if_neg h18, if_neg h18]
  by_cases h19 : c = 'x'
  · rw [if_pos h19, if_pos h19]
    simp only [List.map_cons, List.map_nil, run_calls, List.foldl_cons, List.foldl_nil,
      Stroke.call, DrawCall.run, add_zero]
  rw [if_neg h19, if_neg h19]
  by_cases h20 : c = 'y'
  · rw [if_pos h20, if_pos h20]
    simp only [List.map_cons, List.map_nil, run_calls, List.foldl_cons, List.foldl_nil,
      Stroke.call, DrawCall.run, add_zero]
  rw [if_neg h20, if_neg h20]
  by_cases h21 : c = ':'
  · rw [if_pos h21, if_pos h21]
    simp only [List.map_cons, List.map_nil, run_calls, List.foldl_cons, List.foldl_nil,
      Stroke.call, DrawCall.run, add_zero]
  rw [if_neg h21, if_neg h21]
  by_cases h22 : c = '/'
  · rw [if_pos h22, if_pos h22]
    simp only [List.map_cons, List.map_nil, run_calls, List.foldl_cons, List.foldl_nil,
      Stroke.call, DrawCall.run, add_zero]
  rw [if_neg h22, if_neg h22]
  by_cases h23 : c = '>'
  · rw [if_pos h23, if_pos h23]
    simp only [List.map_cons, List.map_nil, run_calls, List.foldl_cons, List.foldl_nil,
      Stroke.call, DrawCall.run, add_zero]
  rw [if_neg h23, if_neg h23]
  by_cases h24 : c = ' '
  · rw [if_pos h24, if_pos h24]
    simp only [List.map_cons, List.map_nil, run_calls, List.foldl_cons, List.foldl_nil,
      Stroke.call, DrawCall.run, add_zero]
  rw [if_neg h24, if_neg h24]
  rfl

theorem oled_draw_big_letter_calls (x y : Int) (c : Char) (color : Fin 256)
    (fb : Framebuffer) :
    oled_draw_big_letter x y c color fb = run_calls (big_letter_calls x y c color) fb := by
  unfold oled_draw_big_letter big_letter_calls big_glyph
  by_cases h0 : c = 'A'
  · rw [if_pos h0, if_pos h0]
    simp only [List.map_cons, List.map_nil, run_calls, List.foldl_cons, List.foldl_nil,
      Stroke.call, DrawCall.run, add_zero]
  rw [if_neg h0, if_neg h0]
  by_cases h1 : c = 'D'
  · rw [if_pos h1, if_pos h1]
    simp only [List.map_cons, List.map_nil, run_calls, List.foldl_cons, List.foldl_nil,
      Stroke.call, DrawCall.run, add_zero]
  rw [if_neg h1, if_neg h1]
  by_cases h2 : c = 'E'
  · rw [if_pos h2, if_pos h2]
    simp only [List.map_cons, List.map_nil, run_calls, List.foldl_cons, List.foldl_nil,
      Stroke.call, DrawCall.run, add_zero]
  rw [if_neg h2, if_neg h2]
  by_cases h3 : c = 'I'
  · rw [if_pos h3, if_pos h3]
    simp only [List.map_cons, List.map_nil, run_calls, List.foldl_cons, List.foldl_nil,
      Stroke.call, DrawCall.run, add_zero]
  rw [if_neg h3, if_neg h3]
  by_cases h4 : c = 'L'
  · rw [if_pos h4, if_pos h4]
    simp only [List.map_cons, List.map_nil, run_calls, List.foldl_cons, List.foldl_nil,
      Stroke.call, DrawCall.run, add_zero]
  rw [if_neg h4, if_neg h4]
  by_cases h5 : c = 'M'
  · rw [if_pos h5, if_pos h5]
    simp only [List.map_cons, List.map_nil, run_calls, List.foldl_cons, List.foldl_nil,
      Stroke.call, DrawCall.run, add_zero]
  rw [if_neg h5, if_neg h5]
  by_cases h6 : c = 'N'
  · rw [if_pos h6, if_pos h6]
    simp only [List.map_cons, List.map_nil, run_calls, List.foldl_cons, List.foldl_nil,
      Stroke.call, DrawCall.run, add_zero]
  rw [if_neg h6, if_neg h6]
  by_cases h7 : c = 'O'
  · rw [if_pos h7, if_pos h7]
    simp only [List.map_cons, List.map_nil, run_calls, List.foldl_cons, List.foldl_nil,
      Stroke.call, DrawCall.run, add_zero]
  rw [if_neg h7, if_neg h7]
  by_cases h8 : c = 'R'
  · rw [if_pos h8, if_pos h8]
    simp only [List.map_cons, List.map_nil, run_calls, List.foldl_cons, List.foldl_nil,
      Stroke.call, DrawCall.run, add_zero]
  rw [if_neg h8, if_neg h8]
  by_cases h9 : c = 'S'
  · rw [if_pos h9, if_pos h9]
    simp only [List.map_cons, List.map_nil, run_calls, List.foldl_cons, List.foldl_nil,
      Stroke.call, DrawCall.run, add_zero]
  rw [if_neg h9, if_neg h9]
  by_cases h10 : c = 'T'
  · rw [if_pos h10, if_pos h10]
    simp only [List.map_cons, List.map_nil, run_calls, List.foldl_cons, List.foldl_nil,
      Stroke.call, DrawCall.run, add_zero]
  rw [if_neg h10, if_neg h10]
  by_cases h11 : c = 'U'
  · rw [if_pos h11, if_pos h11]
    simp only [List.map_cons, List.map_nil, run_calls, List.foldl_cons, List.foldl_nil,
      Stroke.call, DrawCall.run, add_zero]
  rw [if_neg h11, if_neg h11]
  by_cases h12 : c = 'Y'
  · rw [if_pos h12, if_pos h12]
    simp only [List.map_cons, List.map_nil, run_calls, List.foldl_cons, List.foldl_nil,
      Stroke.call, DrawCall.run, add_zero]
  rw [if_neg h12, if_neg h12]
  by_cases h13 : c = ':'
  · rw [if_pos h13, if_pos h13]
    simp only [List.map_cons, List.map_nil, run_calls, List.foldl_cons, List.foldl_nil,
      Stroke.call, DrawCall.run, add_zero]
  rw [if_neg h13, if_neg h13]
  by_cases h14 : c = '?'
  · rw [if_pos h14, if_pos h14]
    simp only [List.map_cons, List.map_nil, run_calls, List.foldl_cons, List.foldl_nil,
      Stroke.call, DrawCall.run, add_zero]
  rw [if_neg h14, if_neg h14]
  by_cases h15 : c = '!'
  · rw [if_pos h15, if_pos h15]
    simp only [List.map_cons, List.map_nil, run_calls, List.foldl_cons, List.foldl_nil,
      Stroke.call, DrawCall.run, add_zero]
  rw [if_neg h15, if_neg h15]
  rfl

theorem oled_draw_small_text_loop_calls (x y : Int) (color : Fin 256) (cs : List Char)
    (offset : Int) (fb : Framebuffer) :
    oled_draw_small_text_loop x y color offset cs fb
      = run_calls (small_text_calls x y offset cs) fb := by
  induction cs generalizing offset fb with
  | nil => rfl
  | cons c rest ih =>
    rw [oled_draw_small_text_loop, small_text_calls]
    by_cases hc : c = NUL
    · rw [if_pos hc, if_pos hc]; rfl
    · rw [if_neg hc, if_neg hc, run_calls_append, ih, oled_draw_small_letter_calls]

theorem oled_draw_big_text_loop_calls (x y : Int) (color : Fin 256) (cs : List Char)
    (offset : Int) (fb : Framebuffer) :
    oled_draw_big_text_loop x y color offset cs fb
      = run_calls (big_text_calls x y color offset cs) fb := by
  induction cs generalizing offset fb with
  | nil => rfl
  | cons c rest ih =>
    rw [oled_draw_big_text_loop, big_text_calls]
    by_cases hc : c = NUL
    · rw [if_pos hc, if_pos hc]; rfl
    · rw [if_neg hc, if_neg hc, run_calls_append, ih, oled_draw_big_letter_calls]

/-! ## Where the stores land -/

theorem mem_upTo (lo hi i : Int) : i ∈ upTo lo hi ↔ lo ≤ i ∧ i < hi := by
  unfold upTo
  rw [List.mem_map]
  constructor
  · rintro ⟨k, hk, rfl⟩
    have := List.mem_range.mp hk
    omega
  · intro h
    refine ⟨(i - lo).toNat, List.mem_range.mpr (by omega), by omega⟩

theorem mem_downTo (hi lo i : Int) : i ∈ downTo hi lo ↔ lo < i ∧ i ≤ hi := by
  unfold downTo
  rw [List.mem_map]
  constructor
  · rintro ⟨k, hk, rfl⟩
    have := List.mem_range.mp hk
    omega
  · intro h
    refine ⟨(hi - i).toNat, List.mem_range.mpr (by omega), by omega⟩

theorem mem_h_line_writes (x y w : Int) (color : Fin 256) (p : PixelWrite)
    (h : p ∈ h_line_writes x y w color) : x ≤ p.x ∧ p.x < x + w ∧ p.y = y := by
  unfold h_line_writes at h
  obtain ⟨i, hi, rfl⟩ := List.mem_map.mp h
  have := (mem_upTo _ _ _).mp hi
  exact ⟨this.1, this.2, rfl⟩

theorem mem_v_line_writes (x y h : Int) (color : Fin 256) (p : PixelWrite)
    (hp : p ∈ v_line_writes x y h color) : p.x = x ∧ y ≤ p.y ∧ p.y < y + h := by
  unfold v_line_writes at hp
  obtain ⟨i, hi, rfl⟩ := List.mem_map.mp hp
  have := (mem_upTo _ _ _).mp hi
  exact ⟨rfl, this.1, this.2⟩

theorem mem_rect_writes (x y w h outline : Int) (color : Fin 256) (p : PixelWrite)
    (ho : outline ≤ w ∧ outline ≤ h) (hp : p ∈ rect_writes x y w h outline color) :
    x ≤ p.x ∧ p.x < x + w ∧ y ≤ p.y ∧ p.y < y + h := by
  unfold rect_writes at hp
  by_cases hpos : outline > 0
  · rw [if_pos hpos] at hp
    simp only [List.mem_append, List.mem_flatMap] at hp
    rcases hp with ((⟨o, ho1, ho2⟩ | ⟨o, ho1, ho2⟩) | ⟨o, ho1, ho2⟩) | ⟨o, ho1, ho2⟩
    · have a := (mem_upTo _ _ _).mp ho1
      have b := mem_h_line_writes _ _ _ _ _ ho2
      omega
    · have a := (mem_downTo _ _ _).mp ho1
      have b := mem_h_line_writes _ _ _ _ _ ho2
      omega
    · have a := (mem_upTo _ _ _).mp ho1
      have b := mem_v_line_writes _ _ _ _ _ ho2
      omega
    · have a := (mem_downTo _ _ _).mp ho1
      have b := mem_v_line_writes _ _ _ _ _ ho2
      omega
  · rw [if_neg hpos] at hp
    by_cases hwh : w > h
    · rw [if_pos hwh] at hp
      obtain ⟨o, ho1, ho2⟩ := List.mem_flatMap.mp hp
      have a := (mem_upTo _ _ _).mp ho1
      have b := mem_h_line_writes _ _ _ _ _ ho2
      omega
    · rw [if_neg hwh] at hp
      obtain ⟨o, ho1, ho2⟩ := List.mem_flatMap.mp hp
      have a := (mem_upTo _ _ _).mp ho1
      have b := mem_v_line_writes _ _ _ _ _ ho2
      omega

/-- The stores of a call that fits a box address pixels of the box. -/
theorem writes_of_fits (d : DrawCall) (x0 x1 y0 y1 : Int) (h : d.fits x0 x1 y0 y1 = true)
    (p : PixelWrite) (hp : p ∈ d.writes) :
    x0 ≤ p.x ∧ p.x < x1 ∧ y0 ≤ p.y ∧ p.y < y1 := by
  cases d with
  | write_pixel x y color =>
    have h' : x0 ≤ x ∧ x < x1 ∧ y0 ≤ y ∧ y < y1 := of_decide_eq_true h
    have e : p = ⟨x, y, color⟩ := List.mem_singleton.mp hp
    rw [e]
    exact h'
  | h_line x y w color =>
    have h' : x0 ≤ x ∧ x + w ≤ x1 ∧ y0 ≤ y ∧ y < y1 := of_decide_eq_true h
    have b := mem_h_line_writes x y w color p hp
    omega
  | v_line x y hh color =>
    have h' : x0 ≤ x ∧ x < x1 ∧ y0 ≤ y ∧ y + hh ≤ y1 := of_decide_eq_true h
    have b := mem_v_line_writes x y hh color p hp
    omega
  | rect x y w hh outline color =>
    have h' : x0 ≤ x ∧ x + w ≤ x1 ∧ y0 ≤ y ∧ y + hh ≤ y1 ∧ outline ≤ w ∧ outline ≤ hh :=
      of_decide_eq_true h
    have b := mem_rect_writes x y w hh outline color p ⟨h'.2.2.2.2.1, h'.2.2.2.2.2⟩ hp
    omega

/-- Stores at pixels of a box inside the screen record no fault and change no
pixel outside the box. -/
theorem run_writes_outside (l : List PixelWrite) (x0 x1 y0 y1 : Int)
    (hbox : 0 ≤ x0 ∧ x1 ≤ 128 ∧ 0 ≤ y0 ∧ y1 ≤ 64)
    (h : ∀ p ∈ l, x0 ≤ p.x ∧ p.x < x1 ∧ y0 ≤ p.y ∧ p.y < y1) (fb : Framebuffer) :
    (run_writes l fb).fault = fb.fault ∧
    ∀ px py : Nat, px < 128 → py < 64 →
      ¬ (x0 ≤ (px : Int) ∧ (px : Int) < x1 ∧ y0 ≤ (py : Int) ∧ (py : Int) < y1) →
      (run_writes l fb).pixel px py = fb.pixel px py := by
  induction l generalizing fb with
  | nil => exact ⟨rfl, fun _ _ _ _ _ => rfl⟩
  | cons p rest ih =>
    have hp := h p (List.mem_cons_self p rest)
    obtain ⟨a, ha⟩ := Int.eq_ofNat_of_zero_le (show 0 ≤ p.x by omega)
    obtain ⟨b, hb⟩ := Int.eq_ofNat_of_zero_le (show 0 ≤ p.y by omega)
    have ha' : a < 128 := by omega
    have hb' : b < 64 := by omega
    obtain ⟨f1, p1⟩ := ih (fun q hq => h q (List.mem_cons_of_mem p hq))
      (oled_write_pixel p.x p.y p.color fb)
    show (run_writes rest (oled_write_pixel p.x p.y p.color fb)).fault = _ ∧ _
    refine ⟨?_, fun px py hpx hpy hout => ?_⟩
    · rw [f1, ha, hb]
      exact oled_write_pixel_fault fb a b ha' hb' p.color
    · show (run_writes rest (oled_write_pixel p.x p.y p.color fb)).pixel px py = _
      rw [p1 px py hpx hpy hout, ha, hb,
        oled_write_pixel_pixel fb a b ha' hb' p.color px py hpx hpy]
      have hne : ¬ (px = a ∧ py = b) := by
        intro e
        apply hout
        omega
      rw [if_neg hne]

/-- Calls that fit a box inside the screen record no fault and change no pixel
outside the box. -/
theorem run_calls_outside (l : List DrawCall) (x0 x1 y0 y1 : Int)
    (hbox : 0 ≤ x0 ∧ x1 ≤ 128 ∧ 0 ≤ y0 ∧ y1 ≤ 64)
    (h : ∀ d ∈ l, d.fits x0 x1 y0 y1 = true) (fb : Framebuffer) :
    (run_calls l fb).fault = fb.fault ∧
    ∀ px py : Nat, px < 128 → py < 64 →
      ¬ (x0 ≤ (px : Int) ∧ (px : Int) < x1 ∧ y0 ≤ (py : Int) ∧ (py : Int) < y1) →
      (run_calls l fb).pixel px py = fb.pixel px py := by
  rw [run_calls_eq_run_writes]
  apply run_writes_outside _ x0 x1 y0 y1 hbox
  intro p hp
  obtain ⟨d, hd, hpd⟩ := List.mem_flatMap.mp hp
  exact writes_of_fits d x0 x1 y0 y1 (h d hd) p hpd

theorem fits_mono (d : DrawCall) (x0 x1 y0 y1 a0 a1 b0 b1 : Int)
    (hx0 : a0 ≤ x0) (hx1 : x1 ≤ a1) (hy0 : b0 ≤ y0) (hy1 : y1 ≤ b1)
    (h : d.fits x0 x1 y0 y1 = true) : d.fits a0 a1 b0 b1 = true := by
  cases d with
  | write_pixel x y color =>
    have h' : x0 ≤ x ∧ x < x1 ∧ y0 ≤ y ∧ y < y1 := of_decide_eq_true h
    exact decide_eq_true (by omega : a0 ≤ x ∧ x < a1 ∧ b0 ≤ y ∧ y < b1)
  | h_line x y w color =>
    have h' : x0 ≤ x ∧ x + w ≤ x1 ∧ y0 ≤ y ∧ y < y1 := of_decide_eq_true h
    exact decide_eq_true (by omega : a0 ≤ x ∧ x + w ≤ a1 ∧ b0 ≤ y ∧ y < b1)
  | v_line x y hh color =>
    have h' : x0 ≤ x ∧ x < x1 ∧ y0 ≤ y ∧ y + hh ≤ y1 := of_decide_eq_true h
    exact decide_eq_true (by omega : a0 ≤ x ∧ x < a1 ∧ b0 ≤ y ∧ y + hh ≤ b1)
  | rect x y w hh outline color =>
    have h' : x0 ≤ x ∧ x + w ≤ x1 ∧ y0 ≤ y ∧ y + hh ≤ y1 ∧ outline ≤ w ∧ outline ≤ hh :=
      of_decide_eq_true h
    exact decide_eq_true
      (by omega : a0 ≤ x ∧ x + w ≤ a1 ∧ b0 ≤ y ∧ y + hh ≤ b1 ∧ outline ≤ w ∧ outline ≤ hh)

theorem call_fits_of_stroke (s : Stroke) (bw bh x y : Int) (color : Fin 256)
    (h : s.fits bw bh = true) : (s.call x y color).fits x (x + bw) y (y + bh) = true := by
  cases s with
  | pixel dx dy =>
    have h' : 0 ≤ dx ∧ dx < bw ∧ 0 ≤ dy ∧ dy < bh := of_decide_eq_true h
    exact decide_eq_true
      (by omega : x ≤ x + dx ∧ x + dx < x + bw ∧ y ≤ y + dy ∧ y + dy < y + bh)
  | h_line dx dy w =>
    have h' : 0 ≤ dx ∧ dx + w ≤ bw ∧ 0 ≤ dy ∧ dy < bh := of_decide_eq_true h
    exact decide_eq_true
      (by omega : x ≤ x + dx ∧ x + dx + w ≤ x + bw ∧ y ≤ y + dy ∧ y + dy < y + bh)
  | v_line dx dy hh =>
    have h' : 0 ≤ dx ∧ dx < bw ∧ 0 ≤ dy ∧ dy + hh ≤ bh := of_decide_eq_true h
    exact decide_eq_true
      (by omega : x ≤ x + dx ∧ x + dx < x + bw ∧ y ≤ y + dy ∧ y + dy + hh ≤ y + bh)
  | rect dx dy w hh =>
    have h' : 0 ≤ dx ∧ dx + w ≤ bw ∧ 0 ≤ dy ∧ dy + hh ≤ bh ∧ 0 ≤ w ∧ 0 ≤ hh :=
      of_decide_eq_true h
    exact decide_eq_true
      (by omega : x ≤ x + dx ∧ x + dx + w ≤ x + bw ∧ y ≤ y + dy ∧ y + dy + hh ≤ y + bh ∧
        0 ≤ w ∧ 0 ≤ hh)

/-- Every stroke of a small glyph lies in the 5 by 8 box. -/
theorem small_glyph_fits (c : Char) : ∀ s ∈ small_glyph c, s.fits 5 8 = true := by
  unfold small_glyph
  by_cases h0 : c = 'A'
  · rw [if_pos h0]; decide
  rw [if_neg h0]
  by_cases h1 : c = 'D'
  · rw [if_pos h1]; decide
  rw [if_neg h1]
  by_cases h2 : c = 'E'
  · rw [if_pos h2]; decide
  rw [if_neg h2]
  by_cases h3 : c = 'M'
  · rw [if_pos h3]; decide
  rw [if_neg h3]
  by_cases h4 : c = 'O'
  · rw [if_pos h4]; decide
  rw [if_neg h4]
  by_cases h5 : c = 'S'
  · rw [if_pos h5]; decide
  rw [if_neg h5]
  by_cases h6 : c = 'T'
  · rw [if_pos h6]; decide
  rw [if_neg h6]
  by_cases h7 : c = 'a'
  · rw [if_pos h7]; decide
  rw [if_neg h7]
  by_cases h8 : c = 'e'
  · rw [if_pos h8]; decide
  rw [if_neg h8]
  by_cases h9 : c = 'f'
  · rw [if_pos h9]; decide
  rw [if_neg h9]
  by_cases h10 : c = 'i'
  · rw [if_pos h10]; decide
  rw [if_neg h10]
  by_cases h11 : c = 'l'
  · rw [if_pos h11]; decide
  rw [if_neg h11]
  by_cases h12 : c = 'm'
  · rw [if_pos h12]; decide
  rw [if_neg h12]
  by_cases h13 : c = 'n'
  · rw [if_pos h13]; decide
  rw [if_neg h13]
  by_cases h14 : c = 'o'
  · rw [if_pos h14]; decide
  rw [if_neg h14]
  by_cases h15 : c = 'r'
  · rw [if_pos h15]; decide
  rw [if_neg h15]
  by_cases h16 : c = 's'
  · rw [if_pos h16]; decide
  rw [if_neg h16]
  by_cases h17 : c = 't'
  · rw [if_pos h17]; decide
  rw [if_neg h17]
  by_cases h18 : c = 'u'
  · rw [if_pos h18]; decide
  rw [if_neg h18]
  by_cases h19 : c = 'x'
  · rw [if_pos h19]; decide
  rw [if_neg h19]
  by_cases h20 : c = 'y'
  · rw [if_pos h20]; decide
  rw [if_neg h20]
  by_cases h21 : c = ':'
  · rw [if_pos h21]; decide
  rw [if_neg h21]
  by_cases h22 : c = '/'
  · rw [if_pos h22]; decide
  rw [if_neg h22]
  by_cases h23 : c = '>'
  · rw [if_pos h23]; decide
  rw [if_neg h23]
  by_cases h24 : c = ' '
  · rw [if_pos h24]; decide
  rw [if_neg h24]
  decide

/-- Every stroke of a big glyph lies in the 9 by 13 box. -/
theorem big_glyph_fits (c : Char) : ∀ s ∈ big_glyph c, s.fits 9 13 = true := by
  unfold big_glyph
  by_cases h0 : c = 'A'
  · rw [if_pos h0]; decide
  rw [if_neg h0]
  by_cases h1 : c = 'D'
  · rw [if_pos h1]; decide
  rw [if_neg h1]
  by_cases h2 : c = 'E'
  · rw [if_pos h2]; decide
  rw [if_neg h2]
  by_cases h3 : c = 'I'
  · rw [if_pos h3]; decide
  rw [if_neg h3]
  by_cases h4 : c = 'L'
  · rw [if_pos h4]; decide
  rw [if_neg h4]
  by_cases h5 : c = 'M'
  · rw [if_pos h5]; decide
  rw [if_neg h5]
  by_cases h6 : c = 'N'
  · rw [if_pos h6]; decide
  rw [if_neg h6]
  by_cases h7 : c = 'O'
  · rw [if_pos h7]; decide
  rw [if_neg h7]
  by_cases h8 : c = 'R'
  · rw [if_pos h8]; decide
  rw [if_neg h8]
  by_cases h9 : c = 'S'
  · rw [if_pos h9]; decide
  rw [if_neg h9]
  by_cases h10 : c = 'T'
  · rw [if_pos h10]; decide
  rw [if_neg h10]
  by_cases h11 : c = 'U'
  · rw [if_pos h11]; decide
  rw [if_neg h11]
  by_cases h12 : c = 'Y'
  · rw [if_pos h12]; decide
  rw [if_neg h12]
  by_cases h13 : c = ':'
  · rw [if_pos h13]; decide
  rw [if_neg h13]
  by_cases h14 : c = '?'
  · rw [if_pos h14]; decide
  rw [if_neg h14]
  by_cases h15 : c = '!'
  · rw [if_pos h15]; decide
  rw [if_neg h15]
  decide

theorem small_letter_calls_fit (x y : Int) (c : Char) :
    ∀ d ∈ small_letter_calls x y c, d.fits x (x + 5) y (y + 8) = true := by
  intro d hd
  obtain ⟨s, hs, rfl⟩ := List.mem_map.mp hd
  exact call_fits_of_stroke s 5 8 x y 1 (small_glyph_fits c s hs)

theorem big_letter_calls_fit (x y : Int) (c : Char) (color : Fin 256) :
    ∀ d ∈ big_letter_calls x y c color, d.fits x (x + 9) y (y + 13) = true := by
  intro d hd
  obtain ⟨s, hs, rfl⟩ := List.mem_map.mp hd
  exact call_fits_of_stroke s 9 13 x y color (big_glyph_fits c s hs)

theorem small_text_calls_fit (x y : Int) (cs : List Char) (offset : Int) :
    ∀ d ∈ small_text_calls x y offset cs,
      d.fits (x + offset) (x + offset + 6 * (cs.length : Int) - 1) y (y + 8) = true := by
  induction cs generalizing offset with
  | nil => intro d hd; exact absurd hd (List.not_mem_nil d)
  | cons c rest ih =>
    intro d hd
    rw [small_text_calls] at hd
    by_cases hc : c = NUL
    · rw [if_pos hc] at hd
      exact absurd hd (List.not_mem_nil d)
    · rw [if_neg hc] at hd
      have hl : (((c :: rest).length : Nat) : Int) = (rest.length : Int) + 1 := by
        rw [List.length_cons]; push_cast; rfl
      rcases List.mem_append.mp hd with h1 | h2
      · exact fits_mono d _ _ _ _ _ _ _ _ (le_refl _) (by omega) (le_refl _) (le_refl _)
          (small_letter_calls_fit (x + offset) y c d h1)
      · exact fits_mono d _ _ _ _ _ _ _ _ (by omega) (by omega) (le_refl _) (le_refl _)
          (ih (offset + 6) d h2)

theorem big_text_calls_fit (x y : Int) (color : Fin 256) (cs : List Char) (offset : Int) :
    ∀ d ∈ big_text_calls x y color offset cs,
      d.fits (x + offset) (x + offset + 11 * (cs.length : Int) - 2) y (y + 13) = true := by
  induction cs generalizing offset with
  | nil => intro d hd; exact absurd hd (List.not_mem_nil d)
  | cons c rest ih =>
    intro d hd
    rw [big_text_calls] at hd
    by_cases hc : c = NUL
    · rw [if_pos hc] at hd
      exact absurd hd (List.not_mem_nil d)
    · rw [if_neg hc] at hd
      have hl : (((c :: rest).length : Nat) : Int) = (rest.length : Int) + 1 := by
        rw [List.length_cons]; push_cast; rfl
      rcases List.mem_append.mp hd with h1 | h2
      · exact fits_mono d _ _ _ _ _ _ _ _ (le_refl _) (by omega) (le_refl _) (le_refl _)
          (big_letter_calls_fit (x + offset) y c color d h1)
      · exact fits_mono d _ _ _ _ _ _ _ _ (by omega) (by omega) (le_refl _) (le_refl _)
          (ih (offset + 11) d h2)

/-! ## The boxes of the glyphs -/

theorem small_text_calls_terminated (x y : Int) (s rest : List Char)
    (hs : ∀ c ∈ s, c ≠ NUL) (offset : Int) :
    small_text_calls x y offset (s ++ NUL :: rest) = small_text_calls x y offset s := by
  induction s generalizing offset with
  | nil =>
    show small_text_calls x y offset (NUL :: rest) = []
    rw [small_text_calls, if_pos rfl]
  | cons c cs ih =>
    have hc : c ≠ NUL := hs c (List.mem_cons_self c cs)
    show small_text_calls x y offset (c :: (cs ++ NUL :: rest)) = _
    rw [small_text_calls, small_text_calls, if_neg hc, if_neg hc,
      ih (fun d hd => hs d (List.mem_cons_of_mem c hd))]

theorem big_text_calls_terminated (x y : Int) (color : Fin 256) (s rest : List Char)
    (hs : ∀ c ∈ s, c ≠ NUL) (offset : Int) :
    big_text_calls x y color offset (s ++ NUL :: rest) = big_text_calls x y color offset s := by
  induction s generalizing offset with
  | nil =>
    show big_text_calls x y color offset (NUL :: rest) = []
    rw [big_text_calls, if_pos rfl]
  | cons c cs ih =>
    have hc : c ≠ NUL := hs c (List.mem_cons_self c cs)
    show big_text_calls x y color offset (c :: (cs ++ NUL :: rest)) = _
    rw [big_text_calls, big_text_calls, if_neg hc, if_neg hc,
      ih (fun d hd => hs d (List.mem_cons_of_mem c hd))]

theorem oled_draw_small_letter_outside (x y : Int) (c : Char) (color : Fin 256)
    (fb : Framebuffer) (hx : 0 ≤ x) (hy : 0 ≤ y) (hx1 : x + 5 ≤ 128) (hy1 : y + 8 ≤ 64) :
    (oled_draw_small_letter x y c color fb).fault = fb.fault ∧
    ∀ px py : Nat, px < 128 → py < 64 →
      ¬ (x ≤ (px : Int) ∧ (px : Int) < x + 5 ∧ y ≤ (py : Int) ∧ (py : Int) < y + 8) →
      (oled_draw_small_letter x y c color fb).pixel px py = fb.pixel px py := by
  rw [oled_draw_small_letter_calls]
  exact run_calls_outside _ x (x + 5) y (y + 8) ⟨hx, hx1, hy, hy1⟩
    (small_letter_calls_fit x y c) fb

theorem oled_draw_big_letter_outside (x y : Int) (c : Char) (color : Fin 256)
    (fb : Framebuffer) (hx : 0 ≤ x) (hy : 0 ≤ y) (hx1 : x + 9 ≤ 128) (hy1 : y + 13 ≤ 64) :
    (oled_draw_big_letter x y c color fb).fault = fb.fault ∧
    ∀ px py : Nat, px < 128 → py < 64 →
      ¬ (x ≤ (px : Int) ∧ (px : Int) < x + 9 ∧ y ≤ (py : Int) ∧ (py : Int) < y + 13) →
      (oled_draw_big_letter x y c color fb).pixel px py = fb.pixel px py := by
  rw [oled_draw_big_letter_calls]
  exact run_calls_outside _ x (x + 9) y (y + 13) ⟨hx, hx1, hy, hy1⟩
    (big_letter_calls_fit x y c color) fb

/-- C29: with its box inside the screen, `oled_draw_small_letter (x, y, c, color)`
records no fault and changes no pixel outside `[x, x+5) x [y, y+8)`, and
`oled_draw_big_letter (x, y, c, color)` none outside `[x, x+9) x [y, y+13)`. A
text of `n` characters changes no pixel outside `[x, x + 6*(n-1) + 5) x [y, y+8)`,
or `[x, x + 11*(n-1) + 9) x [y, y+13)` for the big letters, and the letter drawn
at place `j` of a line changes no pixel of the box at another place `i`. -/
theorem glyph_boxes (x y : Int) (c : Char) (color : Fin 256) (fb : Framebuffer)
    (hx : 0 ≤ x) (hy : 0 ≤ y) :
    (x + 5 ≤ 128 → y + 8 ≤ 64 →
      (oled_draw_small_letter x y c color fb).fault = fb.fault ∧
      ∀ px py : Nat, px < 128 → py < 64 →
        ¬ (x ≤ (px : Int) ∧ (px : Int) < x + 5 ∧ y ≤ (py : Int) ∧ (py : Int) < y + 8) →
        (oled_draw_small_letter x y c color fb).pixel px py = fb.pixel px py) ∧
    (x + 9 ≤ 128 → y + 13 ≤ 64 →
      (oled_draw_big_letter x y c color fb).fault = fb.fault ∧
      ∀ px py : Nat, px < 128 → py < 64 →
        ¬ (x ≤ (px : Int) ∧ (px : Int) < x + 9 ∧ y ≤ (py : Int) ∧ (py : Int) < y + 13) →
        (oled_draw_big_letter x y c color fb).pixel px py = fb.pixel px py) ∧
    (∀ s rest : List Char, (∀ d ∈ s, d ≠ NUL) →
      x + 6 * ((s.length : Int) - 1) + 5 ≤ 128 → y + 8 ≤ 64 →
      (oled_draw_small_text x y (s ++ NUL :: rest) color fb).fault = fb.fault ∧
      ∀ px py : Nat, px < 128 → py < 64 →
        ¬ (x ≤ (px : Int) ∧ (px : Int) < x + 6 * ((s.length : Int) - 1) + 5 ∧
            y ≤ (py : Int) ∧ (py : Int) < y + 8) →
        (oled_draw_small_text x y (s ++ NUL :: rest) color fb).pixel px py = fb.pixel px py) ∧
    (∀ s rest : List Char, (∀ d ∈ s, d ≠ NUL) →
      x + 11 * ((s.length : Int) - 1) + 9 ≤ 128 → y + 13 ≤ 64 →
      (oled_draw_big_text x y (s ++ NUL :: rest) color fb).fault = fb.fault ∧
      ∀ px py : Nat, px < 128 → py < 64 →
        ¬ (x ≤ (px : Int) ∧ (px : Int) < x + 11 * ((s.length : Int) - 1) + 9 ∧
            y ≤ (py : Int) ∧ (py : Int) < y + 13) →
        (oled_draw_big_text x y (s ++ NUL :: rest) color fb).pixel px py = fb.pixel px py) ∧
    (∀ i j : Nat, i ≠ j → x + 6 * (j : Int) + 5 ≤ 128 → y + 8 ≤ 64 →
      ∀ px py : Nat, px < 128 → py < 64 →
        (x + 6 * (i : Int) ≤ (px : Int) ∧ (px : Int) < x + 6 * (i : Int) + 5) →
        (oled_draw_small_letter (x + 6 * (j : Int)) y c color fb).pixel px py
          = fb.pixel px py) ∧
    (∀ i j : Nat, i ≠ j → x + 11 * (j : Int) + 9 ≤ 128 → y + 13 ≤ 64 →
      ∀ px py : Nat, px < 128 → py < 64 →
        (x + 11 * (i : Int) ≤ (px : Int) ∧ (px : Int) < x + 11 * (i : Int) + 9) →
        (oled_draw_big_letter (x + 11 * (j : Int)) y c color fb).pixel px py
          = fb.pixel px py) := by
  refine ⟨fun h1 h2 => oled_draw_small_letter_outside x y c color fb hx hy h1 h2,
    fun h1 h2 => oled_draw_big_letter_outside x y c color fb hx hy h1 h2,
    fun s rest hs h1 h2 => ?_, fun s rest hs h1 h2 => ?_,
    fun i j hij h1 h2 px py hpx hpy hin => ?_, fun i j hij h1 h2 px py hpx hpy hin => ?_⟩
  · unfold oled_draw_small_text
    rw [oled_draw_small_text_loop_calls, small_text_calls_terminated x y s rest hs]
    have e : x + 6 * ((s.length : Int) - 1) + 5 = x + 0 + 6 * (s.length : Int) - 1 := by omega
    rw [e]
    refine run_calls_outside _ (x + 0) (x + 0 + 6 * (s.length : Int) - 1) y (y + 8)
      ⟨by omega, by omega, hy, h2⟩ (small_text_calls_fit x y s 0) fb |>.imp id ?_
    intro h px py hpx hpy hout
    exact h px py hpx hpy (by omega)
  · unfold oled_draw_big_text
    rw [oled_draw_big_text_loop_calls, big_text_calls_terminated x y color s rest hs]
    have e : x + 11 * ((s.length : Int) - 1) + 9 = x + 0 + 11 * (s.length : Int) - 2 := by omega
    rw [e]
    refine run_calls_outside _ (x + 0) (x + 0 + 11 * (s.length : Int) - 2) y (y + 13)
      ⟨by omega, by omega, hy, h2⟩ (big_text_calls_fit x y color s 0) fb |>.imp id ?_
    intro h px py hpx hpy hout
    exact h px py hpx hpy (by omega)
  · refine (oled_draw_small_letter_outside (x + 6 * (j : Int)) y c color fb (by omega) hy h1
      h2).2 px py hpx hpy ?_
    omega
  · refine (oled_draw_big_letter_outside (x + 11 * (j : Int)) y c color fb (by omega) hy h1
      h2).2 px py hpx hpy ?_
    omega

/-- Witness of C29: the small letter `A` drawn at (10, 20) on the blank
framebuffer leaves pixel (15, 20), just right of its box, as it was. -/
theorem glyph_boxes_witness :
    (oled_draw_small_letter 10 20 'A' 1 (Framebuffer.const 0)).pixel 15 20
      = (Framebuffer.const 0).pixel 15 20 :=
  ((glyph_boxes 10 20 'A' 1 (Framebuffer.const 0) (by decide) (by decide)).1
    (by decide) (by decide)).2 15 20 (by decide) (by decide) (by decide)

/-! ## The drawing of one pass -/

theorem run_calls_singleton (d : DrawCall) (fb : Framebuffer) :
    run_calls [d] fb = d.run fb := rfl

theorem run_calls_cons (d : DrawCall) (l : List DrawCall) (fb : Framebuffer) :
    run_calls (d :: l) fb = run_calls l (d.run fb) := rfl

theorem menu_page_1_draw_calls (cursor_position : Nat) (fb : Framebuffer) :
    menu_page_1_draw cursor_position fb = run_calls (menu_page_1_calls cursor_position) fb := by
  simp only [menu_page_1_draw, menu_page_1_calls, run_calls_append, run_calls_singleton,
    DrawCall.run, oled_draw_small_text, oled_draw_big_text, oled_draw_small_text_loop_calls,
    oled_draw_big_text_loop_calls, oled_draw_small_letter_calls]

theorem menu_page_2_draw_calls (cursor_position : Nat) (fb : Framebuffer) :
    menu_page_2_draw cursor_position fb = run_calls (menu_page_2_calls cursor_position) fb := by
  simp only [menu_page_2_draw, menu_page_2_calls, run_calls_append, run_calls_singleton,
    DrawCall.run, oled_draw_small_text, oled_draw_big_text, oled_draw_small_text_loop_calls,
    oled_draw_big_text_loop_calls, oled_draw_small_letter_calls]

theorem process_show_time_state_oled_fb (inp : Inputs) (g : Globals) :
    (process_show_time_state inp g).oled_fb = show_time_draw g.oled_fb := by
  simp only [process_show_time_state]; split_ifs <;> rfl

theorem process_in_alarm_state_oled_fb (inp : Inputs) (g : Globals) :
    (process_in_alarm_state inp g).oled_fb = in_alarm_draw g.oled_fb := by
  simp only [process_in_alarm_state]; split_ifs <;> rfl

theorem process_menu_page_1_state_oled_fb (inp : Inputs) (g : Globals) :
    (process_menu_page_1_state inp g).oled_fb = menu_page_1_draw g.cursor_position g.oled_fb := by
  simp only [process_menu_page_1_state]
  rw [menu_page_1_select_frame, menu_page_1_up_down_frame]

theorem process_menu_page_2_state_oled_fb (inp : Inputs) (g : Globals) :
    (process_menu_page_2_state inp g).oled_fb = menu_page_2_draw g.cursor_position g.oled_fb := by
  simp only [process_menu_page_2_state]
  rw [menu_page_2_select_frame, menu_page_2_up_down_frame]

theorem process_set_time_state_oled_fb (inp : Inputs) (g : Globals) :
    (process_set_time_state inp g).oled_fb = set_time_draw g.oled_fb := by
  simp only [process_set_time_state]
  rw [set_time_select_frame, edit_up_down_frame]

theorem process_set_alarm_state_oled_fb (inp : Inputs) (g : Globals) :
    (process_set_alarm_state inp g).oled_fb = set_alarm_draw g.oled_fb := by
  simp only [process_set_alarm_state]
  rw [set_alarm_select_frame, edit_up_down_frame]

theorem stub_handlers_oled_fb (inp : Inputs) (g : Globals) :
    (process_set_alarm_days_state inp g).oled_fb = set_alarm_days_draw g.oled_fb ∧
    (process_set_alarm_tone_state inp g).oled_fb = set_alarm_tone_draw g.oled_fb ∧
    (process_set_alarm_state_state inp g).oled_fb = set_alarm_state_draw g.oled_fb := by
  refine ⟨?_, ?_, ?_⟩
  · simp only [process_set_alarm_days_state]; split_ifs <;> rfl
  · simp only [process_set_alarm_tone_state]; split_ifs <;> rfl
  · simp only [process_set_alarm_state_state]; split_ifs <;> rfl

/-- The drawing of the dispatched handler is the list of its calls. -/
theorem main_dispatch_oled_fb (inp : Inputs) (g : Globals) :
    (main_dispatch inp g).oled_fb
      = run_calls (handler_calls g.cur_state g.cursor_position) g.oled_fb := by
  unfold main_dispatch handler_calls
  by_cases h0 : g.cur_state = VVC_STATE_SHOW_TIME
  · rw [if_pos h0, if_pos h0, process_show_time_state_oled_fb]
    exact oled_draw_big_text_loop_calls 37 26 1 _ 0 g.oled_fb
  rw [if_neg h0, if_neg h0]
  by_cases h1 : g.cur_state = VVC_STATE_IN_ALARM
  · rw [if_pos h1, if_pos h1, process_in_alarm_state_oled_fb]
    exact oled_draw_big_text_loop_calls 18 26 1 _ 0 g.oled_fb
  rw [if_neg h1, if_neg h1]
  by_cases h2 : g.cur_state = VVC_STATE_MENU_PAGE_1
  · rw [if_pos h2, if_pos h2, process_menu_page_1_state_oled_fb, menu_page_1_draw_calls]
  rw [if_neg h2, if_neg h2]
  by_cases h3 : g.cur_state = VVC_STATE_MENU_PAGE_2
  · rw [if_pos h3, if_pos h3, process_menu_page_2_state_oled_fb, menu_page_2_draw_calls]
  rw [if_neg h3, if_neg h3]
  by_cases h4 : g.cur_state = VVC_STATE_SET_TIME
  · rw [if_pos h4, if_pos h4, process_set_time_state_oled_fb]
    exact oled_draw_big_text_loop_calls 18 26 1 _ 0 g.oled_fb
  rw [if_neg h4, if_neg h4]
  by_cases h5 : g.cur_state = VVC_STATE_SET_ALARM
  · rw [if_pos h5, if_pos h5, process_set_alarm_state_oled_fb]
    exact oled_draw_big_text_loop_calls 11 26 1 _ 0 g.oled_fb
  rw [if_neg h5, if_neg h5]
  by_cases h6 : g.cur_state = VVC_STATE_SET_ALARM_DAYS
  · rw [if_pos h6, if_pos h6, (stub_handlers_oled_fb inp g).1]
    exact oled_draw_big_text_loop_calls 5 26 1 _ 0 g.oled_fb
  rw [if_neg h6, if_neg h6]
  by_cases h7 : g.cur_state = VVC_STATE_SET_ALARM_TONE
  · rw [if_pos h7, if_pos h7, (stub_handlers_oled_fb inp g).2.1]
    exact oled_draw_big_text_loop_calls 5 16 1 _ 0 g.oled_fb
  rw [if_neg h7, if_neg h7]
  by_cases h8 : g.cur_state = VVC_STATE_SET_ALARM_STATE
  · rw [if_pos h8, if_pos h8, (stub_handlers_oled_fb inp g).2.2]
    exact oled_draw_big_text_loop_calls 18 16 1 _ 0 g.oled_fb
  rw [if_neg h8, if_neg h8]
  rfl

theorem main_alarm_check_oled_fb (g : Globals) :
    (main_alarm_check g).oled_fb = g.oled_fb := by
  simp only [main_alarm_check]
  split_ifs <;> rfl

/-- The framebuffer after one pass: the clear, then the calls of the pass. -/
theorem main_loop_body_oled_fb (inp : Inputs) (g : Globals) :
    (main_loop_body inp g).oled_fb
      = run_calls
          (cycle_calls (main_alarm_check (main_refresh inp g)).cur_state
            (main_alarm_check (main_refresh inp g)).cursor_position)
          (oled_clear_screen 0x00 g.oled_fb) := by
  show (main_dispatch inp (main_alarm_check (main_refresh inp g))).oled_fb = _
  rw [main_dispatch_oled_fb, main_alarm_check_oled_fb]
  have e1 : (main_refresh inp g).oled_fb
      = oled_draw_rect 0 0 127 63 2 1 (oled_clear_screen 0x00 g.oled_fb) := by
    simp only [main_refresh]
  rw [e1]
  unfold cycle_calls
  rw [run_calls_cons]
  simp only [DrawCall.run]

set_option maxRecDepth 1000000 in
/-- In every legal pair of state and cursor, every call of the pass fits the
screen. -/
theorem cycle_calls_fit (st c : Nat) (h : cursor_ok st c) :
    ∀ d ∈ cycle_calls st c, d.fits 0 128 0 64 = true := by
  have h' : st ≤ 8 ∧ ((st = 2 ∨ st = 3) → c ≤ 2) ∧ ((st = 4 ∨ st = 5) → c ≤ 1) ∧
      (¬ (st = 2 ∨ st = 3 ∨ st = 4 ∨ st = 5) → c = 0) := h
  have hs : st = 0 ∨ st = 1 ∨ st = 2 ∨ st = 3 ∨ st = 4 ∨ st = 5 ∨ st = 6 ∨ st = 7 ∨ st = 8 := by
    omega
  rcases hs with rfl | rfl | rfl | rfl | rfl | rfl | rfl | rfl | rfl
  · have hc : c = 0 := by omega
    subst hc; decide
  · have hc : c = 0 := by omega
    subst hc; decide
  · have hc : c = 0 ∨ c = 1 ∨ c = 2 := by omega
    rcases hc with rfl | rfl | rfl <;> decide
  · have hc : c = 0 ∨ c = 1 ∨ c = 2 := by omega
    rcases hc with rfl | rfl | rfl <;> decide
  · have hc : c = 0 ∨ c = 1 := by omega
    rcases hc with rfl | rfl <;> decide
  · have hc : c = 0 ∨ c = 1 := by omega
    rcases hc with rfl | rfl <;> decide
  · have hc : c = 0 := by omega
    subst hc; decide
  · have hc : c = 0 := by omega
    subst hc; decide
  · have hc : c = 0 := by omega
    subst hc; decide

theorem main_loop_body_fault (inp : Inputs) (g : Globals)
    (h : cursor_ok g.cur_state g.cursor_position) :
    (main_loop_body inp g).oled_fb.fault = g.oled_fb.fault := by
  rw [main_loop_body_oled_fb]
  have hs := main_alarm_check_cursor_ok (main_refresh inp g) h
  rw [(run_calls_outside _ 0 128 0 64 (by decide) (cycle_calls_fit _ _ hs) _).1]
  exact (oled_clear_screen_bytes 0x00 g.oled_fb).1

theorem main_loop_fault (inputs : List Inputs) (g : Globals)
    (h : cursor_ok g.cur_state g.cursor_position) (hf : g.oled_fb.fault = false) :
    (main_loop inputs g).oled_fb.fault = false := by
  induction inputs generalizing g with
  | nil => exact hf
  | cons inp rest ih =>
    exact ih (main_loop_body inp g) (main_loop_body_cursor_ok inp g h)
      ((main_loop_body_fault inp g h).trans hf)

theorem on_screen_index (p : PixelWrite)
    (h : 0 ≤ p.x ∧ p.x < 128 ∧ 0 ≤ p.y ∧ p.y < 64) :
    0 ≤ p.x + Int.tdiv p.y 8 * 128 ∧ p.x + Int.tdiv p.y 8 * 128 < 1024 := by
  rw [Int.tdiv_eq_ediv h.2.2.1 (by decide)]
  omega

/-- C28: in every state that the loop of `main` reaches from its entry, whatever
the RTC words and the button samples are, the next pass draws in bounds. Its
framebuffer is the cleared one followed by the frame call
`oled_draw_rect (0, 0, 127, 63, 2, 1)` and the calls of the handler of the
state, the chevron at `y = 21 + 12 * cursor_position` among them; each call is
the sequence of its stores; every store addresses a pixel with `0 <= x < 128`
and `0 <= y < 64`, so a byte index in `[0, 1024)`; and no store outside the
array is recorded, in the clear, in the pass or before it. -/
theorem ui_in_bounds (rtc_alarm : Nat) (inputs : List Inputs) (inp : Inputs) :
    (main_loop_body inp (main_loop inputs (main_init rtc_alarm))).oled_fb
      = run_calls
          (cycle_calls
            (main_alarm_check
              (main_refresh inp (main_loop inputs (main_init rtc_alarm)))).cur_state
            (main_alarm_check
              (main_refresh inp (main_loop inputs (main_init rtc_alarm)))).cursor_position)
          (oled_clear_screen 0x00 (main_loop inputs (main_init rtc_alarm)).oled_fb) ∧
    (∀ d ∈ cycle_calls
          (main_alarm_check
            (main_refresh inp (main_loop inputs (main_init rtc_alarm)))).cur_state
          (main_alarm_check
            (main_refresh inp (main_loop inputs (main_init rtc_alarm)))).cursor_position,
      (∀ fb : Framebuffer, d.run fb = run_writes d.writes fb) ∧
      ∀ p ∈ d.writes,
        (0 ≤ p.x ∧ p.x < 128 ∧ 0 ≤ p.y ∧ p.y < 64) ∧
        (0 ≤ p.x + Int.tdiv p.y 8 * 128 ∧ p.x + Int.tdiv p.y 8 * 128 < 1024)) ∧
    (main_loop inputs (main_init rtc_alarm)).oled_fb.fault = false ∧
    (oled_clear_screen 0x00 (main_loop inputs (main_init rtc_alarm)).oled_fb).fault = false ∧
    (main_loop_body inp (main_loop inputs (main_init rtc_alarm))).oled_fb.fault = false := by
  have hok := main_loop_cursor_ok inputs (main_init rtc_alarm) (main_init_cursor_ok rtc_alarm)
  have hf := main_loop_fault inputs (main_init rtc_alarm) (main_init_cursor_ok rtc_alarm) rfl
  have hs := main_alarm_check_cursor_ok
    (main_refresh inp (main_loop inputs (main_init rtc_alarm))) hok
  refine ⟨main_loop_body_oled_fb inp _, fun d hd => ⟨fun fb => run_eq_run_writes d fb,
    fun p hp => ?_⟩, hf, ?_, ?_⟩
  · have hp' := writes_of_fits d 0 128 0 64 (cycle_calls_fit _ _ hs d hd) p hp
    exact ⟨hp', on_screen_index p hp'⟩
  · rw [(oled_clear_screen_bytes 0x00 _).1]; exact hf
  · rw [main_loop_body_fault inp _ hok]; exact hf

/-! ## The alarm comparison and the decoders -/

theorem and_mask_absorb (w k m : Nat) (h : k &&& m = m) : (w &&& k) &&& m = w &&& m := by
  rw [Nat.and_assoc, h]

/-- The load from the time word reads bits 8 to 21 only. -/
theorem load_time_bits (g1 g2 : Globals)
    (h : g1.time_word &&& 0x003FFF00 = g2.time_word &&& 0x003FFF00) :
    (load_time g1).cur_hours = (load_time g2).cur_hours ∧
    (load_time g1).cur_minutes = (load_time g2).cur_minutes := by
  rw [load_time_cur_hours, load_time_cur_hours, load_time_cur_minutes, load_time_cur_minutes]
  rw [← and_mask_absorb g1.time_word 0x003FFF00 0x00300000 (by decide),
    ← and_mask_absorb g1.time_word 0x003FFF00 0x000F0000 (by decide),
    ← and_mask_absorb g1.time_word 0x003FFF00 0x0000F000 (by decide),
    ← and_mask_absorb g1.time_word 0x003FFF00 0x00000F00 (by decide),
    ← and_mask_absorb g2.time_word 0x003FFF00 0x00300000 (by decide),
    ← and_mask_absorb g2.time_word 0x003FFF00 0x000F0000 (by decide),
    ← and_mask_absorb g2.time_word 0x003FFF00 0x0000F000 (by decide),
    ← and_mask_absorb g2.time_word 0x003FFF00 0x00000F00 (by decide), h]
  exact ⟨rfl, rfl⟩

/-- The load from the alarm register reads bits 0 to 13 only. -/
theorem load_alarm_bits (inp1 inp2 : Inputs) (g1 g2 : Globals)
    (h : (inp1.rtc_alarm % 4294967296) &&& 0x00003FFF
      = (inp2.rtc_alarm % 4294967296) &&& 0x00003FFF) :
    (load_alarm inp1 g1).cur_hours = (load_alarm inp2 g2).cur_hours ∧
    (load_alarm inp1 g1).cur_minutes = (load_alarm inp2 g2).cur_minutes := by
  rw [load_alarm_cur_hours, load_alarm_cur_hours, load_alarm_cur_minutes,
    load_alarm_cur_minutes]
  rw [← and_mask_absorb (inp1.rtc_alarm % 4294967296) 0x00003FFF 0x00003000 (by decide),
    ← and_mask_absorb (inp1.rtc_alarm % 4294967296) 0x00003FFF 0x00000F00 (by decide),
    ← and_mask_absorb (inp1.rtc_alarm % 4294967296) 0x00003FFF 0x000000F0 (by decide),
    ← and_mask_absorb (inp1.rtc_alarm % 4294967296) 0x00003FFF 0x0000000F (by decide),
    ← and_mask_absorb (inp2.rtc_alarm % 4294967296) 0x00003FFF 0x00003000 (by decide),
    ← and_mask_absorb (inp2.rtc_alarm % 4294967296) 0x00003FFF 0x00000F00 (by decide),
    ← and_mask_absorb (inp2.rtc_alarm % 4294967296) 0x00003FFF 0x000000F0 (by decide),
    ← and_mask_absorb (inp2.rtc_alarm % 4294967296) 0x00003FFF 0x0000000F (by decide), h]
  exact ⟨rfl, rfl⟩

/-- A match compares bits 22 and 23 of the time word with those of `alarm_word`. -/
theorem alarm_match_high_bits (tw aw : Nat) (h : alarm_match tw aw = true) :
    tw &&& 0x00C00000 = aw &&& 0x00C00000 := by
  have e : tw &&& 0x00FFFF00 = aw := of_decide_eq_true h
  rw [← e, and_mask_absorb tw 0x00FFFF00 0x00C00000 (by decide)]

/-- C31: the time word `0x00473000` and the raw alarm word `0x00000730`, whose
`alarm_word` is `0x00073000`, both decode to 7:30 under the masks of their
loads, yet `(time_word & 0x00FFFF00) == alarm_word` is false, and the alarm
check with `alarm_remember_off = 0` does not go to InAlarm, nor does the whole
pass. The loads read only bits 8-21 of the time word and bits 0-13 of the raw
alarm word, while a match also needs bits 22-23 of the time word to equal those
of `alarm_word`, which are bits 14-15 of the raw alarm word. -/
theorem alarm_match_stricter :
    ((load_time { main_init 0x0730 with time_word := 0x00473000 }).cur_hours = 7 ∧
      (load_time { main_init 0x0730 with time_word := 0x00473000 }).cur_minutes = 30) ∧
    ((load_alarm ⟨0, 0x00473000, 0x0730⟩ (main_init 0x0730)).cur_hours = 7 ∧
      (load_alarm ⟨0, 0x00473000, 0x0730⟩ (main_init 0x0730)).cur_minutes = 30) ∧
    (main_init 0x0730).alarm_word = 0x00073000 ∧
    (main_init 0x0730).alarm_remember_off = 0 ∧
    (0x00473000 &&& 0x00FFFF00 ≠ (main_init 0x0730).alarm_word) ∧
    alarm_match 0x00473000 (main_init 0x0730).alarm_word = false ∧
    (main_alarm_check { main_init 0x0730 with time_word := 0x00473000 }).cur_state
      = VVC_STATE_SHOW_TIME ∧
    (main_loop_body ⟨bnot32 0, 0x00473000, 0x0730⟩ (main_init 0x0730)).cur_state
      = VVC_STATE_SHOW_TIME ∧
    VVC_STATE_SHOW_TIME ≠ VVC_STATE_IN_ALARM ∧
    (∀ g1 g2 : Globals, g1.time_word &&& 0x003FFF00 = g2.time_word &&& 0x003FFF00 →
      (load_time g1).cur_hours = (load_time g2).cur_hours ∧
      (load_time g1).cur_minutes = (load_time g2).cur_minutes) ∧
    (∀ (inp1 inp2 : Inputs) (g1 g2 : Globals),
      (inp1.rtc_alarm % 4294967296) &&& 0x00003FFF
        = (inp2.rtc_alarm % 4294967296) &&& 0x00003FFF →
      (load_alarm inp1 g1).cur_hours = (load_alarm inp2 g2).cur_hours ∧
      (load_alarm inp1 g1).cur_minutes = (load_alarm inp2 g2).cur_minutes) ∧
    (∀ tw aw : Nat, alarm_match tw aw = true → tw &&& 0x00C00000 = aw &&& 0x00C00000) ∧
    (∀ raw : Nat, shl32 (raw % 4294967296) 8 &&& 0x00C00000
      = ((raw &&& 0x0000C000) <<< 8)) := by
  refine ⟨⟨by decide, by decide⟩, ⟨by decide, by decide⟩, by decide, rfl, by decide, by decide,
    by decide, by decide, by decide, load_time_bits, load_alarm_bits, alarm_match_high_bits, ?_⟩
  intro raw
  unfold shl32
  apply Nat.eq_of_testBit_eq
  intro i
  simp only [Nat.testBit_and, Nat.testBit_mod_two_pow, Nat.testBit_shiftLeft,
    show (4294967296 : Nat) = 2 ^ 32 from rfl]
  have hC : ∀ k : Nat, Nat.testBit 0x00C00000 k = decide (k = 22 ∨ k = 23) := by
    intro k
    have : (0x00C00000 : Nat) = 2 ^ 22 ||| 2 ^ 23 := by decide
    rw [this, Nat.testBit_or, Nat.testBit_two_pow, Nat.testBit_two_pow]
    by_cases h1 : k = 22 <;> by_cases h2 : k = 23 <;> simp [h1, h2, eq_comm]
  have hc : ∀ k : Nat, Nat.testBit 0x0000C000 k = decide (k = 14 ∨ k = 15) := by
    intro k
    have : (0x0000C000 : Nat) = 2 ^ 14 ||| 2 ^ 15 := by decide
    rw [this, Nat.testBit_or, Nat.testBit_two_pow, Nat.testBit_two_pow]
    by_cases h1 : k = 14 <;> by_cases h2 : k = 15 <;> simp [h1, h2, eq_comm]
  rw [hC, hc]
  by_cases h22 : i = 22
  · subst h22; simp
  · by_cases h23 : i = 23
    · subst h23; simp
    · have e1 : ¬ (i = 22 ∨ i = 23) := by omega
      have e2 : ¬ (i - 8 = 14 ∨ i - 8 = 15) ∨ ¬ (8 ≤ i) := by omega
      rcases e2 with e2 | e2 <;> simp [e1, e2]

/-! ## Two buttons in one pass -/

theorem process_menu_page_1_state_select (inp : Inputs) (g : Globals)
    (hs : button_pressed inp.idr g.last_button_state IOA_BUTTON_SELECT = true) :
    process_menu_page_1_state inp g =
      { menu_page_1_choose inp (menu_page_1_up_down inp
          { g with oled_fb := menu_page_1_draw g.cursor_position g.oled_fb }) with
        cursor_position := 0 } := by
  show menu_page_1_select inp (menu_page_1_up_down inp
      { g with oled_fb := menu_page_1_draw g.cursor_position g.oled_fb }) = _
  rw [menu_page_1_select_pressed]
  rw [menu_page_1_up_down_last_button_state]
  exact hs

/-- C32: in MenuPage1 with Down and Select both just-pressed and Up not, the
Select branch acts on the cursor that Down has moved: from cursor 2 the handler
ends in SetTime (not MenuPage2, not SetAlarmDays) with the cursor at 0 and the
edit fields loaded from `time_word`; from cursor 0 it selects entry 1, SetAlarm,
and from cursor 1 entry 2, SetAlarmDays. With Up and Down both just-pressed only
the Up branch runs: the cursor goes down by one, not below 0, and the state
stays. -/
theorem simultaneous_buttons (inp : Inputs) (g : Globals) :
    (button_pressed inp.idr g.last_button_state IOA_BUTTON_UP = false →
      button_pressed inp.idr g.last_button_state IOA_BUTTON_DOWN = true →
      button_pressed inp.idr g.last_button_state IOA_BUTTON_SELECT = true →
      (g.cursor_position = 2 →
        (process_menu_page_1_state inp g).cur_state = VVC_STATE_SET_TIME ∧
        (process_menu_page_1_state inp g).cur_state ≠ VVC_STATE_MENU_PAGE_2 ∧
        (process_menu_page_1_state inp g).cur_state ≠ VVC_STATE_SET_ALARM_DAYS ∧
        (process_menu_page_1_state inp g).cursor_position = 0 ∧
        (process_menu_page_1_state inp g).cur_hours
          = 10 * (((g.time_word &&& 0x00300000) >>> 20 : Nat) : Int)
            + (((g.time_word &&& 0x000F0000) >>> 16 : Nat) : Int) ∧
        (process_menu_page_1_state inp g).cur_minutes
          = 10 * (((g.time_word &&& 0x0000F000) >>> 12 : Nat) : Int)
            + (((g.time_word &&& 0x00000F00) >>> 8 : Nat) : Int)) ∧
      (g.cursor_position = 0 →
        (process_menu_page_1_state inp g).cur_state = VVC_STATE_SET_ALARM ∧
        (process_menu_page_1_state inp g).cursor_position = 0) ∧
      (g.cursor_position = 1 →
        (process_menu_page_1_state inp g).cur_state = VVC_STATE_SET_ALARM_DAYS ∧
        (process_menu_page_1_state inp g).cursor_position = 0)) ∧
    (button_pressed inp.idr g.last_button_state IOA_BUTTON_UP = true →
      button_pressed inp.idr g.last_button_state IOA_BUTTON_DOWN = true →
      (menu_page_1_up_down inp g).cursor_position = g.cursor_position - 1 ∧
      (menu_page_1_up_down inp g).cur_state = g.cur_state ∧
      (button_pressed inp.idr g.last_button_state IOA_BUTTON_SELECT = false →
        (process_menu_page_1_state inp g).cursor_position = g.cursor_position - 1 ∧
        (process_menu_page_1_state inp g).cur_state = g.cur_state)) := by
  refine ⟨fun hu hd hs => ?_, fun hu _ => ?_⟩
  · rw [process_menu_page_1_state_select inp g hs]
    have hdn := menu_page_1_up_down_down inp
      { g with oled_fb := menu_page_1_draw g.cursor_position g.oled_fb } hu hd
    have htw := menu_page_1_up_down_time_word inp
      { g with oled_fb := menu_page_1_draw g.cursor_position g.oled_fb }
    generalize menu_page_1_up_down inp
      { g with oled_fb := menu_page_1_draw g.cursor_position g.oled_fb } = u at hdn htw ⊢
    have htw' : u.time_word = g.time_word := htw
    refine ⟨fun hc => ?_, fun hc => ?_, fun hc => ?_⟩
    · have h2 := hdn.2 (show ¬ g.cursor_position < 2 by omega)
      rw [menu_page_1_choose_0 inp u h2.1]
      refine ⟨rfl, (show VVC_STATE_SET_TIME ≠ VVC_STATE_MENU_PAGE_2 by decide),
        (show VVC_STATE_SET_TIME ≠ VVC_STATE_SET_ALARM_DAYS by decide), rfl, ?_, ?_⟩
      · show (((u.time_word &&& 0x00300000) >>> 20 : Nat) : Int) * 10
            + (((u.time_word &&& 0x000F0000) >>> 16 : Nat) : Int) = _
        rw [htw']; omega
      · show (((u.time_word &&& 0x0000F000) >>> 12 : Nat) : Int) * 10
            + (((u.time_word &&& 0x00000F00) >>> 8 : Nat) : Int) = _
        rw [htw']; omega
    · have h1 := hdn.1 (show g.cursor_position < 2 by omega)
      have hc1 : u.cursor_position = 1 := by
        rw [h1.1]; show g.cursor_position + 1 = 1; omega
      rw [menu_page_1_choose_1 inp u hc1]
      exact ⟨rfl, rfl⟩
    · have h1 := hdn.1 (show g.cursor_position < 2 by omega)
      have hc2 : u.cursor_position = 2 := by
        rw [h1.1]; show g.cursor_position + 1 = 2; omega
      rw [menu_page_1_choose_2 inp u hc2]
      exact ⟨rfl, rfl⟩
  · have hup := menu_page_1_up_down_up inp g hu
    refine ⟨hup.1, hup.2, fun hs => ?_⟩
    rw [process_menu_page_1_state_no_select inp g hs]
    exact menu_page_1_up_down_up inp
      { g with oled_fb := menu_page_1_draw g.cursor_position g.oled_fb } hu

/-- Witness of C32: Down and Select together at cursor 2, with the RTC at 12:34,
end in SetTime with the edit fields at 12 and 34. -/
theorem simultaneous_buttons_witness :
    (process_menu_page_1_state (Inputs.ofRaw (IOA_BUTTON_DOWN ||| IOA_BUTTON_SELECT) 0)
        { main_init 0 with cur_state := VVC_STATE_MENU_PAGE_1, cursor_position := 2,
                           time_word := 0x00123400 }).cur_state = VVC_STATE_SET_TIME :=
  (((simultaneous_buttons (Inputs.ofRaw (IOA_BUTTON_DOWN ||| IOA_BUTTON_SELECT) 0)
      { main_init 0 with cur_state := VVC_STATE_MENU_PAGE_1, cursor_position := 2,
                         time_word := 0x00123400 }).1
    (by decide) (by decide) (by decide)).1 rfl).1

/-! ## The colour of small text -/

/-- A store of a colour other than 0 clears no bit of the framebuffer. -/
theorem oled_write_pixel_keeps (x y : Int) (color : Fin 256) (hc : color ≠ 0) (fb : Framebuffer)
    (i j : Nat) (h : (fb.byteAt i).testBit j = true) :
    ((oled_write_pixel x y color fb).byteAt i).testBit j = true := by
  simp only [oled_write_pixel, if_pos hc]
  unfold Framebuffer.modify
  split
  · rename_i hr
    show (Framebuffer.byteAt
      { bytes := Function.update fb.bytes ⟨_, hr.2⟩ _, fault := fb.fault } i).testBit j = true
    rw [byteAt_mk_update]
    by_cases e : i = (x + Int.tdiv y 8 * 128).toNat
    · rw [if_pos e, toByte_testBit, Nat.testBit_or]
      have hb : fb.byteAt i = (fb.bytes ⟨(x + Int.tdiv y 8 * 128).toNat, hr.2⟩).val := by
        rw [e]; exact byteAt_of_lt fb _ hr.2
      rw [hb] at h
      have hj : j < 8 := by
        by_contra hcon
        rw [byte_testBit_high _ j (by omega)] at h
        exact absurd h (by decide)
      rw [h]
      simp [hj]
    · rw [if_neg e]
      exact h
  · exact h

theorem run_writes_keeps (l : List PixelWrite) (hl : ∀ p ∈ l, p.color ≠ 0) (fb : Framebuffer)
    (i j : Nat) (h : (fb.byteAt i).testBit j = true) :
    ((run_writes l fb).byteAt i).testBit j = true := by
  induction l generalizing fb with
  | nil => exact h
  | cons p rest ih =>
    exact ih (fun q hq => hl q (List.mem_cons_of_mem p hq))
      (oled_write_pixel p.x p.y p.color fb)
      (oled_write_pixel_keeps p.x p.y p.color (hl p (List.mem_cons_self p rest)) fb i j h)

theorem h_line_writes_color (x y w : Int) (color : Fin 256) (p : PixelWrite)
    (h : p ∈ h_line_writes x y w color) : p.color = color := by
  unfold h_line_writes at h
  obtain ⟨i, _, rfl⟩ := List.mem_map.mp h
  rfl

theorem v_line_writes_color (x y h : Int) (color : Fin 256) (p : PixelWrite)
    (hp : p ∈ v_line_writes x y h color) : p.color = color := by
  unfold v_line_writes at hp
  obtain ⟨i, _, rfl⟩ := List.mem_map.mp hp
  rfl

/-- A stroke called with colour 1 stores colour 1 only. -/
theorem stroke_writes_color (s : Stroke) (x y : Int) (p : PixelWrite)
    (hp : p ∈ (s.call x y 1).writes) : p.color = 1 := by
  cases s with
  | pixel dx dy =>
    have e : p = ⟨x + dx, y + dy, 1⟩ := List.mem_singleton.mp hp
    rw [e]
  | h_line dx dy w => exact h_line_writes_color _ _ _ _ p hp
  | v_line dx dy h => exact v_line_writes_color _ _ _ _ p hp
  | rect dx dy w h =>
    have hp' : p ∈ rect_writes (x + dx) (y + dy) w h 0 1 := hp
    unfold rect_writes at hp'
    rw [if_neg (by decide)] at hp'
    by_cases hwh : w > h
    · rw [if_pos hwh] at hp'
      obtain ⟨o, _, ho⟩ := List.mem_flatMap.mp hp'
      exact h_line_writes_color _ _ _ _ p ho
    · rw [if_neg hwh] at hp'
      obtain ⟨o, _, ho⟩ := List.mem_flatMap.mp hp'
      exact v_line_writes_color _ _ _ _ p ho

theorem small_letter_calls_color (x y : Int) (c : Char) :
    ∀ d ∈ small_letter_calls x y c, ∀ p ∈ d.writes, p.color ≠ 0 := by
  intro d hd p hp
  obtain ⟨s, _, rfl⟩ := List.mem_map.mp hd
  rw [stroke_writes_color s x y p hp]
  decide

theorem small_text_calls_color (x y : Int) (cs : List Char) (offset : Int) :
    ∀ d ∈ small_text_calls x y offset cs, ∀ p ∈ d.writes, p.color ≠ 0 := by
  induction cs generalizing offset with
  | nil => intro d hd; exact absurd hd (List.not_mem_nil d)
  | cons c rest ih =>
    intro d hd
    rw [small_text_calls] at hd
    by_cases hc : c = NUL
    · rw [if_pos hc] at hd
      exact absurd hd (List.not_mem_nil d)
    · rw [if_neg hc] at hd
      rcases List.mem_append.mp hd with h1 | h2
      · exact small_letter_calls_color (x + offset) y c d h1
      · exact ih (offset + 6) d h2

theorem run_calls_keeps (l : List DrawCall) (hl : ∀ d ∈ l, ∀ p ∈ d.writes, p.color ≠ 0)
    (fb : Framebuffer) (i j : Nat) (h : (fb.byteAt i).testBit j = true) :
    ((run_calls l fb).byteAt i).testBit j = true := by
  rw [run_calls_eq_run_writes]
  apply run_writes_keeps _ _ fb i j h
  intro p hp
  obtain ⟨d, hd, hpd⟩ := List.mem_flatMap.mp hp
  exact hl d hd p hpd

/-- C33: `oled_draw_small_letter` and `oled_draw_small_text` give the same
framebuffer for any two values of `color`, 0 among them, whatever the origin, the
character and the string are; they clear no bit of the framebuffer, so a pixel
that was on before the call is on after it, and small text drawn with colour 0
is drawn on, not erased. -/
theorem small_text_ignores_color (x y : Int) (c : Char) (cc : List Char) (c1 c2 : Fin 256)
    (fb : Framebuffer) :
    oled_draw_small_letter x y c c1 fb = oled_draw_small_letter x y c c2 fb ∧
    oled_draw_small_text x y cc c1 fb = oled_draw_small_text x y cc c2 fb ∧
    (∀ i j : Nat, (fb.byteAt i).testBit j = true →
      ((oled_draw_small_letter x y c c1 fb).byteAt i).testBit j = true) ∧
    (∀ i j : Nat, (fb.byteAt i).testBit j = true →
      ((oled_draw_small_text x y cc c1 fb).byteAt i).testBit j = true) ∧
    (∀ px py : Nat, fb.pixel px py = true →
      (oled_draw_small_letter x y c c1 fb).pixel px py = true) ∧
    (∀ px py : Nat, fb.pixel px py = true →
      (oled_draw_small_text x y cc c1 fb).pixel px py = true) ∧
    (oled_draw_small_letter 0 0 'T' 0 (Framebuffer.const 0)).pixel 0 0 = true ∧
    (oled_draw_small_letter 0 0 'T' 0 (Framebuffer.const 255)).pixel 0 0 = true := by
  have hl : ∀ i j : Nat, (fb.byteAt i).testBit j = true →
      ((oled_draw_small_letter x y c c1 fb).byteAt i).testBit j = true := by
    intro i j h
    rw [oled_draw_small_letter_calls]
    exact run_calls_keeps _ (small_letter_calls_color x y c) fb i j h
  have ht : ∀ i j : Nat, (fb.byteAt i).testBit j = true →
      ((oled_draw_small_text x y cc c1 fb).byteAt i).testBit j = true := by
    intro i j h
    unfold oled_draw_small_text
    rw [oled_draw_small_text_loop_calls]
    exact run_calls_keeps _ (small_text_calls_color x y cc 0) fb i j h
  refine ⟨?_, ?_, hl, ht, fun px py h => hl _ _ h, fun px py h => ht _ _ h, by decide,
    by decide⟩
  · rw [oled_draw_small_letter_calls, oled_draw_small_letter_calls]
  · unfold oled_draw_small_text
    rw [oled_draw_small_text_loop_calls, oled_draw_small_text_loop_calls]

end AlarmClock
